import Mathlib

/-!
# osmo-bts: BTS side of the A-bis Radio Signalling Link (GSM TS 08.58)

A shallow embedding of `src/common/rsl.c`.

* C structs become Lean structures, C enums become inductive types.
* Machine integers are natural numbers; a truncating store into a `uintN_t`
  is written `% 2 ^ N` at the place where the C code truncates.
* Byte buffers (`uint8_t[]`) are functions from the index to the byte, so that
  a write outside a buffer is visible in the model.
* Everything that lives outside `rsl.c` (protocol constants, tables and the
  results of calls into the PHY, the PCU, LAPDm, the allocator) is a field of
  the environment `Env`; calls into collaborators are recorded in a trace.
-/

namespace OsmoBts

/-! ## Starting time (GSM 04.08 10.5.2.38) -/

/-- The fields of `struct gsm_time` read by `rsl.c`: `t1` is a `uint16_t`,
`t2` and `t3` are `uint8_t`. -/
structure gsm_time where
  t1 : Nat
  t2 : Nat
  t3 : Nat
deriving DecidableEq, Repr

/-- A `gsm_time` whose fields fit their C types. -/
def gsm_time.wf (g : gsm_time) : Prop :=
  g.t1 < 2 ^ 16 ∧ g.t2 < 2 ^ 8 ∧ g.t3 < 2 ^ 8

instance (g : gsm_time) : Decidable g.wf := by
  unfold gsm_time.wf; infer_instance

/-- `gsm48_gen_starting_time(out, gtime)`: `out` is the memory the pointer
designates, indexed from the pointer.  `t1p` is a `uint8_t`; the operands of
`<<`, `>>` and `|` are promoted to `int` and the results are stored into
`uint8_t` cells. -/
def gsm48_gen_starting_time (out : Nat → Nat) (gtime : gsm_time) : Nat → Nat :=
  let t1p := (gtime.t1 % 32) % 2 ^ 8
  let out0 := ((t1p <<< 3) ||| (gtime.t3 >>> 3)) % 2 ^ 8
  let out1 := ((gtime.t3 <<< 5) ||| gtime.t2) % 2 ^ 8
  fun i => if i = 0 then out0 else if i = 1 then out1 else out i

/-- Decoder of the two starting-time octets as given by the specification of
the round trip: `T1' = b0 >> 3`, `T3' = ((b0 & 7) << 3) | (b1 >> 5)`,
`T2' = b1 & 0x1F`.  The result is `(T1', T2', T3')`. -/
def starting_time_decode (b0 b1 : Nat) : Nat × Nat × Nat :=
  (b0 >>> 3, b1 &&& 0x1F, ((b0 &&& 7) <<< 3) ||| (b1 >>> 5))

/-! ## Data model of the RSL core -/

/-- A timeslot, addressed as `trx->ts[nr]` of the TRX numbered `trx`. -/
structure TsId where
  trx : Nat
  nr : Nat
deriving DecidableEq, Repr

/-- A logical channel, addressed as `ts->lchan[nr]`; `lchan->ts` is `ts`. -/
structure LchanId where
  ts : TsId
  nr : Nat
deriving DecidableEq, Repr

/-- Values of `enum gsm_lchan_state` used by the RSL core. -/
inductive gsm_lchan_state where
  | LCHAN_S_NONE
  | LCHAN_S_ACT_REQ
  | LCHAN_S_ACTIVE
  | LCHAN_S_INACTIVE
  | LCHAN_S_REL_REQ
deriving DecidableEq, Repr

/-- Values of `enum gsm_phys_chan_config`. -/
inductive gsm_phys_chan_config where
  | GSM_PCHAN_NONE
  | GSM_PCHAN_CCCH
  | GSM_PCHAN_CCCH_SDCCH4
  | GSM_PCHAN_SDCCH8_SACCH8C
  | GSM_PCHAN_TCH_F
  | GSM_PCHAN_TCH_H
  | GSM_PCHAN_PDCH
  | GSM_PCHAN_TCH_F_PDCH
  | GSM_PCHAN_TCH_F_TCH_H_PDCH
  | GSM_PCHAN_UNKNOWN
deriving DecidableEq, Repr

/-- Values of `enum lchan_rel_act_kind`. -/
inductive lchan_rel_act_kind where
  | LCHAN_REL_ACT_RSL
  | LCHAN_REL_ACT_PCU
  | LCHAN_REL_ACT_REACT
deriving DecidableEq, Repr

/-- Values of `enum gsm48_chan_mode` assigned by `lchan_tchmode_from_cmode`. -/
inductive gsm48_chan_mode where
  | GSM48_CMODE_SIGN
  | GSM48_CMODE_SPEECH_V1
  | GSM48_CMODE_SPEECH_EFR
  | GSM48_CMODE_SPEECH_AMR
  | GSM48_CMODE_DATA_14k5
  | GSM48_CMODE_DATA_12k0
  | GSM48_CMODE_DATA_6k0
deriving DecidableEq, Repr

/-- Handover state of an lchan (`lchan->ho.active`). -/
inductive handover_state where
  | HANDOVER_NONE
  | HANDOVER_ENABLED
  | HANDOVER_WAIT_FRAME
deriving DecidableEq, Repr

/-- Values of `enum gsm_chan_t`, the type of `lchan->type`. -/
inductive gsm_chan_t where
  | GSM_LCHAN_NONE
  | GSM_LCHAN_SDCCH
  | GSM_LCHAN_TCH_F
  | GSM_LCHAN_TCH_H
  | GSM_LCHAN_UNKNOWN
  | GSM_LCHAN_CCCH
  | GSM_LCHAN_PDTCH
  | GSM_LCHAN_CBCH
deriving DecidableEq, Repr

/-- Tags of the information elements looked up by the handlers. -/
inductive RslIe where
  | RSL_IE_SYSINFO_TYPE
  | RSL_IE_FULL_BCCH_INFO
  | RSL_IE_L3_INFO
  | RSL_IE_PAGING_GROUP
  | RSL_IE_MS_IDENTITY
  | RSL_IE_CHAN_NEEDED
  | RSL_IE_CB_CMD_TYPE
  | RSL_IE_SMSCB_MSG
  | RSL_IE_FULL_IMM_ASS_INFO
  | RSL_IE_ACT_TYPE
  | RSL_IE_CHAN_MODE
  | RSL_IE_ENCR_INFO
  | RSL_IE_HANDO_REF
  | RSL_IE_BS_POWER
  | RSL_IE_MS_POWER
  | RSL_IE_TIMING_ADVANCE
  | RSL_IE_SACCH_INFO
  | RSL_IE_MR_CONFIG
  | RSL_IE_LINK_IDENT
  | RSL_IE_STARTNG_TIME
  | RSL_IE_CAUSE
  | RSL_IE_FRAME_NUMBER
  | RSL_IE_IPAC_CONN_ID
  | RSL_IE_IPAC_CONN_STAT
  | RSL_IE_IPAC_REMOTE_IP
  | RSL_IE_IPAC_REMOTE_PORT
  | RSL_IE_IPAC_LOCAL_IP
  | RSL_IE_IPAC_LOCAL_PORT
  | RSL_IE_IPAC_SPEECH_MODE
  | RSL_IE_IPAC_RTP_PAYLOAD
  | RSL_IE_IPAC_RTP_PAYLOAD2
  | RSL_IE_MEAS_RES_NR
  | RSL_IE_UPLINK_MEAS
  | RSL_IE_L1_INFO
deriving DecidableEq, Repr

/-- One entry of `struct tlv_parsed`: `len` is `TLVP_LEN`, `val` is the memory
that `TLVP_VAL` points to, cell by cell.  The first `len` cells are the value of
the IE; further cells are what follows the IE in the message buffer.  A cell
past the end of `val` reads as 0. -/
structure tlv_p_entry where
  len : Nat
  val : List Nat
deriving DecidableEq, Repr

/-- The byte `TLVP_VAL(...)[i]`. -/
def tlv_p_entry.byte (e : tlv_p_entry) (i : Nat) : Nat := e.val.getD i 0

/-- The result of `rsl_tlv_parse`: the entries of the IEs that are present. -/
abbrev tlv_parsed := List (RslIe × tlv_p_entry)

/-- The macro `TLVP_PRESENT`. -/
def TLVP_PRESENT (tp : tlv_parsed) (ie : RslIe) : Bool := (tp.lookup ie).isSome

/-- The entry read by `TLVP_LEN` and `TLVP_VAL`; an absent IE has a null
pointer and length 0. -/
def TLVP (tp : tlv_parsed) (ie : RslIe) : tlv_p_entry := (tp.lookup ie).getD ⟨0, []⟩

/-- The macro `TLVP_LEN`. -/
def TLVP_LEN (tp : tlv_parsed) (ie : RslIe) : Nat := (TLVP tp ie).len

/-- A received message (`struct msgb`) as the handlers see it: the channel
number of its header, `msg->lchan`, `msg->trx`, and the return value and the
result of `rsl_tlv_parse` on its layer-3 part. -/
structure msgb where
  chan_nr : Nat
  lchan : LchanId
  trx : Nat
  tlv_rc : Int := 0
  tp : tlv_parsed
  /-- The value of `msgb_l2len(msg)`. -/
  l2len : Nat := 8
  /-- The byte `msg_discr` of the common header. -/
  msg_discr : Nat := 0
  /-- The byte `msg_type` of the common header. -/
  msg_type : Nat := 0
  /-- The byte `link_id` of a radio link layer header. -/
  link_id : Nat := 0
  /-- The layer-3 part of the message, from `msgb_l3(msg)` on, `msgb_l3len(msg)`
  bytes long. -/
  l3 : List Nat := []
deriving DecidableEq, Repr

/-- Message discriminators written by the `rsl_*_push_hdr` helpers. -/
inductive RslDiscr where
  | ABIS_RSL_MDISC_TRX
  | ABIS_RSL_MDISC_COM_CHAN
  | ABIS_RSL_MDISC_DED_CHAN
  | ABIS_RSL_MDISC_IPACCESS
deriving DecidableEq, Repr

/-- Message types of the messages the core sends to the BSC. -/
inductive RslMt where
  | RSL_MT_ERROR_REPORT
  | RSL_MT_CHAN_ACTIV_ACK
  | RSL_MT_CHAN_ACTIV_NACK
  | RSL_MT_MODE_MODIFY_ACK
  | RSL_MT_MODE_MODIFY_NACK
  | RSL_MT_RF_CHAN_REL_ACK
  | RSL_MT_IPAC_DLCX_IND
  | RSL_MT_IPAC_PDCH_ACT_ACK
  | RSL_MT_IPAC_PDCH_ACT_NACK
  | RSL_MT_IPAC_PDCH_DEACT_ACK
  | RSL_MT_IPAC_PDCH_DEACT_NACK
  | RSL_MT_IPAC_DLCX_ACK
  | RSL_MT_IPAC_DLCX_NACK
  | RSL_MT_MEAS_RES
  /-- A message type that the code computes as a number. -/
  | raw (code : Nat)
deriving DecidableEq, Repr

/-- A message handed to `abis_bts_rsl_sendmsg`: header, channel number (absent
in a TRX header), the IEs in the order they were put, and `msg->trx`. -/
structure TxMsg where
  discr : RslDiscr
  msg_type : RslMt
  chan_nr : Option Nat
  ies : List (RslIe × List Nat)
  trx : Option Nat
deriving DecidableEq, Repr

/-- Calls out of `rsl.c` that have an effect outside the data of the BTS, in
the order they are made. -/
inductive Event where
  | abis_bts_rsl_sendmsg (m : TxMsg)
  | osmo_signal_dispatch_new_sysinfo
  | bts_model_lchan_deactivate (l : LchanId)
  | bts_model_ts_disconnect (ts : TsId)
  | l1sap_chan_act (trx : Nat) (chan_nr : Nat)
  | l1sap_chan_modify (trx : Nat) (chan_nr : Nat)
  | pcu_tx_info_ind
  | pcu_tx_pag_req (identity_lv : tlv_p_entry) (chan_needed : Nat)
  | paging_add_identity (paging_group : Nat) (identity_lv : tlv_p_entry) (chan_needed : Nat)
  | bts_process_smscb_cmd (cmd_type : Nat) (msg : tlv_p_entry)
  | bts_agch_enqueue (rr : tlv_p_entry)
  | lapdm_rslms_recvmsg (l : LchanId) (chan_nr : Nat) (link_id : Nat) (l3 : tlv_p_entry)
  | msgb_free
  | bts_model_adjst_ms_pwr (l : LchanId)
  | lapdm_channel_exit (l : LchanId)
  | l1sap_chan_rel (trx : Nat) (chan_nr : Nat)
  | osmo_rtp_socket_free (sock : Nat)
  | conf_lchans_as_pchan (ts : TsId) (pchan : gsm_phys_chan_config)
  | bts_model_ts_connect (ts : TsId) (pchan : gsm_phys_chan_config)
  | osmo_rtp_socket_free_null
  | osmo_rtp_socket_create (trx : Nat)
  | osmo_rtp_socket_set_param (sock : Nat)
  | osmo_rtp_socket_bind (sock : Nat) (local_ip_given : Bool)
  | osmo_rtp_socket_connect (sock : Option Nat) (s_addr : Nat) (port : Nat)
  | osmo_rtp_socket_set_pt (sock : Nat) (pt : Nat)
  | l1sap_chan_deact_sacch (trx : Nat) (chan_nr : Nat)
  | lapdm_rslms_recvmsg_msg (l : LchanId) (msg : msgb)
  /-- A message of LAPDm handed on to `abis_bts_rsl_sendmsg` as it is. -/
  | abis_bts_rsl_sendmsg_fwd (msg : msgb)
deriving DecidableEq, Repr

/-- The fields of `struct gsm_lchan` that the handlers read or write.  Buffers
are indexed memory: `si_buf t i` is `lchan->si.buf[t][i]`.  The field
`dl_tch_queue` lists the message buffers that are linked into
`lchan->dl_tch_queue`, in order, whether they have been released or not. -/
structure gsm_lchan where
  state : gsm_lchan_state := .LCHAN_S_NONE
  rel_act_kind : lchan_rel_act_kind := .LCHAN_REL_ACT_RSL
  ms_power : Nat := 0
  ms_power_ctrl_current : Nat := 0
  ms_power_ctrl_fixed : Nat := 0
  bs_power : Nat := 0
  rqd_ta : Nat := 0
  rsl_cmode : Nat := 0
  tch_mode : gsm48_chan_mode := .GSM48_CMODE_SIGN
  encr_alg_id : Nat := 0
  encr_key_len : Nat := 0
  encr_key : Nat → Nat := fun _ => 0
  ho_active : handover_state := .HANDOVER_NONE
  ho_ref : Nat := 0
  si_valid : Nat := 0
  si_buf : Nat → Nat → Nat := fun _ _ => 0
  mr_bts_lv : Nat → Nat := fun _ => 0
  tch_amr_mr : List Nat := []
  tch_last_cmr : Nat := 0
  meas_res_nr : Nat := 0
  ciph_state : Nat := 0
  abis_ip_rtp_socket : Option Nat := none
  abis_ip_conn_id : Nat := 0
  dl_tch_queue : List (List Nat) := []
  type : gsm_chan_t := .GSM_LCHAN_NONE
  tch_last_fn : Nat := 0
  abis_ip_connect_ip : Nat := 0
  abis_ip_connect_port : Nat := 0
  abis_ip_bound_ip : Nat := 0
  abis_ip_bound_port : Nat := 0
  abis_ip_rtp_payload : Nat := 0
  abis_ip_rtp_payload2 : Nat := 0
  abis_ip_speech_mode : Nat := 0
  meas_flags : Nat := 0
  /-- The uplink measurement results `lchan->meas.ul_res`, as the encoder
  reads them. -/
  meas_ul_res : List Nat := []
  meas_bts_tx_pwr : Nat := 0
  meas_l1_info : List Nat := [0, 0]
  tch_dtx_dl_active : Bool := false

/-- The fields of `struct gsm_bts_trx_ts` that the handlers read or write. -/
structure gsm_bts_trx_ts where
  pchan : gsm_phys_chan_config := .GSM_PCHAN_NONE
  flags : Nat := 0
  dyn_pchan_is : gsm_phys_chan_config := .GSM_PCHAN_NONE
  dyn_pchan_want : gsm_phys_chan_config := .GSM_PCHAN_NONE
  dyn_pending_chan_activ : Option msgb := none

/-- The fields of `struct gsm_bts` that the handlers read or write:
`si_valid` is a `uint32_t`, `si_buf t i` is `bts->si_buf[t][i]`. -/
structure gsm_bts where
  si_valid : Nat := 0
  si_buf : Nat → Nat → Nat := fun _ _ => 0
  dtxd : Bool := false
  band : Nat := 0

/-- The state the handlers work on: the BTS, its timeslots and logical
channels, and the calls made so far. -/
structure State where
  bts : gsm_bts := {}
  ts : TsId → gsm_bts_trx_ts := fun _ => {}
  lchan : LchanId → gsm_lchan := fun _ => {}
  trace : List Event := []

/-- Replace one lchan. -/
def State.setLchan (s : State) (l : LchanId) (v : gsm_lchan) : State :=
  { s with lchan := fun k => if k = l then v else s.lchan k }

/-- Replace one timeslot. -/
def State.setTs (s : State) (t : TsId) (v : gsm_bts_trx_ts) : State :=
  { s with ts := fun k => if k = t then v else s.ts k }

/-- Record a call. -/
def State.emit (s : State) (e : Event) : State :=
  { s with trace := s.trace ++ [e] }

/-- The messages sent to the BSC, in order. -/
def sent : List Event → List TxMsg
  | [] => []
  | .abis_bts_rsl_sendmsg m :: es => m :: sent es
  | _ :: es => sent es

/-- The output variables of `osmo_rtp_socket_stats`, each a `uint32_t`. -/
structure rtp_socket_stats where
  packets_sent : Nat := 0
  octets_sent : Nat := 0
  packets_recv : Nat := 0
  octets_recv : Nat := 0
  packets_lost : Nat := 0
  arrival_jitter : Nat := 0
deriving DecidableEq, Repr

/-- What `rsl.c` takes from its headers and collaborators.  The constants
are those of the protocol headers (GSM 08.58 values, C type sizes); the
remaining fields are the results of the calls that leave `rsl.c`. -/
structure Env where
  /-- The size `sizeof(sysinfo_buf_t)`. -/
  SYSINFO_BUF : Nat
  /-- The size `sizeof(lchan->mr_bts_lv)`. -/
  MR_BTS_LV_SIZE : Nat
  /-- The size `sizeof(lchan->encr.key)`. -/
  ENCR_KEY_SIZE : Nat
  /-- Index of the CCCH lchan in its timeslot. -/
  CCCH_LCHAN : Nat
  RSL_SYSTEM_INFO_5 : Nat
  RSL_SYSTEM_INFO_6 : Nat
  RSL_SYSTEM_INFO_5bis : Nat
  RSL_SYSTEM_INFO_5ter : Nat
  RSL_EXT_MEAS_ORDER : Nat
  RSL_MEAS_INFO : Nat
  /-- The table lookup `osmo_rsl2sitype` from the RSL SI type to
  `enum osmo_sysinfo_type`. -/
  osmo_rsl2sitype : Nat → Nat
  SYSINFO_TYPE_NONE : Nat
  SYSINFO_TYPE_3 : Nat
  SYSINFO_TYPE_2quater : Nat
  /-- Offset of `rest_octets` in `struct gsm48_system_information_type_2quater`. -/
  SI2Q_REST_OCTETS : Nat
  RSL_ERR_MAND_IE_ERROR : Nat
  RSL_ERR_IE_CONTENT : Nat
  RSL_ERR_EQUIPMENT_FAIL : Nat
  RSL_ERR_NORMAL_UNSPEC : Nat
  RSL_ERR_SERV_OPT_UNIMPL : Nat
  RSL_ACT_OSMO_PDCH : Nat
  RSL_ACT_INTER_ASYNC : Nat
  RSL_ACT_INTER_SYNC : Nat
  RSL_CMOD_DTXd : Nat
  RSL_CMOD_SP_GSM1 : Nat
  RSL_CMOD_SP_GSM2 : Nat
  RSL_CMOD_SP_GSM3 : Nat
  RSL_CMOD_SP_NT_14k5 : Nat
  RSL_CMOD_SP_NT_12k0 : Nat
  RSL_CMOD_SP_NT_6k0 : Nat
  RSL_CHAN_NR_MASK : Nat
  RSL_CHAN_NR_1 : Nat
  RSL_CHAN_Bm_ACCHs : Nat
  RSL_CHAN_Lm_ACCHs : Nat
  RSL_CHAN_OSMO_PDCH : Nat
  AMR_CMR_NONE : Nat
  ENOMEM : Nat
  EINVAL : Nat
  /-- Whether `msgb_alloc_headroom` returns a buffer. -/
  msgb_alloc_ok : Bool
  /-- Return value of `abis_bts_rsl_sendmsg`. -/
  abis_bts_rsl_sendmsg_rc : Int
  /-- The function `gsm_lchan2chan_nr`. -/
  gsm_lchan2chan_nr : LchanId → gsm_bts_trx_ts → Nat
  /-- The BTS time returned by `get_time`. -/
  get_time : gsm_time
  /-- The function `ms_pwr_ctl_lvl(band, dbm)`. -/
  ms_pwr_ctl_lvl : Nat → Nat → Int
  /-- The value of `num_agch(trx, "RSL")`. -/
  num_agch : Int
  /-- Return value of `bts_model_lchan_deactivate`. -/
  bts_model_lchan_deactivate_rc : Int
  /-- Return value of `bts_model_ts_disconnect`. -/
  bts_model_ts_disconnect_rc : Int
  /-- Return value of `l1sap_chan_act`. -/
  l1sap_chan_act_rc : Int
  /-- Value of `pcu_connected()`. -/
  pcu_connected : Bool
  /-- Return value of `pcu_tx_info_ind`. -/
  pcu_tx_info_ind_rc : Int
  /-- The function `bts_supports_cipher(btsb, rsl_cipher)`. -/
  bts_supports_cipher : Nat → Int
  /-- Return value of `paging_add_identity`. -/
  paging_add_identity_rc : Int
  /-- Return value of `bts_process_smscb_cmd`. -/
  bts_process_smscb_cmd_rc : Int
  /-- Return value of `bts_agch_enqueue`. -/
  bts_agch_enqueue_rc : Int
  /-- The table filled in by `amr_parse_mr_conf(&amr_mr, val, len)`. -/
  amr_parse_mr_conf : tlv_p_entry → List Nat
  /-- Bits of `ts->flags` used by the TCH/F+PDCH scheme. -/
  TS_F_PDCH_ACTIVE : Nat
  TS_F_PDCH_ACT_PENDING : Nat
  TS_F_PDCH_DEACT_PENDING : Nat
  TS_F_PDCH_PENDING_MASK : Nat
  /-- Return value of `conf_lchans_as_pchan`. -/
  conf_lchans_as_pchan_rc : Int
  /-- Return value of `bts_model_ts_connect`. -/
  bts_model_ts_connect_rc : Int
  /-- Whether the host stores the least significant byte of an integer first
  (then `htonl` and `htons` swap bytes). -/
  host_little_endian : Bool
  /-- The counters that `osmo_rtp_socket_stats` leaves in its six `uint32_t`
  output variables, which are zero before the call, for the given socket. -/
  osmo_rtp_socket_stats : Option Nat → rtp_socket_stats
  /-- Sizes of the message headers: `sizeof(struct abis_rsl_common_hdr)` and
  the like. -/
  sizeof_abis_rsl_common_hdr : Nat
  sizeof_abis_rsl_rll_hdr : Nat
  sizeof_abis_rsl_cchan_hdr : Nat
  sizeof_abis_rsl_dchan_hdr : Nat
  /-- Message discriminators of received messages. -/
  ABIS_RSL_MDISC_RLL : Nat
  ABIS_RSL_MDISC_DED_CHAN : Nat
  ABIS_RSL_MDISC_COM_CHAN : Nat
  ABIS_RSL_MDISC_TRX : Nat
  ABIS_RSL_MDISC_IPACCESS : Nat
  /-- Message types of received messages. -/
  RSL_MT_BCCH_INFO : Nat
  RSL_MT_IMMEDIATE_ASSIGN_CMD : Nat
  RSL_MT_PAGING_CMD : Nat
  RSL_MT_SMS_BC_CMD : Nat
  RSL_MT_SMS_BC_REQ : Nat
  RSL_MT_NOT_CMD : Nat
  RSL_MT_CHAN_ACTIV : Nat
  RSL_MT_RF_CHAN_REL : Nat
  RSL_MT_SACCH_INFO_MODIFY : Nat
  RSL_MT_DEACTIVATE_SACCH : Nat
  RSL_MT_ENCR_CMD : Nat
  RSL_MT_MODE_MODIFY_REQ : Nat
  RSL_MT_MS_POWER_CONTROL : Nat
  RSL_MT_IPAC_PDCH_ACT : Nat
  RSL_MT_IPAC_PDCH_DEACT : Nat
  RSL_MT_PHY_CONTEXT_REQ : Nat
  RSL_MT_PREPROC_CONFIG : Nat
  RSL_MT_RTD_REP : Nat
  RSL_MT_PRE_HANDO_NOTIF : Nat
  RSL_MT_MR_CODEC_MOD_REQ : Nat
  RSL_MT_TFO_MOD_REQ : Nat
  RSL_MT_SACCH_FILL : Nat
  RSL_MT_IPAC_CRCX : Nat
  RSL_MT_IPAC_MDCX : Nat
  RSL_MT_IPAC_DLCX : Nat
  RSL_ERR_RES_UNAVAIL : Nat
  EIO : Nat
  LCHAN_FN_DUMMY : Nat
  /-- The function `rsl_lchan_lookup(trx, chan_nr, &rc)`; `none` is `NULL`. -/
  rsl_lchan_lookup : Nat → Nat → Option LchanId
  /-- Return value of `l1sap_chan_deact_sacch`. -/
  l1sap_chan_deact_sacch_rc : Int
  /-- Return value of `lapdm_rslms_recvmsg`. -/
  lapdm_rslms_recvmsg_rc : Int
  /-- The socket returned by `osmo_rtp_socket_create`; `none` is `NULL`. -/
  osmo_rtp_socket_create : Option Nat
  /-- Return value of `osmo_rtp_socket_bind`. -/
  osmo_rtp_socket_bind_rc : Int
  /-- Return value of `osmo_rtp_socket_connect`. -/
  osmo_rtp_socket_connect_rc : Int
  /-- What `osmo_rtp_get_bound_ip_port` leaves in `lchan->abis_ip.bound_ip`,
  given the value it held before the call. -/
  osmo_rtp_bound_ip : Nat → Nat
  /-- The value of the local variable `port` after
  `osmo_rtp_get_bound_ip_port`. -/
  osmo_rtp_bound_port : Int
  /-- Value of `get_signlink_remote_ip(sign_link)`. -/
  get_signlink_remote_ip : Nat
  /-- Whether `get_rsl_local_ip` returns a string. -/
  get_rsl_local_ip_ok : Bool
  RSL_MT_UNIT_DATA_IND : Nat
  GSM48_PDISC_RR : Nat
  GSM48_MT_RR_MEAS_REP : Nat
  GSM48_MT_RR_EXT_MEAS_REP : Nat
  /-- Bits of `lchan->meas.flags`. -/
  LC_UL_M_F_RES_VALID : Nat
  LC_UL_M_F_L1_VALID : Nat
  EINPROGRESS : Nat
  /-- The bytes that `gsm0858_rsl_ul_meas_enc(&ul_res, dtxd_used, buf)` writes
  to `buf`; their number is its return value. -/
  gsm0858_rsl_ul_meas_enc : List Nat → Bool → List Nat

/-! ## Memory and bit helpers -/

/-- The C call `memset(b + off, c, n)` on the buffer `b`. -/
def memset (b : Nat → Nat) (off c n : Nat) : Nat → Nat :=
  fun i => if off ≤ i ∧ i < off + n then c else b i

/-- The C call `memcpy(b + off, src, n)` on the buffer `b`. -/
def memcpy (b : Nat → Nat) (off : Nat) (src : Nat → Nat) (n : Nat) : Nat → Nat :=
  fun i => if off ≤ i ∧ i < off + n then src (i - off) else b i

/-- The assignment `b[k] = v`. -/
def poke (b : Nat → Nat) (k v : Nat) : Nat → Nat :=
  fun i => if i = k then v else b i

/-- Replace buffer `t` of an array of buffers. -/
def setBuf (bufs : Nat → Nat → Nat) (t : Nat) (b : Nat → Nat) : Nat → Nat → Nat :=
  fun k => if k = t then b else bufs k

/-- A length read into a `uintN_t` variable (`w` bits wide) and capped:
`len = TLVP_LEN(...); if (len > max) len = max;`. -/
def clamp_len (w : Nat) (len max : Nat) : Nat :=
  let len := len % 2 ^ w
  if len > max then max % 2 ^ w else len

/-- Bitwise complement of an `int` operand, as it is seen by a `uint32_t`
that is combined with it. -/
def not32 (x : Nat) : Nat := (x % 2 ^ 32) ^^^ (2 ^ 32 - 1)

/-- Libosmocore `bitvec_get_bit_pos` on a byte buffer: bit 0 is the most
significant bit of byte 0. -/
def bitvec_get_bit_pos (data : Nat → Nat) (bitnr : Nat) : Nat :=
  (data (bitnr / 8) >>> (7 - bitnr % 8)) &&& 1

/-- Libosmocore `bitvec_get_uint(bv, num_bits)` starting at `cur_bit`: the
bits are read most significant first. -/
def bitvec_get_uint (data : Nat → Nat) (cur_bit : Nat) : Nat → Nat
  | 0 => 0
  | n + 1 => (bitvec_get_uint data cur_bit n) * 2 + bitvec_get_bit_pos data (cur_bit + n)

/-! ## Support functions of `rsl.c` -/

/-- The table `rsl_sacch_sitypes`: the RSL SI types that can occur on the SACCH. -/
def rsl_sacch_sitypes (E : Env) : List Nat :=
  [E.RSL_SYSTEM_INFO_5, E.RSL_SYSTEM_INFO_6, E.RSL_SYSTEM_INFO_5bis,
   E.RSL_SYSTEM_INFO_5ter, E.RSL_EXT_MEAS_ORDER, E.RSL_MEAS_INFO]

/-- The loop of `osmo_in_array(search, arr, size)`; the result 1 is `true`. -/
def osmo_in_array (search : Nat) : List Nat → Bool
  | [] => false
  | a :: arr => if a = search then true else osmo_in_array search arr

/-- The function `lchan_tchmode_from_cmode`: `cm` points at the four bytes
`dtx_dtu`, `spd_ind`, `chan_rt`, `chan_rate` of the CHAN MODE IE.  It writes
`lchan->rsl_cmode`, `bts->dtxd` and, for the six listed rates,
`lchan->tch_mode`. -/
def lchan_tchmode_from_cmode (E : Env) (s : State) (l : LchanId) (cm : tlv_p_entry) : State :=
  let dtx_dtu := cm.byte 0
  let spd_ind := cm.byte 1
  let chan_rate := cm.byte 3
  let lc := s.lchan l
  let lc := { lc with rsl_cmode := spd_ind }
  let bts := { s.bts with dtxd := decide ((dtx_dtu &&& E.RSL_CMOD_DTXd) ≠ 0) }
  let lc :=
    if chan_rate = E.RSL_CMOD_SP_GSM1 then { lc with tch_mode := .GSM48_CMODE_SPEECH_V1 }
    else if chan_rate = E.RSL_CMOD_SP_GSM2 then { lc with tch_mode := .GSM48_CMODE_SPEECH_EFR }
    else if chan_rate = E.RSL_CMOD_SP_GSM3 then { lc with tch_mode := .GSM48_CMODE_SPEECH_AMR }
    else if chan_rate = E.RSL_CMOD_SP_NT_14k5 then { lc with tch_mode := .GSM48_CMODE_DATA_14k5 }
    else if chan_rate = E.RSL_CMOD_SP_NT_12k0 then { lc with tch_mode := .GSM48_CMODE_DATA_12k0 }
    else if chan_rate = E.RSL_CMOD_SP_NT_6k0 then { lc with tch_mode := .GSM48_CMODE_DATA_6k0 }
    else lc
  ({ s with bts := bts }).setLchan l lc

/-- The ERROR REPORT built by `rsl_tx_error_report`: one CAUSE IE behind a TRX
header, `msg->trx` set. -/
def error_report_msg (trx : Nat) (cause : Nat) : TxMsg :=
  { discr := .ABIS_RSL_MDISC_TRX, msg_type := .RSL_MT_ERROR_REPORT, chan_nr := none,
    ies := [(.RSL_IE_CAUSE, [cause])], trx := some trx }

/-- The function `rsl_tx_error_report(trx, cause)` (8.6.4). -/
def rsl_tx_error_report (E : Env) (s : State) (trx : Nat) (cause : Nat) : State × Int :=
  if E.msgb_alloc_ok = false then (s, -(E.ENOMEM : Int))
  else (s.emit (.abis_bts_rsl_sendmsg (error_report_msg trx cause)), E.abis_bts_rsl_sendmsg_rc)

/-- The function `lchan_deactivate`. -/
def lchan_deactivate (E : Env) (s : State) (l : LchanId) : State × Int :=
  let s := s.setLchan l { s.lchan l with ciph_state := 0 }
  (s.emit (.bts_model_lchan_deactivate l), E.bts_model_lchan_deactivate_rc)

/-- The lchan `trx->bts->c0->ts[0].lchan[CCCH_LCHAN]`; `c0` is TRX 0. -/
def ccch_lchan (E : Env) : LchanId := ⟨⟨0, 0⟩, E.CCCH_LCHAN⟩

/-! ## Common channel messages -/

/-- The store of a BCCH payload (both payload branches of `rsl_rx_bcch_info`):
set the valid bit, fill the buffer with 0x2b, copy `len` bytes. -/
def bcch_store (E : Env) (bts : gsm_bts) (osmo_si : Nat) (e : tlv_p_entry) (len : Nat) :
    gsm_bts :=
  let si_valid := (bts.si_valid ||| (1 <<< osmo_si)) % 2 ^ 32
  let buf := memset (bts.si_buf osmo_si) 0 0x2b E.SYSINFO_BUF
  let buf := memcpy buf 0 e.byte len
  { bts with si_valid := si_valid, si_buf := setBuf bts.si_buf osmo_si buf }

/-- The SI3 block of `rsl_rx_bcch_info`: for SI3 on TRX 0 with an AGCH count
other than 1 the CCCH lchan is deactivated and marked for reactivation. -/
def bcch_info_si3 (E : Env) (s : State) (trx : Nat) (osmo_si : Nat) : State :=
  if E.SYSINFO_TYPE_3 = osmo_si ∧ trx = 0 ∧ E.num_agch ≠ 1 then
    let s := (lchan_deactivate E s (ccch_lchan E)).1
    s.setLchan (ccch_lchan E)
      { s.lchan (ccch_lchan E) with rel_act_kind := .LCHAN_REL_ACT_REACT }
  else s

/-- The SI2quater test of `rsl_rx_bcch_info` on the stored message: the two
4-bit fields at bit offset 3 of the rest octets (index, count), each cast to
`uint8_t`; the message is unsupported when one of them is not 0. -/
def si2q_unsupported (E : Env) (bts : gsm_bts) : Bool :=
  let rest : Nat → Nat := fun i => bts.si_buf E.SYSINFO_TYPE_2quater (E.SI2Q_REST_OCTETS + i)
  let si2q_index := bitvec_get_uint rest 3 4 % 2 ^ 8
  let si2q_count := bitvec_get_uint rest 7 4 % 2 ^ 8
  decide (si2q_index ≠ 0 ∨ si2q_count ≠ 0)

/-- The function `rsl_rx_bcch_info` (8.5.1). -/
def rsl_rx_bcch_info (E : Env) (s : State) (trx : Nat) (msg : msgb) : State × Int :=
  let tp := msg.tp
  if TLVP_PRESENT tp .RSL_IE_SYSINFO_TYPE = false then
    rsl_tx_error_report E s trx E.RSL_ERR_MAND_IE_ERROR
  else
  let rsl_si := (TLVP tp .RSL_IE_SYSINFO_TYPE).byte 0
  if osmo_in_array rsl_si (rsl_sacch_sitypes E) then
    rsl_tx_error_report E s trx E.RSL_ERR_IE_CONTENT
  else
  let osmo_si := E.osmo_rsl2sitype rsl_si
  if osmo_si = E.SYSINFO_TYPE_NONE then
    rsl_tx_error_report E s trx E.RSL_ERR_IE_CONTENT
  else
  if TLVP_PRESENT tp .RSL_IE_FULL_BCCH_INFO then
    let e := TLVP tp .RSL_IE_FULL_BCCH_INFO
    let len := clamp_len 8 e.len E.SYSINFO_BUF
    let s := { s with bts := bcch_store E s.bts osmo_si e len }
    let s := bcch_info_si3 E s trx osmo_si
    if E.SYSINFO_TYPE_2quater = osmo_si ∧ si2q_unsupported E s.bts = true then
      rsl_tx_error_report E s trx E.RSL_ERR_IE_CONTENT
    else
      (s.emit .osmo_signal_dispatch_new_sysinfo, 0)
  else if TLVP_PRESENT tp .RSL_IE_L3_INFO then
    let e := TLVP tp .RSL_IE_L3_INFO
    let len := clamp_len 16 e.len E.SYSINFO_BUF
    let s := { s with bts := bcch_store E s.bts osmo_si e len }
    (s.emit .osmo_signal_dispatch_new_sysinfo, 0)
  else
    let s := { s with bts := { s.bts with si_valid := s.bts.si_valid &&& not32 (1 <<< osmo_si) } }
    (s.emit .osmo_signal_dispatch_new_sysinfo, 0)

/-- The function `rsl_rx_paging_cmd` (8.5.5). -/
def rsl_rx_paging_cmd (E : Env) (s : State) (trx : Nat) (msg : msgb) : State × Int :=
  let tp := msg.tp
  if TLVP_PRESENT tp .RSL_IE_PAGING_GROUP = false ∨ TLVP_PRESENT tp .RSL_IE_MS_IDENTITY = false then
    rsl_tx_error_report E s trx E.RSL_ERR_MAND_IE_ERROR
  else
  let paging_group := (TLVP tp .RSL_IE_PAGING_GROUP).byte 0
  let identity_lv := TLVP tp .RSL_IE_MS_IDENTITY
  let chan_needed :=
    if TLVP_PRESENT tp .RSL_IE_CHAN_NEEDED then (TLVP tp .RSL_IE_CHAN_NEEDED).byte 0 else 0
  let s := s.emit (.paging_add_identity paging_group identity_lv chan_needed)
  let s := s.emit (.pcu_tx_pag_req identity_lv chan_needed)
  (s, 0)

/-- The function `rsl_rx_sms_bcast_cmd` (8.5.8). -/
def rsl_rx_sms_bcast_cmd (E : Env) (s : State) (trx : Nat) (msg : msgb) : State × Int :=
  let tp := msg.tp
  if TLVP_PRESENT tp .RSL_IE_CB_CMD_TYPE = false ∨ TLVP_PRESENT tp .RSL_IE_SMSCB_MSG = false then
    rsl_tx_error_report E s trx E.RSL_ERR_MAND_IE_ERROR
  else
  let cb_cmd_type := (TLVP tp .RSL_IE_CB_CMD_TYPE).byte 0
  (s.emit (.bts_process_smscb_cmd cb_cmd_type (TLVP tp .RSL_IE_SMSCB_MSG)),
   E.bts_process_smscb_cmd_rc)

/-- The four statements that store a SACCH SI message: the two bytes of the
LAPDm UI header, 0x2b in the rest of the buffer, then `len` bytes of `src`. -/
def sacch_store (E : Env) (buf : Nat → Nat) (src : Nat → Nat) (len : Nat) : Nat → Nat :=
  let buf := poke buf 0 0x03
  let buf := poke buf 1 0x03
  let buf := memset buf 2 0x2b (E.SYSINFO_BUF - 2)
  memcpy buf 2 src len

/-- The function `rsl_rx_sacch_fill` (8.6.2). -/
def rsl_rx_sacch_fill (E : Env) (s : State) (trx : Nat) (msg : msgb) : State × Int :=
  let tp := msg.tp
  if TLVP_PRESENT tp .RSL_IE_SYSINFO_TYPE = false then
    rsl_tx_error_report E s trx E.RSL_ERR_MAND_IE_ERROR
  else
  let rsl_si := (TLVP tp .RSL_IE_SYSINFO_TYPE).byte 0
  if osmo_in_array rsl_si (rsl_sacch_sitypes E) = false then
    rsl_tx_error_report E s trx E.RSL_ERR_IE_CONTENT
  else
  let osmo_si := E.osmo_rsl2sitype rsl_si
  if osmo_si = E.SYSINFO_TYPE_NONE then
    rsl_tx_error_report E s trx E.RSL_ERR_IE_CONTENT
  else
  if TLVP_PRESENT tp .RSL_IE_L3_INFO then
    let e := TLVP tp .RSL_IE_L3_INFO
    let len := clamp_len 16 e.len (E.SYSINFO_BUF - 2)
    let si_valid := (s.bts.si_valid ||| (1 <<< osmo_si)) % 2 ^ 32
    let buf := sacch_store E (s.bts.si_buf osmo_si) e.byte len
    let s := { s with bts :=
      { s.bts with si_valid := si_valid, si_buf := setBuf s.bts.si_buf osmo_si buf } }
    (s.emit .osmo_signal_dispatch_new_sysinfo, 0)
  else
    let s := { s with bts := { s.bts with si_valid := s.bts.si_valid &&& not32 (1 <<< osmo_si) } }
    (s.emit .osmo_signal_dispatch_new_sysinfo, 0)

/-- The function `rsl_rx_imm_ass` (8.5.6): the message is cut down to the
FULL_IMM_ASS_INFO value and put into the AGCH queue. -/
def rsl_rx_imm_ass (E : Env) (s : State) (trx : Nat) (msg : msgb) : State × Int :=
  let tp := msg.tp
  if TLVP_PRESENT tp .RSL_IE_FULL_IMM_ASS_INFO = false then
    rsl_tx_error_report E s trx E.RSL_ERR_MAND_IE_ERROR
  else
  let s := s.emit (.bts_agch_enqueue (TLVP tp .RSL_IE_FULL_IMM_ASS_INFO))
  let s := if E.bts_agch_enqueue_rc < 0 then s.emit .msgb_free else s
  (s, 1)

/-! ## Dedicated channel messages -/

/-- The function `rsl_tx_chan_act_ack` (8.4.2). -/
def rsl_tx_chan_act_ack (E : Env) (s : State) (l : LchanId) : State × Int :=
  let gtime := E.get_time
  let chan_nr := E.gsm_lchan2chan_nr l (s.ts l.ts)
  if E.msgb_alloc_ok = false then (s, -(E.ENOMEM : Int))
  else
    let ie := gsm48_gen_starting_time (fun _ => 0) gtime
    let m : TxMsg :=
      { discr := .ABIS_RSL_MDISC_DED_CHAN, msg_type := .RSL_MT_CHAN_ACTIV_ACK,
        chan_nr := some chan_nr, ies := [(.RSL_IE_FRAME_NUMBER, [ie 0, ie 1])],
        trx := some l.ts.trx }
    let s := s.setLchan l { s.lchan l with meas_res_nr := 0 }
    (s.emit (.abis_bts_rsl_sendmsg m), E.abis_bts_rsl_sendmsg_rc)

/-- The CHAN ACT NACK built by `rsl_tx_chan_act_nack`: one CAUSE IE behind a
dedicated-channel header with the channel number of the lchan. -/
def chan_act_nack_msg (E : Env) (s : State) (l : LchanId) (cause : Nat) : TxMsg :=
  { discr := .ABIS_RSL_MDISC_DED_CHAN, msg_type := .RSL_MT_CHAN_ACTIV_NACK,
    chan_nr := some (E.gsm_lchan2chan_nr l (s.ts l.ts)), ies := [(.RSL_IE_CAUSE, [cause])],
    trx := some l.ts.trx }

/-- The function `rsl_tx_chan_act_nack` (8.4.3). -/
def rsl_tx_chan_act_nack (E : Env) (s : State) (l : LchanId) (cause : Nat) : State × Int :=
  if E.msgb_alloc_ok = false then (s, -(E.ENOMEM : Int))
  else (s.emit (.abis_bts_rsl_sendmsg (chan_act_nack_msg E s l cause)), E.abis_bts_rsl_sendmsg_rc)

/-- The function `rsl_tx_chan_act_acknack`: nothing is sent unless
`rel_act_kind` is RSL; otherwise an ACK for cause 0 and a NACK for any other
cause. -/
def rsl_tx_chan_act_acknack (E : Env) (s : State) (l : LchanId) (cause : Nat) : State × Int :=
  if (s.lchan l).rel_act_kind ≠ .LCHAN_REL_ACT_RSL then (s, 0)
  else if cause ≠ 0 then rsl_tx_chan_act_nack E s l cause
  else rsl_tx_chan_act_ack E s l

/-- One round of the loop of `copy_sacch_si_to_lchan` for the table entry
`t`.  The locals `rsl_si`, `osmo_si` and `osmo_si_shifted` are `uint8_t`. -/
def copy_sacch_si_step (E : Env) (bts : gsm_bts) (lc : gsm_lchan) (t : Nat) : gsm_lchan :=
  let rsl_si := t % 2 ^ 8
  let osmo_si := E.osmo_rsl2sitype rsl_si % 2 ^ 8
  let osmo_si_shifted := (1 <<< osmo_si) % 2 ^ 8
  if osmo_si = E.SYSINFO_TYPE_NONE then lc
  else if bts.si_valid &&& osmo_si_shifted = 0 then
    { lc with si_valid := lc.si_valid &&& not32 osmo_si_shifted }
  else
    { lc with
      si_valid := (lc.si_valid ||| osmo_si_shifted) % 2 ^ 32,
      si_buf := setBuf lc.si_buf osmo_si
        (memcpy (lc.si_buf osmo_si) 0 (bts.si_buf osmo_si) E.SYSINFO_BUF) }

/-- The function `copy_sacch_si_to_lchan`: copy the SACCH sysinfo of the BTS
into the lchan, one entry of `rsl_sacch_sitypes` after the other. -/
def copy_sacch_si_to_lchan (E : Env) (s : State) (l : LchanId) : State :=
  s.setLchan l ((rsl_sacch_sitypes E).foldl (copy_sacch_si_step E s.bts) (s.lchan l))

/-- The function `encr_info2lchan(lchan, val, len)`; `len` is a `uint8_t`. -/
def encr_info2lchan (E : Env) (s : State) (l : LchanId) (val : tlv_p_entry) (len : Nat) :
    State × Int :=
  let rc := E.bts_supports_cipher (val.byte 0)
  if rc ≠ 1 then (s, rc)
  else if len < 1 then (s, -(E.EINVAL : Int))
  else
    let key_len := (len - 1) % 2 ^ 8
    let key_len := if key_len > E.ENCR_KEY_SIZE then E.ENCR_KEY_SIZE % 2 ^ 8 else key_len
    let lc := s.lchan l
    let lc := { lc with
      encr_alg_id := val.byte 0,
      encr_key_len := key_len,
      encr_key := memcpy lc.encr_key 0 (fun i => val.byte (1 + i)) key_len }
    (s.setLchan l lc, 0)

/-- The function `dyn_ts_l1_reconnect`: park the CHAN ACTIV message on the
timeslot and ask the PHY to disconnect it. -/
def dyn_ts_l1_reconnect (E : Env) (s : State) (ts : TsId) (msg : msgb) : State × Int :=
  match (s.ts ts).dyn_pchan_want with
  | .GSM_PCHAN_TCH_F | .GSM_PCHAN_TCH_H | .GSM_PCHAN_PDCH =>
    let s := s.setTs ts { s.ts ts with dyn_pending_chan_activ := some msg }
    (s.emit (.bts_model_ts_disconnect ts), E.bts_model_ts_disconnect_rc)
  | _ => (s, -(E.EINVAL : Int))

/-- The function `dyn_pchan_from_chan_nr`; `cbits` is a `uint8_t`. -/
def dyn_pchan_from_chan_nr (E : Env) (chan_nr : Nat) : gsm_phys_chan_config :=
  let cbits := (chan_nr &&& E.RSL_CHAN_NR_MASK) % 2 ^ 8
  if cbits = E.RSL_CHAN_Bm_ACCHs then .GSM_PCHAN_TCH_F
  else if cbits = E.RSL_CHAN_Lm_ACCHs ∨ cbits = E.RSL_CHAN_Lm_ACCHs + E.RSL_CHAN_NR_1 then
    .GSM_PCHAN_TCH_H
  else if cbits = E.RSL_CHAN_OSMO_PDCH then .GSM_PCHAN_PDCH
  else .GSM_PCHAN_UNKNOWN

/-- The loop over the SACCH INFO IE in `rsl_rx_chan_activ`: `n` messages are
still to be read, `cur` is the read position relative to the start of the
value, `tot_len` the length of the IE.  The second component is `false` when
the loop leaves the handler with an ERROR REPORT. -/
def sacch_info_loop (E : Env) (e : tlv_p_entry) (tot_len : Nat) :
    Nat → Nat → gsm_lchan → gsm_lchan × Bool
  | 0, _, lc => (lc, true)
  | n + 1, cur, lc =>
    let rsl_si := e.byte cur
    let si_len := e.byte (cur + 1)
    let cur := cur + 2
    if osmo_in_array rsl_si (rsl_sacch_sitypes E) = false then (lc, false)
    else
    let osmo_si := E.osmo_rsl2sitype rsl_si % 2 ^ 8
    if osmo_si = E.SYSINFO_TYPE_NONE then (lc, false)
    else
    let copy_len := if si_len > E.SYSINFO_BUF - 2 then (E.SYSINFO_BUF - 2) % 2 ^ 8 else si_len
    let lc := { lc with
      si_valid := (lc.si_valid ||| (1 <<< osmo_si)) % 2 ^ 32,
      si_buf := setBuf lc.si_buf osmo_si
        (sacch_store E (lc.si_buf osmo_si) (fun i => e.byte (cur + i)) copy_len) }
    let cur := cur + si_len
    if cur ≥ tot_len then (lc, false)
    else sacch_info_loop E e tot_len n cur lc

/-- Conversion of an `int` to the `uint8_t` parameter it is passed for. -/
def to_u8 (x : Int) : Nat := (x % 256).toNat

/-- The MultiRate configuration step shared by `rsl_rx_chan_activ` and
`rsl_rx_mode_modif` once the length has been checked: copy the length octet and
the value into `mr_bts_lv`, parse the AMR table, reset `last_cmr`. -/
def mr_config_store (E : Env) (lc : gsm_lchan) (e : tlv_p_entry) : gsm_lchan :=
  { lc with
    mr_bts_lv := memcpy lc.mr_bts_lv 0
      (fun i => if i = 0 then e.len % 2 ^ 8 else e.byte (i - 1)) (e.len + 1),
    tch_amr_mr := E.amr_parse_mr_conf e,
    tch_last_cmr := E.AMR_CMR_NONE }

/-- The block "9.3.52 MultiRate Configuration" of `rsl_rx_chan_activ` for an IE
whose length has been checked. -/
def chan_activ_mr_config (E : Env) (s : State) (msg : msgb) : State :=
  if TLVP_PRESENT msg.tp .RSL_IE_MR_CONFIG then
    s.setLchan msg.lchan
      (mr_config_store E (s.lchan msg.lchan) (TLVP msg.tp .RSL_IE_MR_CONFIG))
  else s

/-- The block "Connecting PDCH on dyn TS goes via PCU instead" of
`rsl_rx_chan_activ`: the ACK is sent at once, the PCU is informed if it is
connected. -/
def chan_activ_pdch (E : Env) (s : State) (msg : msgb) : State × Int :=
  let s := (rsl_tx_chan_act_ack E s msg.lchan).1
  if E.pcu_connected then
    let s := s.emit .pcu_tx_info_ind
    if E.pcu_tx_info_ind_rc ≠ 0 then rsl_tx_error_report E s msg.trx E.RSL_ERR_NORMAL_UNSPEC
    else (s, 0)
  else (s, 0)

/-- The end of `rsl_rx_chan_activ`: remember to send an RSL ACK, ask the PHY
to activate the channel, NACK with the negated error code if that fails. -/
def chan_activ_l1 (E : Env) (s : State) (msg : msgb) : State × Int :=
  let l := msg.lchan
  let s := s.setLchan l { s.lchan l with rel_act_kind := .LCHAN_REL_ACT_RSL }
  let s := s.emit (.l1sap_chan_act l.ts.trx msg.chan_nr)
  let rc := E.l1sap_chan_act_rc
  if rc < 0 then rsl_tx_chan_act_acknack E s l (to_u8 (-rc))
  else (s, 0)

/-- The part of `rsl_rx_chan_activ` after the SACCH information has been
handled: MultiRate configuration, then either the PDCH activation of a dynamic
timeslot through the PCU or the activation request to the PHY. -/
def chan_activ_finish (E : Env) (s : State) (msg : msgb) : State × Int :=
  if TLVP_PRESENT msg.tp .RSL_IE_MR_CONFIG = true ∧
      (TLVP msg.tp .RSL_IE_MR_CONFIG).len > E.MR_BTS_LV_SIZE - 1 then
    rsl_tx_error_report E s msg.trx E.RSL_ERR_IE_CONTENT
  else
  let s := chan_activ_mr_config E s msg
  if (s.ts msg.lchan.ts).pchan = .GSM_PCHAN_TCH_F_TCH_H_PDCH ∧
      (s.ts msg.lchan.ts).dyn_pchan_want = .GSM_PCHAN_PDCH then
    chan_activ_pdch E s msg
  else chan_activ_l1 E s msg

/-- The block "9.3.7 Encryption Information" of `rsl_rx_chan_activ`: apply the
IE, or clear `lchan->encr` when it is absent. -/
def chan_activ_encr (E : Env) (s : State) (msg : msgb) : State × Int :=
  let l := msg.lchan
  if TLVP_PRESENT msg.tp .RSL_IE_ENCR_INFO then
    encr_info2lchan E s l (TLVP msg.tp .RSL_IE_ENCR_INFO)
      (TLVP_LEN msg.tp .RSL_IE_ENCR_INFO % 2 ^ 8)
  else
    (s.setLchan l { s.lchan l with
      encr_alg_id := 0, encr_key_len := 0,
      encr_key := memset (s.lchan l).encr_key 0 0 E.ENCR_KEY_SIZE }, 0)

/-- The block "9.3.9 Handover Reference" of `rsl_rx_chan_activ`. -/
def chan_activ_ho_ref (E : Env) (s : State) (msg : msgb) (type : Nat) : State :=
  let l := msg.lchan
  if (type = E.RSL_ACT_INTER_ASYNC ∨ type = E.RSL_ACT_INTER_SYNC) ∧
      TLVP_PRESENT msg.tp .RSL_IE_HANDO_REF = true then
    s.setLchan l { s.lchan l with
      ho_active := .HANDOVER_ENABLED, ho_ref := (TLVP msg.tp .RSL_IE_HANDO_REF).byte 0 }
  else s

/-- The block "9.3.4 BS Power" of `rsl_rx_chan_activ`. -/
def chan_activ_bs_power (s : State) (msg : msgb) : State :=
  let l := msg.lchan
  if TLVP_PRESENT msg.tp .RSL_IE_BS_POWER then
    s.setLchan l { s.lchan l with bs_power := (TLVP msg.tp .RSL_IE_BS_POWER).byte 0 }
  else s

/-- The block "9.3.13 MS Power" of `rsl_rx_chan_activ`. -/
def chan_activ_ms_power (s : State) (msg : msgb) : State :=
  let l := msg.lchan
  if TLVP_PRESENT msg.tp .RSL_IE_MS_POWER then
    s.setLchan l { s.lchan l with
      ms_power := (TLVP msg.tp .RSL_IE_MS_POWER).byte 0,
      ms_power_ctrl_current := (TLVP msg.tp .RSL_IE_MS_POWER).byte 0,
      ms_power_ctrl_fixed := 0 }
  else s

/-- The block "9.3.24 Timing Advance" of `rsl_rx_chan_activ`. -/
def chan_activ_ta (s : State) (msg : msgb) : State :=
  let l := msg.lchan
  if TLVP_PRESENT msg.tp .RSL_IE_TIMING_ADVANCE then
    s.setLchan l { s.lchan l with rqd_ta := (TLVP msg.tp .RSL_IE_TIMING_ADVANCE).byte 0 }
  else s

/-- The block "9.3.29 SACCH Information" of `rsl_rx_chan_activ`: the loop over
the IE, or the copy of the SACCH filling of the BTS when the IE is absent.  The
second component is `false` when the loop leaves the handler with an ERROR
REPORT. -/
def chan_activ_sacch_info (E : Env) (s : State) (msg : msgb) : State × Bool :=
  let l := msg.lchan
  if TLVP_PRESENT msg.tp .RSL_IE_SACCH_INFO then
    let e := TLVP msg.tp .RSL_IE_SACCH_INFO
    let tot_len := e.len % 2 ^ 8
    let num_msgs := e.byte 0
    let r := sacch_info_loop E e tot_len num_msgs 1 (s.lchan l)
    (s.setLchan l r.1, r.2)
  else
    (copy_sacch_si_to_lchan E s l, true)

/-- The part of `rsl_rx_chan_activ` that applies the optional IEs once
activation type and channel mode have been read: encryption, handover
reference, powers, timing advance and SACCH information. -/
def chan_activ_ies (E : Env) (s : State) (msg : msgb) (type : Nat) : State × Int :=
  let r := chan_activ_encr E s msg
  if r.2 < 0 then rsl_tx_error_report E r.1 msg.trx E.RSL_ERR_IE_CONTENT
  else
  let s := chan_activ_ho_ref E r.1 msg type
  let s := chan_activ_bs_power s msg
  let s := chan_activ_ms_power s msg
  let s := chan_activ_ta s msg
  let r := chan_activ_sacch_info E s msg
  if r.2 = false then rsl_tx_error_report E r.1 msg.trx E.RSL_ERR_IE_CONTENT
  else chan_activ_finish E r.1 msg

/-- The block of `rsl_rx_chan_activ` for a three-way dynamic timeslot: derive
`pchan_want` from the channel number. -/
def chan_activ_dyn_want (E : Env) (s : State) (msg : msgb) : State :=
  let ts := msg.lchan.ts
  if (s.ts ts).pchan = .GSM_PCHAN_TCH_F_TCH_H_PDCH then
    s.setTs ts { s.ts ts with dyn_pchan_want := dyn_pchan_from_chan_nr E msg.chan_nr }
  else s

/-- The block "Initialize channel defaults" of `rsl_rx_chan_activ`. -/
def chan_activ_defaults (E : Env) (s : State) (msg : msgb) : State :=
  let l := msg.lchan
  s.setLchan l { s.lchan l with
    ms_power := to_u8 (E.ms_pwr_ctl_lvl s.bts.band 0),
    ms_power_ctrl_current := to_u8 (E.ms_pwr_ctl_lvl s.bts.band 0),
    ms_power_ctrl_fixed := 0 }

/-- The block "9.3.6 Channel Mode" of `rsl_rx_chan_activ` once the IE is known
to be present where it is needed. -/
def chan_activ_chan_mode (E : Env) (s : State) (msg : msgb) (type : Nat) : State :=
  if type ≠ E.RSL_ACT_OSMO_PDCH then
    lchan_tchmode_from_cmode E s msg.lchan (TLVP msg.tp .RSL_IE_CHAN_MODE)
  else s

/-- The function `rsl_rx_chan_activ` (8.4.1). -/
def rsl_rx_chan_activ (E : Env) (s : State) (msg : msgb) : State × Int :=
  let l := msg.lchan
  let ts := l.ts
  if (s.lchan l).state ≠ .LCHAN_S_NONE then
    rsl_tx_chan_act_acknack E s l E.RSL_ERR_EQUIPMENT_FAIL
  else
  let s := chan_activ_dyn_want E s msg
  if (s.ts ts).pchan = .GSM_PCHAN_TCH_F_TCH_H_PDCH ∧
      (s.ts ts).dyn_pchan_is ≠ (s.ts ts).dyn_pchan_want then
    let r := dyn_ts_l1_reconnect E s ts msg
    if r.2 ≠ 0 then rsl_tx_chan_act_acknack E r.1 l E.RSL_ERR_NORMAL_UNSPEC
    else (r.1, 1)
  else
  let s := chan_activ_defaults E s msg
  let tp := msg.tp
  if TLVP_PRESENT tp .RSL_IE_ACT_TYPE = false then
    rsl_tx_chan_act_acknack E s l E.RSL_ERR_MAND_IE_ERROR
  else
  let type := (TLVP tp .RSL_IE_ACT_TYPE).byte 0
  if type ≠ E.RSL_ACT_OSMO_PDCH ∧ TLVP_PRESENT tp .RSL_IE_CHAN_MODE = false then
    rsl_tx_chan_act_acknack E s l E.RSL_ERR_MAND_IE_ERROR
  else
  chan_activ_ies E (chan_activ_chan_mode E s msg type) msg type

/-- The function `rsl_rx_encr_cmd` (8.4.6), without the conditionally
compiled `FAKE_CIPH_MODE_COMPL` part. -/
def rsl_rx_encr_cmd (E : Env) (s : State) (msg : msgb) : State × Int :=
  let l := msg.lchan
  let tp := msg.tp
  if msg.tlv_rc < 0 then rsl_tx_error_report E s msg.trx E.RSL_ERR_IE_CONTENT
  else
  if TLVP_PRESENT tp .RSL_IE_ENCR_INFO = false ∨ TLVP_PRESENT tp .RSL_IE_L3_INFO = false ∨
      TLVP_PRESENT tp .RSL_IE_LINK_IDENT = false then
    rsl_tx_error_report E s msg.trx E.RSL_ERR_MAND_IE_ERROR
  else
  let r : State × Int :=
    if TLVP_PRESENT tp .RSL_IE_ENCR_INFO then
      encr_info2lchan E s l (TLVP tp .RSL_IE_ENCR_INFO) (TLVP_LEN tp .RSL_IE_ENCR_INFO % 2 ^ 8)
    else (s, 0)
  if r.2 < 0 then rsl_tx_error_report E r.1 msg.trx E.RSL_ERR_IE_CONTENT
  else
  let s := r.1
  let link_id := (TLVP tp .RSL_IE_LINK_IDENT).byte 0
  (s.emit (.lapdm_rslms_recvmsg l msg.chan_nr link_id (TLVP tp .RSL_IE_L3_INFO)), 1)

/-- The MODE MODIFY NACK built by `rsl_tx_mode_modif_nack`: one CAUSE IE behind
a dedicated-channel header.  The function sets `msg->lchan` of the new message
and leaves its `msg->trx` unset. -/
def mode_modif_nack_msg (E : Env) (s : State) (l : LchanId) (cause : Nat) : TxMsg :=
  { discr := .ABIS_RSL_MDISC_DED_CHAN, msg_type := .RSL_MT_MODE_MODIFY_NACK,
    chan_nr := some (E.gsm_lchan2chan_nr l (s.ts l.ts)), ies := [(.RSL_IE_CAUSE, [cause])],
    trx := none }

/-- The function `rsl_tx_mode_modif_nack` (8.4.11). -/
def rsl_tx_mode_modif_nack (E : Env) (s : State) (l : LchanId) (cause : Nat) : State × Int :=
  if E.msgb_alloc_ok = false then (s, -(E.ENOMEM : Int))
  else (s.emit (.abis_bts_rsl_sendmsg (mode_modif_nack_msg E s l cause)),
        E.abis_bts_rsl_sendmsg_rc)

/-- The function `rsl_tx_mode_modif_ack` (8.4.10). -/
def rsl_tx_mode_modif_ack (E : Env) (s : State) (l : LchanId) : State × Int :=
  let chan_nr := E.gsm_lchan2chan_nr l (s.ts l.ts)
  if E.msgb_alloc_ok = false then (s, -(E.ENOMEM : Int))
  else
    let m : TxMsg :=
      { discr := .ABIS_RSL_MDISC_DED_CHAN, msg_type := .RSL_MT_MODE_MODIFY_ACK,
        chan_nr := some chan_nr, ies := [], trx := some l.ts.trx }
    (s.emit (.abis_bts_rsl_sendmsg m), E.abis_bts_rsl_sendmsg_rc)

/-- The function `rsl_rx_mode_modif` (8.4.9). -/
def rsl_rx_mode_modif (E : Env) (s : State) (msg : msgb) : State × Int :=
  let l := msg.lchan
  let tp := msg.tp
  if TLVP_PRESENT tp .RSL_IE_CHAN_MODE = false then
    rsl_tx_mode_modif_nack E (s.emit .msgb_free) l E.RSL_ERR_MAND_IE_ERROR
  else
  let s := lchan_tchmode_from_cmode E s l (TLVP tp .RSL_IE_CHAN_MODE)
  let r : State × Int :=
    if TLVP_PRESENT tp .RSL_IE_ENCR_INFO then
      encr_info2lchan E s l (TLVP tp .RSL_IE_ENCR_INFO) (TLVP_LEN tp .RSL_IE_ENCR_INFO % 2 ^ 8)
    else (s, 0)
  if r.2 < 0 then rsl_tx_error_report E r.1 msg.trx E.RSL_ERR_IE_CONTENT
  else
  let s := r.1
  let mr := TLVP tp .RSL_IE_MR_CONFIG
  if TLVP_PRESENT tp .RSL_IE_MR_CONFIG = true ∧ mr.len > E.MR_BTS_LV_SIZE - 1 then
    rsl_tx_error_report E s msg.trx E.RSL_ERR_IE_CONTENT
  else
  let s :=
    if TLVP_PRESENT tp .RSL_IE_MR_CONFIG then s.setLchan l (mr_config_store E (s.lchan l) mr)
    else s
  let s := s.emit (.l1sap_chan_modify l.ts.trx msg.chan_nr)
  let s := (rsl_tx_mode_modif_ack E s l).1
  (s, 0)

/-- The function `rsl_rx_sacch_inf_mod` (8.4.20); `osmo_si` is a `uint8_t`. -/
def rsl_rx_sacch_inf_mod (E : Env) (s : State) (msg : msgb) : State × Int :=
  let l := msg.lchan
  let tp := msg.tp
  if TLVP_PRESENT tp .RSL_IE_STARTNG_TIME then
    rsl_tx_error_report E s msg.trx E.RSL_ERR_SERV_OPT_UNIMPL
  else
  if TLVP_PRESENT tp .RSL_IE_SYSINFO_TYPE = false then
    rsl_tx_error_report E s msg.trx E.RSL_ERR_MAND_IE_ERROR
  else
  let rsl_si := (TLVP tp .RSL_IE_SYSINFO_TYPE).byte 0
  if osmo_in_array rsl_si (rsl_sacch_sitypes E) = false then
    rsl_tx_error_report E s msg.trx E.RSL_ERR_IE_CONTENT
  else
  let osmo_si := E.osmo_rsl2sitype rsl_si % 2 ^ 8
  if osmo_si = E.SYSINFO_TYPE_NONE then
    rsl_tx_error_report E s msg.trx E.RSL_ERR_IE_CONTENT
  else
  let lc := s.lchan l
  if TLVP_PRESENT tp .RSL_IE_L3_INFO then
    let e := TLVP tp .RSL_IE_L3_INFO
    let len := clamp_len 16 e.len (E.SYSINFO_BUF - 2)
    let lc := { lc with
      si_valid := (lc.si_valid ||| (1 <<< osmo_si)) % 2 ^ 32,
      si_buf := setBuf lc.si_buf osmo_si (sacch_store E (lc.si_buf osmo_si) e.byte len) }
    (s.setLchan l lc, 0)
  else
    (s.setLchan l { lc with si_valid := lc.si_valid &&& ((1 <<< osmo_si) % 2 ^ 32) }, 0)

/-- The function `rsl_rx_ms_pwr_ctrl` (8.4.15); `pwr` is a `uint8_t`. -/
def rsl_rx_ms_pwr_ctrl (s : State) (msg : msgb) : State × Int :=
  let l := msg.lchan
  if TLVP_PRESENT msg.tp .RSL_IE_MS_POWER then
    let pwr := ((TLVP msg.tp .RSL_IE_MS_POWER).byte 0 &&& 0x1F) % 2 ^ 8
    let s := s.setLchan l { s.lchan l with ms_power_ctrl_fixed := 1, ms_power_ctrl_current := pwr }
    (s.emit (.bts_model_adjst_ms_pwr l), 0)
  else (s, 0)

/-- The function `rsl_tx_rf_rel_ack` (8.4.19). -/
def rsl_tx_rf_rel_ack (E : Env) (s : State) (l : LchanId) : State × Int :=
  let chan_nr := E.gsm_lchan2chan_nr l (s.ts l.ts)
  if (s.lchan l).rel_act_kind ≠ .LCHAN_REL_ACT_RSL ∧
      ¬ ((s.ts l.ts).pchan = .GSM_PCHAN_TCH_F_TCH_H_PDCH ∧
         (s.ts l.ts).dyn_pchan_is = .GSM_PCHAN_PDCH ∧
         (s.lchan l).rel_act_kind = .LCHAN_REL_ACT_PCU) then (s, 0)
  else
    let s := s.emit (.lapdm_channel_exit l)
    if E.msgb_alloc_ok = false then (s, -(E.ENOMEM : Int))
    else
      let m : TxMsg :=
        { discr := .ABIS_RSL_MDISC_DED_CHAN, msg_type := .RSL_MT_RF_CHAN_REL_ACK,
          chan_nr := some chan_nr, ies := [], trx := some l.ts.trx }
      (s.emit (.abis_bts_rsl_sendmsg m), E.abis_bts_rsl_sendmsg_rc)

/-- The four bytes of a 32-bit value, most significant first. -/
def be32 (x : Nat) : List Nat :=
  [(x >>> 24) % 256, (x >>> 16) % 256, (x >>> 8) % 256, x % 256]

/-- The four bytes a `uint32_t` occupies in the memory of the host. -/
def mem_u32 (E : Env) (x : Nat) : List Nat :=
  if E.host_little_endian then (be32 x).reverse else be32 x

/-- The library function `htonl`: the `uint32_t` whose bytes in host memory
are those of `x`, most significant first. -/
def htonl (E : Env) (x : Nat) : Nat :=
  if E.host_little_endian then
    ((x % 256) <<< 24) ||| (((x >>> 8) % 256) <<< 16) ||| (((x >>> 16) % 256) <<< 8) |||
      ((x >>> 24) % 256)
  else x % 2 ^ 32

/-- The library function `htons`, as `htonl` for a `uint16_t`. -/
def htons (E : Env) (x : Nat) : Nat :=
  if E.host_little_endian then ((x % 256) <<< 8) ||| ((x >>> 8) % 256) else x % 2 ^ 16

/-- The value of the IE put by `rsl_add_rtp_stats`: the packed `struct
ipa_stats` as it lies in memory.  The first five counters go through `htonl`,
`arrival_jitter` is stored as returned, `avg_tx_delay` stays zero. -/
def rsl_add_rtp_stats (E : Env) (lc : gsm_lchan) : List Nat :=
  let st := E.osmo_rtp_socket_stats lc.abis_ip_rtp_socket
  mem_u32 E (htonl E st.packets_sent) ++ mem_u32 E (htonl E st.octets_sent) ++
  mem_u32 E (htonl E st.packets_recv) ++ mem_u32 E (htonl E st.octets_recv) ++
  mem_u32 E (htonl E st.packets_lost) ++ mem_u32 E st.arrival_jitter ++ mem_u32 E 0

/-- The message built by `rsl_tx_ipac_dlcx_ind`.  `msgb_tv16_put` writes its
16-bit argument most significant byte first; the argument is
`htons(conn_id)`. -/
def ipac_dlcx_ind_msg (E : Env) (s : State) (l : LchanId) (cause : Nat) : TxMsg :=
  let v := htons E (s.lchan l).abis_ip_conn_id
  { discr := .ABIS_RSL_MDISC_IPACCESS, msg_type := .RSL_MT_IPAC_DLCX_IND,
    chan_nr := some (E.gsm_lchan2chan_nr l (s.ts l.ts)),
    ies := [(.RSL_IE_IPAC_CONN_ID, [(v >>> 8) % 256, v % 256]),
            (.RSL_IE_IPAC_CONN_STAT, rsl_add_rtp_stats E (s.lchan l)),
            (.RSL_IE_CAUSE, [cause])],
    trx := some l.ts.trx }

/-- The function `rsl_tx_ipac_dlcx_ind`. -/
def rsl_tx_ipac_dlcx_ind (E : Env) (s : State) (l : LchanId) (cause : Nat) : State × Int :=
  if E.msgb_alloc_ok = false then (s, -(E.ENOMEM : Int))
  else (s.emit (.abis_bts_rsl_sendmsg (ipac_dlcx_ind_msg E s l cause)), E.abis_bts_rsl_sendmsg_rc)

/-- The function `msgb_queue_flush`: every message linked into the list is
released with `msgb_free` and counted.  The loop holds no `llist_del` and the
list head is not written, so the list still links the released messages when
the function returns: the result is the state with one `msgb_free` per entry
and the count, and the queue of the caller stays as it is. -/
def msgb_queue_flush (s : State) (queue : List (List Nat)) : State × Int :=
  ({ s with trace := s.trace ++ queue.map (fun _ => Event.msgb_free) }, queue.length)

/-- Modelled from the spec: `handover_reset` of `handover.c` puts the handover
state of the lchan back to "none". -/
def handover_reset (s : State) (l : LchanId) : State :=
  s.setLchan l { s.lchan l with ho_active := .HANDOVER_NONE }

/-- The function `dyn_ts_pdch_release`. -/
def dyn_ts_pdch_release (E : Env) (s : State) (l : LchanId) : State × Int :=
  let ts := l.ts
  if (s.ts ts).dyn_pchan_is ≠ (s.ts ts).dyn_pchan_want then (s, -(E.EINVAL : Int))
  else
    let s := s.setTs ts { s.ts ts with dyn_pchan_want := .GSM_PCHAN_NONE }
    if E.pcu_connected = false then
      (s.setTs ts { s.ts ts with dyn_pchan_is := .GSM_PCHAN_NONE }, 1)
    else (s.emit .pcu_tx_info_ind, E.pcu_tx_info_ind_rc)

/-- The block of `rsl_rx_rf_chan_rel` that closes the RTP socket of the lchan,
entered only when the lchan has one: DLCX IND, free, forget the socket, call
`msgb_queue_flush` on the downlink queue. -/
def rf_chan_rel_rtp (E : Env) (s : State) (l : LchanId) : State :=
  match (s.lchan l).abis_ip_rtp_socket with
  | some sock =>
    let s := (rsl_tx_ipac_dlcx_ind E s l E.RSL_ERR_NORMAL_UNSPEC).1
    let s := s.emit (.osmo_rtp_socket_free sock)
    let s := s.setLchan l { s.lchan l with abis_ip_rtp_socket := none }
    (msgb_queue_flush s (s.lchan l).dl_tch_queue).1
  | none => s

/-- The end of `rsl_rx_rf_chan_rel`: a dynamic timeslot in PDCH mode is
released through the PCU, any other channel through the PHY. -/
def rf_chan_rel_finish (E : Env) (s : State) (l : LchanId) (chan_nr : Nat) : State × Int :=
  if (s.ts l.ts).pchan = .GSM_PCHAN_TCH_F_TCH_H_PDCH ∧
      (s.ts l.ts).dyn_pchan_is = .GSM_PCHAN_PDCH then
    let r := dyn_ts_pdch_release E s l
    if r.2 ≠ 1 then r
    else rsl_tx_rf_rel_ack E r.1 l
  else
    let s := s.emit (.l1sap_chan_rel l.ts.trx chan_nr)
    let s := s.emit (.lapdm_channel_exit l)
    (s, 0)

/-- The function `rsl_rx_rf_chan_rel` (8.4.14). -/
def rsl_rx_rf_chan_rel (E : Env) (s : State) (l : LchanId) (chan_nr : Nat) : State × Int :=
  let s := rf_chan_rel_rtp E s l
  let s := handover_reset s l
  let s := s.setLchan l { s.lchan l with rel_act_kind := .LCHAN_REL_ACT_RSL }
  rf_chan_rel_finish E s l chan_nr

/-! ## Dynamic TCH/F+PDCH and dynamic timeslot callbacks -/

/-- The function `rsl_tx_dyn_pdch_ack`: PDCH ACT ACK or PDCH DEACT ACK, without
IEs. -/
def rsl_tx_dyn_pdch_ack (E : Env) (s : State) (l : LchanId) (pdch_act : Bool) : State × Int :=
  let chan_nr := E.gsm_lchan2chan_nr l (s.ts l.ts)
  if E.msgb_alloc_ok = false then (s, -(E.ENOMEM : Int))
  else
    let m : TxMsg :=
      { discr := .ABIS_RSL_MDISC_DED_CHAN,
        msg_type := if pdch_act then .RSL_MT_IPAC_PDCH_ACT_ACK else .RSL_MT_IPAC_PDCH_DEACT_ACK,
        chan_nr := some chan_nr, ies := [], trx := some l.ts.trx }
    (s.emit (.abis_bts_rsl_sendmsg m), E.abis_bts_rsl_sendmsg_rc)

/-- The function `rsl_tx_dyn_pdch_nack`: PDCH ACT NACK or PDCH DEACT NACK with
one CAUSE IE. -/
def rsl_tx_dyn_pdch_nack (E : Env) (s : State) (l : LchanId) (pdch_act : Bool) (cause : Nat) :
    State × Int :=
  let chan_nr := E.gsm_lchan2chan_nr l (s.ts l.ts)
  if E.msgb_alloc_ok = false then (s, -(E.ENOMEM : Int))
  else
    let m : TxMsg :=
      { discr := .ABIS_RSL_MDISC_DED_CHAN,
        msg_type := if pdch_act then .RSL_MT_IPAC_PDCH_ACT_NACK else .RSL_MT_IPAC_PDCH_DEACT_NACK,
        chan_nr := some chan_nr, ies := [(.RSL_IE_CAUSE, [cause])], trx := some l.ts.trx }
    (s.emit (.abis_bts_rsl_sendmsg m), E.abis_bts_rsl_sendmsg_rc)

/-- The function `ipacc_dyn_pdch_complete`; `ts->flags` is an `unsigned int`
and `ts->lchan` is the first lchan of the timeslot. -/
def ipacc_dyn_pdch_complete (E : Env) (s : State) (ts : TsId) (rc : Int) : State :=
  let pdch_act := decide ((s.ts ts).flags &&& E.TS_F_PDCH_ACT_PENDING ≠ 0)
  let s := s.setTs ts { s.ts ts with flags := (s.ts ts).flags &&& not32 E.TS_F_PDCH_PENDING_MASK }
  if rc ≠ 0 then (rsl_tx_dyn_pdch_nack E s ⟨ts, 0⟩ pdch_act E.RSL_ERR_NORMAL_UNSPEC).1
  else
    let s := s.setTs ts { s.ts ts with
      flags := if pdch_act then ((s.ts ts).flags ||| E.TS_F_PDCH_ACTIVE) % 2 ^ 32
               else (s.ts ts).flags &&& not32 E.TS_F_PDCH_ACTIVE }
    (rsl_tx_dyn_pdch_ack E s ⟨ts, 0⟩ pdch_act).1

/-- The first request of `rsl_rx_dyn_pdch` towards PHY or PCU, with its
result. -/
def dyn_pdch_request (E : Env) (s : State) (ts : TsId) (pdch_act : Bool) : State × Int :=
  if pdch_act then (s.emit (.bts_model_ts_disconnect ts), E.bts_model_ts_disconnect_rc)
  else if E.pcu_connected then (s.emit .pcu_tx_info_ind, E.pcu_tx_info_ind_rc)
  else (s.emit (.bts_model_ts_disconnect ts), E.bts_model_ts_disconnect_rc)

/-- The part of `rsl_rx_dyn_pdch` after the pending flag has been set: check
the timeslot type, complete at once if the timeslot is already in the wanted
mode (`is_pdch_act` was read before the flag was set), else start the switch
and complete with the error if that fails. -/
def dyn_pdch_switch (E : Env) (s : State) (ts : TsId) (is_pdch_act pdch_act : Bool) : State :=
  if (s.ts ts).pchan ≠ .GSM_PCHAN_TCH_F_PDCH then
    ipacc_dyn_pdch_complete E s ts (-(E.EINVAL : Int))
  else
  if is_pdch_act = pdch_act then ipacc_dyn_pdch_complete E s ts 0
  else
  let r := dyn_pdch_request E s ts pdch_act
  if r.2 ≠ 0 then ipacc_dyn_pdch_complete E r.1 ts r.2
  else r.1

/-- The function `rsl_rx_dyn_pdch`: IPAC PDCH ACT (`pdch_act`) or IPAC PDCH
DEACT. -/
def rsl_rx_dyn_pdch (E : Env) (s : State) (msg : msgb) (pdch_act : Bool) : State :=
  let l := msg.lchan
  let ts := l.ts
  let is_pdch_act := decide ((s.ts ts).flags &&& E.TS_F_PDCH_ACTIVE ≠ 0)
  if (s.ts ts).flags &&& E.TS_F_PDCH_PENDING_MASK ≠ 0 then
    (rsl_tx_dyn_pdch_nack E s l pdch_act E.RSL_ERR_NORMAL_UNSPEC).1
  else
  let s := s.setTs ts { s.ts ts with
    flags := ((s.ts ts).flags |||
      (if pdch_act then E.TS_F_PDCH_ACT_PENDING else E.TS_F_PDCH_DEACT_PENDING)) % 2 ^ 32 }
  dyn_pdch_switch E s ts is_pdch_act pdch_act

/-- The tail of `ipacc_dyn_pdch_ts_disconnected` once the target type is
known: configure the lchans, connect, complete with the error if one of the
two fails. -/
def ipacc_dyn_pdch_reconnect (E : Env) (s : State) (ts : TsId)
    (as_pchan : gsm_phys_chan_config) : State :=
  let s := s.emit (.conf_lchans_as_pchan ts as_pchan)
  if E.conf_lchans_as_pchan_rc ≠ 0 then ipacc_dyn_pdch_complete E s ts E.conf_lchans_as_pchan_rc
  else
    let s := s.emit (.bts_model_ts_connect ts as_pchan)
    if E.bts_model_ts_connect_rc ≠ 0 then ipacc_dyn_pdch_complete E s ts E.bts_model_ts_connect_rc
    else s

/-- The function `ipacc_dyn_pdch_ts_disconnected`. -/
def ipacc_dyn_pdch_ts_disconnected (E : Env) (s : State) (ts : TsId) : State :=
  if (s.ts ts).flags &&& E.TS_F_PDCH_DEACT_PENDING ≠ 0 then
    ipacc_dyn_pdch_reconnect E s ts .GSM_PCHAN_TCH_F
  else if (s.ts ts).flags &&& E.TS_F_PDCH_ACT_PENDING ≠ 0 then
    ipacc_dyn_pdch_reconnect E s ts .GSM_PCHAN_PDCH
  else s

/-- The function `osmo_dyn_ts_disconnected`. -/
def osmo_dyn_ts_disconnected (s : State) (ts : TsId) : State :=
  let s := s.setTs ts { s.ts ts with dyn_pchan_is := .GSM_PCHAN_NONE }
  match (s.ts ts).dyn_pchan_want with
  | .GSM_PCHAN_TCH_F | .GSM_PCHAN_TCH_H | .GSM_PCHAN_PDCH =>
    let s := s.emit (.conf_lchans_as_pchan ts (s.ts ts).dyn_pchan_want)
    s.emit (.bts_model_ts_connect ts (s.ts ts).dyn_pchan_want)
  | _ => s.setTs ts { s.ts ts with dyn_pchan_want := .GSM_PCHAN_NONE }

/-- The function `cb_ts_disconnected`. -/
def cb_ts_disconnected (E : Env) (s : State) (ts : TsId) : State :=
  match (s.ts ts).pchan with
  | .GSM_PCHAN_TCH_F_PDCH => ipacc_dyn_pdch_ts_disconnected E s ts
  | .GSM_PCHAN_TCH_F_TCH_H_PDCH => osmo_dyn_ts_disconnected s ts
  | _ => s

/-- The function `ipacc_dyn_pdch_ts_connected`. -/
def ipacc_dyn_pdch_ts_connected (E : Env) (s : State) (ts : TsId) : State :=
  if (s.ts ts).flags &&& E.TS_F_PDCH_DEACT_PENDING ≠ 0 then ipacc_dyn_pdch_complete E s ts 0
  else if (s.ts ts).flags &&& E.TS_F_PDCH_ACT_PENDING ≠ 0 then
    if E.pcu_connected = false then ipacc_dyn_pdch_complete E s ts 0
    else
      let s := s.emit .pcu_tx_info_ind
      if E.pcu_tx_info_ind_rc ≠ 0 then ipacc_dyn_pdch_complete E s ts E.pcu_tx_info_ind_rc
      else s
  else s

/-- The function `osmo_dyn_ts_connected`: resume the parked CHANNEL
ACTIVATION, and free it unless the handler kept it. -/
def osmo_dyn_ts_connected (E : Env) (s : State) (ts : TsId) : State :=
  match (s.ts ts).dyn_pending_chan_activ with
  | none => s
  | some msg =>
    let s := s.setTs ts { s.ts ts with dyn_pending_chan_activ := none }
    let s := s.setTs ts { s.ts ts with dyn_pchan_is := (s.ts ts).dyn_pchan_want }
    let r := rsl_rx_chan_activ E s msg
    if r.2 ≠ 1 then r.1.emit .msgb_free else r.1

/-- The function `cb_ts_connected`. -/
def cb_ts_connected (E : Env) (s : State) (ts : TsId) : State :=
  match (s.ts ts).pchan with
  | .GSM_PCHAN_TCH_F_PDCH => ipacc_dyn_pdch_ts_connected E s ts
  | .GSM_PCHAN_TCH_F_TCH_H_PDCH => osmo_dyn_ts_connected E s ts
  | _ => s

/-- The flag constants of `ts->flags`: the pending mask is the union of the
two pending flags, which have no bit in common with each other, and the active
flag lies outside the mask. -/
def ts_flags_wf (E : Env) : Prop :=
  E.TS_F_PDCH_PENDING_MASK = E.TS_F_PDCH_ACT_PENDING ||| E.TS_F_PDCH_DEACT_PENDING ∧
  E.TS_F_PDCH_ACT_PENDING &&& E.TS_F_PDCH_DEACT_PENDING = 0 ∧
  E.TS_F_PDCH_ACTIVE &&& E.TS_F_PDCH_PENDING_MASK = 0

/-- The flag constants of an environment. -/
def ts_flag_consts (E : Env) : Nat × Nat × Nat × Nat :=
  (E.TS_F_PDCH_ACTIVE, E.TS_F_PDCH_ACT_PENDING, E.TS_F_PDCH_DEACT_PENDING,
   E.TS_F_PDCH_PENDING_MASK)

/-- One step of the TCH/F+PDCH scheme: a received IPAC PDCH ACT or DEACT, a
callback of the PHY, or a completion with a result code. -/
inductive PdchStep where
  | pdch_act (msg : msgb)
  | pdch_deact (msg : msgb)
  | ts_disconnected (ts : TsId)
  | ts_connected (ts : TsId)
  | complete (ts : TsId) (rc : Int)

/-- Run one step; the environment of the step gives the results of the
collaborators called during it. -/
def pdch_step (s : State) (p : Env × PdchStep) : State :=
  match p.2 with
  | .pdch_act msg => rsl_rx_dyn_pdch p.1 s msg true
  | .pdch_deact msg => rsl_rx_dyn_pdch p.1 s msg false
  | .ts_disconnected ts => cb_ts_disconnected p.1 s ts
  | .ts_connected ts => cb_ts_connected p.1 s ts
  | .complete ts rc => ipacc_dyn_pdch_complete p.1 s ts rc

/-- Run a sequence of steps, each with its own collaborator results. -/
def pdch_run (s : State) (steps : List (Env × PdchStep)) : State := steps.foldl pdch_step s

/-- At most one of the two pending flags is set in `flags`. -/
def pending_excl (E : Env) (flags : Nat) : Prop :=
  flags &&& E.TS_F_PDCH_ACT_PENDING = 0 ∨ flags &&& E.TS_F_PDCH_DEACT_PENDING = 0

/-! ## ip.access RTP connection messages -/

/-- The two bytes of a 16-bit value, most significant first. -/
def be16 (x : Nat) : List Nat := [(x >>> 8) % 256, x % 256]

/-- The library function `ntohl`, the same byte swap as `htonl`. -/
def ntohl (E : Env) (x : Nat) : Nat := htonl E x

/-- The library function `ntohs`, the same byte swap as `htons`. -/
def ntohs (E : Env) (x : Nat) : Nat := htons E x

/-- The function `tlvp_val32_unal`: the first four bytes of the value, copied
into a `uint32_t` of the host. -/
def tlvp_val32_unal (E : Env) (tp : tlv_parsed) (ie : RslIe) : Nat :=
  let e := TLVP tp ie
  if E.host_little_endian then
    e.byte 0 % 256 + (e.byte 1 % 256) * 2 ^ 8 + (e.byte 2 % 256) * 2 ^ 16 +
      (e.byte 3 % 256) * 2 ^ 24
  else
    (e.byte 0 % 256) * 2 ^ 24 + (e.byte 1 % 256) * 2 ^ 16 + (e.byte 2 % 256) * 2 ^ 8 +
      e.byte 3 % 256

/-- The function `tlvp_val16_unal`: the first two bytes of the value, copied
into a `uint16_t` of the host. -/
def tlvp_val16_unal (E : Env) (tp : tlv_parsed) (ie : RslIe) : Nat :=
  let e := TLVP tp ie
  if E.host_little_endian then e.byte 0 % 256 + (e.byte 1 % 256) * 2 ^ 8
  else (e.byte 0 % 256) * 2 ^ 8 + e.byte 1 % 256

/-- The function `rsl_tx_ipac_XXcx_ack`: connection identifier, locally bound
address and port, and the second payload type if asked for; the message type
is the one after that of the request. -/
def rsl_tx_ipac_XXcx_ack (E : Env) (s : State) (l : LchanId) (inc_pt2 : Bool)
    (orig_msgt : Nat) : State × Int :=
  let chan_nr := E.gsm_lchan2chan_nr l (s.ts l.ts)
  if E.msgb_alloc_ok = false then (s, -(E.ENOMEM : Int))
  else
    let lc := s.lchan l
    let m : TxMsg :=
      { discr := .ABIS_RSL_MDISC_IPACCESS, msg_type := .raw ((orig_msgt + 1) % 2 ^ 8),
        chan_nr := some chan_nr,
        ies := [(.RSL_IE_IPAC_CONN_ID, be16 (htons E lc.abis_ip_conn_id)),
                (.RSL_IE_IPAC_LOCAL_IP, be32 lc.abis_ip_bound_ip),
                (.RSL_IE_IPAC_LOCAL_PORT, be16 lc.abis_ip_bound_port)] ++
               (if inc_pt2 then [(.RSL_IE_IPAC_RTP_PAYLOAD2, [lc.abis_ip_rtp_payload2 % 2 ^ 8])]
                else []),
        trx := some l.ts.trx }
    (s.emit (.abis_bts_rsl_sendmsg m), E.abis_bts_rsl_sendmsg_rc)

/-- The function `rsl_tx_ipac_dlcx_ack`.  The connection identifier is put
with `msgb_tv_put`, whose value parameter is a `uint8_t`. -/
def rsl_tx_ipac_dlcx_ack (E : Env) (s : State) (l : LchanId) (inc_conn_id : Bool) :
    State × Int :=
  let chan_nr := E.gsm_lchan2chan_nr l (s.ts l.ts)
  if E.msgb_alloc_ok = false then (s, -(E.ENOMEM : Int))
  else
    let lc := s.lchan l
    let m : TxMsg :=
      { discr := .ABIS_RSL_MDISC_IPACCESS, msg_type := .RSL_MT_IPAC_DLCX_ACK,
        chan_nr := some chan_nr,
        ies := if inc_conn_id then
                 [(.RSL_IE_IPAC_CONN_ID, [lc.abis_ip_conn_id % 2 ^ 8]),
                  (.RSL_IE_IPAC_CONN_STAT, rsl_add_rtp_stats E lc)]
               else [],
        trx := some l.ts.trx }
    (s.emit (.abis_bts_rsl_sendmsg m), E.abis_bts_rsl_sendmsg_rc)

/-- The function `rsl_tx_ipac_dlcx_nack`. -/
def rsl_tx_ipac_dlcx_nack (E : Env) (s : State) (l : LchanId) (inc_conn_id : Bool)
    (cause : Nat) : State × Int :=
  let chan_nr := E.gsm_lchan2chan_nr l (s.ts l.ts)
  if E.msgb_alloc_ok = false then (s, -(E.ENOMEM : Int))
  else
    let lc := s.lchan l
    let m : TxMsg :=
      { discr := .ABIS_RSL_MDISC_IPACCESS, msg_type := .RSL_MT_IPAC_DLCX_NACK,
        chan_nr := some chan_nr,
        ies := (if inc_conn_id then [(.RSL_IE_IPAC_CONN_ID, [lc.abis_ip_conn_id % 2 ^ 8])]
                else []) ++ [(.RSL_IE_CAUSE, [cause])],
        trx := some l.ts.trx }
    (s.emit (.abis_bts_rsl_sendmsg m), E.abis_bts_rsl_sendmsg_rc)

/-- The message built by `tx_ipac_XXcx_nack`: the stored remote address and
port if asked for, then the cause; the message type is the second after that
of the request. -/
def ipac_XXcx_nack_msg (E : Env) (s : State) (l : LchanId) (cause : Nat) (inc_ipport : Bool)
    (orig_msgtype : Nat) : TxMsg :=
  { discr := .ABIS_RSL_MDISC_IPACCESS, msg_type := .raw ((orig_msgtype + 2) % 2 ^ 8),
    chan_nr := some (E.gsm_lchan2chan_nr l (s.ts l.ts)),
    ies := (if inc_ipport then
              [(.RSL_IE_IPAC_REMOTE_IP, be32 (s.lchan l).abis_ip_connect_ip),
               (.RSL_IE_IPAC_REMOTE_PORT, be16 (htons E (s.lchan l).abis_ip_connect_port))]
            else []) ++ [(.RSL_IE_CAUSE, [cause])],
    trx := some l.ts.trx }

/-- The function `tx_ipac_XXcx_nack`. -/
def tx_ipac_XXcx_nack (E : Env) (s : State) (l : LchanId) (cause : Nat) (inc_ipport : Bool)
    (orig_msgtype : Nat) : State × Int :=
  if E.msgb_alloc_ok = false then (s, -(E.ENOMEM : Int))
  else (s.emit (.abis_bts_rsl_sendmsg (ipac_XXcx_nack_msg E s l cause inc_ipport orig_msgtype)),
        E.abis_bts_rsl_sendmsg_rc)

/-- The three statements `osmo_rtp_socket_free(lchan->abis_ip.rtp_socket);
lchan->abis_ip.rtp_socket = NULL; msgb_queue_flush(&lchan->dl_tch_queue);` of
the handlers for CRCX, MDCX and DLCX. -/
def ipac_socket_close (s : State) (l : LchanId) : State :=
  let s := match (s.lchan l).abis_ip_rtp_socket with
    | some sock => s.emit (.osmo_rtp_socket_free sock)
    | none => s.emit .osmo_rtp_socket_free_null
  let s := s.setLchan l { s.lchan l with abis_ip_rtp_socket := none }
  (msgb_queue_flush s (s.lchan l).dl_tch_queue).1

/-- The CRCX branch of `rsl_rx_ipac_XXcx`: refuse if the lchan has a socket,
else create, configure and bind one.  The second component is the return value
if the handler is left here. -/
def ipac_crcx_socket (E : Env) (s : State) (msg : msgb) (connect_ip connect_port : Nat)
    (inc_ip_port : Bool) : State × Option Int :=
  let l := msg.lchan
  if (s.lchan l).abis_ip_rtp_socket.isSome then
    let r := tx_ipac_XXcx_nack E s l E.RSL_ERR_RES_UNAVAIL inc_ip_port msg.msg_type
    (r.1, some r.2)
  else
  let s := s.setLchan l { s.lchan l with tch_last_fn := E.LCHAN_FN_DUMMY }
  let s := s.emit (.osmo_rtp_socket_create l.ts.trx)
  let s := s.setLchan l { s.lchan l with abis_ip_rtp_socket := E.osmo_rtp_socket_create }
  match E.osmo_rtp_socket_create with
  | none =>
    let r := tx_ipac_XXcx_nack E s l E.RSL_ERR_RES_UNAVAIL inc_ip_port msg.msg_type
    (r.1, some r.2)
  | some sock =>
    let s := s.emit (.osmo_rtp_socket_set_param sock)
    let s := s.emit (.osmo_rtp_socket_bind sock
      (decide (connect_ip ≠ 0 ∧ connect_port ≠ 0) || E.get_rsl_local_ip_ok))
    if E.osmo_rtp_socket_bind_rc < 0 then
      let r := tx_ipac_XXcx_nack E (ipac_socket_close s l) l E.RSL_ERR_RES_UNAVAIL inc_ip_port
        msg.msg_type
      (r.1, some r.2)
    else (s, none)

/-- The MDCX branch of `rsl_rx_ipac_XXcx`: refuse if the lchan has no
socket. -/
def ipac_mdcx_socket (E : Env) (s : State) (msg : msgb) (inc_ip_port : Bool) :
    State × Option Int :=
  let l := msg.lchan
  if (s.lchan l).abis_ip_rtp_socket.isSome = false then
    let r := tx_ipac_XXcx_nack E s l E.RSL_ERR_RES_UNAVAIL inc_ip_port msg.msg_type
    (r.1, some r.2)
  else (s, none)

/-- The end of `rsl_rx_ipac_XXcx` after a successful connect: store the remote
and the bound endpoint, the payload types and the speech mode, then send the
ACK.  `ia` is `ia.s_addr`; `bound_port` is a `uint16_t` assigned from an
`int`. -/
def ipac_XXcx_store (E : Env) (s : State) (msg : msgb) (ia connect_port : Nat) : State × Int :=
  let l := msg.lchan
  let tp := msg.tp
  let s := s.setLchan l { s.lchan l with
    abis_ip_connect_ip := ntohl E ia,
    abis_ip_connect_port := ntohs E connect_port,
    abis_ip_bound_ip := E.osmo_rtp_bound_ip (s.lchan l).abis_ip_bound_ip,
    abis_ip_bound_port := (E.osmo_rtp_bound_port % 2 ^ 16).toNat }
  let s :=
    if TLVP_PRESENT tp .RSL_IE_IPAC_RTP_PAYLOAD then
      let pt := (TLVP tp .RSL_IE_IPAC_RTP_PAYLOAD).byte 0
      let s := s.setLchan l { s.lchan l with abis_ip_rtp_payload := pt }
      match (s.lchan l).abis_ip_rtp_socket with
      | some sock => s.emit (.osmo_rtp_socket_set_pt sock pt)
      | none => s
    else s
  let s :=
    if TLVP_PRESENT tp .RSL_IE_IPAC_RTP_PAYLOAD2 then
      let pt := (TLVP tp .RSL_IE_IPAC_RTP_PAYLOAD2).byte 0
      let s := s.setLchan l { s.lchan l with abis_ip_rtp_payload2 := pt }
      match (s.lchan l).abis_ip_rtp_socket with
      | some sock => s.emit (.osmo_rtp_socket_set_pt sock pt)
      | none => s
    else s
  let s :=
    if TLVP_PRESENT tp .RSL_IE_IPAC_SPEECH_MODE then
      s.setLchan l { s.lchan l with
        abis_ip_speech_mode := (TLVP tp .RSL_IE_IPAC_SPEECH_MODE).byte 0 }
    else s
  rsl_tx_ipac_XXcx_ack E s l (TLVP_PRESENT tp .RSL_IE_IPAC_RTP_PAYLOAD2) msg.msg_type

/-- The part of `rsl_rx_ipac_XXcx` shared by CRCX and MDCX once the lchan has
a socket: connect it, to the RSL peer if no remote address was given; on
failure close the socket and NACK, else store and ACK. -/
def ipac_XXcx_connect (E : Env) (s : State) (msg : msgb) (connect_ip connect_port : Nat)
    (inc_ip_port : Bool) : State × Int :=
  let l := msg.lchan
  let ia := if connect_ip = 0 then htonl E E.get_signlink_remote_ip else connect_ip
  let s := s.emit (.osmo_rtp_socket_connect (s.lchan l).abis_ip_rtp_socket ia
    (ntohs E connect_port))
  if E.osmo_rtp_socket_connect_rc < 0 then
    tx_ipac_XXcx_nack E (ipac_socket_close s l) l E.RSL_ERR_RES_UNAVAIL inc_ip_port msg.msg_type
  else ipac_XXcx_store E s msg ia connect_port

/-- The function `rsl_rx_ipac_XXcx` for CRCX and MDCX; `msg.msg_type` is
`dch->c.msg_type`. -/
def rsl_rx_ipac_XXcx (E : Env) (s : State) (msg : msgb) : State × Int :=
  let l := msg.lchan
  let tp := msg.tp
  if (s.lchan l).type ≠ .GSM_LCHAN_TCH_F ∧ (s.lchan l).type ≠ .GSM_LCHAN_TCH_H then
    tx_ipac_XXcx_nack E s l 0x52 false msg.msg_type
  else
  if msg.tlv_rc < 0 then tx_ipac_XXcx_nack E s l E.RSL_ERR_MAND_IE_ERROR false msg.msg_type
  else
  let connect_ip :=
    if TLVP_PRESENT tp .RSL_IE_IPAC_REMOTE_IP then tlvp_val32_unal E tp .RSL_IE_IPAC_REMOTE_IP
    else 0
  let connect_port :=
    if TLVP_PRESENT tp .RSL_IE_IPAC_REMOTE_PORT then tlvp_val16_unal E tp .RSL_IE_IPAC_REMOTE_PORT
    else 0
  let inc_ip_port :=
    decide (msg.msg_type = E.RSL_MT_IPAC_CRCX ∧ connect_ip ≠ 0 ∧ connect_port ≠ 0)
  if TLVP_PRESENT tp .RSL_IE_IPAC_RTP_PAYLOAD = true ∧
      TLVP_PRESENT tp .RSL_IE_IPAC_RTP_PAYLOAD2 = true then
    tx_ipac_XXcx_nack E s l E.RSL_ERR_MAND_IE_ERROR inc_ip_port msg.msg_type
  else
  let r :=
    if msg.msg_type = E.RSL_MT_IPAC_CRCX then
      ipac_crcx_socket E s msg connect_ip connect_port inc_ip_port
    else ipac_mdcx_socket E s msg inc_ip_port
  match r.2 with
  | some rc => (r.1, rc)
  | none => ipac_XXcx_connect E r.1 msg connect_ip connect_port inc_ip_port

/-- The function `rsl_rx_ipac_dlcx`. -/
def rsl_rx_ipac_dlcx (E : Env) (s : State) (msg : msgb) : State × Int :=
  let l := msg.lchan
  if msg.tlv_rc < 0 then rsl_tx_ipac_dlcx_nack E s l false E.RSL_ERR_MAND_IE_ERROR
  else
  let r := rsl_tx_ipac_dlcx_ack E s l (TLVP_PRESENT msg.tp .RSL_IE_IPAC_CONN_ID)
  (ipac_socket_close r.1 l, r.2)

/-! ## Dispatch of received messages -/

/-- The function `report_error`. -/
def report_error (E : Env) (s : State) (trx : Nat) : State × Int :=
  rsl_tx_error_report E s trx E.RSL_ERR_IE_CONTENT

/-- The function `rsl_rx_rll`: a message for a known lchan is handed to LAPDm,
which owns it from then on. -/
def rsl_rx_rll (E : Env) (s : State) (trx : Nat) (msg : msgb) : State × Int :=
  if msg.l2len < E.sizeof_abis_rsl_rll_hdr then (s.emit .msgb_free, -(E.EIO : Int))
  else
    match E.rsl_lchan_lookup trx msg.chan_nr with
    | none => report_error E (s.emit .msgb_free) trx
    | some l => (s.emit (.lapdm_rslms_recvmsg_msg l msg), E.lapdm_rslms_recvmsg_rc)

/-- The `switch` of `rsl_rx_cchan` over the message type. -/
def cchan_switch (E : Env) (s : State) (trx : Nat) (msg : msgb) : State × Int :=
  if msg.msg_type = E.RSL_MT_BCCH_INFO then rsl_rx_bcch_info E s trx msg
  else if msg.msg_type = E.RSL_MT_IMMEDIATE_ASSIGN_CMD then rsl_rx_imm_ass E s trx msg
  else if msg.msg_type = E.RSL_MT_PAGING_CMD then rsl_rx_paging_cmd E s trx msg
  else if msg.msg_type = E.RSL_MT_SMS_BC_CMD then rsl_rx_sms_bcast_cmd E s trx msg
  else if msg.msg_type = E.RSL_MT_SMS_BC_REQ ∨ msg.msg_type = E.RSL_MT_NOT_CMD then (s, 0)
  else (s, -(E.EINVAL : Int))

/-- The function `rsl_rx_cchan`: length check, lchan lookup, the handler of
the message type, and the release of the message unless the handler returned
1. -/
def rsl_rx_cchan (E : Env) (s : State) (trx : Nat) (msg : msgb) : State × Int :=
  if msg.l2len < E.sizeof_abis_rsl_cchan_hdr then (s.emit .msgb_free, -(E.EIO : Int))
  else
    match E.rsl_lchan_lookup trx msg.chan_nr with
    | none => report_error E (s.emit .msgb_free) trx
    | some l =>
      let r := cchan_switch E s trx { msg with lchan := l }
      if r.2 ≠ 1 then (r.1.emit .msgb_free, r.2) else r

/-- The `switch` of `rsl_rx_dchan` over the message type. -/
def dchan_switch (E : Env) (s : State) (trx : Nat) (msg : msgb) : State × Int :=
  if msg.msg_type = E.RSL_MT_CHAN_ACTIV then rsl_rx_chan_activ E s msg
  else if msg.msg_type = E.RSL_MT_RF_CHAN_REL then rsl_rx_rf_chan_rel E s msg.lchan msg.chan_nr
  else if msg.msg_type = E.RSL_MT_SACCH_INFO_MODIFY then rsl_rx_sacch_inf_mod E s msg
  else if msg.msg_type = E.RSL_MT_DEACTIVATE_SACCH then
    (s.emit (.l1sap_chan_deact_sacch trx msg.chan_nr), E.l1sap_chan_deact_sacch_rc)
  else if msg.msg_type = E.RSL_MT_ENCR_CMD then rsl_rx_encr_cmd E s msg
  else if msg.msg_type = E.RSL_MT_MODE_MODIFY_REQ then rsl_rx_mode_modif E s msg
  else if msg.msg_type = E.RSL_MT_MS_POWER_CONTROL then rsl_rx_ms_pwr_ctrl s msg
  else if msg.msg_type = E.RSL_MT_IPAC_PDCH_ACT ∨ msg.msg_type = E.RSL_MT_IPAC_PDCH_DEACT then
    (rsl_rx_dyn_pdch E s msg (decide (msg.msg_type = E.RSL_MT_IPAC_PDCH_ACT)), 0)
  else if msg.msg_type = E.RSL_MT_PHY_CONTEXT_REQ ∨ msg.msg_type = E.RSL_MT_PREPROC_CONFIG ∨
      msg.msg_type = E.RSL_MT_RTD_REP ∨ msg.msg_type = E.RSL_MT_PRE_HANDO_NOTIF ∨
      msg.msg_type = E.RSL_MT_MR_CODEC_MOD_REQ ∨ msg.msg_type = E.RSL_MT_TFO_MOD_REQ then (s, 0)
  else (s, -(E.EINVAL : Int))

/-- The function `rsl_rx_dchan`. -/
def rsl_rx_dchan (E : Env) (s : State) (trx : Nat) (msg : msgb) : State × Int :=
  if msg.l2len < E.sizeof_abis_rsl_dchan_hdr then (s.emit .msgb_free, -(E.EIO : Int))
  else
    match E.rsl_lchan_lookup trx msg.chan_nr with
    | none => report_error E (s.emit .msgb_free) trx
    | some l =>
      let r := dchan_switch E s trx { msg with lchan := l }
      if r.2 ≠ 1 then (r.1.emit .msgb_free, r.2) else r

/-- The function `rsl_rx_trx`. -/
def rsl_rx_trx (E : Env) (s : State) (trx : Nat) (msg : msgb) : State × Int :=
  if msg.l2len < E.sizeof_abis_rsl_common_hdr then (s.emit .msgb_free, -(E.EIO : Int))
  else
    let r :=
      if msg.msg_type = E.RSL_MT_SACCH_FILL then rsl_rx_sacch_fill E s trx msg
      else (s, -(E.EINVAL : Int))
    if r.2 ≠ 1 then (r.1.emit .msgb_free, r.2) else r

/-- The `switch` of `rsl_rx_ipaccess` over the message type. -/
def ipaccess_switch (E : Env) (s : State) (msg : msgb) : State × Int :=
  if msg.msg_type = E.RSL_MT_IPAC_CRCX ∨ msg.msg_type = E.RSL_MT_IPAC_MDCX then
    rsl_rx_ipac_XXcx E s msg
  else if msg.msg_type = E.RSL_MT_IPAC_DLCX then rsl_rx_ipac_dlcx E s msg
  else (s, -(E.EINVAL : Int))

/-- The function `rsl_rx_ipaccess`. -/
def rsl_rx_ipaccess (E : Env) (s : State) (trx : Nat) (msg : msgb) : State × Int :=
  if msg.l2len < E.sizeof_abis_rsl_dchan_hdr then (s.emit .msgb_free, -(E.EIO : Int))
  else
    match E.rsl_lchan_lookup trx msg.chan_nr with
    | none => report_error E (s.emit .msgb_free) trx
    | some l =>
      let r := ipaccess_switch E s { msg with lchan := l }
      if r.2 ≠ 1 then (r.1.emit .msgb_free, r.2) else r

/-- The function `down_rsl`: the sub-handler is chosen by the discriminator
with its lowest bit masked off. -/
def down_rsl (E : Env) (s : State) (trx : Nat) (msg : msgb) : State × Int :=
  if msg.l2len < E.sizeof_abis_rsl_common_hdr then (s.emit .msgb_free, -(E.EIO : Int))
  else if msg.msg_discr &&& 0xfe = E.ABIS_RSL_MDISC_RLL then rsl_rx_rll E s trx msg
  else if msg.msg_discr &&& 0xfe = E.ABIS_RSL_MDISC_COM_CHAN then rsl_rx_cchan E s trx msg
  else if msg.msg_discr &&& 0xfe = E.ABIS_RSL_MDISC_DED_CHAN then rsl_rx_dchan E s trx msg
  else if msg.msg_discr &&& 0xfe = E.ABIS_RSL_MDISC_TRX then rsl_rx_trx E s trx msg
  else if msg.msg_discr &&& 0xfe = E.ABIS_RSL_MDISC_IPACCESS then rsl_rx_ipaccess E s trx msg
  else (s.emit .msgb_free, -(E.EINVAL : Int))

/-- The three flag constants are nonzero values of an `unsigned int`. -/
def ts_flags_bits (E : Env) : Prop :=
  E.TS_F_PDCH_ACT_PENDING ≠ 0 ∧ E.TS_F_PDCH_DEACT_PENDING ≠ 0 ∧ E.TS_F_PDCH_ACTIVE ≠ 0 ∧
  E.TS_F_PDCH_ACT_PENDING < 2 ^ 32 ∧ E.TS_F_PDCH_DEACT_PENDING < 2 ^ 32 ∧
  E.TS_F_PDCH_ACTIVE < 2 ^ 32

/-- Every request to PHY and PCU made by the TCH/F+PDCH scheme succeeds. -/
def pdch_requests_succeed (E : Env) : Prop :=
  E.bts_model_ts_disconnect_rc = 0 ∧ E.conf_lchans_as_pchan_rc = 0 ∧
  E.bts_model_ts_connect_rc = 0 ∧ E.pcu_tx_info_ind_rc = 0

/-- The steps of scenario S4: an IPAC PDCH ACT followed by the two callbacks
of the PHY for the timeslot of the message. -/
def pdch_act_steps (E : Env) (msg : msgb) : List (Env × PdchStep) :=
  [(E, .pdch_act msg), (E, .ts_disconnected msg.lchan.ts), (E, .ts_connected msg.lchan.ts)]

/-- An IPAC PDCH ACT driven to completion and then an IPAC PDCH DEACT driven
to completion.  With the PCU connected the activation ends with the completion
that follows the PCU activating the PDTCH. -/
def pdch_act_deact_steps (E : Env) (msg : msgb) : List (Env × PdchStep) :=
  pdch_act_steps E msg ++
  (if E.pcu_connected then [(E, PdchStep.complete msg.lchan.ts 0)] else []) ++
  [(E, .pdch_deact msg), (E, .ts_disconnected msg.lchan.ts), (E, .ts_connected msg.lchan.ts)]

/-! ## Messages from LAPDm towards the BSC -/

/-- The messages of LAPDm handed on to the BSC as they are, in order. -/
def forwarded : List Event → List msgb
  | [] => []
  | .abis_bts_rsl_sendmsg_fwd m :: es => m :: forwarded es
  | _ :: es => forwarded es

/-- The function `rsl_link_id_is_sacch`; `link_id` is a `uint8_t`. -/
def rsl_link_id_is_sacch (link_id : Nat) : Int :=
  if (link_id % 2 ^ 8) >>> 6 = 1 then 1 else 0

/-- The function `rslms_is_meas_rep`: `proto_discr` and `msg_type` are the
first two bytes of the layer-3 part. -/
def rslms_is_meas_rep (E : Env) (msg : msgb) : Int :=
  if msg.msg_discr &&& 0xfe ≠ E.ABIS_RSL_MDISC_RLL then 0
  else if msg.msg_type ≠ E.RSL_MT_UNIT_DATA_IND then 0
  else if rsl_link_id_is_sacch msg.link_id = 0 then 0
  else if msg.l3.getD 0 0 ≠ E.GSM48_PDISC_RR then 0
  else if msg.l3.getD 1 0 = E.GSM48_MT_RR_MEAS_REP ∨
      msg.l3.getD 1 0 = E.GSM48_MT_RR_EXT_MEAS_REP then 1
  else 0

/-- The MEAS RES built by `rsl_tx_meas_res` from the lchan `lc` as it is on
entry and the layer-3 message `l3`. -/
def meas_res_msg (E : Env) (s : State) (l : LchanId) (l3 : List Nat) : TxMsg :=
  let lc := s.lchan l
  let meas_res := E.gsm0858_rsl_ul_meas_enc lc.meas_ul_res lc.tch_dtx_dl_active
  let flags := if meas_res.length ≥ 3 then lc.meas_flags &&& not32 E.LC_UL_M_F_RES_VALID
    else lc.meas_flags
  { discr := .ABIS_RSL_MDISC_DED_CHAN, msg_type := .RSL_MT_MEAS_RES,
    chan_nr := some (E.gsm_lchan2chan_nr l (s.ts l.ts)),
    ies := [(.RSL_IE_MEAS_RES_NR, [lc.meas_res_nr % 2 ^ 8])] ++
      (if meas_res.length ≥ 3 then [(.RSL_IE_UPLINK_MEAS, meas_res)] else []) ++
      [(.RSL_IE_BS_POWER, [lc.meas_bts_tx_pwr % 2 ^ 8])] ++
      (if flags &&& E.LC_UL_M_F_L1_VALID ≠ 0 then [(.RSL_IE_L1_INFO, lc.meas_l1_info.take 2)]
       else []) ++
      [(.RSL_IE_L3_INFO, l3)],
    trx := some l.ts.trx }

/-- The function `rsl_tx_meas_res` (8.4.8); `meas.res_nr` is a `uint8_t`. -/
def rsl_tx_meas_res (E : Env) (s : State) (l : LchanId) (l3 : List Nat) : State × Int :=
  let lc := s.lchan l
  if lc.meas_flags &&& E.LC_UL_M_F_RES_VALID = 0 then (s, -(E.EINPROGRESS : Int))
  else if E.msgb_alloc_ok = false then (s, -(E.ENOMEM : Int))
  else
    let meas_res := E.gsm0858_rsl_ul_meas_enc lc.meas_ul_res lc.tch_dtx_dl_active
    let flags := if meas_res.length ≥ 3 then lc.meas_flags &&& not32 E.LC_UL_M_F_RES_VALID
      else lc.meas_flags
    let flags2 := if flags &&& E.LC_UL_M_F_L1_VALID ≠ 0 then flags &&& not32 E.LC_UL_M_F_L1_VALID
      else flags
    let s2 := s.setLchan l { lc with
      meas_res_nr := (lc.meas_res_nr + 1) % 2 ^ 8, tch_dtx_dl_active := false,
      meas_flags := flags2 }
    (s2.emit (.abis_bts_rsl_sendmsg (meas_res_msg E s l l3)), E.abis_bts_rsl_sendmsg_rc)

/-- The function `lapdm_rll_tx_cb`, the callback through which LAPDm sends
a message up; `l` is the lchan passed as `ctx`. -/
def lapdm_rll_tx_cb (E : Env) (s : State) (msg : msgb) (l : LchanId) : State × Int :=
  if (s.lchan l).state ≠ .LCHAN_S_ACTIVE then (s.emit .msgb_free, 0)
  else
    let msg := { msg with trx := l.ts.trx }
    if rslms_is_meas_rep E msg ≠ 0 then
      let r := rsl_tx_meas_res E s l msg.l3
      (r.1.emit .msgb_free, r.2)
    else (s.emit (.abis_bts_rsl_sendmsg_fwd msg), E.abis_bts_rsl_sendmsg_rc)

/-! ## The SACCH header invariant -/

/-- A buffer begins with the LAPDm UI header 0x03 0x03. -/
def sacch_hdr (buf : Nat → Nat) : Prop := buf 0 = 0x03 ∧ buf 1 = 0x03

/-- One SI store (a valid bitmap with its buffers) respects the header rule:
for every SACCH SI type whose valid bit is set the buffer begins 0x03 0x03. -/
def si_ok (E : Env) (valid : Nat) (buf : Nat → Nat → Nat) : Prop :=
  ∀ t ∈ rsl_sacch_sitypes E,
    valid.testBit (E.osmo_rsl2sitype t) = true → sacch_hdr (buf (E.osmo_rsl2sitype t))

/-- The state invariant: the SI store of the BTS and the SI store of every
lchan respect the header rule. -/
def si_inv (E : Env) (s : State) : Prop :=
  si_ok E s.bts.si_valid s.bts.si_buf ∧
  ∀ l, si_ok E (s.lchan l).si_valid (s.lchan l).si_buf

/-- Two states have the same SI storage: the same `si_valid` and SI buffers in
the BTS and in every lchan. -/
def same_si (s s' : State) : Prop :=
  s'.bts.si_valid = s.bts.si_valid ∧ s'.bts.si_buf = s.bts.si_buf ∧
  ∀ l, (s'.lchan l).si_valid = (s.lchan l).si_valid ∧ (s'.lchan l).si_buf = (s.lchan l).si_buf

/-- A state without any valid SI bit. -/
def no_valid_bits (s : State) : Prop :=
  s.bts.si_valid = 0 ∧ ∀ l, (s.lchan l).si_valid = 0

/-- The inbound messages whose handlers touch SI storage. -/
inductive SiMsg where
  | bcch_info (trx : Nat) (msg : msgb)
  | sacch_fill (trx : Nat) (msg : msgb)
  | sacch_inf_mod (msg : msgb)
  | chan_activ (msg : msgb)

/-- The state after the handler of one such message. -/
def si_step (E : Env) (s : State) : SiMsg → State
  | .bcch_info trx msg => (rsl_rx_bcch_info E s trx msg).1
  | .sacch_fill trx msg => (rsl_rx_sacch_fill E s trx msg).1
  | .sacch_inf_mod msg => (rsl_rx_sacch_inf_mod E s msg).1
  | .chan_activ msg => (rsl_rx_chan_activ E s msg).1

/-- The state after a sequence of such messages. -/
def si_run (E : Env) (s : State) (ms : List SiMsg) : State := ms.foldl (si_step E) s

/-- The state `s2` has the timeslots and the calls of `s`: only lchan and BTS
fields may differ. -/
def same_ts_trace (s s2 : State) : Prop := s2.ts = s.ts ∧ s2.trace = s.trace

/-- No timeslot has had its `flags` changed between `s` and `s2`. -/
def same_flags (s s2 : State) : Prop := ∀ t, (s2.ts t).flags = (s.ts t).flags

/-- The optional IEs of a CHANNEL ACTIVATION that can make `rsl_rx_chan_activ`
leave with an ERROR REPORT are accepted: the encryption information is not
refused by `encr_info2lchan`, the loop over the SACCH information comes to its
end, and the MultiRate configuration fits `mr_bts_lv`. -/
def chan_activ_ies_accepted (E : Env) (s : State) (msg : msgb) : Prop :=
  (TLVP_PRESENT msg.tp .RSL_IE_ENCR_INFO = true →
    0 ≤ (encr_info2lchan E s msg.lchan (TLVP msg.tp .RSL_IE_ENCR_INFO)
          (TLVP_LEN msg.tp .RSL_IE_ENCR_INFO % 2 ^ 8)).2) ∧
  (TLVP_PRESENT msg.tp .RSL_IE_SACCH_INFO = true →
    (sacch_info_loop E (TLVP msg.tp .RSL_IE_SACCH_INFO)
      ((TLVP msg.tp .RSL_IE_SACCH_INFO).len % 2 ^ 8)
      ((TLVP msg.tp .RSL_IE_SACCH_INFO).byte 0) 1 (s.lchan msg.lchan)).2 = true) ∧
  (TLVP_PRESENT msg.tp .RSL_IE_MR_CONFIG = true →
    (TLVP msg.tp .RSL_IE_MR_CONFIG).len ≤ E.MR_BTS_LV_SIZE - 1)

/-- Acceptance of the optional IEs can be computed. -/
instance (E : Env) (s : State) (msg : msgb) : Decidable (chan_activ_ies_accepted E s msg) := by
  unfold chan_activ_ies_accepted
  infer_instance

/-- The lchans of `s2` hold the RTP sockets they hold in `s`. -/
def same_sock (s s2 : State) : Prop :=
  ∀ l, (s2.lchan l).abis_ip_rtp_socket = (s.lchan l).abis_ip_rtp_socket

/-- A call that neither releases a message nor asks the PHY to disconnect a
timeslot. -/
def quiet_event (e : Event) : Prop :=
  e ≠ .msgb_free ∧ ∀ t, e ≠ .bts_model_ts_disconnect t

/-- The state `s2` has the timeslots of `s`, and no call made between `s` and
`s2` releases a message or asks the PHY to disconnect a timeslot. -/
def same_ts_quiet (s s2 : State) : Prop :=
  s2.ts = s.ts ∧ ∃ d, s2.trace = s.trace ++ d ∧ ∀ e ∈ d, quiet_event e

/-- The result `r` of a handler entered in state `s`: the handler has kept the
timeslots, made only quiet calls, and has not returned 1. -/
def direct_result (s : State) (r : State × Int) : Prop :=
  same_ts_quiet s r.1 ∧ r.2 ≠ 1

/-- The position behind the `n` messages of a SACCH INFO IE that start at
position `cur` of the value: each message is a type byte, a length byte and
that many value bytes. -/
def sacch_info_end (e : tlv_p_entry) : Nat → Nat → Nat
  | 0, cur => cur
  | n + 1, cur => sacch_info_end e n (cur + 2 + e.byte (cur + 1))

/-! ## A concrete environment and concrete inputs -/

/-- A lookup from RSL SI types to sysinfo indices used in `refEnv`: index 0 is
`SYSINFO_TYPE_NONE`. -/
def ref_rsl2sitype (rsl_si : Nat) : Nat :=
  if rsl_si = 0x01 then 1 else if rsl_si = 0x02 then 2 else if rsl_si = 0x03 then 3
  else if rsl_si = 0x04 then 4 else if rsl_si = 0x05 then 5 else if rsl_si = 0x06 then 6
  else if rsl_si = 0x07 then 7 else if rsl_si = 0x00 then 8 else if rsl_si = 0x28 then 11
  else if rsl_si = 0x0a then 17 else if rsl_si = 0x0b then 18 else if rsl_si = 0x29 then 19
  else if rsl_si = 0x0d then 20 else if rsl_si = 0x0e then 21 else if rsl_si = 0x47 then 22
  else if rsl_si = 0x48 then 23 else 0

/-- A concrete environment on which the model is evaluated: GSM 08.58 code
points, a 23-byte sysinfo buffer, every collaborator call succeeding and the
PCU not connected. -/
def refEnv : Env where
  SYSINFO_BUF := 23
  MR_BTS_LV_SIZE := 7
  ENCR_KEY_SIZE := 16
  CCCH_LCHAN := 4
  RSL_SYSTEM_INFO_5 := 0x05
  RSL_SYSTEM_INFO_6 := 0x06
  RSL_SYSTEM_INFO_5bis := 0x0d
  RSL_SYSTEM_INFO_5ter := 0x0e
  RSL_EXT_MEAS_ORDER := 0x47
  RSL_MEAS_INFO := 0x48
  osmo_rsl2sitype := ref_rsl2sitype
  SYSINFO_TYPE_NONE := 0
  SYSINFO_TYPE_3 := 3
  SYSINFO_TYPE_2quater := 19
  SI2Q_REST_OCTETS := 3
  RSL_ERR_MAND_IE_ERROR := 0x64
  RSL_ERR_IE_CONTENT := 0x68
  RSL_ERR_EQUIPMENT_FAIL := 0x20
  RSL_ERR_NORMAL_UNSPEC := 0x0f
  RSL_ERR_SERV_OPT_UNIMPL := 0x4f
  RSL_ACT_OSMO_PDCH := 0x0f
  RSL_ACT_INTER_ASYNC := 0x02
  RSL_ACT_INTER_SYNC := 0x03
  RSL_CMOD_DTXd := 0x02
  RSL_CMOD_SP_GSM1 := 0x01
  RSL_CMOD_SP_GSM2 := 0x11
  RSL_CMOD_SP_GSM3 := 0x21
  RSL_CMOD_SP_NT_14k5 := 0x58
  RSL_CMOD_SP_NT_12k0 := 0x50
  RSL_CMOD_SP_NT_6k0 := 0x51
  RSL_CHAN_NR_MASK := 0xf8
  RSL_CHAN_NR_1 := 0x08
  RSL_CHAN_Bm_ACCHs := 0x08
  RSL_CHAN_Lm_ACCHs := 0x10
  RSL_CHAN_OSMO_PDCH := 0xc0
  AMR_CMR_NONE := 0xff
  ENOMEM := 12
  EINVAL := 22
  msgb_alloc_ok := true
  abis_bts_rsl_sendmsg_rc := 0
  gsm_lchan2chan_nr := fun l _ => 0x08 ||| l.ts.nr
  get_time := ⟨1234, 5, 17⟩
  ms_pwr_ctl_lvl := fun _ _ => 5
  num_agch := 1
  bts_model_lchan_deactivate_rc := 0
  bts_model_ts_disconnect_rc := 0
  l1sap_chan_act_rc := 0
  pcu_connected := false
  pcu_tx_info_ind_rc := 0
  bts_supports_cipher := fun _ => 1
  paging_add_identity_rc := 0
  bts_process_smscb_cmd_rc := 0
  bts_agch_enqueue_rc := 0
  amr_parse_mr_conf := fun e => e.val.take e.len
  TS_F_PDCH_ACTIVE := 0x1000
  TS_F_PDCH_ACT_PENDING := 0x2000
  TS_F_PDCH_DEACT_PENDING := 0x4000
  TS_F_PDCH_PENDING_MASK := 0x6000
  conf_lchans_as_pchan_rc := 0
  bts_model_ts_connect_rc := 0
  host_little_endian := true
  osmo_rtp_socket_stats := fun _ => { packets_sent := 0x01020304, arrival_jitter := 0x0a0b0c0d }
  sizeof_abis_rsl_common_hdr := 2
  sizeof_abis_rsl_rll_hdr := 6
  sizeof_abis_rsl_cchan_hdr := 4
  sizeof_abis_rsl_dchan_hdr := 4
  ABIS_RSL_MDISC_RLL := 0x02
  ABIS_RSL_MDISC_DED_CHAN := 0x08
  ABIS_RSL_MDISC_COM_CHAN := 0x0c
  ABIS_RSL_MDISC_TRX := 0x10
  ABIS_RSL_MDISC_IPACCESS := 0x7e
  RSL_MT_BCCH_INFO := 0x11
  RSL_MT_IMMEDIATE_ASSIGN_CMD := 0x16
  RSL_MT_PAGING_CMD := 0x15
  RSL_MT_SMS_BC_CMD := 0x1d
  RSL_MT_SMS_BC_REQ := 0x17
  RSL_MT_NOT_CMD := 0x1f
  RSL_MT_CHAN_ACTIV := 0x21
  RSL_MT_RF_CHAN_REL := 0x2e
  RSL_MT_SACCH_INFO_MODIFY := 0x34
  RSL_MT_DEACTIVATE_SACCH := 0x25
  RSL_MT_ENCR_CMD := 0x26
  RSL_MT_MODE_MODIFY_REQ := 0x29
  RSL_MT_MS_POWER_CONTROL := 0x2f
  RSL_MT_IPAC_PDCH_ACT := 0x48
  RSL_MT_IPAC_PDCH_DEACT := 0x4b
  RSL_MT_PHY_CONTEXT_REQ := 0x2c
  RSL_MT_PREPROC_CONFIG := 0x31
  RSL_MT_RTD_REP := 0x38
  RSL_MT_PRE_HANDO_NOTIF := 0x39
  RSL_MT_MR_CODEC_MOD_REQ := 0x3a
  RSL_MT_TFO_MOD_REQ := 0x3e
  RSL_MT_SACCH_FILL := 0x1a
  RSL_MT_IPAC_CRCX := 0x70
  RSL_MT_IPAC_MDCX := 0x73
  RSL_MT_IPAC_DLCX := 0x77
  RSL_ERR_RES_UNAVAIL := 0x2f
  EIO := 5
  LCHAN_FN_DUMMY := 0xffffffff
  rsl_lchan_lookup := fun trx chan_nr => some ⟨⟨trx, chan_nr % 8⟩, 0⟩
  l1sap_chan_deact_sacch_rc := 0
  lapdm_rslms_recvmsg_rc := 0
  osmo_rtp_socket_create := some 9
  osmo_rtp_socket_bind_rc := 0
  osmo_rtp_socket_connect_rc := 0
  osmo_rtp_bound_ip := fun _ => 0xc0a80001
  osmo_rtp_bound_port := 16384
  get_signlink_remote_ip := 0xc0a80002
  get_rsl_local_ip_ok := true
  RSL_MT_UNIT_DATA_IND := 0x0b
  GSM48_PDISC_RR := 0x06
  GSM48_MT_RR_MEAS_REP := 0x15
  GSM48_MT_RR_EXT_MEAS_REP := 0x36
  LC_UL_M_F_RES_VALID := 0x02
  LC_UL_M_F_L1_VALID := 0x01
  EINPROGRESS := 115
  gsm0858_rsl_ul_meas_enc := fun ul dtx => (if dtx then 0x40 else 0) :: ul

/-- The lchan 0 of timeslot 2 of TRX 0. -/
def lchan02 : LchanId := ⟨⟨0, 2⟩, 0⟩

/-- A received message for `lchan02` on TRX 0 that carries only the listed IEs. -/
def rx_msg (tp : tlv_parsed) : msgb :=
  { chan_nr := 0x0a, lchan := lchan02, trx := 0, tp := tp }

/-- A state in which `lchan02` has the given state and `rel_act_kind`, lies on
a timeslot of the given type, and has `ms_power_ctrl.fixed` set. -/
def state_with (st : gsm_lchan_state) (k : lchan_rel_act_kind) (pchan : gsm_phys_chan_config) :
    State :=
  { lchan := fun _ => { state := st, rel_act_kind := k, ms_power_ctrl_fixed := 1 },
    ts := fun _ => { pchan := pchan } }

/-- A BCCH INFO for SI type 3 with a FULL_BCCH_INFO payload of 21 bytes
(scenario S6). -/
def bcch_info_si3_msg : msgb :=
  rx_msg [(.RSL_IE_SYSINFO_TYPE, ⟨1, [0x03]⟩),
    (.RSL_IE_FULL_BCCH_INFO,
      ⟨21, [0x49, 0x06, 0x1b, 1, 2, 3, 4, 5, 6, 7, 8, 9, 10, 11, 12, 13, 14, 15, 16, 17, 18]⟩)]

/-- A BCCH INFO for SI type 3 without payload. -/
def bcch_info_si3_off_msg : msgb := rx_msg [(.RSL_IE_SYSINFO_TYPE, ⟨1, [0x03]⟩)]

/-- A SACCH FILLING for SI type 5 with an L3_INFO payload of 4 bytes. -/
def sacch_fill_si5_msg : msgb :=
  rx_msg [(.RSL_IE_SYSINFO_TYPE, ⟨1, [0x05]⟩), (.RSL_IE_L3_INFO, ⟨4, [0x06, 0x1d, 0xaa, 0xbb]⟩)]

/-- A CHANNEL ACTIVATION for `lchan02` with activation type 1 and a speech
channel mode, without SACCH INFO IE. -/
def chan_activ_plain_msg : msgb :=
  rx_msg [(.RSL_IE_ACT_TYPE, ⟨1, [0x01]⟩), (.RSL_IE_CHAN_MODE, ⟨4, [0x00, 0x01, 0x08, 0x01]⟩)]

/-- A SACCH INFO MODIFY for SI type 5 without L3_INFO and without starting
time. -/
def sacch_inf_mod_si5_off_msg : msgb := rx_msg [(.RSL_IE_SYSINFO_TYPE, ⟨1, [0x05]⟩)]

/-- A state in which every lchan has the lchan-specific SI 5 and SI 6 valid
(bits 5 and 6 of `si.valid`). -/
def state_si56 : State := { lchan := fun _ => { si_valid := 0x60 } }

/-- An MS POWER CONTROL with power octet 0xe7. -/
def ms_pwr_ctrl_msg : msgb := rx_msg [(.RSL_IE_MS_POWER, ⟨1, [0xe7]⟩)]

/-- A received message for `lchan02` with the given channel number. -/
def rx_msg_nr (chan_nr : Nat) (tp : tlv_parsed) : msgb :=
  { chan_nr := chan_nr, lchan := lchan02, trx := 0, tp := tp }

/-- A state in which every timeslot is a three-way dynamic timeslot that is
currently of type `cur`, and every lchan is in state NONE with the given
`rel_act_kind`. -/
def state_dyn (k : lchan_rel_act_kind) (cur : gsm_phys_chan_config) : State :=
  { lchan := fun _ => { rel_act_kind := k },
    ts := fun _ => { pchan := .GSM_PCHAN_TCH_F_TCH_H_PDCH, dyn_pchan_is := cur } }

/-- A CHANNEL ACTIVATION whose channel number has the cbits of an SDCCH/4
(0x20) on timeslot 2. -/
def chan_activ_sdcch_msg : msgb :=
  rx_msg_nr 0x22 [(.RSL_IE_ACT_TYPE, ⟨1, [0x01]⟩), (.RSL_IE_CHAN_MODE, ⟨4, [0x00, 0x01, 0x08, 0x01]⟩)]

/-- A state in which every lchan holds one queued downlink frame, has no RTP
socket and an enabled handover, and was last activated by the PCU. -/
def state_queue_no_socket : State :=
  { lchan := fun _ =>
      { state := .LCHAN_S_ACTIVE, rel_act_kind := .LCHAN_REL_ACT_PCU,
        ho_active := .HANDOVER_ENABLED, dl_tch_queue := [[0xd0, 0x01]] } }

/-- A state in which every lchan has the RTP socket 7 with connection
identifier 0x0102, two queued downlink frames and an enabled handover. -/
def state_queue_socket : State :=
  { lchan := fun _ =>
      { state := .LCHAN_S_ACTIVE, abis_ip_rtp_socket := some 7, abis_ip_conn_id := 0x0102,
        ho_active := .HANDOVER_ENABLED, dl_tch_queue := [[0xd0, 0x01], [0xd0, 0x02]] } }

/-- The environment `refEnv` with `l1sap_chan_act` returning `rc`. -/
def refEnv_l1sap (rc : Int) : Env := { refEnv with l1sap_chan_act_rc := rc }

/-- The environment `refEnv` with the PCU connected. -/
def refEnv_pcu : Env := { refEnv with pcu_connected := true }

/-- A CHANNEL ACTIVATION for a full-rate speech channel with encryption
information (algorithm 1, two key bytes) and a MultiRate configuration of two
bytes. -/
def chan_activ_speech_msg : msgb :=
  rx_msg [(.RSL_IE_ACT_TYPE, ⟨1, [0x01]⟩), (.RSL_IE_CHAN_MODE, ⟨4, [0x00, 0x01, 0x08, 0x01]⟩),
    (.RSL_IE_ENCR_INFO, ⟨3, [0x01, 0xaa, 0xbb]⟩), (.RSL_IE_MR_CONFIG, ⟨2, [0x20, 0x04]⟩)]

/-- A CHANNEL ACTIVATION with activation type OSMO_PDCH and Osmocom PDCH cbits
on timeslot 2, without channel mode. -/
def chan_activ_pdch_msg : msgb := rx_msg_nr 0xc2 [(.RSL_IE_ACT_TYPE, ⟨1, [0x0f]⟩)]

/-- The same PDCH activation with a MultiRate configuration of seven bytes,
one more than `mr_bts_lv` holds behind its length octet. -/
def chan_activ_pdch_mr_msg : msgb :=
  rx_msg_nr 0xc2 [(.RSL_IE_ACT_TYPE, ⟨1, [0x0f]⟩),
    (.RSL_IE_MR_CONFIG, ⟨7, [0x20, 0x04, 0, 0, 0, 0, 0]⟩)]

/-- A state in which every timeslot is a TCH/F+PDCH timeslot in TCH/F mode
with no flag set. -/
def state_tchf_pdch : State := { ts := fun _ => { pchan := .GSM_PCHAN_TCH_F_PDCH } }

/-- A run of the TCH/F+PDCH scheme on timeslot 2: PDCH ACT, a second PDCH ACT
and a PDCH DEACT while the first is pending, the two callbacks of the PHY, the
completion, and a PDCH DEACT with the PCU connected. -/
def pdch_steps : List (Env × PdchStep) :=
  [(refEnv, .pdch_act (rx_msg [])), (refEnv, .pdch_act (rx_msg [])),
   (refEnv_pcu, .pdch_deact (rx_msg [])), (refEnv, .ts_disconnected ⟨0, 2⟩),
   (refEnv_pcu, .ts_connected ⟨0, 2⟩), (refEnv, .complete ⟨0, 2⟩ 0),
   (refEnv_pcu, .pdch_deact (rx_msg []))]

/-- A received dedicated-channel message of the given type for channel number
0x0a of TRX 0: discriminator 0x08, a complete header, the listed IEs.  The
lchan is filled in by the dispatcher. -/
def dchan_msg (msg_type : Nat) (tp : tlv_parsed) : msgb :=
  { chan_nr := 0x0a, lchan := ⟨⟨0, 0⟩, 0⟩, trx := 0, tp := tp, l2len := 8, msg_discr := 0x08,
    msg_type := msg_type }

/-- A received ip.access message of the given type for channel number 0x0a
of TRX 0 (discriminator 0x7e). -/
def ipac_msg (msg_type : Nat) (tp : tlv_parsed) : msgb :=
  { chan_nr := 0x0a, lchan := lchan02, trx := 0, tp := tp, l2len := 8, msg_discr := 0x7e,
    msg_type := msg_type }

/-- The environment `refEnv` with `bts_model_ts_disconnect` failing. -/
def refEnv_disconnect_fails : Env := { refEnv with bts_model_ts_disconnect_rc := -1 }

/-- A state in which every timeslot is a TCH/F+PDCH timeslot with the given
flags. -/
def state_flags (flags : Nat) : State :=
  { ts := fun _ => { pchan := .GSM_PCHAN_TCH_F_PDCH, flags := flags } }

/-- A state in which every lchan is a TCH/F with the RTP socket 7, connected
to 10.0.0.1 port 4000 and bound to port 16400, holding one queued downlink
frame. -/
def state_tch_socket : State :=
  { lchan := fun _ =>
      { state := .LCHAN_S_ACTIVE, type := .GSM_LCHAN_TCH_F, abis_ip_rtp_socket := some 7,
        abis_ip_conn_id := 0x0102, abis_ip_connect_ip := 0x0a000001,
        abis_ip_connect_port := 4000, abis_ip_bound_ip := 0xc0a80001,
        abis_ip_bound_port := 16400, abis_ip_rtp_payload := 3, abis_ip_speech_mode := 1,
        dl_tch_queue := [[0xd0, 0x01]] } }

/-- A state in which every lchan is a TCH/F without RTP socket, holding one
queued downlink frame. -/
def state_tch_no_socket : State :=
  { lchan := fun _ =>
      { state := .LCHAN_S_ACTIVE, type := .GSM_LCHAN_TCH_F, dl_tch_queue := [[0xd0, 0x01]] } }

/-- The IEs of a CRCX or MDCX with remote address 10.0.0.9, remote port 5000
and RTP payload type 3. -/
def ipac_remote_ies : tlv_parsed :=
  [(.RSL_IE_IPAC_REMOTE_IP, ⟨4, [10, 0, 0, 9]⟩), (.RSL_IE_IPAC_REMOTE_PORT, ⟨2, [0x13, 0x88]⟩),
   (.RSL_IE_IPAC_RTP_PAYLOAD, ⟨1, [3]⟩)]

/-- The environment `refEnv` with `osmo_rtp_socket_bind` failing. -/
def refEnv_bind_fails : Env := { refEnv with osmo_rtp_socket_bind_rc := -1 }

/-- The environment `refEnv` with `osmo_rtp_socket_connect` failing. -/
def refEnv_connect_fails : Env := { refEnv with osmo_rtp_socket_connect_rc := -1 }

/-- The environment `refEnv` with a BTS that supports no cipher:
`bts_supports_cipher` returns 0 for every algorithm. -/
def refEnv_no_cipher : Env := { refEnv with bts_supports_cipher := fun _ => 0 }

/-- The environment `refEnv` with `bts_supports_cipher` returning an error
code for every algorithm. -/
def refEnv_cipher_error : Env := { refEnv with bts_supports_cipher := fun _ => -95 }

/-- A state in which every lchan is in state NONE on a TCH/F timeslot and
holds the cipher algorithm 2 with the one-byte key 0x11. -/
def state_encr : State :=
  { lchan := fun _ =>
      { encr_alg_id := 2, encr_key_len := 1, encr_key := fun i => if i = 0 then 0x11 else 0 },
    ts := fun _ => { pchan := .GSM_PCHAN_TCH_F } }

/-- An ENCRYPTION COMMAND with encryption information (algorithm 1, two key
bytes), a two-byte L3 message and link identifier 0. -/
def encr_cmd_msg : msgb :=
  rx_msg [(.RSL_IE_ENCR_INFO, ⟨3, [0x01, 0xaa, 0xbb]⟩), (.RSL_IE_L3_INFO, ⟨2, [0x06, 0x35]⟩),
    (.RSL_IE_LINK_IDENT, ⟨1, [0x00]⟩)]

/-- A MODE MODIFY with a speech channel mode and encryption information
(algorithm 1, two key bytes). -/
def mode_modif_encr_msg : msgb :=
  rx_msg [(.RSL_IE_CHAN_MODE, ⟨4, [0x00, 0x01, 0x08, 0x01]⟩),
    (.RSL_IE_ENCR_INFO, ⟨3, [0x01, 0xaa, 0xbb]⟩)]

/-- A CHANNEL ACTIVATION whose SACCH INFO IE holds one message (SI type 5,
two bytes) and nothing else: count, type, length and value fill the five bytes
of the IE exactly. -/
def chan_activ_sacch_exact_msg : msgb :=
  rx_msg [(.RSL_IE_ACT_TYPE, ⟨1, [0x01]⟩), (.RSL_IE_CHAN_MODE, ⟨4, [0x00, 0x01, 0x08, 0x01]⟩),
    (.RSL_IE_SACCH_INFO, ⟨5, [0x01, 0x05, 0x02, 0xaa, 0xbb]⟩)]

/-- The same CHANNEL ACTIVATION with one more byte in the SACCH INFO IE behind
the message. -/
def chan_activ_sacch_slack_msg : msgb :=
  rx_msg [(.RSL_IE_ACT_TYPE, ⟨1, [0x01]⟩), (.RSL_IE_CHAN_MODE, ⟨4, [0x00, 0x01, 0x08, 0x01]⟩),
    (.RSL_IE_SACCH_INFO, ⟨6, [0x01, 0x05, 0x02, 0xaa, 0xbb, 0x00]⟩)]

/-- A CHANNEL ACTIVATION whose SACCH INFO IE holds one message of SI type 1,
which is not a SACCH SI type, followed by one more byte. -/
def chan_activ_sacch_si1_msg : msgb :=
  rx_msg [(.RSL_IE_ACT_TYPE, ⟨1, [0x01]⟩), (.RSL_IE_CHAN_MODE, ⟨4, [0x00, 0x01, 0x08, 0x01]⟩),
    (.RSL_IE_SACCH_INFO, ⟨6, [0x01, 0x01, 0x02, 0xaa, 0xbb, 0x00]⟩)]

/-- A state in which the BTS has valid SACCH filling for SI 5 (sysinfo index
5, buffer filled with 0x55) and SI 5bis (sysinfo index 20, buffer filled with
0x77), and every lchan is in state NONE on a TCH/F timeslot with only the stale
bit of SI 5ter (sysinfo index 21) valid. -/
def state_sacch_filling : State :=
  { bts := { si_valid := 0x100020,
             si_buf := fun t _ => if t = 5 then 0x55 else if t = 20 then 0x77 else 0 },
    lchan := fun _ => { si_valid := 0x200000 },
    ts := fun _ => { pchan := .GSM_PCHAN_TCH_F } }

/-- A CHANNEL ACTIVATION for a full-rate channel (cbits Bm) on timeslot 2. -/
def chan_activ_bm_msg : msgb :=
  rx_msg_nr 0x0a [(.RSL_IE_ACT_TYPE, ⟨1, [0x01]⟩), (.RSL_IE_CHAN_MODE, ⟨4, [0x00, 0x01, 0x08, 0x01]⟩)]

/-- A CHANNEL ACTIVATION for a half-rate channel (cbits Lm) on timeslot 2. -/
def chan_activ_lm_msg : msgb :=
  rx_msg_nr 0x12 [(.RSL_IE_ACT_TYPE, ⟨1, [0x01]⟩), (.RSL_IE_CHAN_MODE, ⟨4, [0x00, 0x01, 0x09, 0x01]⟩)]

/-- A state in which every timeslot is a three-way dynamic timeslot that the
PHY has disconnected (`pchan_is` NONE) on the way to TCH/F, with
`chan_activ_bm_msg` parked on it, and every lchan is in state NONE. -/
def state_dyn_parked : State :=
  { ts := fun _ =>
      { pchan := .GSM_PCHAN_TCH_F_TCH_H_PDCH, dyn_pchan_is := .GSM_PCHAN_NONE,
        dyn_pchan_want := .GSM_PCHAN_TCH_F, dyn_pending_chan_activ := some chan_activ_bm_msg } }

/-- A BCCH INFO for SI2quater whose FULL_BCCH_INFO has the rest octets
01 3f ...: index 0 and count 9 (bit 7 and, in the next octet, bit 10). -/
def bcch_info_si2q_multi_msg : msgb :=
  rx_msg [(.RSL_IE_SYSINFO_TYPE, ⟨1, [0x29]⟩),
    (.RSL_IE_FULL_BCCH_INFO, ⟨6, [0x05, 0x06, 0x07, 0x01, 0x3f, 0x2b]⟩)]

/-- An RLL UNIT DATA IND on the SACCH (link identifier 0x40) from LAPDm whose
layer 3 is an RR MEASUREMENT REPORT. -/
def meas_rep_msg : msgb :=
  { chan_nr := 0x0a, lchan := lchan02, trx := 0, tp := [], msg_discr := 0x02, msg_type := 0x0b,
    link_id := 0x40, l3 := [0x06, 0x15, 0xa1, 0xa2] }

/-- The same message on the main signalling link (link identifier 0). -/
def unit_data_dcch_msg : msgb := { meas_rep_msg with link_id := 0x00 }

/-- A state in which every lchan is active, with valid uplink measurement
results 0x11 0x22 and MEAS RES number 7. -/
def state_meas : State :=
  { lchan := fun _ =>
      { state := .LCHAN_S_ACTIVE, meas_flags := 0x02, meas_ul_res := [0x11, 0x22],
        meas_res_nr := 7, meas_bts_tx_pwr := 3 } }

/-! ## Theorems -/

/-- Low bits of a byte-sized OR of a value shifted left by five. -/
theorem shl5_or_mod_256 (a b : Nat) (hb : b < 2 ^ 8) :
    ((a <<< 5) ||| b) % 2 ^ 8 = (((a &&& 7) <<< 5) ||| b) := by
  have h7 : a &&& 7 = a % 2 ^ 3 := Nat.and_pow_two_sub_one_eq_mod a 3
  apply Nat.eq_of_testBit_eq
  intro i
  rw [h7]
  simp only [Nat.testBit_mod_two_pow, Nat.testBit_or, Nat.testBit_shiftLeft]
  by_cases h8 : i < 8
  · by_cases h5 : i ≥ 5
    · have : i - 5 < 3 := by omega
      simp [h8, h5, this]
    · simp [h8, h5]
  · have hbi : b.testBit i = false :=
      Nat.testBit_lt_two_pow (lt_of_lt_of_le hb (Nat.pow_le_pow_right (by decide) (by omega)))
    have : ¬ (i - 5 < 3) := by omega
    simp [h8, hbi, this]

/-- Five bits shifted left by three and three low bits fit a byte. -/
theorem shl3_or_lt_256 (a b : Nat) (ha : a < 32) (hb : b < 32) :
    ((a <<< 3) ||| b) < 2 ^ 8 := by
  apply Nat.or_lt_two_pow
  · rw [Nat.shiftLeft_eq]; omega
  · omega

/-- Unpacking a 5+3 bit field. -/
theorem unpack_5_3 : ∀ a < 32, ∀ b < 8,
    ((a <<< 3) ||| b) >>> 3 = a ∧ ((a <<< 3) ||| b) &&& 7 = b := by
  decide

/-- Unpacking a 3+5 bit field from the low byte. -/
theorem unpack_3_5 : ∀ a < 8, ∀ b < 32,
    ((a <<< 5) ||| b) >>> 5 = a ∧ ((a <<< 5) ||| b) &&& 0x1F = b := by
  decide

/-- Splitting a six-bit number into its high and low three bits. -/
theorem split_6 : ∀ t < 64, ((t >>> 3) <<< 3) ||| (t &&& 7) = t ∧ t >>> 3 < 8 ∧ t &&& 7 < 8 := by
  decide

/-! ### C1, C2: starting time -/

/-- C1: for every `gsm_time` whose fields fit their C types,
`gsm48_gen_starting_time` writes exactly the two cells `out[0]` and `out[1]`:
`out[0] = ((t1 mod 32) << 3) | (t3 >> 3)` and
`out[1] = ((t3 & 7) << 5) | t2`, both of which are 8-bit values; every other
cell of `out` keeps its content. -/
theorem C1_gen_starting_time_bytes (out : Nat → Nat) (g : gsm_time) (h : g.wf) :
    gsm48_gen_starting_time out g 0 = (((g.t1 % 32) <<< 3) ||| (g.t3 >>> 3)) ∧
    gsm48_gen_starting_time out g 1 = (((g.t3 &&& 7) <<< 5) ||| g.t2) ∧
    gsm48_gen_starting_time out g 0 < 2 ^ 8 ∧
    gsm48_gen_starting_time out g 1 < 2 ^ 8 ∧
    ∀ i, 2 ≤ i → gsm48_gen_starting_time out g i = out i := by
  obtain ⟨_, h2, h3⟩ := h
  have hs : g.t3 >>> 3 < 32 := by
    rw [Nat.shiftRight_eq_div_pow]
    have : g.t3 < 256 := h3
    omega
  have h0 : gsm48_gen_starting_time out g 0 = (((g.t1 % 32) <<< 3) ||| (g.t3 >>> 3)) := by
    have hlt := shl3_or_lt_256 (g.t1 % 32) (g.t3 >>> 3) (Nat.mod_lt _ (by decide)) hs
    have h32 : g.t1 % 32 % 2 ^ 8 = g.t1 % 32 := Nat.mod_eq_of_lt (by omega)
    simp only [gsm48_gen_starting_time, if_true, h32]
    exact Nat.mod_eq_of_lt hlt
  have h1 : gsm48_gen_starting_time out g 1 = (((g.t3 &&& 7) <<< 5) ||| g.t2) := by
    simp only [gsm48_gen_starting_time, one_ne_zero, if_false, if_true]
    exact shl5_or_mod_256 g.t3 g.t2 h2
  refine ⟨h0, h1, ?_, ?_, ?_⟩
  · simp only [gsm48_gen_starting_time, if_true]
    exact Nat.mod_lt _ (by decide)
  · simp only [gsm48_gen_starting_time, one_ne_zero, if_false, if_true]
    exact Nat.mod_lt _ (by decide)
  · intro i hi
    have e0 : i ≠ 0 := by omega
    have e1 : i ≠ 1 := by omega
    simp only [gsm48_gen_starting_time, e0, e1, if_false]

/-- C1 at the frame time T1 = 1234, T2 = 5, T3 = 17. -/
theorem C1_gen_starting_time_bytes_witness :
    (⟨1234, 5, 17⟩ : gsm_time).wf ∧
    gsm48_gen_starting_time (fun _ => 0) ⟨1234, 5, 17⟩ 0 = 146 ∧
    gsm48_gen_starting_time (fun _ => 0) ⟨1234, 5, 17⟩ 1 = 37 :=
  ⟨by decide,
   (C1_gen_starting_time_bytes (fun _ => 0) ⟨1234, 5, 17⟩ (by decide)).1.trans (by decide),
   (C1_gen_starting_time_bytes (fun _ => 0) ⟨1234, 5, 17⟩ (by decide)).2.1.trans (by decide)⟩

/-- C2: starting-time round trip.  For every T1 and every T2 in [0,26) and
T3 in [0,51), decoding the two octets written by `gsm48_gen_starting_time`
yields (T1 mod 32, T2, T3); hence two times in that range with the same octets
agree on (T1 mod 32, T2, T3). -/
theorem C2_starting_time_roundtrip (out : Nat → Nat) (g : gsm_time)
    (h2 : g.t2 < 26) (h3 : g.t3 < 51) :
    starting_time_decode (gsm48_gen_starting_time out g 0) (gsm48_gen_starting_time out g 1)
      = (g.t1 % 32, g.t2, g.t3) ∧
    ∀ (out' : Nat → Nat) (g' : gsm_time), g'.t2 < 26 → g'.t3 < 51 →
      gsm48_gen_starting_time out' g' 0 = gsm48_gen_starting_time out g 0 →
      gsm48_gen_starting_time out' g' 1 = gsm48_gen_starting_time out g 1 →
      (g'.t1 % 32, g'.t2, g'.t3) = (g.t1 % 32, g.t2, g.t3) := by
  have key : ∀ (o : Nat → Nat) (k : gsm_time), k.t2 < 26 → k.t3 < 51 →
      starting_time_decode (gsm48_gen_starting_time o k 0) (gsm48_gen_starting_time o k 1)
        = (k.t1 % 32, k.t2, k.t3) := by
    intro o k k2 k3
    have hs : k.t3 >>> 3 < 8 := (split_6 k.t3 (by omega)).2.1
    have hl : k.t3 &&& 7 < 8 := (split_6 k.t3 (by omega)).2.2
    have h32 : k.t1 % 32 % 2 ^ 8 = k.t1 % 32 := Nat.mod_eq_of_lt (by omega)
    have e0 : gsm48_gen_starting_time o k 0 = (((k.t1 % 32) <<< 3) ||| (k.t3 >>> 3)) := by
      simp only [gsm48_gen_starting_time, if_true, h32]
      exact Nat.mod_eq_of_lt
        (shl3_or_lt_256 _ _ (Nat.mod_lt _ (by decide)) (by omega))
    have e1 : gsm48_gen_starting_time o k 1 = (((k.t3 &&& 7) <<< 5) ||| k.t2) := by
      simp only [gsm48_gen_starting_time, one_ne_zero, if_false, if_true]
      exact shl5_or_mod_256 k.t3 k.t2 (by omega)
    have u0 := unpack_5_3 (k.t1 % 32) (Nat.mod_lt _ (by decide)) (k.t3 >>> 3) hs
    have u1 := unpack_3_5 (k.t3 &&& 7) hl k.t2 (by omega)
    rw [e0, e1]
    simp only [starting_time_decode, u0.1, u0.2, u1.1, u1.2, (split_6 k.t3 (by omega)).1]
  refine ⟨key out g h2 h3, ?_⟩
  intro out' g' h2' h3' e0 e1
  rw [← key out' g' h2' h3', e0, e1, key out g h2 h3]

/-- C2 at the frame time T1 = 1234, T2 = 5, T3 = 17. -/
theorem C2_starting_time_roundtrip_witness :
    starting_time_decode (gsm48_gen_starting_time (fun _ => 0) ⟨1234, 5, 17⟩ 0)
      (gsm48_gen_starting_time (fun _ => 0) ⟨1234, 5, 17⟩ 1) = (1234 % 32, 5, 17) :=
  (C2_starting_time_roundtrip (fun _ => 0) ⟨1234, 5, 17⟩ (by decide) (by decide)).1

/-! ### C3, C4: CHANNEL ACTIVATION that is refused before any IE is applied -/

/-- What `rsl_tx_chan_act_acknack` does for a cause other than 0: the data of
the BTS is untouched and the trace grows by one NACK when `rel_act_kind` is
RSL and a buffer is available, and by nothing otherwise. -/
theorem acknack_nonzero (E : Env) (s : State) (l : LchanId) (cause : Nat) (hc : cause ≠ 0) :
    (rsl_tx_chan_act_acknack E s l cause).1.bts = s.bts ∧
    (rsl_tx_chan_act_acknack E s l cause).1.ts = s.ts ∧
    (rsl_tx_chan_act_acknack E s l cause).1.lchan = s.lchan ∧
    (rsl_tx_chan_act_acknack E s l cause).1.trace = s.trace ++
      (if (s.lchan l).rel_act_kind = .LCHAN_REL_ACT_RSL ∧ E.msgb_alloc_ok = true then
        [Event.abis_bts_rsl_sendmsg (chan_act_nack_msg E s l cause)] else []) := by
  unfold rsl_tx_chan_act_acknack rsl_tx_chan_act_nack
  by_cases hk : (s.lchan l).rel_act_kind = .LCHAN_REL_ACT_RSL
  · cases ha : E.msgb_alloc_ok <;> simp [hk, hc, ha, State.emit]
  · simp [hk]

/-- C3 (as amended): for every lchan whose state is not NONE, a received
CHANNEL ACTIVATION changes no field of the BTS, of any timeslot or of any lchan
and makes no call to the PHY; when `rel_act_kind` of the lchan is RSL (and a
message buffer is available) it sends exactly one CHAN ACT NACK with cause
EQUIPMENT_FAIL, and when `rel_act_kind` is not RSL it sends nothing and
returns 0.  The cause value EQUIPMENT_FAIL is not 0. -/
theorem C3_chan_activ_busy_lchan (E : Env) (s : State) (msg : msgb)
    (hst : (s.lchan msg.lchan).state ≠ .LCHAN_S_NONE)
    (hc : E.RSL_ERR_EQUIPMENT_FAIL ≠ 0) :
    (rsl_rx_chan_activ E s msg).1.bts = s.bts ∧
    (rsl_rx_chan_activ E s msg).1.ts = s.ts ∧
    (rsl_rx_chan_activ E s msg).1.lchan = s.lchan ∧
    (rsl_rx_chan_activ E s msg).1.trace = s.trace ++
      (if (s.lchan msg.lchan).rel_act_kind = .LCHAN_REL_ACT_RSL ∧ E.msgb_alloc_ok = true then
        [Event.abis_bts_rsl_sendmsg
          (chan_act_nack_msg E s msg.lchan E.RSL_ERR_EQUIPMENT_FAIL)] else []) ∧
    ((s.lchan msg.lchan).rel_act_kind ≠ .LCHAN_REL_ACT_RSL →
      (rsl_rx_chan_activ E s msg).2 = 0) := by
  have h : rsl_rx_chan_activ E s msg =
      rsl_tx_chan_act_acknack E s msg.lchan E.RSL_ERR_EQUIPMENT_FAIL := by
    unfold rsl_rx_chan_activ
    simp [hst]
  rw [h]
  obtain ⟨h1, h2, h3, h4⟩ := acknack_nonzero E s msg.lchan _ hc
  refine ⟨h1, h2, h3, h4, ?_⟩
  intro hk
  simp [rsl_tx_chan_act_acknack, hk]

/-- C3 on an ACTIVE lchan with `rel_act_kind` RSL: one NACK with cause
EQUIPMENT_FAIL (0x20) is sent. -/
theorem C3_chan_activ_busy_lchan_witness :
    (rsl_rx_chan_activ refEnv
      (state_with .LCHAN_S_ACTIVE .LCHAN_REL_ACT_RSL .GSM_PCHAN_TCH_F)
      (rx_msg [])).1.trace =
    [] ++ [Event.abis_bts_rsl_sendmsg
      (chan_act_nack_msg refEnv (state_with .LCHAN_S_ACTIVE .LCHAN_REL_ACT_RSL .GSM_PCHAN_TCH_F)
        lchan02 0x20)] :=
  (C3_chan_activ_busy_lchan refEnv
    (state_with .LCHAN_S_ACTIVE .LCHAN_REL_ACT_RSL .GSM_PCHAN_TCH_F) (rx_msg [])
    (by decide) (by decide)).2.2.2.1

/-- C3 fails as stated: an ACTIVE lchan whose `rel_act_kind` is PCU receives a
CHANNEL ACTIVATION, and no message at all is sent to the BSC. -/
theorem C3_counterexample :
    ((state_with .LCHAN_S_ACTIVE .LCHAN_REL_ACT_PCU .GSM_PCHAN_PDCH).lchan
      (rx_msg []).lchan).state ≠ .LCHAN_S_NONE ∧
    sent (rsl_rx_chan_activ refEnv
      (state_with .LCHAN_S_ACTIVE .LCHAN_REL_ACT_PCU .GSM_PCHAN_PDCH)
      (rx_msg [])).1.trace = [] := by
  decide

/-- The lchan after the assignments under "Initialize channel defaults" in
`rsl_rx_chan_activ`. -/
theorem chan_activ_no_act_type (E : Env) (s : State) (msg : msgb)
    (hst : (s.lchan msg.lchan).state = .LCHAN_S_NONE)
    (hp : (s.ts msg.lchan.ts).pchan ≠ .GSM_PCHAN_TCH_F_TCH_H_PDCH)
    (hie : TLVP_PRESENT msg.tp .RSL_IE_ACT_TYPE = false) :
    rsl_rx_chan_activ E s msg =
      rsl_tx_chan_act_acknack E
        (s.setLchan msg.lchan { s.lchan msg.lchan with
          ms_power := to_u8 (E.ms_pwr_ctl_lvl s.bts.band 0),
          ms_power_ctrl_current := to_u8 (E.ms_pwr_ctl_lvl s.bts.band 0),
          ms_power_ctrl_fixed := 0 })
        msg.lchan E.RSL_ERR_MAND_IE_ERROR := by
  unfold rsl_rx_chan_activ
  simp [hst, hp, hie, chan_activ_dyn_want, chan_activ_defaults]

/-- C4 (as amended): for every lchan in state NONE on a timeslot that is not
three-way dynamic, a CHANNEL ACTIVATION without ACT_TYPE IE makes no call to
the PHY and leaves the lchan state NONE (of the lchan, only `ms_power` and
`ms_power_ctrl` are written); when `rel_act_kind` is RSL (and a message
buffer is available) exactly one CHAN ACT NACK with cause MAND_IE_ERROR is
sent, and when `rel_act_kind` is not RSL nothing is sent.  The cause value
MAND_IE_ERROR is not 0. -/
theorem C4_chan_activ_no_act_type (E : Env) (s : State) (msg : msgb)
    (hst : (s.lchan msg.lchan).state = .LCHAN_S_NONE)
    (hp : (s.ts msg.lchan.ts).pchan ≠ .GSM_PCHAN_TCH_F_TCH_H_PDCH)
    (hie : TLVP_PRESENT msg.tp .RSL_IE_ACT_TYPE = false)
    (hc : E.RSL_ERR_MAND_IE_ERROR ≠ 0) :
    (rsl_rx_chan_activ E s msg).1.trace = s.trace ++
      (if (s.lchan msg.lchan).rel_act_kind = .LCHAN_REL_ACT_RSL ∧ E.msgb_alloc_ok = true then
        [Event.abis_bts_rsl_sendmsg
          (chan_act_nack_msg E s msg.lchan E.RSL_ERR_MAND_IE_ERROR)] else []) ∧
    ((rsl_rx_chan_activ E s msg).1.lchan msg.lchan).state = .LCHAN_S_NONE ∧
    (rsl_rx_chan_activ E s msg).1.lchan msg.lchan =
      { s.lchan msg.lchan with
        ms_power := to_u8 (E.ms_pwr_ctl_lvl s.bts.band 0),
        ms_power_ctrl_current := to_u8 (E.ms_pwr_ctl_lvl s.bts.band 0),
        ms_power_ctrl_fixed := 0 } ∧
    (∀ k, k ≠ msg.lchan → (rsl_rx_chan_activ E s msg).1.lchan k = s.lchan k) ∧
    (rsl_rx_chan_activ E s msg).1.ts = s.ts ∧
    (rsl_rx_chan_activ E s msg).1.bts = s.bts := by
  rw [chan_activ_no_act_type E s msg hst hp hie]
  obtain ⟨h1, h2, h3, h4⟩ := acknack_nonzero E
    (s.setLchan msg.lchan { s.lchan msg.lchan with
      ms_power := to_u8 (E.ms_pwr_ctl_lvl s.bts.band 0),
      ms_power_ctrl_current := to_u8 (E.ms_pwr_ctl_lvl s.bts.band 0),
      ms_power_ctrl_fixed := 0 }) msg.lchan _ hc
  rw [h1, h2, h3, h4]
  refine ⟨?_, ?_, ?_, ?_, rfl, rfl⟩
  · simp [State.setLchan, chan_act_nack_msg]
  · simp [State.setLchan, hst]
  · simp [State.setLchan]
  · intro k hk
    simp [State.setLchan, hk]

/-- C4 on a TCH/F lchan in state NONE with `rel_act_kind` RSL: one NACK with
cause MAND_IE_ERROR (0x64) is sent and the state stays NONE. -/
theorem C4_chan_activ_no_act_type_witness :
    sent (rsl_rx_chan_activ refEnv
      (state_with .LCHAN_S_NONE .LCHAN_REL_ACT_RSL .GSM_PCHAN_TCH_F)
      (rx_msg [])).1.trace =
      [chan_act_nack_msg refEnv (state_with .LCHAN_S_NONE .LCHAN_REL_ACT_RSL .GSM_PCHAN_TCH_F)
        lchan02 0x64] ∧
    ((rsl_rx_chan_activ refEnv
      (state_with .LCHAN_S_NONE .LCHAN_REL_ACT_RSL .GSM_PCHAN_TCH_F)
      (rx_msg [])).1.lchan lchan02).state = .LCHAN_S_NONE :=
  ⟨by
    rw [(C4_chan_activ_no_act_type refEnv
      (state_with .LCHAN_S_NONE .LCHAN_REL_ACT_RSL .GSM_PCHAN_TCH_F) (rx_msg [])
      (by decide) (by decide) (by decide) (by decide)).1]
    decide,
   (C4_chan_activ_no_act_type refEnv
      (state_with .LCHAN_S_NONE .LCHAN_REL_ACT_RSL .GSM_PCHAN_TCH_F) (rx_msg [])
      (by decide) (by decide) (by decide) (by decide)).2.1⟩

/-- C4 fails as stated: a PDCH lchan in state NONE whose `rel_act_kind` is PCU
receives a CHANNEL ACTIVATION without ACT_TYPE, and no NACK is sent. -/
theorem C4_counterexample :
    ((state_with .LCHAN_S_NONE .LCHAN_REL_ACT_PCU .GSM_PCHAN_PDCH).lchan lchan02).state
      = .LCHAN_S_NONE ∧
    ((state_with .LCHAN_S_NONE .LCHAN_REL_ACT_PCU .GSM_PCHAN_PDCH).ts lchan02.ts).pchan
      = .GSM_PCHAN_PDCH ∧
    TLVP_PRESENT (rx_msg []).tp .RSL_IE_ACT_TYPE = false ∧
    sent (rsl_rx_chan_activ refEnv
      (state_with .LCHAN_S_NONE .LCHAN_REL_ACT_PCU .GSM_PCHAN_PDCH)
      (rx_msg [])).1.trace = [] := by
  decide

/-! ### C5: missing mandatory IEs -/

/-- C5 (as amended): when a message buffer is available, every inbound message
that lacks one of its declared mandatory IEs is answered with exactly one NACK
or ERROR REPORT of cause MAND_IE_ERROR, and the BTS, timeslot and lchan data
after the handler are those before it, with these provisos: SACCH INFO MODIFY
carries no STARTING_TIME IE; the TLV parse of ENCRYPTION COMMAND succeeded;
CHANNEL ACTIVATION is taken in lchan state NONE with `rel_act_kind` RSL on a
timeslot that is not three-way dynamic, CHAN_MODE is mandatory only for an
activation type other than OSMO_PDCH, and CHANNEL ACTIVATION has by then reset
`ms_power`, `ms_power_ctrl.current` and `ms_power_ctrl.fixed` of the lchan to
their defaults.  MODE MODIFY also releases the received message, and its NACK
is handed to `abis_bts_rsl_sendmsg` without `msg->trx`.  The cause value
MAND_IE_ERROR is not 0. -/
theorem C5_missing_mandatory_ie (E : Env) (s : State) (trx : Nat) (msg : msgb)
    (halloc : E.msgb_alloc_ok = true) (hc : E.RSL_ERR_MAND_IE_ERROR ≠ 0) :
    (TLVP_PRESENT msg.tp .RSL_IE_SYSINFO_TYPE = false →
      rsl_rx_bcch_info E s trx msg =
        (s.emit (.abis_bts_rsl_sendmsg (error_report_msg trx E.RSL_ERR_MAND_IE_ERROR)),
         E.abis_bts_rsl_sendmsg_rc)) ∧
    (TLVP_PRESENT msg.tp .RSL_IE_SYSINFO_TYPE = false →
      rsl_rx_sacch_fill E s trx msg =
        (s.emit (.abis_bts_rsl_sendmsg (error_report_msg trx E.RSL_ERR_MAND_IE_ERROR)),
         E.abis_bts_rsl_sendmsg_rc)) ∧
    (TLVP_PRESENT msg.tp .RSL_IE_SYSINFO_TYPE = false →
      TLVP_PRESENT msg.tp .RSL_IE_STARTNG_TIME = false →
      rsl_rx_sacch_inf_mod E s msg =
        (s.emit (.abis_bts_rsl_sendmsg (error_report_msg msg.trx E.RSL_ERR_MAND_IE_ERROR)),
         E.abis_bts_rsl_sendmsg_rc)) ∧
    (TLVP_PRESENT msg.tp .RSL_IE_PAGING_GROUP = false ∨
        TLVP_PRESENT msg.tp .RSL_IE_MS_IDENTITY = false →
      rsl_rx_paging_cmd E s trx msg =
        (s.emit (.abis_bts_rsl_sendmsg (error_report_msg trx E.RSL_ERR_MAND_IE_ERROR)),
         E.abis_bts_rsl_sendmsg_rc)) ∧
    (TLVP_PRESENT msg.tp .RSL_IE_CB_CMD_TYPE = false ∨
        TLVP_PRESENT msg.tp .RSL_IE_SMSCB_MSG = false →
      rsl_rx_sms_bcast_cmd E s trx msg =
        (s.emit (.abis_bts_rsl_sendmsg (error_report_msg trx E.RSL_ERR_MAND_IE_ERROR)),
         E.abis_bts_rsl_sendmsg_rc)) ∧
    (TLVP_PRESENT msg.tp .RSL_IE_FULL_IMM_ASS_INFO = false →
      rsl_rx_imm_ass E s trx msg =
        (s.emit (.abis_bts_rsl_sendmsg (error_report_msg trx E.RSL_ERR_MAND_IE_ERROR)),
         E.abis_bts_rsl_sendmsg_rc)) ∧
    (TLVP_PRESENT msg.tp .RSL_IE_ENCR_INFO = false ∨
        TLVP_PRESENT msg.tp .RSL_IE_L3_INFO = false ∨
        TLVP_PRESENT msg.tp .RSL_IE_LINK_IDENT = false →
      0 ≤ msg.tlv_rc →
      rsl_rx_encr_cmd E s msg =
        (s.emit (.abis_bts_rsl_sendmsg (error_report_msg msg.trx E.RSL_ERR_MAND_IE_ERROR)),
         E.abis_bts_rsl_sendmsg_rc)) ∧
    (TLVP_PRESENT msg.tp .RSL_IE_CHAN_MODE = false →
      rsl_rx_mode_modif E s msg =
        ((s.emit .msgb_free).emit (.abis_bts_rsl_sendmsg
            (mode_modif_nack_msg E s msg.lchan E.RSL_ERR_MAND_IE_ERROR)),
         E.abis_bts_rsl_sendmsg_rc)) ∧
    ((s.lchan msg.lchan).state = .LCHAN_S_NONE →
      (s.lchan msg.lchan).rel_act_kind = .LCHAN_REL_ACT_RSL →
      (s.ts msg.lchan.ts).pchan ≠ .GSM_PCHAN_TCH_F_TCH_H_PDCH →
      (TLVP_PRESENT msg.tp .RSL_IE_ACT_TYPE = false ∨
        ((TLVP msg.tp .RSL_IE_ACT_TYPE).byte 0 ≠ E.RSL_ACT_OSMO_PDCH ∧
          TLVP_PRESENT msg.tp .RSL_IE_CHAN_MODE = false)) →
      rsl_rx_chan_activ E s msg =
        ((s.setLchan msg.lchan { s.lchan msg.lchan with
            ms_power := to_u8 (E.ms_pwr_ctl_lvl s.bts.band 0),
            ms_power_ctrl_current := to_u8 (E.ms_pwr_ctl_lvl s.bts.band 0),
            ms_power_ctrl_fixed := 0 }).emit
          (.abis_bts_rsl_sendmsg (chan_act_nack_msg E s msg.lchan E.RSL_ERR_MAND_IE_ERROR)),
         E.abis_bts_rsl_sendmsg_rc)) := by
  refine ⟨?_, ?_, ?_, ?_, ?_, ?_, ?_, ?_, ?_⟩
  · intro h
    simp [rsl_rx_bcch_info, rsl_tx_error_report, h, halloc]
  · intro h
    simp [rsl_rx_sacch_fill, rsl_tx_error_report, h, halloc]
  · intro h h'
    simp [rsl_rx_sacch_inf_mod, rsl_tx_error_report, h, h', halloc]
  · intro h
    simp [rsl_rx_paging_cmd, rsl_tx_error_report, h, halloc]
  · intro h
    simp [rsl_rx_sms_bcast_cmd, rsl_tx_error_report, h, halloc]
  · intro h
    simp [rsl_rx_imm_ass, rsl_tx_error_report, h, halloc]
  · intro h h'
    have : ¬ msg.tlv_rc < 0 := by omega
    simp [rsl_rx_encr_cmd, rsl_tx_error_report, h, this, halloc]
  · intro h
    simp [rsl_rx_mode_modif, rsl_tx_mode_modif_nack, h, halloc, State.emit,
      mode_modif_nack_msg]
  · intro hst hk hp h
    have hk' : ((s.setLchan msg.lchan { s.lchan msg.lchan with
            ms_power := to_u8 (E.ms_pwr_ctl_lvl s.bts.band 0),
            ms_power_ctrl_current := to_u8 (E.ms_pwr_ctl_lvl s.bts.band 0),
            ms_power_ctrl_fixed := 0 }).lchan msg.lchan).rel_act_kind
          = .LCHAN_REL_ACT_RSL := by
      simp [State.setLchan, hk]
    have key : rsl_rx_chan_activ E s msg =
        rsl_tx_chan_act_acknack E
          (s.setLchan msg.lchan { s.lchan msg.lchan with
            ms_power := to_u8 (E.ms_pwr_ctl_lvl s.bts.band 0),
            ms_power_ctrl_current := to_u8 (E.ms_pwr_ctl_lvl s.bts.band 0),
            ms_power_ctrl_fixed := 0 })
          msg.lchan E.RSL_ERR_MAND_IE_ERROR := by
      rcases h with h | ⟨h1, h2⟩
      · exact chan_activ_no_act_type E s msg hst hp h
      · unfold rsl_rx_chan_activ
        simp [hst, hp, h1, h2, chan_activ_dyn_want, chan_activ_defaults]
    rw [key]
    unfold rsl_tx_chan_act_acknack rsl_tx_chan_act_nack
    simp only [hk', ne_eq, not_true_eq_false, if_false, hc, not_false_eq_true, if_true, halloc]
    simp [State.setLchan, State.emit, chan_act_nack_msg]

/-- C5 on a message without any IE: BCCH INFO is answered with one ERROR
REPORT of cause MAND_IE_ERROR (0x64) and the state is only extended by that
message. -/
theorem C5_missing_mandatory_ie_witness :
    rsl_rx_bcch_info refEnv (state_with .LCHAN_S_NONE .LCHAN_REL_ACT_RSL .GSM_PCHAN_TCH_F) 0
        (rx_msg []) =
      ((state_with .LCHAN_S_NONE .LCHAN_REL_ACT_RSL .GSM_PCHAN_TCH_F).emit
        (.abis_bts_rsl_sendmsg (error_report_msg 0 0x64)), 0) :=
  (C5_missing_mandatory_ie refEnv (state_with .LCHAN_S_NONE .LCHAN_REL_ACT_RSL .GSM_PCHAN_TCH_F)
    0 (rx_msg []) (by decide) (by decide)).1 (by decide)

/-- C5 fails as stated: a CHANNEL ACTIVATION without ACT_TYPE on a TCH/F lchan
in state NONE is answered with one CHAN ACT NACK of cause MAND_IE_ERROR, yet
`ms_power_ctrl.fixed` of the lchan, 1 before the handler, is 0 after it. -/
theorem C5_counterexample :
    TLVP_PRESENT (rx_msg []).tp .RSL_IE_ACT_TYPE = false ∧
    sent (rsl_rx_chan_activ refEnv
      (state_with .LCHAN_S_NONE .LCHAN_REL_ACT_RSL .GSM_PCHAN_TCH_F)
      (rx_msg [])).1.trace =
      [chan_act_nack_msg refEnv (state_with .LCHAN_S_NONE .LCHAN_REL_ACT_RSL .GSM_PCHAN_TCH_F)
        lchan02 refEnv.RSL_ERR_MAND_IE_ERROR] ∧
    ((state_with .LCHAN_S_NONE .LCHAN_REL_ACT_RSL .GSM_PCHAN_TCH_F).lchan
      lchan02).ms_power_ctrl_fixed = 1 ∧
    ((rsl_rx_chan_activ refEnv
      (state_with .LCHAN_S_NONE .LCHAN_REL_ACT_RSL .GSM_PCHAN_TCH_F)
      (rx_msg [])).1.lchan lchan02).ms_power_ctrl_fixed = 0 ∧
    (rsl_rx_chan_activ refEnv
      (state_with .LCHAN_S_NONE .LCHAN_REL_ACT_RSL .GSM_PCHAN_TCH_F)
      (rx_msg [])).1.lchan ≠
      (state_with .LCHAN_S_NONE .LCHAN_REL_ACT_RSL .GSM_PCHAN_TCH_F).lchan := by
  refine ⟨by decide, by decide, by decide, by decide, ?_⟩
  intro h
  have h2 := congrArg (fun f => (f lchan02).ms_power_ctrl_fixed) h
  revert h2
  decide

/-! ### C6: partition of the SI types between BCCH and SACCH -/

/-- The loop of `osmo_in_array` decides membership in the array. -/
theorem osmo_in_array_iff (x : Nat) (arr : List Nat) :
    osmo_in_array x arr = true ↔ x ∈ arr := by
  induction arr with
  | nil => simp [osmo_in_array]
  | cons a arr ih =>
    unfold osmo_in_array
    by_cases h : a = x
    · simp [h]
    · simp only [h, if_false, ih, List.mem_cons]
      constructor
      · intro hx; exact Or.inr hx
      · rintro (hx | hx)
        · exact absurd hx.symm h
        · exact hx

/-- A bit above the width of a number is clear. -/
theorem testBit_of_lt_of_le {v n j : Nat} (hv : v < 2 ^ n) (hj : n ≤ j) : v.testBit j = false :=
  Nat.testBit_lt_two_pow (lt_of_lt_of_le hv (Nat.pow_le_pow_right (by decide) hj))

/-- Bits of a `uint32_t` after `v |= (1 << k)`. -/
theorem testBit_or_shl (v k j : Nat) (hv : v < 2 ^ 32) (hk : k < 32) :
    ((v ||| (1 <<< k)) % 2 ^ 32).testBit j = (v.testBit j || decide (k = j)) := by
  rw [Nat.testBit_mod_two_pow, Nat.testBit_or, Nat.one_shiftLeft, Nat.testBit_two_pow]
  by_cases hj : j < 32
  · simp [hj]
  · have h1 : v.testBit j = false := testBit_of_lt_of_le hv (by omega)
    have h2 : ¬ k = j := by omega
    simp [hj, h1, h2]

/-- Bits of a `uint32_t` after `v &= ~x` for an `int` operand `x`. -/
theorem testBit_and_not32 (v x j : Nat) (hv : v < 2 ^ 32) :
    (v &&& not32 x).testBit j = (v.testBit j && !(x.testBit j)) := by
  unfold not32
  rw [Nat.testBit_and, Nat.testBit_xor, Nat.testBit_mod_two_pow, Nat.testBit_two_pow_sub_one]
  by_cases hj : j < 32
  · simp [hj]
  · have h1 : v.testBit j = false := testBit_of_lt_of_le hv (by omega)
    simp [h1]

/-- Bytes of a buffer after `memset(buf, c, n)` followed by
`memcpy(buf, src, len)`. -/
theorem memcpy_memset_apply (b src : Nat → Nat) (c n len i : Nat) :
    memcpy (memset b 0 c n) 0 src len i =
      if i < len then src i else if i < n then c else b i := by
  unfold memcpy memset
  by_cases h1 : i < len
  · simp [h1]
  · by_cases h2 : i < n
    · simp [h1, h2]
    · simp [h1, h2]

/-- Bytes of a buffer after the four statements of `sacch_store`. -/
theorem sacch_store_apply (E : Env) (b src : Nat → Nat) (len i : Nat)
    (h : len ≤ E.SYSINFO_BUF - 2) :
    sacch_store E b src len i =
      if i = 0 then 0x03 else if i = 1 then 0x03
      else if i < 2 + len then src (i - 2)
      else if i < E.SYSINFO_BUF then 0x2b else b i := by
  unfold sacch_store memcpy memset poke
  by_cases h0 : i = 0
  · simp [h0]
  · by_cases h1 : i = 1
    · simp [h1]
    · have h2 : 2 ≤ i := by omega
      by_cases h3 : i < 2 + len
      · simp [h0, h1, h2, h3]
      · by_cases h4 : i < E.SYSINFO_BUF
        · have h5 : i < 2 + (E.SYSINFO_BUF - 2) := by omega
          simp [h0, h1, h2, h3, h4, h5]
        · have h5 : ¬ i < 2 + (E.SYSINFO_BUF - 2) := by omega
          simp [h0, h1, h2, h3, h4, h5]

/-- The messages of a trace that ends in a sent message. -/
theorem sent_append (a b : List Event) : sent (a ++ b) = sent a ++ sent b := by
  induction a with
  | nil => rfl
  | cons e a ih => cases e <;> simp [sent, ih]

/-- What `bcch_store` leaves in the BTS: bit `k` set, the other bits as
before, buffer `k` holding the first `len` bytes of the payload and 0x2b up to
the end of the buffer, nothing else written. -/
theorem bcch_store_spec (E : Env) (bts : gsm_bts) (k : Nat) (e : tlv_p_entry) (len : Nat)
    (hk : k < 32) (hv : bts.si_valid < 2 ^ 32) :
    (bcch_store E bts k e len).si_valid.testBit k = true ∧
    (∀ j, j ≠ k → (bcch_store E bts k e len).si_valid.testBit j = bts.si_valid.testBit j) ∧
    (∀ i, (bcch_store E bts k e len).si_buf k i =
      if i < len then e.byte i else if i < E.SYSINFO_BUF then 0x2b else bts.si_buf k i) ∧
    (∀ k', k' ≠ k → (bcch_store E bts k e len).si_buf k' = bts.si_buf k') := by
  refine ⟨?_, ?_, ?_, ?_⟩
  · show ((bts.si_valid ||| (1 <<< k)) % 2 ^ 32).testBit k = true
    rw [testBit_or_shl _ _ _ hv hk]
    simp
  · intro j hj
    have : ¬ k = j := fun h => hj h.symm
    show ((bts.si_valid ||| (1 <<< k)) % 2 ^ 32).testBit j = bts.si_valid.testBit j
    rw [testBit_or_shl _ _ _ hv hk]
    simp [this]
  · intro i
    simp only [bcch_store, setBuf, if_true]
    exact memcpy_memset_apply _ _ _ _ _ _
  · intro k' hk'
    simp [bcch_store, setBuf, hk']

/-- The first `n` cells of a buffer that holds `len` payload bytes and then
padding, as a list: the payload cut to `n` bytes, then the padding. -/
theorem padded_buffer_list (buf : Nat → Nat) (p : List Nat) (n len c : Nat)
    (hlen : len = min p.length n)
    (hb : ∀ i, i < n → buf i = if i < len then p.getD i 0 else c) :
    (List.range n).map buf = p.take n ++ List.replicate (n - min p.length n) c := by
  apply List.ext_getElem
  · simp; omega
  · intro i h1 h2
    simp only [List.length_map, List.length_range] at h1
    rw [List.getElem_map, List.getElem_range, hb i h1]
    by_cases hi : i < len
    · have hi' : i < (p.take n).length := by simp; omega
      rw [if_pos hi, List.getElem_append_left hi', List.getElem_take]
      have : i < p.length := by omega
      simp [List.getD_eq_getElem?_getD, List.getElem?_eq_getElem this]
    · have hi' : (p.take n).length ≤ i := by simp; omega
      rw [if_neg hi, List.getElem_append_right hi']
      simp

/-- The SI3 block touches neither the BTS nor the SI storage of an lchan; it adds
at most the deactivation of the CCCH lchan to the trace. -/
theorem bcch_info_si3_spec (E : Env) (s : State) (trx k : Nat) :
    (bcch_info_si3 E s trx k).bts = s.bts ∧
    (bcch_info_si3 E s trx k).trace = s.trace ++
      (if E.SYSINFO_TYPE_3 = k ∧ trx = 0 ∧ E.num_agch ≠ 1
        then [Event.bts_model_lchan_deactivate (ccch_lchan E)] else []) ∧
    (∀ l, ((bcch_info_si3 E s trx k).lchan l).si_valid = (s.lchan l).si_valid ∧
          ((bcch_info_si3 E s trx k).lchan l).si_buf = (s.lchan l).si_buf) := by
  unfold bcch_info_si3
  by_cases h : E.SYSINFO_TYPE_3 = k ∧ trx = 0 ∧ E.num_agch ≠ 1
  · rw [if_pos h, if_pos h]
    refine ⟨rfl, rfl, ?_⟩
    intro l
    by_cases hl : l = ccch_lchan E
    · simp [lchan_deactivate, State.setLchan, State.emit, hl]
    · simp [lchan_deactivate, State.setLchan, State.emit, hl]
  · rw [if_neg h, if_neg h]
    simp

/-- C7: every accepted BCCH INFO (one that is not answered with an ERROR
REPORT) of a supported SI type `t` outside the SACCH list that carries a
FULL_BCCH_INFO or, failing that, an L3_INFO payload `p`, leaves bit `t` of
`si_valid` set and every other bit as before, leaves in the buffer for `t` the
first min(|p|, SYSINFO_BUF) bytes of `p` followed by 0x2B up to SYSINFO_BUF,
writes no other SI buffer (of the BTS or of an lchan) and no byte behind the
buffer, dispatches the
new-sysinfo signal exactly once (after the deactivation of the CCCH lchan, if
SI3 asks for one) and returns 0. -/
theorem C7_bcch_info_store (E : Env) (s : State) (trx : Nat) (msg : msgb) (t : Nat)
    (e : tlv_p_entry)
    (hp : TLVP_PRESENT msg.tp .RSL_IE_SYSINFO_TYPE = true)
    (ht : (TLVP msg.tp .RSL_IE_SYSINFO_TYPE).byte 0 = t)
    (hns : t ∉ [E.RSL_SYSTEM_INFO_5, E.RSL_SYSTEM_INFO_6, E.RSL_SYSTEM_INFO_5bis,
          E.RSL_SYSTEM_INFO_5ter, E.RSL_EXT_MEAS_ORDER, E.RSL_MEAS_INFO])
    (hsup : E.osmo_rsl2sitype t ≠ E.SYSINFO_TYPE_NONE)
    (he : (TLVP_PRESENT msg.tp .RSL_IE_FULL_BCCH_INFO = true ∧
            e = TLVP msg.tp .RSL_IE_FULL_BCCH_INFO ∧ e.len < 2 ^ 8) ∨
          (TLVP_PRESENT msg.tp .RSL_IE_FULL_BCCH_INFO = false ∧
            TLVP_PRESENT msg.tp .RSL_IE_L3_INFO = true ∧
            e = TLVP msg.tp .RSL_IE_L3_INFO ∧ e.len < 2 ^ 16))
    (hlen : e.len ≤ e.val.length)
    (hSB : E.SYSINFO_BUF < 2 ^ 8)
    (hk : E.osmo_rsl2sitype t < 32) (hv : s.bts.si_valid < 2 ^ 32)
    (halloc : E.msgb_alloc_ok = true)
    (hacc : sent (rsl_rx_bcch_info E s trx msg).1.trace = sent s.trace) :
    (rsl_rx_bcch_info E s trx msg).1.bts.si_valid.testBit (E.osmo_rsl2sitype t) = true ∧
    (∀ j, j ≠ E.osmo_rsl2sitype t →
      (rsl_rx_bcch_info E s trx msg).1.bts.si_valid.testBit j = s.bts.si_valid.testBit j) ∧
    (List.range E.SYSINFO_BUF).map
        ((rsl_rx_bcch_info E s trx msg).1.bts.si_buf (E.osmo_rsl2sitype t)) =
      (e.val.take e.len).take E.SYSINFO_BUF ++
        List.replicate (E.SYSINFO_BUF - min (e.val.take e.len).length E.SYSINFO_BUF) 0x2b ∧
    (∀ i, E.SYSINFO_BUF ≤ i →
      (rsl_rx_bcch_info E s trx msg).1.bts.si_buf (E.osmo_rsl2sitype t) i =
        s.bts.si_buf (E.osmo_rsl2sitype t) i) ∧
    (∀ k, k ≠ E.osmo_rsl2sitype t →
      (rsl_rx_bcch_info E s trx msg).1.bts.si_buf k = s.bts.si_buf k) ∧
    (∀ l, ((rsl_rx_bcch_info E s trx msg).1.lchan l).si_valid = (s.lchan l).si_valid ∧
      ((rsl_rx_bcch_info E s trx msg).1.lchan l).si_buf = (s.lchan l).si_buf) ∧
    (rsl_rx_bcch_info E s trx msg).1.trace = s.trace ++
      (if E.SYSINFO_TYPE_3 = E.osmo_rsl2sitype t ∧ trx = 0 ∧ E.num_agch ≠ 1 ∧
          TLVP_PRESENT msg.tp .RSL_IE_FULL_BCCH_INFO = true
        then [Event.bts_model_lchan_deactivate (ccch_lchan E)] else []) ++
      [Event.osmo_signal_dispatch_new_sysinfo] ∧
    (rsl_rx_bcch_info E s trx msg).2 = 0 := by
  have hin : osmo_in_array t (rsl_sacch_sitypes E) = false := by
    cases h : osmo_in_array t (rsl_sacch_sitypes E)
    · rfl
    · exact absurd ((osmo_in_array_iff t _).1 h) hns
  have hpl : (e.val.take e.len).length = e.len := by simp [hlen]
  -- the bytes stored by `bcch_store` for the capped length
  have store : ∀ bts' : gsm_bts,
      bts' = bcch_store E s.bts (E.osmo_rsl2sitype t) e (min e.len E.SYSINFO_BUF) →
      bts'.si_valid.testBit (E.osmo_rsl2sitype t) = true ∧
      (∀ j, j ≠ E.osmo_rsl2sitype t → bts'.si_valid.testBit j = s.bts.si_valid.testBit j) ∧
      (List.range E.SYSINFO_BUF).map (bts'.si_buf (E.osmo_rsl2sitype t)) =
        (e.val.take e.len).take E.SYSINFO_BUF ++
          List.replicate (E.SYSINFO_BUF - min (e.val.take e.len).length E.SYSINFO_BUF) 0x2b ∧
      (∀ i, E.SYSINFO_BUF ≤ i →
        bts'.si_buf (E.osmo_rsl2sitype t) i = s.bts.si_buf (E.osmo_rsl2sitype t) i) ∧
      (∀ k, k ≠ E.osmo_rsl2sitype t → bts'.si_buf k = s.bts.si_buf k) := by
    intro bts' hb
    obtain ⟨b1, b2, b3, b4⟩ := bcch_store_spec E s.bts (E.osmo_rsl2sitype t) e
      (min e.len E.SYSINFO_BUF) hk hv
    rw [hb]
    refine ⟨b1, b2, ?_, ?_, b4⟩
    · apply padded_buffer_list _ _ _ (min e.len E.SYSINFO_BUF)
      · rw [hpl]
      · intro i hi
        rw [b3 i]
        by_cases h1 : i < min e.len E.SYSINFO_BUF
        · have h2 : i < e.len := by omega
          simp [h1, tlv_p_entry.byte, List.getD_eq_getElem?_getD, List.getElem?_take, h2]
        · simp [h1, hi]
    · intro i hi
      rw [b3 i]
      have h1 : ¬ i < min e.len E.SYSINFO_BUF := by omega
      have h2 : ¬ i < E.SYSINFO_BUF := by omega
      simp [h1, h2]
  rcases he with ⟨hF, rfl, hl8⟩ | ⟨hF, hL, rfl, hl16⟩
  · -- FULL_BCCH_INFO
    have hcap : clamp_len 8 (TLVP msg.tp .RSL_IE_FULL_BCCH_INFO).len E.SYSINFO_BUF
        = min (TLVP msg.tp .RSL_IE_FULL_BCCH_INFO).len E.SYSINFO_BUF := by
      unfold clamp_len
      simp only
      rw [Nat.mod_eq_of_lt hl8, Nat.mod_eq_of_lt hSB]
      split <;> omega
    unfold rsl_rx_bcch_info at hacc ⊢
    simp only [hp, ht, hin, hsup, hF, if_true, if_false, Bool.true_eq_false,
      Bool.false_eq_true, hcap] at hacc ⊢
    obtain ⟨g1, g2, g3⟩ := bcch_info_si3_spec E
      { s with bts := (bcch_store E s.bts (E.osmo_rsl2sitype t)
          (TLVP msg.tp .RSL_IE_FULL_BCCH_INFO)
          (min (TLVP msg.tp .RSL_IE_FULL_BCCH_INFO).len E.SYSINFO_BUF)) } trx
      (E.osmo_rsl2sitype t)
    split at hacc
    · exfalso
      simp only [rsl_tx_error_report, halloc, Bool.true_eq_false, if_false, State.emit,
        sent_append, g2] at hacc
      have := congrArg List.length hacc
      simp [sent] at this
    · rename_i hc
      rw [if_neg hc]
      obtain ⟨a1, a2, a3, a4, a5⟩ := store _ g1
      refine ⟨a1, a2, a3, a4, a5, g3, ?_, rfl⟩
      simp only [State.emit, g2, and_true]
  · -- L3_INFO
    have hcap : clamp_len 16 (TLVP msg.tp .RSL_IE_L3_INFO).len E.SYSINFO_BUF
        = min (TLVP msg.tp .RSL_IE_L3_INFO).len E.SYSINFO_BUF := by
      unfold clamp_len
      simp only
      rw [Nat.mod_eq_of_lt hl16, Nat.mod_eq_of_lt (by omega : E.SYSINFO_BUF < 2 ^ 16)]
      split <;> omega
    unfold rsl_rx_bcch_info
    simp only [hp, ht, hin, hsup, hF, hL, if_true, if_false, Bool.true_eq_false,
      Bool.false_eq_true, hcap]
    obtain ⟨a1, a2, a3, a4, a5⟩ := store _ rfl
    refine ⟨a1, a2, a3, a4, a5, fun _ => ⟨rfl, rfl⟩, ?_, trivial⟩
    simp [State.emit]

/-- C7 on scenario S6: a BCCH INFO for SI3 with a FULL_BCCH_INFO of 21 bytes
leaves the 21 bytes followed by two bytes 0x2B in the SI3 buffer. -/
theorem C7_bcch_info_store_witness :
    (List.range 23).map ((rsl_rx_bcch_info refEnv {} 0 bcch_info_si3_msg).1.bts.si_buf 3) =
      [0x49, 0x06, 0x1b, 1, 2, 3, 4, 5, 6, 7, 8, 9, 10, 11, 12, 13, 14, 15, 16, 17, 18,
       0x2b, 0x2b] :=
  (C7_bcch_info_store refEnv {} 0 bcch_info_si3_msg 0x03
    (TLVP bcch_info_si3_msg.tp .RSL_IE_FULL_BCCH_INFO)
    (by decide) (by decide) (by decide) (by decide)
    (Or.inl ⟨by decide, rfl, by decide⟩) (by decide) (by decide) (by decide) (by decide)
    (by decide) (by decide)).2.2.1

/-! ### C8: BCCH INFO without payload -/

/-- C8: a BCCH INFO of a supported SI type `t` outside the SACCH list that
carries neither FULL_BCCH_INFO nor L3_INFO leaves bit `t` of `si_valid` clear
and every other bit as before, modifies no SI buffer (nor any timeslot or
lchan), dispatches the new-sysinfo signal exactly once and returns 0. -/
theorem C8_bcch_info_disable (E : Env) (s : State) (trx : Nat) (msg : msgb) (t : Nat)
    (hp : TLVP_PRESENT msg.tp .RSL_IE_SYSINFO_TYPE = true)
    (ht : (TLVP msg.tp .RSL_IE_SYSINFO_TYPE).byte 0 = t)
    (hns : t ∉ [E.RSL_SYSTEM_INFO_5, E.RSL_SYSTEM_INFO_6, E.RSL_SYSTEM_INFO_5bis,
          E.RSL_SYSTEM_INFO_5ter, E.RSL_EXT_MEAS_ORDER, E.RSL_MEAS_INFO])
    (hsup : E.osmo_rsl2sitype t ≠ E.SYSINFO_TYPE_NONE)
    (hF : TLVP_PRESENT msg.tp .RSL_IE_FULL_BCCH_INFO = false)
    (hL : TLVP_PRESENT msg.tp .RSL_IE_L3_INFO = false)
    (hv : s.bts.si_valid < 2 ^ 32) :
    (rsl_rx_bcch_info E s trx msg).1.bts.si_valid.testBit (E.osmo_rsl2sitype t) = false ∧
    (∀ j, j ≠ E.osmo_rsl2sitype t →
      (rsl_rx_bcch_info E s trx msg).1.bts.si_valid.testBit j = s.bts.si_valid.testBit j) ∧
    (rsl_rx_bcch_info E s trx msg).1.bts.si_buf = s.bts.si_buf ∧
    (rsl_rx_bcch_info E s trx msg).1.lchan = s.lchan ∧
    (rsl_rx_bcch_info E s trx msg).1.ts = s.ts ∧
    (rsl_rx_bcch_info E s trx msg).1.trace =
      s.trace ++ [Event.osmo_signal_dispatch_new_sysinfo] ∧
    (rsl_rx_bcch_info E s trx msg).2 = 0 := by
  have hin : osmo_in_array t (rsl_sacch_sitypes E) = false := by
    cases h : osmo_in_array t (rsl_sacch_sitypes E)
    · rfl
    · exact absurd ((osmo_in_array_iff t _).1 h) hns
  unfold rsl_rx_bcch_info
  simp only [hp, ht, hin, hsup, hF, hL, if_true, if_false, Bool.true_eq_false,
    Bool.false_eq_true, State.emit]
  refine ⟨?_, ?_, trivial, trivial, trivial, trivial, trivial⟩
  · rw [testBit_and_not32 _ _ _ hv, Nat.one_shiftLeft, Nat.testBit_two_pow_self]
    simp
  · intro j hj
    have : ¬ E.osmo_rsl2sitype t = j := fun h => hj h.symm
    rw [testBit_and_not32 _ _ _ hv, Nat.one_shiftLeft, Nat.testBit_two_pow]
    simp [this]

/-- C8 on a BTS whose SI3 (bit 3) and SI4 (bit 4) are valid: a BCCH INFO for
SI3 without payload clears bit 3 and keeps bit 4. -/
theorem C8_bcch_info_disable_witness :
    (rsl_rx_bcch_info refEnv { bts := { si_valid := 0x18 } } 0
      bcch_info_si3_off_msg).1.bts.si_valid.testBit 3 = false ∧
    (rsl_rx_bcch_info refEnv { bts := { si_valid := 0x18 } } 0
      bcch_info_si3_off_msg).1.bts.si_valid.testBit 4 = true :=
  ⟨(C8_bcch_info_disable refEnv { bts := { si_valid := 0x18 } } 0 bcch_info_si3_off_msg 0x03
      (by decide) (by decide) (by decide) (by decide) (by decide) (by decide) (by decide)).1,
   ((C8_bcch_info_disable refEnv { bts := { si_valid := 0x18 } } 0 bcch_info_si3_off_msg 0x03
      (by decide) (by decide) (by decide) (by decide) (by decide) (by decide)
      (by decide)).2.1 4 (by decide)).trans (by decide)⟩

/-! ### C9: SACCH FILLING store -/

/-- The first `n` cells of a SACCH SI buffer as a list: the two header bytes,
the payload cut to `n - 2` bytes, then the padding. -/
theorem sacch_buffer_list (buf : Nat → Nat) (p : List Nat) (n len c : Nat)
    (hn : 2 ≤ n) (hlen : len = min p.length (n - 2))
    (hb : ∀ i, i < n → buf i =
      if i = 0 then 0x03 else if i = 1 then 0x03
      else if i < 2 + len then p.getD (i - 2) 0 else c) :
    (List.range n).map buf =
      [0x03, 0x03] ++ p.take (n - 2) ++ List.replicate (n - 2 - min p.length (n - 2)) c := by
  apply List.ext_getElem
  · simp; omega
  · intro i h1 h2
    simp only [List.length_map, List.length_range] at h1
    rw [List.getElem_map, List.getElem_range, hb i h1]
    by_cases h0 : i = 0
    · subst h0; simp
    · by_cases h1' : i = 1
      · subst h1'; simp
      · have hge : 2 ≤ i := by omega
        obtain ⟨j, rfl⟩ : ∃ j, i = j + 2 := ⟨i - 2, by omega⟩
        have e : [0x03, 0x03] ++ p.take (n - 2) ++
            List.replicate (n - 2 - min p.length (n - 2)) c =
            0x03 :: 0x03 :: (p.take (n - 2) ++
              List.replicate (n - 2 - min p.length (n - 2)) c) := by simp
        simp only [e, List.getElem_cons_succ, h0, h1', if_false, Nat.add_sub_cancel]
        by_cases hi : j + 2 < 2 + len
        · have hj : j < len := by omega
          have hi' : j < (p.take (n - 2)).length := by simp; omega
          rw [if_pos hi, List.getElem_append_left hi', List.getElem_take]
          have : j < p.length := by omega
          simp [List.getD_eq_getElem?_getD, List.getElem?_eq_getElem this]
        · have hi' : (p.take (n - 2)).length ≤ j := by simp; omega
          rw [if_neg hi, List.getElem_append_right hi']
          simp

/-- C9: a SACCH FILLING of a supported SACCH SI type `t` with an L3_INFO
payload `p` leaves bit `t` of `si_valid` set (the other bits as before) and
the BTS buffer for `t` holding, in its SYSINFO_BUF bytes, 0x03, 0x03, the first
min(|p|, SYSINFO_BUF - 2) bytes of `p`, then 0x2B; no byte behind that
buffer, no other SI buffer and no timeslot or lchan is written. -/
theorem C9_sacch_fill_store (E : Env) (s : State) (trx : Nat) (msg : msgb) (t : Nat)
    (hp : TLVP_PRESENT msg.tp .RSL_IE_SYSINFO_TYPE = true)
    (ht : (TLVP msg.tp .RSL_IE_SYSINFO_TYPE).byte 0 = t)
    (hs : t ∈ [E.RSL_SYSTEM_INFO_5, E.RSL_SYSTEM_INFO_6, E.RSL_SYSTEM_INFO_5bis,
          E.RSL_SYSTEM_INFO_5ter, E.RSL_EXT_MEAS_ORDER, E.RSL_MEAS_INFO])
    (hsup : E.osmo_rsl2sitype t ≠ E.SYSINFO_TYPE_NONE)
    (hL : TLVP_PRESENT msg.tp .RSL_IE_L3_INFO = true)
    (hlen : (TLVP msg.tp .RSL_IE_L3_INFO).len ≤ (TLVP msg.tp .RSL_IE_L3_INFO).val.length)
    (hl16 : (TLVP msg.tp .RSL_IE_L3_INFO).len < 2 ^ 16)
    (hSB2 : 2 ≤ E.SYSINFO_BUF) (hSB : E.SYSINFO_BUF < 2 ^ 16)
    (hk : E.osmo_rsl2sitype t < 32) (hv : s.bts.si_valid < 2 ^ 32) :
    (rsl_rx_sacch_fill E s trx msg).1.bts.si_valid.testBit (E.osmo_rsl2sitype t) = true ∧
    (∀ j, j ≠ E.osmo_rsl2sitype t →
      (rsl_rx_sacch_fill E s trx msg).1.bts.si_valid.testBit j = s.bts.si_valid.testBit j) ∧
    (List.range E.SYSINFO_BUF).map
        ((rsl_rx_sacch_fill E s trx msg).1.bts.si_buf (E.osmo_rsl2sitype t)) =
      [0x03, 0x03] ++
        ((TLVP msg.tp .RSL_IE_L3_INFO).val.take (TLVP msg.tp .RSL_IE_L3_INFO).len).take
          (E.SYSINFO_BUF - 2) ++
        List.replicate (E.SYSINFO_BUF - 2 -
          min ((TLVP msg.tp .RSL_IE_L3_INFO).val.take
            (TLVP msg.tp .RSL_IE_L3_INFO).len).length (E.SYSINFO_BUF - 2)) 0x2b ∧
    (∀ i, E.SYSINFO_BUF ≤ i →
      (rsl_rx_sacch_fill E s trx msg).1.bts.si_buf (E.osmo_rsl2sitype t) i =
        s.bts.si_buf (E.osmo_rsl2sitype t) i) ∧
    (∀ k, k ≠ E.osmo_rsl2sitype t →
      (rsl_rx_sacch_fill E s trx msg).1.bts.si_buf k = s.bts.si_buf k) ∧
    (rsl_rx_sacch_fill E s trx msg).1.lchan = s.lchan ∧
    (rsl_rx_sacch_fill E s trx msg).1.ts = s.ts ∧
    (rsl_rx_sacch_fill E s trx msg).1.trace =
      s.trace ++ [Event.osmo_signal_dispatch_new_sysinfo] ∧
    (rsl_rx_sacch_fill E s trx msg).2 = 0 := by
  have hin : osmo_in_array t (rsl_sacch_sitypes E) = true := (osmo_in_array_iff t _).2 hs
  have hpl : ((TLVP msg.tp .RSL_IE_L3_INFO).val.take (TLVP msg.tp .RSL_IE_L3_INFO).len).length
      = (TLVP msg.tp .RSL_IE_L3_INFO).len := by simp [hlen]
  have hcap : clamp_len 16 (TLVP msg.tp .RSL_IE_L3_INFO).len (E.SYSINFO_BUF - 2)
      = min (TLVP msg.tp .RSL_IE_L3_INFO).len (E.SYSINFO_BUF - 2) := by
    unfold clamp_len
    simp only
    rw [Nat.mod_eq_of_lt hl16, Nat.mod_eq_of_lt (by omega : E.SYSINFO_BUF - 2 < 2 ^ 16)]
    split <;> omega
  have hbuf := sacch_store_apply E (s.bts.si_buf (E.osmo_rsl2sitype t))
    (TLVP msg.tp .RSL_IE_L3_INFO).byte
    (min (TLVP msg.tp .RSL_IE_L3_INFO).len (E.SYSINFO_BUF - 2))
  unfold rsl_rx_sacch_fill
  simp only [hp, ht, hin, hsup, hL, if_true, if_false, Bool.true_eq_false,
    Bool.false_eq_true, State.emit, hcap, setBuf]
  refine ⟨?_, ?_, ?_, ?_, ?_, trivial, trivial, trivial, trivial⟩
  · rw [testBit_or_shl _ _ _ hv hk]
    simp
  · intro j hj
    have : ¬ E.osmo_rsl2sitype t = j := fun h => hj h.symm
    rw [testBit_or_shl _ _ _ hv hk]
    simp [this]
  · apply sacch_buffer_list _ _ _ (min (TLVP msg.tp .RSL_IE_L3_INFO).len (E.SYSINFO_BUF - 2))
      _ hSB2
    · rw [hpl]
    · intro i hi
      rw [hbuf i (Nat.min_le_right _ _)]
      by_cases h0 : i = 0
      · simp [h0]
      · by_cases h1 : i = 1
        · simp [h1]
        · by_cases h2 : i < 2 + min (TLVP msg.tp .RSL_IE_L3_INFO).len (E.SYSINFO_BUF - 2)
          · have h3 : i - 2 < (TLVP msg.tp .RSL_IE_L3_INFO).len := by omega
            simp [h0, h1, h2, tlv_p_entry.byte, List.getD_eq_getElem?_getD,
              List.getElem?_take, h3]
          · simp [h0, h1, h2, hi]
  · intro i hi
    rw [hbuf i (Nat.min_le_right _ _)]
    have h0 : i ≠ 0 := by omega
    have h1 : i ≠ 1 := by omega
    have h2 : ¬ i < 2 + min (TLVP msg.tp .RSL_IE_L3_INFO).len (E.SYSINFO_BUF - 2) := by omega
    have h3 : ¬ i < E.SYSINFO_BUF := by omega
    simp [h0, h1, h2, h3]
  · intro k hk'
    simp [hk']

/-- C9 on a SACCH FILLING for SI5 with a payload of 4 bytes: the SI5 buffer
holds 0x03, 0x03, the payload and 17 bytes 0x2B. -/
theorem C9_sacch_fill_store_witness :
    (List.range 23).map ((rsl_rx_sacch_fill refEnv {} 0 sacch_fill_si5_msg).1.bts.si_buf 5) =
      [0x03, 0x03, 0x06, 0x1d, 0xaa, 0xbb, 0x2b, 0x2b, 0x2b, 0x2b, 0x2b, 0x2b, 0x2b, 0x2b,
       0x2b, 0x2b, 0x2b, 0x2b, 0x2b, 0x2b, 0x2b, 0x2b, 0x2b] :=
  (C9_sacch_fill_store refEnv {} 0 sacch_fill_si5_msg 0x05
    (by decide) (by decide) (by decide) (by decide) (by decide) (by decide) (by decide)
    (by decide) (by decide) (by decide) (by decide)).2.2.1

/-! ### C10: the SACCH header invariant -/

/-- A bit that is set after `v |= (1 << k)` was set before or is bit `k`. -/
theorem testBit_or_shl_imp (v k j : Nat)
    (h : ((v ||| (1 <<< k)) % 2 ^ 32).testBit j = true) : v.testBit j = true ∨ k = j := by
  rw [Nat.testBit_mod_two_pow, Nat.testBit_or, Nat.one_shiftLeft, Nat.testBit_two_pow] at h
  by_cases hk : k = j
  · exact Or.inr hk
  · left
    simp only [decide_eq_false hk, Bool.or_false, Bool.and_eq_true, decide_eq_true_eq] at h
    exact h.2

/-- Storing a buffer that begins with the header and setting its bit keeps the
header rule. -/
theorem si_ok_store (E : Env) (v : Nat) (buf : Nat → Nat → Nat) (k : Nat) (b : Nat → Nat)
    (h : si_ok E v buf) (hb : sacch_hdr b) :
    si_ok E ((v ||| (1 <<< k)) % 2 ^ 32) (setBuf buf k b) := by
  intro t ht hbit
  by_cases hk : E.osmo_rsl2sitype t = k
  · simp only [setBuf, hk, if_true]
    exact hb
  · simp only [setBuf, hk, if_false]
    rcases testBit_or_shl_imp _ _ _ hbit with h1 | h1
    · exact h t ht h1
    · exact absurd h1.symm hk

/-- Storing any buffer under an index that belongs to no SACCH SI type keeps
the header rule. -/
theorem si_ok_other (E : Env) (v : Nat) (buf : Nat → Nat → Nat) (k : Nat) (b : Nat → Nat)
    (h : si_ok E v buf) (hk : ∀ t ∈ rsl_sacch_sitypes E, E.osmo_rsl2sitype t ≠ k) :
    si_ok E ((v ||| (1 <<< k)) % 2 ^ 32) (setBuf buf k b) := by
  intro t ht hbit
  have hne := hk t ht
  simp only [setBuf, hne, if_false]
  rcases testBit_or_shl_imp _ _ _ hbit with h1 | h1
  · exact h t ht h1
  · exact absurd h1.symm hne

/-- Clearing bits keeps the header rule. -/
theorem si_ok_and (E : Env) (v x : Nat) (buf : Nat → Nat → Nat) (h : si_ok E v buf) :
    si_ok E (v &&& x) buf := by
  intro t ht hbit
  rw [Nat.testBit_and] at hbit
  exact h t ht (by simpa using (Bool.and_eq_true _ _ ▸ hbit).1)

/-- The buffer written by `sacch_store` begins with the header. -/
theorem sacch_store_hdr (E : Env) (b src : Nat → Nat) (len : Nat) :
    sacch_hdr (sacch_store E b src len) := by
  unfold sacch_hdr sacch_store memcpy memset poke
  simp

/-- A set bit of `v & 2^k` is bit `k` of `v`. -/
theorem testBit_of_and_two_pow_ne_zero (v k : Nat) (h : v &&& 2 ^ k ≠ 0) :
    v.testBit k = true := by
  by_contra hb
  apply h
  apply Nat.eq_of_testBit_eq
  intro j
  rw [Nat.testBit_and, Nat.testBit_two_pow, Nat.zero_testBit]
  by_cases hk : k = j
  · subst hk
    simp [hb]
  · simp [hk]

/-- One round of `copy_sacch_si_to_lchan` keeps the header rule in the lchan,
given the header rule in the BTS. -/
theorem si_ok_copy_step (E : Env) (bts : gsm_bts) (lc : gsm_lchan) (x : Nat)
    (hSB : 2 ≤ E.SYSINFO_BUF)
    (hb : si_ok E bts.si_valid bts.si_buf) (hl : si_ok E lc.si_valid lc.si_buf) :
    si_ok E (copy_sacch_si_step E bts lc x).si_valid (copy_sacch_si_step E bts lc x).si_buf := by
  unfold copy_sacch_si_step
  simp only
  split
  · exact hl
  · split
    · exact si_ok_and E _ _ _ hl
    · rename_i hnz
      intro t ht hbit
      simp only at hbit ⊢
      rw [Nat.testBit_mod_two_pow, Nat.testBit_or, Nat.testBit_mod_two_pow,
        Nat.one_shiftLeft, Nat.testBit_two_pow] at hbit
      by_cases hk : E.osmo_rsl2sitype t = E.osmo_rsl2sitype (x % 2 ^ 8) % 2 ^ 8
      · -- the copied buffer: the BTS has the bit set, so its buffer has the header
        have h8 : E.osmo_rsl2sitype (x % 2 ^ 8) % 2 ^ 8 < 8 := by
          by_contra h8
          apply hnz
          have : (1 <<< (E.osmo_rsl2sitype (x % 2 ^ 8) % 2 ^ 8)) % 2 ^ 8 = 0 := by
            rw [Nat.one_shiftLeft]
            apply Nat.eq_of_testBit_eq
            intro j
            rw [Nat.testBit_mod_two_pow, Nat.testBit_two_pow, Nat.zero_testBit]
            by_cases hj : j < 8
            · have : ¬ E.osmo_rsl2sitype (x % 2 ^ 8) % 2 ^ 8 = j := by omega
              simp only [decide_eq_false this, Bool.and_false]
            · simp only [decide_eq_false hj, Bool.false_and]
          rw [this]
          exact Nat.and_zero _
        have hsh : (1 <<< (E.osmo_rsl2sitype (x % 2 ^ 8) % 2 ^ 8)) % 2 ^ 8
            = 2 ^ (E.osmo_rsl2sitype (x % 2 ^ 8) % 2 ^ 8) := by
          rw [Nat.one_shiftLeft]
          apply Nat.mod_eq_of_lt
          exact Nat.pow_lt_pow_right (by decide) h8
        rw [hsh] at hnz
        have hbts := testBit_of_and_two_pow_ne_zero _ _ hnz
        rw [← hk] at hbts
        have hh := hb t ht hbts
        simp only [setBuf, hk, if_true]
        rw [← hk]
        unfold sacch_hdr memcpy
        have h0 : (0 : Nat) < 0 + E.SYSINFO_BUF := by omega
        have h1 : (1 : Nat) < 0 + E.SYSINFO_BUF := by omega
        simp only [Nat.zero_le, h0, h1, and_self, if_true, Nat.sub_zero]
        exact hh
      · have hne : ¬ E.osmo_rsl2sitype (x % 2 ^ 8) % 2 ^ 8 = E.osmo_rsl2sitype t :=
          fun h => hk h.symm
        simp only [setBuf, hk, if_false]
        apply hl t ht
        simp only [decide_eq_false hne, Bool.and_false, Bool.or_false, Bool.and_eq_true,
          decide_eq_true_eq] at hbit
        exact hbit.2

/-- Every state has the SI storage it has. -/
theorem same_si_refl (s : State) : same_si s s := ⟨rfl, rfl, fun _ => ⟨rfl, rfl⟩⟩

/-- Having the same SI storage is transitive. -/
theorem same_si_trans {s s1 s2 : State} (h1 : same_si s s1) (h2 : same_si s1 s2) :
    same_si s s2 :=
  ⟨h2.1.trans h1.1, h2.2.1.trans h1.2.1,
   fun l => ⟨(h2.2.2 l).1.trans (h1.2.2 l).1, (h2.2.2 l).2.trans (h1.2.2 l).2⟩⟩

/-- The invariant only depends on the SI storage. -/
theorem si_inv_same (E : Env) {s s' : State} (h : same_si s s') (hi : si_inv E s) :
    si_inv E s' := by
  obtain ⟨h1, h2, h3⟩ := h
  refine ⟨?_, ?_⟩
  · rw [h1, h2]; exact hi.1
  · intro l
    rw [(h3 l).1, (h3 l).2]
    exact hi.2 l

/-- Recording a call does not touch the SI storage. -/
theorem same_si_emit (s : State) (e : Event) : same_si s (s.emit e) := same_si_refl s

/-- Replacing a timeslot does not touch the SI storage. -/
theorem same_si_setTs (s : State) (t : TsId) (v : gsm_bts_trx_ts) : same_si s (s.setTs t v) :=
  same_si_refl s

/-- Replacing an lchan by one with the same SI fields does not touch the SI
storage. -/
theorem same_si_setLchan (s : State) (l : LchanId) (v : gsm_lchan)
    (h1 : v.si_valid = (s.lchan l).si_valid) (h2 : v.si_buf = (s.lchan l).si_buf) :
    same_si s (s.setLchan l v) := by
  refine ⟨rfl, rfl, ?_⟩
  intro k
  by_cases hk : k = l
  · subst hk
    simp [State.setLchan, h1, h2]
  · simp [State.setLchan, hk]

/-- Replacing an lchan by one that respects the header rule keeps the
invariant. -/
theorem si_inv_setLchan (E : Env) (s : State) (l : LchanId) (v : gsm_lchan)
    (hi : si_inv E s) (hv : si_ok E v.si_valid v.si_buf) : si_inv E (s.setLchan l v) := by
  refine ⟨hi.1, ?_⟩
  intro k
  by_cases hk : k = l
  · subst hk
    simpa [State.setLchan] using hv
  · simpa [State.setLchan, hk] using hi.2 k

/-- An ERROR REPORT does not touch the SI storage. -/
theorem same_si_error_report (E : Env) (s : State) (trx cause : Nat) :
    same_si s (rsl_tx_error_report E s trx cause).1 := by
  unfold rsl_tx_error_report
  split
  · exact same_si_refl s
  · exact same_si_emit s _

/-- A CHAN ACT ACK does not touch the SI storage. -/
theorem same_si_chan_act_ack (E : Env) (s : State) (l : LchanId) :
    same_si s (rsl_tx_chan_act_ack E s l).1 := by
  unfold rsl_tx_chan_act_ack
  simp only
  split
  · exact same_si_refl s
  · exact same_si_trans (same_si_setLchan s l { s.lchan l with meas_res_nr := 0 } rfl rfl)
      (same_si_emit _ _)

/-- A CHAN ACT ACK or NACK does not touch the SI storage. -/
theorem same_si_acknack (E : Env) (s : State) (l : LchanId) (cause : Nat) :
    same_si s (rsl_tx_chan_act_acknack E s l cause).1 := by
  unfold rsl_tx_chan_act_acknack
  split
  · exact same_si_refl s
  · split
    · unfold rsl_tx_chan_act_nack
      split
      · exact same_si_refl s
      · exact same_si_emit s _
    · exact same_si_chan_act_ack E s l

/-- The channel mode does not touch the SI storage. -/
theorem same_si_tchmode (E : Env) (s : State) (l : LchanId) (cm : tlv_p_entry) :
    same_si s (lchan_tchmode_from_cmode E s l cm) := by
  unfold lchan_tchmode_from_cmode
  simp only
  refine ⟨rfl, rfl, ?_⟩
  intro k
  by_cases hk : k = l
  · subst hk
    simp only [State.setLchan, if_true]
    split_ifs <;> exact ⟨rfl, rfl⟩
  · simp [State.setLchan, hk]

/-- The encryption information does not touch the SI storage. -/
theorem same_si_encr (E : Env) (s : State) (l : LchanId) (val : tlv_p_entry) (len : Nat) :
    same_si s (encr_info2lchan E s l val len).1 := by
  unfold encr_info2lchan
  simp only
  split
  · exact same_si_refl s
  · split
    · exact same_si_refl s
    · exact same_si_setLchan s l _ rfl rfl

/-- The MultiRate configuration does not touch the SI storage. -/
theorem same_si_mr_config (E : Env) (s : State) (msg : msgb) :
    same_si s (chan_activ_mr_config E s msg) := by
  unfold chan_activ_mr_config
  split
  · exact same_si_setLchan s _ _ rfl rfl
  · exact same_si_refl s

/-- The PDCH activation through the PCU does not touch the SI storage. -/
theorem same_si_pdch (E : Env) (s : State) (msg : msgb) :
    same_si s (chan_activ_pdch E s msg).1 := by
  unfold chan_activ_pdch
  simp only
  have h1 := same_si_chan_act_ack E s msg.lchan
  split
  · split
    · exact same_si_trans (same_si_trans h1 (same_si_emit _ _)) (same_si_error_report E _ _ _)
    · exact same_si_trans h1 (same_si_emit _ _)
  · exact h1

/-- The activation request to the PHY does not touch the SI storage. -/
theorem same_si_l1 (E : Env) (s : State) (msg : msgb) :
    same_si s (chan_activ_l1 E s msg).1 := by
  unfold chan_activ_l1
  simp only
  have h1 : same_si s (s.setLchan msg.lchan
      { s.lchan msg.lchan with rel_act_kind := .LCHAN_REL_ACT_RSL }) :=
    same_si_setLchan s _ _ rfl rfl
  split
  · exact same_si_trans (same_si_trans h1 (same_si_emit _ _)) (same_si_acknack E _ _ _)
  · exact same_si_trans h1 (same_si_emit _ _)

/-- The end of `rsl_rx_chan_activ` does not touch the SI storage. -/
theorem same_si_finish (E : Env) (s : State) (msg : msgb) :
    same_si s (chan_activ_finish E s msg).1 := by
  unfold chan_activ_finish
  simp only
  split
  · exact same_si_error_report E s _ _
  · split
    · exact same_si_trans (same_si_mr_config E s msg) (same_si_pdch E _ msg)
    · exact same_si_trans (same_si_mr_config E s msg) (same_si_l1 E _ msg)

/-- The encryption block does not touch the SI storage. -/
theorem same_si_chan_activ_encr (E : Env) (s : State) (msg : msgb) :
    same_si s (chan_activ_encr E s msg).1 := by
  unfold chan_activ_encr
  simp only
  split
  · exact same_si_encr E s _ _ _
  · exact same_si_setLchan s _ _ rfl rfl

/-- The handover reference does not touch the SI storage. -/
theorem same_si_ho_ref (E : Env) (s : State) (msg : msgb) (type : Nat) :
    same_si s (chan_activ_ho_ref E s msg type) := by
  unfold chan_activ_ho_ref
  simp only
  split
  · exact same_si_setLchan s _ _ rfl rfl
  · exact same_si_refl s

/-- The BS power does not touch the SI storage. -/
theorem same_si_bs_power (s : State) (msg : msgb) : same_si s (chan_activ_bs_power s msg) := by
  unfold chan_activ_bs_power
  simp only
  split
  · exact same_si_setLchan s _ _ rfl rfl
  · exact same_si_refl s

/-- The MS power does not touch the SI storage. -/
theorem same_si_ms_power (s : State) (msg : msgb) : same_si s (chan_activ_ms_power s msg) := by
  unfold chan_activ_ms_power
  simp only
  split
  · exact same_si_setLchan s _ _ rfl rfl
  · exact same_si_refl s

/-- The timing advance does not touch the SI storage. -/
theorem same_si_ta (s : State) (msg : msgb) : same_si s (chan_activ_ta s msg) := by
  unfold chan_activ_ta
  simp only
  split
  · exact same_si_setLchan s _ _ rfl rfl
  · exact same_si_refl s

/-- The loop over the SACCH INFO IE keeps the header rule in the lchan. -/
theorem si_ok_sacch_info_loop (E : Env) (e : tlv_p_entry) (tot_len : Nat) :
    ∀ (n cur : Nat) (lc : gsm_lchan), si_ok E lc.si_valid lc.si_buf →
      si_ok E (sacch_info_loop E e tot_len n cur lc).1.si_valid
        (sacch_info_loop E e tot_len n cur lc).1.si_buf := by
  intro n
  induction n with
  | zero => intro cur lc h; simpa [sacch_info_loop] using h
  | succ n ih =>
    intro cur lc h
    unfold sacch_info_loop
    simp only
    split
    · exact h
    · split
      · exact h
      · split
        · exact si_ok_store E _ _ _ _ h (sacch_store_hdr E _ _ _)
        · apply ih
          exact si_ok_store E _ _ _ _ h (sacch_store_hdr E _ _ _)

/-- The copy of the SACCH filling of the BTS keeps the header rule in the lchan. -/
theorem si_ok_copy_fold (E : Env) (bts : gsm_bts) (hSB : 2 ≤ E.SYSINFO_BUF)
    (hb : si_ok E bts.si_valid bts.si_buf) :
    ∀ (ts : List Nat) (lc : gsm_lchan), si_ok E lc.si_valid lc.si_buf →
      si_ok E (ts.foldl (copy_sacch_si_step E bts) lc).si_valid
        (ts.foldl (copy_sacch_si_step E bts) lc).si_buf := by
  intro ts
  induction ts with
  | nil => intro lc h; exact h
  | cons x ts ih =>
    intro lc h
    simp only [List.foldl_cons]
    exact ih _ (si_ok_copy_step E bts lc x hSB hb h)

/-- The SACCH information block keeps the invariant. -/
theorem si_inv_sacch_info (E : Env) (s : State) (msg : msgb) (hSB : 2 ≤ E.SYSINFO_BUF)
    (hi : si_inv E s) : si_inv E (chan_activ_sacch_info E s msg).1 := by
  unfold chan_activ_sacch_info
  simp only
  split
  · exact si_inv_setLchan E s _ _ hi (si_ok_sacch_info_loop E _ _ _ _ _ (hi.2 _))
  · unfold copy_sacch_si_to_lchan
    exact si_inv_setLchan E s _ _ hi (si_ok_copy_fold E s.bts hSB hi.1 _ _ (hi.2 _))

/-- The IE part of `rsl_rx_chan_activ` keeps the invariant. -/
theorem si_inv_chan_activ_ies (E : Env) (s : State) (msg : msgb) (type : Nat)
    (hSB : 2 ≤ E.SYSINFO_BUF) (hi : si_inv E s) :
    si_inv E (chan_activ_ies E s msg type).1 := by
  unfold chan_activ_ies
  simp only
  have h1 : si_inv E (chan_activ_encr E s msg).1 :=
    si_inv_same E (same_si_chan_activ_encr E s msg) hi
  split
  · exact si_inv_same E (same_si_error_report E _ _ _) h1
  · have h2 := si_inv_same E (same_si_ho_ref E _ msg type) h1
    have h3 := si_inv_same E (same_si_bs_power _ msg) h2
    have h4 := si_inv_same E (same_si_ms_power _ msg) h3
    have h5 := si_inv_same E (same_si_ta _ msg) h4
    have h6 := si_inv_sacch_info E _ msg hSB h5
    split
    · exact si_inv_same E (same_si_error_report E _ _ _) h6
    · exact si_inv_same E (same_si_finish E _ msg) h6

/-- Parking a CHAN ACTIV on a dynamic timeslot does not touch the SI storage. -/
theorem same_si_reconnect (E : Env) (s : State) (ts : TsId) (msg : msgb) :
    same_si s (dyn_ts_l1_reconnect E s ts msg).1 := by
  unfold dyn_ts_l1_reconnect
  split <;> exact same_si_refl s

/-- Deriving `pchan_want` does not touch the SI storage. -/
theorem same_si_dyn_want (E : Env) (s : State) (msg : msgb) :
    same_si s (chan_activ_dyn_want E s msg) := by
  unfold chan_activ_dyn_want
  simp only
  split
  · exact same_si_setTs s _ _
  · exact same_si_refl s

/-- The channel defaults do not touch the SI storage. -/
theorem same_si_defaults (E : Env) (s : State) (msg : msgb) :
    same_si s (chan_activ_defaults E s msg) :=
  same_si_setLchan s _ _ rfl rfl

/-- The channel mode block does not touch the SI storage. -/
theorem same_si_chan_mode (E : Env) (s : State) (msg : msgb) (type : Nat) :
    same_si s (chan_activ_chan_mode E s msg type) := by
  unfold chan_activ_chan_mode
  split
  · exact same_si_tchmode E s _ _
  · exact same_si_refl s

/-- CHANNEL ACTIVATION keeps the invariant. -/
theorem si_inv_chan_activ (E : Env) (s : State) (msg : msgb)
    (hSB : 2 ≤ E.SYSINFO_BUF) (hi : si_inv E s) :
    si_inv E (rsl_rx_chan_activ E s msg).1 := by
  unfold rsl_rx_chan_activ
  simp only
  split
  · exact si_inv_same E (same_si_acknack E s _ _) hi
  · have h1 := si_inv_same E (same_si_dyn_want E s msg) hi
    split
    · have h2 := si_inv_same E (same_si_reconnect E _ msg.lchan.ts msg) h1
      split
      · exact si_inv_same E (same_si_acknack E _ _ _) h2
      · exact h2
    · have h2 := si_inv_same E (same_si_defaults E _ msg) h1
      split
      · exact si_inv_same E (same_si_acknack E _ _ _) h2
      · split
        · exact si_inv_same E (same_si_acknack E _ _ _) h2
        · exact si_inv_chan_activ_ies E _ msg _ hSB
            (si_inv_same E (same_si_chan_mode E _ msg _) h2)

/-- SACCH FILLING keeps the invariant. -/
theorem si_inv_sacch_fill (E : Env) (s : State) (trx : Nat) (msg : msgb) (hi : si_inv E s) :
    si_inv E (rsl_rx_sacch_fill E s trx msg).1 := by
  unfold rsl_rx_sacch_fill
  simp only
  split
  · exact si_inv_same E (same_si_error_report E s _ _) hi
  · split
    · exact si_inv_same E (same_si_error_report E s _ _) hi
    · split
      · exact si_inv_same E (same_si_error_report E s _ _) hi
      · split
        · exact ⟨si_ok_store E _ _ _ _ hi.1 (sacch_store_hdr E _ _ _), hi.2⟩
        · exact ⟨si_ok_and E _ _ _ hi.1, hi.2⟩

/-- SACCH INFO MODIFY keeps the invariant. -/
theorem si_inv_sacch_inf_mod (E : Env) (s : State) (msg : msgb) (hi : si_inv E s) :
    si_inv E (rsl_rx_sacch_inf_mod E s msg).1 := by
  unfold rsl_rx_sacch_inf_mod
  simp only
  split
  · exact si_inv_same E (same_si_error_report E s _ _) hi
  · split
    · exact si_inv_same E (same_si_error_report E s _ _) hi
    · split
      · exact si_inv_same E (same_si_error_report E s _ _) hi
      · split
        · exact si_inv_same E (same_si_error_report E s _ _) hi
        · split
          · exact si_inv_setLchan E s _ _ hi
              (si_ok_store E _ _ _ _ (hi.2 _) (sacch_store_hdr E _ _ _))
          · exact si_inv_setLchan E s _ _ hi (si_ok_and E _ _ _ (hi.2 _))

/-- BCCH INFO keeps the invariant: it only stores under the index of an SI type
outside the SACCH list, and distinct supported SI types have distinct indices. -/
theorem si_inv_bcch_info (E : Env) (s : State) (trx : Nat) (msg : msgb)
    (hinj : ∀ a b, E.osmo_rsl2sitype a = E.osmo_rsl2sitype b →
      E.osmo_rsl2sitype a ≠ E.SYSINFO_TYPE_NONE → a = b)
    (hi : si_inv E s) : si_inv E (rsl_rx_bcch_info E s trx msg).1 := by
  unfold rsl_rx_bcch_info
  simp only
  split
  · exact si_inv_same E (same_si_error_report E s _ _) hi
  · split
    · exact si_inv_same E (same_si_error_report E s _ _) hi
    · rename_i hin
      split
      · exact si_inv_same E (same_si_error_report E s _ _) hi
      · rename_i hsup
        have hdis : ∀ t ∈ rsl_sacch_sitypes E, E.osmo_rsl2sitype t ≠
            E.osmo_rsl2sitype ((TLVP msg.tp .RSL_IE_SYSINFO_TYPE).byte 0) := by
          intro t ht heq
          have hne : E.osmo_rsl2sitype t ≠ E.SYSINFO_TYPE_NONE := by rw [heq]; exact hsup
          have := hinj _ _ heq hne
          rw [← this] at hin
          exact hin ((osmo_in_array_iff t _).2 ht)
        have hst : ∀ (e : tlv_p_entry) (len : Nat),
            si_inv E { s with bts := (bcch_store E s.bts
              (E.osmo_rsl2sitype ((TLVP msg.tp .RSL_IE_SYSINFO_TYPE).byte 0)) e len) } :=
          fun e len => ⟨si_ok_other E _ _ _ _ hi.1 hdis, hi.2⟩
        split
        · obtain ⟨g1, _, g3⟩ := bcch_info_si3_spec E
            { s with bts := (bcch_store E s.bts
              (E.osmo_rsl2sitype ((TLVP msg.tp .RSL_IE_SYSINFO_TYPE).byte 0))
              (TLVP msg.tp .RSL_IE_FULL_BCCH_INFO)
              (clamp_len 8 (TLVP msg.tp .RSL_IE_FULL_BCCH_INFO).len E.SYSINFO_BUF)) } trx
            (E.osmo_rsl2sitype ((TLVP msg.tp .RSL_IE_SYSINFO_TYPE).byte 0))
          have h2 := si_inv_same E
            (⟨congrArg gsm_bts.si_valid g1, congrArg gsm_bts.si_buf g1, g3⟩ : same_si _ _)
            (hst _ _)
          split
          · exact si_inv_same E (same_si_error_report E _ _ _) h2
          · exact h2
        · split
          · exact hst _ _
          · exact ⟨si_ok_and E _ _ _ hi.1, hi.2⟩

/-- The index lookup of `refEnv` maps distinct supported SI types to distinct
indices. -/
theorem ref_rsl2sitype_inj (a b : Nat) (h : ref_rsl2sitype a = ref_rsl2sitype b)
    (ha : ref_rsl2sitype a ≠ 0) : a = b := by
  have small : ∀ x, ref_rsl2sitype x ≠ 0 → x < 73 := by
    intro x hx
    by_contra hlt
    apply hx
    unfold ref_rsl2sitype
    repeat rw [if_neg (by omega)]
  have fin : ∀ x < 73, ∀ y < 73, ref_rsl2sitype x = ref_rsl2sitype y →
      ref_rsl2sitype x ≠ 0 → x = y := by
    decide
  exact fin a (small a ha) b (small b (h ▸ ha)) h ha

/-- C10: the state invariant "for every SACCH SI type t, if bit t of
`bts.si_valid` is set then the BTS buffer for t begins 0x03 0x03, and for
every lchan, if bit t of `lchan.si.valid` is set then the lchan buffer for t
begins 0x03 0x03" holds in every state without valid bits, is preserved by
each of BCCH INFO, SACCH FILLING, SACCH INFO MODIFY and CHANNEL ACTIVATION (on
every path, the SACCH_INFO IE and the copy from the BTS included), and hence
holds after every sequence of these messages from a state without valid bits.
The buffers hold at least the two header bytes and distinct supported SI types
have distinct indices. -/
theorem C10_sacch_header_invariant (E : Env) (hSB : 2 ≤ E.SYSINFO_BUF)
    (hinj : ∀ a b, E.osmo_rsl2sitype a = E.osmo_rsl2sitype b →
      E.osmo_rsl2sitype a ≠ E.SYSINFO_TYPE_NONE → a = b) :
    (∀ s, no_valid_bits s → si_inv E s) ∧
    (∀ s trx msg, si_inv E s → si_inv E (rsl_rx_bcch_info E s trx msg).1) ∧
    (∀ s trx msg, si_inv E s → si_inv E (rsl_rx_sacch_fill E s trx msg).1) ∧
    (∀ s msg, si_inv E s → si_inv E (rsl_rx_sacch_inf_mod E s msg).1) ∧
    (∀ s msg, si_inv E s → si_inv E (rsl_rx_chan_activ E s msg).1) ∧
    (∀ s ms, no_valid_bits s →
      ∀ t ∈ [E.RSL_SYSTEM_INFO_5, E.RSL_SYSTEM_INFO_6, E.RSL_SYSTEM_INFO_5bis,
             E.RSL_SYSTEM_INFO_5ter, E.RSL_EXT_MEAS_ORDER, E.RSL_MEAS_INFO],
        ((si_run E s ms).bts.si_valid.testBit (E.osmo_rsl2sitype t) = true →
          (si_run E s ms).bts.si_buf (E.osmo_rsl2sitype t) 0 = 0x03 ∧
          (si_run E s ms).bts.si_buf (E.osmo_rsl2sitype t) 1 = 0x03) ∧
        ∀ l, ((si_run E s ms).lchan l).si_valid.testBit (E.osmo_rsl2sitype t) = true →
          ((si_run E s ms).lchan l).si_buf (E.osmo_rsl2sitype t) 0 = 0x03 ∧
          ((si_run E s ms).lchan l).si_buf (E.osmo_rsl2sitype t) 1 = 0x03) := by
  have h0 : ∀ s, no_valid_bits s → si_inv E s := by
    intro s hs
    refine ⟨?_, ?_⟩
    · intro t _ hb
      rw [hs.1, Nat.zero_testBit] at hb
      exact absurd hb (by decide)
    · intro l t _ hb
      rw [hs.2 l, Nat.zero_testBit] at hb
      exact absurd hb (by decide)
  have hstep : ∀ s m, si_inv E s → si_inv E (si_step E s m) := by
    intro s m hi
    cases m with
    | bcch_info trx msg => exact si_inv_bcch_info E s trx msg hinj hi
    | sacch_fill trx msg => exact si_inv_sacch_fill E s trx msg hi
    | sacch_inf_mod msg => exact si_inv_sacch_inf_mod E s msg hi
    | chan_activ msg => exact si_inv_chan_activ E s msg hSB hi
  have hrun : ∀ ms s, si_inv E s → si_inv E (si_run E s ms) := by
    intro ms
    induction ms with
    | nil => intro s hi; exact hi
    | cons m ms ih =>
      intro s hi
      simp only [si_run, List.foldl_cons]
      exact ih _ (hstep s m hi)
  refine ⟨h0, fun s trx msg hi => si_inv_bcch_info E s trx msg hinj hi,
    fun s trx msg hi => si_inv_sacch_fill E s trx msg hi,
    fun s msg hi => si_inv_sacch_inf_mod E s msg hi,
    fun s msg hi => si_inv_chan_activ E s msg hSB hi, ?_⟩
  intro s ms hs t ht
  have hi := hrun ms s (h0 s hs)
  exact ⟨fun hb => hi.1 t ht hb, fun l hb => hi.2 l t ht hb⟩

/-- C10 on a run: after a SACCH FILLING for SI5 and a CHANNEL ACTIVATION
without SACCH INFO IE, bit 5 of the lchan is valid and its SI5 buffer begins
0x03 0x03. -/
theorem C10_sacch_header_invariant_witness :
    ((si_run refEnv {} [.sacch_fill 0 sacch_fill_si5_msg,
        .chan_activ chan_activ_plain_msg]).lchan lchan02).si_valid.testBit 5 = true ∧
    ((si_run refEnv {} [.sacch_fill 0 sacch_fill_si5_msg,
        .chan_activ chan_activ_plain_msg]).lchan lchan02).si_buf 5 0 = 0x03 ∧
    ((si_run refEnv {} [.sacch_fill 0 sacch_fill_si5_msg,
        .chan_activ chan_activ_plain_msg]).lchan lchan02).si_buf 5 1 = 0x03 :=
  ⟨by decide,
   (((C10_sacch_header_invariant refEnv (by decide) ref_rsl2sitype_inj).2.2.2.2.2 {}
      [.sacch_fill 0 sacch_fill_si5_msg, .chan_activ chan_activ_plain_msg]
      ⟨rfl, fun _ => rfl⟩ 0x05 (by decide)).2 lchan02 (by decide))⟩

/-! ### C11: SACCH INFO MODIFY without payload -/

/-- C11: a SACCH INFO MODIFY for SI type 5 (sysinfo index 5) without L3_INFO,
received for an lchan whose `si.valid` has exactly the bits 5 and 6 set, leaves
`si.valid = 0x20`: bit 5, the bit of the type that is being disabled, is still
set, and bit 6, the bit of another type, has been cleared.  The handler
computes `valid & (1 << 5)` where the claim, and the handlers for SACCH FILLING
and BCCH INFO, have `valid & ~(1 << 5)`. -/
theorem C11_sacch_inf_mod_disable_keeps_bit :
    (rsl_rx_sacch_inf_mod refEnv state_si56 sacch_inf_mod_si5_off_msg).2 = 0 ∧
    ((rsl_rx_sacch_inf_mod refEnv state_si56 sacch_inf_mod_si5_off_msg).1.lchan lchan02).si_valid
      = 0x20 ∧
    (state_si56.lchan lchan02).si_valid = 0x60 ∧
    ((rsl_rx_sacch_fill refEnv { bts := { si_valid := 0x60 } } 0
        sacch_inf_mod_si5_off_msg).1.bts).si_valid = 0x40 := by
  decide

/-! ### C12: MS POWER CONTROL -/

/-- C12: an MS POWER CONTROL with an MS_POWER IE of value `v` sets
`ms_power_ctrl.current` to `v & 0x1F` and `ms_power_ctrl.fixed` to 1, changes no
other field of the lchan, no other lchan, no timeslot and nothing of the BTS,
and requests exactly one power adjustment from the PHY; without the IE the
state, the requests made so far included, is left as it was.  The handler
returns 0 in both cases. -/
theorem C12_ms_pwr_ctrl (s : State) (msg : msgb) :
    (rsl_rx_ms_pwr_ctrl s msg).2 = 0 ∧
    (TLVP_PRESENT msg.tp .RSL_IE_MS_POWER = true →
      ((rsl_rx_ms_pwr_ctrl s msg).1.lchan msg.lchan) =
        { s.lchan msg.lchan with
          ms_power_ctrl_current := (TLVP msg.tp .RSL_IE_MS_POWER).byte 0 &&& 0x1F,
          ms_power_ctrl_fixed := 1 } ∧
      (∀ k, k ≠ msg.lchan → (rsl_rx_ms_pwr_ctrl s msg).1.lchan k = s.lchan k) ∧
      (rsl_rx_ms_pwr_ctrl s msg).1.ts = s.ts ∧
      (rsl_rx_ms_pwr_ctrl s msg).1.bts = s.bts ∧
      (rsl_rx_ms_pwr_ctrl s msg).1.trace = s.trace ++ [.bts_model_adjst_ms_pwr msg.lchan]) ∧
    (TLVP_PRESENT msg.tp .RSL_IE_MS_POWER = false → (rsl_rx_ms_pwr_ctrl s msg).1 = s) := by
  have hlt : (TLVP msg.tp .RSL_IE_MS_POWER).byte 0 &&& 0x1F < 2 ^ 8 :=
    lt_of_le_of_lt Nat.and_le_right (by norm_num)
  refine ⟨?_, ?_, ?_⟩
  · unfold rsl_rx_ms_pwr_ctrl
    split <;> rfl
  · intro hp
    simp only [rsl_rx_ms_pwr_ctrl, hp, if_true, State.emit, State.setLchan,
      Nat.mod_eq_of_lt hlt]
    refine ⟨by simp, ?_, trivial, trivial, trivial⟩
    intro k hk
    simp [hk]
  · intro hp
    simp [rsl_rx_ms_pwr_ctrl, hp]

/-- C12 at a concrete message: power octet 0xe7 gives level 7. -/
theorem C12_ms_pwr_ctrl_witness :
    ((rsl_rx_ms_pwr_ctrl {} ms_pwr_ctrl_msg).1.lchan lchan02).ms_power_ctrl_current = 7 ∧
    ((rsl_rx_ms_pwr_ctrl {} ms_pwr_ctrl_msg).1.lchan lchan02).ms_power_ctrl_fixed = 1 ∧
    (rsl_rx_ms_pwr_ctrl {} ms_pwr_ctrl_msg).1.trace = [.bts_model_adjst_ms_pwr lchan02] ∧
    (rsl_rx_ms_pwr_ctrl {} (rx_msg [])).1.trace = [] := by
  have h := (C12_ms_pwr_ctrl {} ms_pwr_ctrl_msg).2.1 (by decide)
  have h0 := (C12_ms_pwr_ctrl {} (rx_msg [])).2.2 (by decide)
  refine ⟨?_, ?_, ?_, ?_⟩
  · have := congrArg gsm_lchan.ms_power_ctrl_current h.1
    exact this.trans (by decide)
  · exact congrArg gsm_lchan.ms_power_ctrl_fixed h.1
  · exact h.2.2.2.2
  · rw [h0]

/-! ### C13: target type of a dynamic timeslot -/

/-- Two channel numbers that differ only in their three low bits have the same
bits under the mask 0xf8. -/
theorem and_f8_of_shiftRight_eq (a b : Nat) (h : a >>> 3 = b >>> 3) :
    a &&& 0xf8 = b &&& 0xf8 := by
  apply Nat.eq_of_testBit_eq
  intro j
  simp only [Nat.testBit_and]
  by_cases hj : j < 3
  · have h0 : (0xf8 : Nat).testBit j = false := by
      interval_cases j <;> decide
    rw [h0, Bool.and_false, Bool.and_false]
  · have h1 := congrArg (fun x => x.testBit (j - 3)) h
    simp only [Nat.testBit_shiftRight] at h1
    have h2 : 3 + (j - 3) = j := by omega
    rw [h2] at h1
    rw [h1]

/-- C13: `dyn_pchan_from_chan_nr` is defined for every channel number and its
result is determined by the cbits `chan_nr & RSL_CHAN_NR_MASK`: two channel
numbers with the same cbits give the same result, and for the mask 0xf8 so do
two channel numbers that differ only in the three timeslot-number bits.  Cbits
Bm_ACCHs give TCH/F, cbits Lm_ACCHs and Lm_ACCHs + RSL_CHAN_NR_1 (the second
half-rate subchannel, written Lm_ACCHs+1 in the claim) give TCH/H, cbits
OSMO_PDCH give PDCH and all other cbits give UNKNOWN.  The four code points are
case labels of one `switch`, hence distinct. -/
theorem C13_dyn_pchan_from_chan_nr (E : Env) (chan_nr : Nat)
    (hd1 : E.RSL_CHAN_Bm_ACCHs ≠ E.RSL_CHAN_Lm_ACCHs)
    (hd2 : E.RSL_CHAN_Bm_ACCHs ≠ E.RSL_CHAN_Lm_ACCHs + E.RSL_CHAN_NR_1)
    (hd3 : E.RSL_CHAN_OSMO_PDCH ≠ E.RSL_CHAN_Bm_ACCHs)
    (hd4 : E.RSL_CHAN_OSMO_PDCH ≠ E.RSL_CHAN_Lm_ACCHs)
    (hd5 : E.RSL_CHAN_OSMO_PDCH ≠ E.RSL_CHAN_Lm_ACCHs + E.RSL_CHAN_NR_1) :
    (∀ c2, c2 &&& E.RSL_CHAN_NR_MASK = chan_nr &&& E.RSL_CHAN_NR_MASK →
      dyn_pchan_from_chan_nr E c2 = dyn_pchan_from_chan_nr E chan_nr) ∧
    (E.RSL_CHAN_NR_MASK = 0xf8 → ∀ c2, c2 >>> 3 = chan_nr >>> 3 →
      dyn_pchan_from_chan_nr E c2 = dyn_pchan_from_chan_nr E chan_nr) ∧
    ((chan_nr &&& E.RSL_CHAN_NR_MASK) % 2 ^ 8 = E.RSL_CHAN_Bm_ACCHs →
      dyn_pchan_from_chan_nr E chan_nr = .GSM_PCHAN_TCH_F) ∧
    ((chan_nr &&& E.RSL_CHAN_NR_MASK) % 2 ^ 8 = E.RSL_CHAN_Lm_ACCHs ∨
      (chan_nr &&& E.RSL_CHAN_NR_MASK) % 2 ^ 8 = E.RSL_CHAN_Lm_ACCHs + E.RSL_CHAN_NR_1 →
      dyn_pchan_from_chan_nr E chan_nr = .GSM_PCHAN_TCH_H) ∧
    ((chan_nr &&& E.RSL_CHAN_NR_MASK) % 2 ^ 8 = E.RSL_CHAN_OSMO_PDCH →
      dyn_pchan_from_chan_nr E chan_nr = .GSM_PCHAN_PDCH) ∧
    ((chan_nr &&& E.RSL_CHAN_NR_MASK) % 2 ^ 8 ≠ E.RSL_CHAN_Bm_ACCHs →
      (chan_nr &&& E.RSL_CHAN_NR_MASK) % 2 ^ 8 ≠ E.RSL_CHAN_Lm_ACCHs →
      (chan_nr &&& E.RSL_CHAN_NR_MASK) % 2 ^ 8 ≠ E.RSL_CHAN_Lm_ACCHs + E.RSL_CHAN_NR_1 →
      (chan_nr &&& E.RSL_CHAN_NR_MASK) % 2 ^ 8 ≠ E.RSL_CHAN_OSMO_PDCH →
      dyn_pchan_from_chan_nr E chan_nr = .GSM_PCHAN_UNKNOWN) := by
  have hsame : ∀ c2, c2 &&& E.RSL_CHAN_NR_MASK = chan_nr &&& E.RSL_CHAN_NR_MASK →
      dyn_pchan_from_chan_nr E c2 = dyn_pchan_from_chan_nr E chan_nr := by
    intro c2 h
    simp only [dyn_pchan_from_chan_nr, h]
  refine ⟨hsame, ?_, ?_, ?_, ?_, ?_⟩
  · intro hm c2 h
    apply hsame
    rw [hm]
    exact and_f8_of_shiftRight_eq c2 chan_nr h
  · intro h
    simp only [dyn_pchan_from_chan_nr, h, if_true]
  · intro h
    have hb : (chan_nr &&& E.RSL_CHAN_NR_MASK) % 2 ^ 8 ≠ E.RSL_CHAN_Bm_ACCHs := by
      rcases h with h | h <;> rw [h]
      · exact fun e => hd1 e.symm
      · exact fun e => hd2 e.symm
    simp only [dyn_pchan_from_chan_nr, if_neg hb, if_pos h]
  · intro h
    have hb : (chan_nr &&& E.RSL_CHAN_NR_MASK) % 2 ^ 8 ≠ E.RSL_CHAN_Bm_ACCHs := by
      rw [h]; exact hd3
    have hl : ¬ ((chan_nr &&& E.RSL_CHAN_NR_MASK) % 2 ^ 8 = E.RSL_CHAN_Lm_ACCHs ∨
        (chan_nr &&& E.RSL_CHAN_NR_MASK) % 2 ^ 8 = E.RSL_CHAN_Lm_ACCHs + E.RSL_CHAN_NR_1) := by
      rw [h]
      rintro (e | e)
      · exact hd4 e
      · exact hd5 e
    simp only [dyn_pchan_from_chan_nr, if_neg hb, if_neg hl, if_pos h]
  · intro h1 h2 h3 h4
    have hl : ¬ ((chan_nr &&& E.RSL_CHAN_NR_MASK) % 2 ^ 8 = E.RSL_CHAN_Lm_ACCHs ∨
        (chan_nr &&& E.RSL_CHAN_NR_MASK) % 2 ^ 8 = E.RSL_CHAN_Lm_ACCHs + E.RSL_CHAN_NR_1) := by
      rintro (e | e)
      · exact h2 e
      · exact h3 e
    simp only [dyn_pchan_from_chan_nr, if_neg h1, if_neg hl, if_neg h4]

/-- C13 on the GSM 08.58 code points: 0x0a and 0x0d are both Bm_ACCHs channel
numbers, 0x1a is the second half-rate subchannel, 0xc2 is an Osmocom PDCH and
0x22 (SDCCH/4) has no dynamic target type. -/
theorem C13_dyn_pchan_from_chan_nr_witness :
    dyn_pchan_from_chan_nr refEnv 0x0d = dyn_pchan_from_chan_nr refEnv 0x0a ∧
    dyn_pchan_from_chan_nr refEnv 0x0a = .GSM_PCHAN_TCH_F ∧
    dyn_pchan_from_chan_nr refEnv 0x1a = .GSM_PCHAN_TCH_H ∧
    dyn_pchan_from_chan_nr refEnv 0xc2 = .GSM_PCHAN_PDCH ∧
    dyn_pchan_from_chan_nr refEnv 0x22 = .GSM_PCHAN_UNKNOWN :=
  ⟨(C13_dyn_pchan_from_chan_nr refEnv 0x0a (by decide) (by decide) (by decide) (by decide)
      (by decide)).2.1 rfl 0x0d (by decide),
   (C13_dyn_pchan_from_chan_nr refEnv 0x0a (by decide) (by decide) (by decide) (by decide)
      (by decide)).2.2.1 (by decide),
   (C13_dyn_pchan_from_chan_nr refEnv 0x1a (by decide) (by decide) (by decide) (by decide)
      (by decide)).2.2.2.1 (by decide),
   (C13_dyn_pchan_from_chan_nr refEnv 0xc2 (by decide) (by decide) (by decide) (by decide)
      (by decide)).2.2.2.2.1 (by decide),
   (C13_dyn_pchan_from_chan_nr refEnv 0x22 (by decide) (by decide) (by decide) (by decide)
      (by decide)).2.2.2.2.2 (by decide) (by decide) (by decide) (by decide)⟩

/-! ### C14, C15: CHANNEL ACTIVATION on a three-way dynamic timeslot -/

/-- The timeslot of the lchan after `chan_activ_dyn_want` on a three-way
dynamic timeslot: only `pchan_want` has changed. -/
theorem dyn_want_ts (E : Env) (s : State) (msg : msgb)
    (hp : (s.ts msg.lchan.ts).pchan = .GSM_PCHAN_TCH_F_TCH_H_PDCH) :
    chan_activ_dyn_want E s msg =
      s.setTs msg.lchan.ts
        { s.ts msg.lchan.ts with dyn_pchan_want := dyn_pchan_from_chan_nr E msg.chan_nr } := by
  simp only [chan_activ_dyn_want, hp, if_true]

/-- C14 (amended): a CHANNEL ACTIVATION in lchan state NONE on a three-way
dynamic timeslot whose cbits are none of Bm_ACCHs, Lm_ACCHs, Lm_ACCHs +
RSL_CHAN_NR_1, OSMO_PDCH, while `pchan_is` of the timeslot is not UNKNOWN: the
handler does not return 1, does not park the message and makes no call other
than sending at most one message; it sends exactly one CHAN ACT NACK with cause
NORMAL_UNSPEC when `rel_act_kind` of the lchan is RSL and a message buffer is
available, and sends nothing otherwise. -/
theorem C14_chan_activ_dyn_bad_cbits (E : Env) (s : State) (msg : msgb)
    (hst : (s.lchan msg.lchan).state = .LCHAN_S_NONE)
    (hp : (s.ts msg.lchan.ts).pchan = .GSM_PCHAN_TCH_F_TCH_H_PDCH)
    (hb1 : (msg.chan_nr &&& E.RSL_CHAN_NR_MASK) % 2 ^ 8 ≠ E.RSL_CHAN_Bm_ACCHs)
    (hb2 : (msg.chan_nr &&& E.RSL_CHAN_NR_MASK) % 2 ^ 8 ≠ E.RSL_CHAN_Lm_ACCHs)
    (hb3 : (msg.chan_nr &&& E.RSL_CHAN_NR_MASK) % 2 ^ 8 ≠ E.RSL_CHAN_Lm_ACCHs + E.RSL_CHAN_NR_1)
    (hb4 : (msg.chan_nr &&& E.RSL_CHAN_NR_MASK) % 2 ^ 8 ≠ E.RSL_CHAN_OSMO_PDCH)
    (his : (s.ts msg.lchan.ts).dyn_pchan_is ≠ .GSM_PCHAN_UNKNOWN)
    (hc : E.RSL_ERR_NORMAL_UNSPEC ≠ 0) (hE : E.EINVAL ≠ 0)
    (h1 : E.abis_bts_rsl_sendmsg_rc ≠ 1) :
    (rsl_rx_chan_activ E s msg).2 ≠ 1 ∧
    ((rsl_rx_chan_activ E s msg).1.ts msg.lchan.ts).dyn_pending_chan_activ =
      (s.ts msg.lchan.ts).dyn_pending_chan_activ ∧
    (rsl_rx_chan_activ E s msg).1.trace = s.trace ++
      (if (s.lchan msg.lchan).rel_act_kind = .LCHAN_REL_ACT_RSL ∧ E.msgb_alloc_ok = true then
        [.abis_bts_rsl_sendmsg
          (chan_act_nack_msg E (chan_activ_dyn_want E s msg) msg.lchan E.RSL_ERR_NORMAL_UNSPEC)]
       else []) ∧
    (chan_act_nack_msg E (chan_activ_dyn_want E s msg) msg.lchan
        E.RSL_ERR_NORMAL_UNSPEC).msg_type = .RSL_MT_CHAN_ACTIV_NACK ∧
    (chan_act_nack_msg E (chan_activ_dyn_want E s msg) msg.lchan E.RSL_ERR_NORMAL_UNSPEC).ies =
      [(.RSL_IE_CAUSE, [E.RSL_ERR_NORMAL_UNSPEC])] ∧
    (rsl_rx_chan_activ E s msg).1.lchan = s.lchan := by
  have hl : ¬ ((msg.chan_nr &&& E.RSL_CHAN_NR_MASK) % 2 ^ 8 = E.RSL_CHAN_Lm_ACCHs ∨
      (msg.chan_nr &&& E.RSL_CHAN_NR_MASK) % 2 ^ 8 = E.RSL_CHAN_Lm_ACCHs + E.RSL_CHAN_NR_1) := by
    rintro (e | e)
    · exact hb2 e
    · exact hb3 e
  have hu : dyn_pchan_from_chan_nr E msg.chan_nr = .GSM_PCHAN_UNKNOWN := by
    simp only [dyn_pchan_from_chan_nr, if_neg hb1, if_neg hl, if_neg hb4]
  have hEi : -(E.EINVAL : Int) ≠ 0 := by
    intro h
    exact hE (by omega)
  have hr : rsl_rx_chan_activ E s msg =
      rsl_tx_chan_act_acknack E (chan_activ_dyn_want E s msg) msg.lchan
        E.RSL_ERR_NORMAL_UNSPEC := by
    unfold rsl_rx_chan_activ
    simp only [hst, ne_eq, not_true_eq_false, if_false]
    rw [dyn_want_ts E s msg hp, hu]
    have hcond : ((s.setTs msg.lchan.ts
          { s.ts msg.lchan.ts with dyn_pchan_want := .GSM_PCHAN_UNKNOWN }).ts msg.lchan.ts).pchan =
          .GSM_PCHAN_TCH_F_TCH_H_PDCH ∧
        ((s.setTs msg.lchan.ts
          { s.ts msg.lchan.ts with
            dyn_pchan_want := .GSM_PCHAN_UNKNOWN }).ts msg.lchan.ts).dyn_pchan_is ≠
        ((s.setTs msg.lchan.ts
          { s.ts msg.lchan.ts with
            dyn_pchan_want := .GSM_PCHAN_UNKNOWN }).ts msg.lchan.ts).dyn_pchan_want := by
      simp only [State.setTs, if_true]
      exact ⟨hp, his⟩
    rw [if_pos hcond]
    simp [dyn_ts_l1_reconnect, State.setTs, hEi]
  rw [hr, dyn_want_ts E s msg hp, hu]
  have hEn : -(E.ENOMEM : Int) ≠ 1 := by omega
  by_cases hk : (s.lchan msg.lchan).rel_act_kind = .LCHAN_REL_ACT_RSL
  · cases ha : E.msgb_alloc_ok
    · simp [rsl_tx_chan_act_acknack, rsl_tx_chan_act_nack, chan_act_nack_msg, State.setTs,
        State.emit, hk, hc, ha, hEn]
    · simp [rsl_tx_chan_act_acknack, rsl_tx_chan_act_nack, chan_act_nack_msg, State.setTs,
        State.emit, hk, hc, ha, h1]
  · simp [rsl_tx_chan_act_acknack, chan_act_nack_msg, State.setTs, hk]

/-- C14 (amended) for an SDCCH/4 channel number on an unconfigured dynamic
timeslot: the lchan was last used through RSL, one NACK with cause 0x0f is
sent. -/
theorem C14_chan_activ_dyn_bad_cbits_witness :
    (rsl_rx_chan_activ refEnv (state_dyn .LCHAN_REL_ACT_RSL .GSM_PCHAN_NONE)
      chan_activ_sdcch_msg).2 ≠ 1 ∧
    (sent (rsl_rx_chan_activ refEnv (state_dyn .LCHAN_REL_ACT_RSL .GSM_PCHAN_NONE)
      chan_activ_sdcch_msg).1.trace).map (fun m => (m.msg_type, m.ies)) =
      [(.RSL_MT_CHAN_ACTIV_NACK, [(.RSL_IE_CAUSE, [0x0f])])] := by
  have h := C14_chan_activ_dyn_bad_cbits refEnv (state_dyn .LCHAN_REL_ACT_RSL .GSM_PCHAN_NONE)
    chan_activ_sdcch_msg rfl rfl (by decide) (by decide) (by decide) (by decide) (by decide)
    (by decide) (by decide) (by decide)
  refine ⟨h.1, ?_⟩
  rw [h.2.2.1]
  decide

/-- C14 as claimed fails in two ways.  On an lchan whose `rel_act_kind` is PCU
the request with SDCCH/4 cbits is dropped without any reply.  On a timeslot
whose `pchan_is` is UNKNOWN the same request is not refused at all: the PHY is
asked to activate the channel. -/
theorem C14_counterexample :
    (rsl_rx_chan_activ refEnv (state_dyn .LCHAN_REL_ACT_PCU .GSM_PCHAN_NONE)
      chan_activ_sdcch_msg).1.trace = [] ∧
    (rsl_rx_chan_activ refEnv (state_dyn .LCHAN_REL_ACT_PCU .GSM_PCHAN_NONE)
      chan_activ_sdcch_msg).2 = 0 ∧
    (rsl_rx_chan_activ refEnv (state_dyn .LCHAN_REL_ACT_RSL .GSM_PCHAN_UNKNOWN)
      chan_activ_sdcch_msg).1.trace = [.l1sap_chan_act 0 0x22] ∧
    (rsl_rx_chan_activ refEnv (state_dyn .LCHAN_REL_ACT_RSL .GSM_PCHAN_UNKNOWN)
      chan_activ_sdcch_msg).2 = 0 := by
  decide

/-- C15: a CHANNEL ACTIVATION in lchan state NONE on a three-way dynamic
timeslot whose cbits select TCH/F, TCH/H or PDCH, different from the current
`pchan_is`, with the PHY accepting the disconnect request: the handler returns
1, the message is the `pending_chan_activ` of the timeslot, `pchan_want` is the
selected type, `pchan_is` is unchanged, the only call made is one PHY
disconnect of this timeslot (so no ACK and no NACK is sent), and no lchan, no
other timeslot and nothing of the BTS has changed (so no IE was applied). -/
theorem C15_chan_activ_dyn_switchover (E : Env) (s : State) (msg : msgb)
    (hst : (s.lchan msg.lchan).state = .LCHAN_S_NONE)
    (hp : (s.ts msg.lchan.ts).pchan = .GSM_PCHAN_TCH_F_TCH_H_PDCH)
    (hw : dyn_pchan_from_chan_nr E msg.chan_nr = .GSM_PCHAN_TCH_F ∨
          dyn_pchan_from_chan_nr E msg.chan_nr = .GSM_PCHAN_TCH_H ∨
          dyn_pchan_from_chan_nr E msg.chan_nr = .GSM_PCHAN_PDCH)
    (hne : (s.ts msg.lchan.ts).dyn_pchan_is ≠ dyn_pchan_from_chan_nr E msg.chan_nr)
    (hrc : E.bts_model_ts_disconnect_rc = 0) :
    (rsl_rx_chan_activ E s msg).2 = 1 ∧
    ((rsl_rx_chan_activ E s msg).1.ts msg.lchan.ts).dyn_pending_chan_activ = some msg ∧
    ((rsl_rx_chan_activ E s msg).1.ts msg.lchan.ts).dyn_pchan_want =
      dyn_pchan_from_chan_nr E msg.chan_nr ∧
    ((rsl_rx_chan_activ E s msg).1.ts msg.lchan.ts).dyn_pchan_is =
      (s.ts msg.lchan.ts).dyn_pchan_is ∧
    ((rsl_rx_chan_activ E s msg).1.ts msg.lchan.ts).pchan = .GSM_PCHAN_TCH_F_TCH_H_PDCH ∧
    ((rsl_rx_chan_activ E s msg).1.ts msg.lchan.ts).flags = (s.ts msg.lchan.ts).flags ∧
    (∀ t, t ≠ msg.lchan.ts → (rsl_rx_chan_activ E s msg).1.ts t = s.ts t) ∧
    (rsl_rx_chan_activ E s msg).1.trace = s.trace ++ [.bts_model_ts_disconnect msg.lchan.ts] ∧
    sent (rsl_rx_chan_activ E s msg).1.trace = sent s.trace ∧
    (rsl_rx_chan_activ E s msg).1.lchan = s.lchan ∧
    (rsl_rx_chan_activ E s msg).1.bts = s.bts := by
  have hr : rsl_rx_chan_activ E s msg =
      (((s.setTs msg.lchan.ts
          { s.ts msg.lchan.ts with dyn_pchan_want := dyn_pchan_from_chan_nr E msg.chan_nr }).setTs
          msg.lchan.ts
          { s.ts msg.lchan.ts with
            dyn_pchan_want := dyn_pchan_from_chan_nr E msg.chan_nr,
            dyn_pending_chan_activ := some msg }).emit
          (.bts_model_ts_disconnect msg.lchan.ts), 1) := by
    unfold rsl_rx_chan_activ
    simp only [hst, ne_eq, not_true_eq_false, if_false, dyn_want_ts E s msg hp]
    have hcond : ((s.setTs msg.lchan.ts
          { s.ts msg.lchan.ts with
            dyn_pchan_want := dyn_pchan_from_chan_nr E msg.chan_nr }).ts msg.lchan.ts).pchan =
          .GSM_PCHAN_TCH_F_TCH_H_PDCH ∧
        ((s.setTs msg.lchan.ts
          { s.ts msg.lchan.ts with
            dyn_pchan_want := dyn_pchan_from_chan_nr E msg.chan_nr }).ts msg.lchan.ts).dyn_pchan_is ≠
        ((s.setTs msg.lchan.ts
          { s.ts msg.lchan.ts with
            dyn_pchan_want := dyn_pchan_from_chan_nr E msg.chan_nr }).ts msg.lchan.ts).dyn_pchan_want := by
      simp only [State.setTs, if_true]
      exact ⟨hp, hne⟩
    rw [if_pos hcond]
    rcases hw with h | h | h <;>
      simp [dyn_ts_l1_reconnect, State.setTs, h, hrc]
  rw [hr]
  refine ⟨rfl, ?_, ?_, ?_, ?_, ?_, ?_, ?_, ?_, ?_, ?_⟩
  · simp [State.emit, State.setTs]
  · simp [State.emit, State.setTs]
  · simp [State.emit, State.setTs]
  · simp [State.emit, State.setTs, hp]
  · simp [State.emit, State.setTs]
  · intro t ht
    simp [State.emit, State.setTs, ht]
  · simp [State.emit, State.setTs]
  · simp [State.emit, State.setTs, sent_append, sent]
  · simp [State.emit, State.setTs]
  · simp [State.emit, State.setTs]

/-- C15 for a Bm channel number on a dynamic timeslot that is currently
unconfigured. -/
theorem C15_chan_activ_dyn_switchover_witness :
    (rsl_rx_chan_activ refEnv (state_dyn .LCHAN_REL_ACT_RSL .GSM_PCHAN_NONE)
      chan_activ_plain_msg).2 = 1 ∧
    ((rsl_rx_chan_activ refEnv (state_dyn .LCHAN_REL_ACT_RSL .GSM_PCHAN_NONE)
      chan_activ_plain_msg).1.ts ⟨0, 2⟩).dyn_pending_chan_activ = some chan_activ_plain_msg ∧
    (rsl_rx_chan_activ refEnv (state_dyn .LCHAN_REL_ACT_RSL .GSM_PCHAN_NONE)
      chan_activ_plain_msg).1.trace = [.bts_model_ts_disconnect ⟨0, 2⟩] :=
  have h := C15_chan_activ_dyn_switchover refEnv (state_dyn .LCHAN_REL_ACT_RSL .GSM_PCHAN_NONE)
    chan_activ_plain_msg rfl rfl (Or.inl (by decide)) (by decide) rfl
  ⟨h.1, h.2.1, h.2.2.2.2.2.2.2.1⟩

/-! ### C18: RF CHANNEL RELEASE ACKNOWLEDGE -/

/-- C18: with a message buffer available, `rsl_tx_rf_rel_ack` tears down the
LAPDm channel and then sends one RF CHAN REL ACK (dedicated-channel header, no
IE) when `rel_act_kind` is RSL, or when the timeslot is three-way dynamic with
`pchan_is` PDCH and `rel_act_kind` is PCU; in every other case it makes no call
at all, changes nothing and returns 0.  It never changes the BTS data. -/
theorem C18_rf_rel_ack_gate (E : Env) (s : State) (l : LchanId)
    (ha : E.msgb_alloc_ok = true) :
    (((s.lchan l).rel_act_kind = .LCHAN_REL_ACT_RSL ∨
      ((s.ts l.ts).pchan = .GSM_PCHAN_TCH_F_TCH_H_PDCH ∧
       (s.ts l.ts).dyn_pchan_is = .GSM_PCHAN_PDCH ∧
       (s.lchan l).rel_act_kind = .LCHAN_REL_ACT_PCU)) →
      (rsl_tx_rf_rel_ack E s l).1.trace = s.trace ++
        [.lapdm_channel_exit l,
         .abis_bts_rsl_sendmsg
           { discr := .ABIS_RSL_MDISC_DED_CHAN, msg_type := .RSL_MT_RF_CHAN_REL_ACK,
             chan_nr := some (E.gsm_lchan2chan_nr l (s.ts l.ts)), ies := [],
             trx := some l.ts.trx }] ∧
      (rsl_tx_rf_rel_ack E s l).2 = E.abis_bts_rsl_sendmsg_rc) ∧
    (¬ ((s.lchan l).rel_act_kind = .LCHAN_REL_ACT_RSL ∨
      ((s.ts l.ts).pchan = .GSM_PCHAN_TCH_F_TCH_H_PDCH ∧
       (s.ts l.ts).dyn_pchan_is = .GSM_PCHAN_PDCH ∧
       (s.lchan l).rel_act_kind = .LCHAN_REL_ACT_PCU)) →
      rsl_tx_rf_rel_ack E s l = (s, 0)) ∧
    (rsl_tx_rf_rel_ack E s l).1.lchan = s.lchan ∧
    (rsl_tx_rf_rel_ack E s l).1.ts = s.ts ∧
    (rsl_tx_rf_rel_ack E s l).1.bts = s.bts := by
  by_cases hg : (s.lchan l).rel_act_kind ≠ .LCHAN_REL_ACT_RSL ∧
      ¬ ((s.ts l.ts).pchan = .GSM_PCHAN_TCH_F_TCH_H_PDCH ∧
         (s.ts l.ts).dyn_pchan_is = .GSM_PCHAN_PDCH ∧
         (s.lchan l).rel_act_kind = .LCHAN_REL_ACT_PCU)
  · have hr : rsl_tx_rf_rel_ack E s l = (s, 0) := by
      unfold rsl_tx_rf_rel_ack
      rw [if_pos hg]
    rw [hr]
    refine ⟨?_, fun _ => rfl, rfl, rfl, rfl⟩
    rintro (h | h)
    · exact absurd h hg.1
    · exact absurd h hg.2
  · have hr : rsl_tx_rf_rel_ack E s l =
        (((s.emit (.lapdm_channel_exit l)).emit (.abis_bts_rsl_sendmsg
          { discr := .ABIS_RSL_MDISC_DED_CHAN, msg_type := .RSL_MT_RF_CHAN_REL_ACK,
            chan_nr := some (E.gsm_lchan2chan_nr l (s.ts l.ts)), ies := [],
            trx := some l.ts.trx })), E.abis_bts_rsl_sendmsg_rc) := by
      unfold rsl_tx_rf_rel_ack
      rw [if_neg hg]
      simp [ha]
    rw [hr]
    refine ⟨fun _ => ⟨by simp [State.emit], rfl⟩, ?_, rfl, rfl, rfl⟩
    intro h
    exfalso
    apply hg
    constructor
    · exact fun e => h (Or.inl e)
    · exact fun e => h (Or.inr e)

/-- C18 on three lchans: last activated through RSL (ACK), last activated by
the PCU on a static timeslot (silent), and last activated by the PCU on a
three-way dynamic timeslot in PDCH mode (ACK). -/
theorem C18_rf_rel_ack_gate_witness :
    (rsl_tx_rf_rel_ack refEnv (state_with .LCHAN_S_ACTIVE .LCHAN_REL_ACT_RSL .GSM_PCHAN_TCH_F)
      lchan02).1.trace =
      [.lapdm_channel_exit lchan02,
       .abis_bts_rsl_sendmsg
         { discr := .ABIS_RSL_MDISC_DED_CHAN, msg_type := .RSL_MT_RF_CHAN_REL_ACK,
           chan_nr := some 0x0a, ies := [], trx := some 0 }] ∧
    rsl_tx_rf_rel_ack refEnv (state_with .LCHAN_S_ACTIVE .LCHAN_REL_ACT_PCU .GSM_PCHAN_PDCH)
      lchan02 = (state_with .LCHAN_S_ACTIVE .LCHAN_REL_ACT_PCU .GSM_PCHAN_PDCH, 0) ∧
    (sent (rsl_tx_rf_rel_ack refEnv (state_dyn .LCHAN_REL_ACT_PCU .GSM_PCHAN_PDCH)
      lchan02).1.trace).length = 1 := by
  refine ⟨?_, ?_, ?_⟩
  · exact ((C18_rf_rel_ack_gate refEnv
      (state_with .LCHAN_S_ACTIVE .LCHAN_REL_ACT_RSL .GSM_PCHAN_TCH_F) lchan02 rfl).1
      (Or.inl rfl)).1
  · exact (C18_rf_rel_ack_gate refEnv
      (state_with .LCHAN_S_ACTIVE .LCHAN_REL_ACT_PCU .GSM_PCHAN_PDCH) lchan02 rfl).2.1
      (by decide)
  · rw [((C18_rf_rel_ack_gate refEnv (state_dyn .LCHAN_REL_ACT_PCU .GSM_PCHAN_PDCH) lchan02
      rfl).1 (Or.inr ⟨rfl, rfl, rfl⟩)).1]
    decide

/-! ### C19: RF CHANNEL RELEASE -/

/-- Freed queue entries are not messages to the BSC. -/
theorem sent_msgb_free (q : List (List Nat)) :
    sent (q.map (fun _ => Event.msgb_free)) = [] := by
  induction q with
  | nil => rfl
  | cons a q ih => simpa [sent] using ih

/-- `rsl_tx_rf_rel_ack` changes no lchan and sends nothing but RF CHAN REL
ACK. -/
theorem rf_rel_ack_frame (E : Env) (s : State) (l : LchanId) :
    (rsl_tx_rf_rel_ack E s l).1.lchan = s.lchan ∧
    ∃ rest, (rsl_tx_rf_rel_ack E s l).1.trace = s.trace ++ rest ∧
      ∀ m ∈ sent rest, m.msg_type = .RSL_MT_RF_CHAN_REL_ACK := by
  unfold rsl_tx_rf_rel_ack
  dsimp only
  split
  · exact ⟨rfl, [], by simp, by simp [sent]⟩
  · split
    · exact ⟨rfl, [.lapdm_channel_exit l], rfl, by simp [sent]⟩
    · exact ⟨rfl, [.lapdm_channel_exit l, .abis_bts_rsl_sendmsg
          { discr := .ABIS_RSL_MDISC_DED_CHAN, msg_type := .RSL_MT_RF_CHAN_REL_ACK,
            chan_nr := some (E.gsm_lchan2chan_nr l (s.ts l.ts)), ies := [],
            trx := some l.ts.trx }],
        by simp [State.emit], by simp [sent]⟩

/-- `dyn_ts_pdch_release` changes no lchan and sends nothing. -/
theorem pdch_release_frame (E : Env) (s : State) (l : LchanId) :
    (dyn_ts_pdch_release E s l).1.lchan = s.lchan ∧
    ∃ rest, (dyn_ts_pdch_release E s l).1.trace = s.trace ++ rest ∧ sent rest = [] := by
  unfold dyn_ts_pdch_release
  dsimp only
  split
  · exact ⟨rfl, [], by simp, rfl⟩
  · split
    · exact ⟨rfl, [], by simp [State.setTs], rfl⟩
    · exact ⟨rfl, [.pcu_tx_info_ind], by simp [State.setTs, State.emit], rfl⟩

/-- The end of `rsl_rx_rf_chan_rel` changes no lchan and sends nothing but RF
CHAN REL ACK. -/
theorem rf_chan_rel_finish_frame (E : Env) (s : State) (l : LchanId) (chan_nr : Nat) :
    (rf_chan_rel_finish E s l chan_nr).1.lchan = s.lchan ∧
    ∃ rest, (rf_chan_rel_finish E s l chan_nr).1.trace = s.trace ++ rest ∧
      ∀ m ∈ sent rest, m.msg_type = .RSL_MT_RF_CHAN_REL_ACK := by
  unfold rf_chan_rel_finish
  dsimp only
  obtain ⟨hl1, r1, ht1, hs1⟩ := pdch_release_frame E s l
  split
  · split
    · exact ⟨hl1, r1, ht1, by simp [hs1]⟩
    · obtain ⟨hl2, r2, ht2, hs2⟩ := rf_rel_ack_frame E (dyn_ts_pdch_release E s l).1 l
      refine ⟨hl2.trans hl1, r1 ++ r2, ?_, ?_⟩
      · rw [ht2, ht1, List.append_assoc]
      · intro m hm
        rw [sent_append, hs1, List.nil_append] at hm
        exact hs2 m hm
  · exact ⟨rfl, [.l1sap_chan_rel l.ts.trx chan_nr, .lapdm_channel_exit l],
      by simp [State.emit], by simp [sent]⟩

/-- What RF CHANNEL RELEASE does to the lchan.  Afterwards the lchan has no RTP
socket, its handover state is reset and `rel_act_kind` is RSL, and its downlink
TCH queue lists the same frames as before.  If the lchan had a socket (and a
message buffer is available), the calls made start with one IPAC DLCX IND
carrying cause NORMAL_UNSPEC followed by the release of that socket and one
`msgb_free` for each queued frame, and no further DLCX IND is sent.  If the
lchan had no socket, no DLCX IND is sent. -/
theorem rf_chan_rel_effect (E : Env) (s : State) (l : LchanId) (chan_nr : Nat)
    (ha : E.msgb_alloc_ok = true) :
    ((rsl_rx_rf_chan_rel E s l chan_nr).1.lchan l).abis_ip_rtp_socket = none ∧
    ((rsl_rx_rf_chan_rel E s l chan_nr).1.lchan l).ho_active = .HANDOVER_NONE ∧
    ((rsl_rx_rf_chan_rel E s l chan_nr).1.lchan l).rel_act_kind = .LCHAN_REL_ACT_RSL ∧
    ((rsl_rx_rf_chan_rel E s l chan_nr).1.lchan l).dl_tch_queue = (s.lchan l).dl_tch_queue ∧
    (∀ sock, (s.lchan l).abis_ip_rtp_socket = some sock →
      (ipac_dlcx_ind_msg E s l E.RSL_ERR_NORMAL_UNSPEC).msg_type = .RSL_MT_IPAC_DLCX_IND ∧
      (.RSL_IE_CAUSE, [E.RSL_ERR_NORMAL_UNSPEC]) ∈
        (ipac_dlcx_ind_msg E s l E.RSL_ERR_NORMAL_UNSPEC).ies ∧
      ∃ rest, (rsl_rx_rf_chan_rel E s l chan_nr).1.trace = s.trace ++
          .abis_bts_rsl_sendmsg (ipac_dlcx_ind_msg E s l E.RSL_ERR_NORMAL_UNSPEC) ::
          .osmo_rtp_socket_free sock ::
          ((s.lchan l).dl_tch_queue.map (fun _ => Event.msgb_free) ++ rest) ∧
        ∀ m ∈ sent rest, m.msg_type ≠ .RSL_MT_IPAC_DLCX_IND) ∧
    ((s.lchan l).abis_ip_rtp_socket = none →
      ∃ rest, (rsl_rx_rf_chan_rel E s l chan_nr).1.trace = s.trace ++ rest ∧
        ∀ m ∈ sent rest, m.msg_type ≠ .RSL_MT_IPAC_DLCX_IND) := by
  unfold rsl_rx_rf_chan_rel
  dsimp only
  obtain ⟨hl, rest, ht, hs⟩ := rf_chan_rel_finish_frame E
    ((handover_reset (rf_chan_rel_rtp E s l) l).setLchan l
      { (handover_reset (rf_chan_rel_rtp E s l) l).lchan l with
        rel_act_kind := .LCHAN_REL_ACT_RSL }) l chan_nr
  have hne : ∀ m ∈ sent rest, m.msg_type ≠ .RSL_MT_IPAC_DLCX_IND := by
    intro m hm
    rw [hs m hm]
    decide
  rw [hl, ht]
  cases hsock : (s.lchan l).abis_ip_rtp_socket with
  | none =>
    have h1 : rf_chan_rel_rtp E s l = s := by
      unfold rf_chan_rel_rtp
      rw [hsock]
    rw [h1]
    refine ⟨?_, ?_, ?_, ?_, ?_, ?_⟩
    · simp [State.setLchan, handover_reset, hsock]
    · simp [State.setLchan, handover_reset]
    · simp [State.setLchan, handover_reset]
    · simp [State.setLchan, handover_reset]
    · intro sock h
      exact absurd h (by simp)
    · intro _
      refine ⟨rest, ?_, hne⟩
      simp [State.setLchan, handover_reset]
  | some sock0 =>
    have h1 : rf_chan_rel_rtp E s l =
        { (((s.emit (.abis_bts_rsl_sendmsg
              (ipac_dlcx_ind_msg E s l E.RSL_ERR_NORMAL_UNSPEC))).emit
              (.osmo_rtp_socket_free sock0)).setLchan l
              { s.lchan l with abis_ip_rtp_socket := none }) with
            trace := s.trace ++ [.abis_bts_rsl_sendmsg
              (ipac_dlcx_ind_msg E s l E.RSL_ERR_NORMAL_UNSPEC)] ++
              [.osmo_rtp_socket_free sock0] ++
              (s.lchan l).dl_tch_queue.map (fun _ => Event.msgb_free) } := by
      unfold rf_chan_rel_rtp
      rw [hsock]
      simp [rsl_tx_ipac_dlcx_ind, ha, msgb_queue_flush, State.emit, State.setLchan]
    rw [h1]
    refine ⟨?_, ?_, ?_, ?_, ?_, ?_⟩
    · simp [State.setLchan, handover_reset]
    · simp [State.setLchan, handover_reset]
    · simp [State.setLchan, handover_reset]
    · simp [State.setLchan, handover_reset, State.emit]
    · intro sock h
      have hs0 : sock0 = sock := by simpa using h
      subst hs0
      refine ⟨rfl, by simp [ipac_dlcx_ind_msg], rest, ?_, hne⟩
      simp [State.setLchan, handover_reset, State.emit]
    · intro h
      exact absurd h (by simp)

/-- C19: RF CHANNEL RELEASE does not leave the downlink TCH queue empty.  On an
lchan with RTP socket 7 and two queued frames the handler sends the DLCX IND,
frees the socket, releases the two frames and asks the PHY for the release;
the socket is gone, the handover state reset and `rel_act_kind` RSL, as
claimed, but the queue still lists the two released frames, and an IPAC DLCX
that follows releases the same two frames again.  On an lchan without socket
that holds a queued frame no frame is released and the frame stays queued. -/
theorem C19_released_frames_stay_queued :
    (rsl_rx_rf_chan_rel refEnv state_queue_socket lchan02 0x0a).1.trace =
      [.abis_bts_rsl_sendmsg (ipac_dlcx_ind_msg refEnv state_queue_socket lchan02 0x0f),
       .osmo_rtp_socket_free 7, .msgb_free, .msgb_free,
       .l1sap_chan_rel 0 0x0a, .lapdm_channel_exit lchan02] ∧
    ((rsl_rx_rf_chan_rel refEnv state_queue_socket lchan02 0x0a).1.lchan
      lchan02).abis_ip_rtp_socket = none ∧
    ((rsl_rx_rf_chan_rel refEnv state_queue_socket lchan02 0x0a).1.lchan
      lchan02).ho_active = .HANDOVER_NONE ∧
    ((rsl_rx_rf_chan_rel refEnv state_queue_socket lchan02 0x0a).1.lchan
      lchan02).rel_act_kind = .LCHAN_REL_ACT_RSL ∧
    ((rsl_rx_rf_chan_rel refEnv state_queue_socket lchan02 0x0a).1.lchan
      lchan02).dl_tch_queue = [[0xd0, 0x01], [0xd0, 0x02]] ∧
    ((rsl_rx_ipac_dlcx refEnv (rsl_rx_rf_chan_rel refEnv state_queue_socket lchan02 0x0a).1
      (ipac_msg 0x77 [])).1.trace.drop 6).filter (fun e => decide (e = .msgb_free)) =
      [.msgb_free, .msgb_free] ∧
    (state_queue_no_socket.lchan lchan02).abis_ip_rtp_socket = none ∧
    ((rsl_rx_rf_chan_rel refEnv state_queue_no_socket lchan02 0x0a).1.lchan
      lchan02).dl_tch_queue = [[0xd0, 0x01]] ∧
    (rsl_rx_rf_chan_rel refEnv state_queue_no_socket lchan02 0x0a).1.trace =
      [.l1sap_chan_rel 0 0x0a, .lapdm_channel_exit lchan02] ∧
    ((rsl_rx_rf_chan_rel refEnv state_queue_no_socket lchan02 0x0a).1.lchan
      lchan02).ho_active = .HANDOVER_NONE ∧
    ((rsl_rx_rf_chan_rel refEnv state_queue_no_socket lchan02 0x0a).1.lchan
      lchan02).rel_act_kind = .LCHAN_REL_ACT_RSL := by
  decide

/-! ### The path of a CHANNEL ACTIVATION whose IEs are accepted -/

/-- Every state has its own timeslots and calls. -/
theorem same_ts_trace_refl (s : State) : same_ts_trace s s := ⟨rfl, rfl⟩

/-- Having the same timeslots and calls is transitive. -/
theorem same_ts_trace_trans {s s1 s2 : State} (h1 : same_ts_trace s s1)
    (h2 : same_ts_trace s1 s2) : same_ts_trace s s2 :=
  ⟨h2.1.trans h1.1, h2.2.trans h1.2⟩

/-- Replacing an lchan changes neither timeslots nor calls. -/
theorem same_ts_trace_setLchan (s : State) (l : LchanId) (v : gsm_lchan) :
    same_ts_trace s (s.setLchan l v) := ⟨rfl, rfl⟩

/-- The channel mode changes neither timeslots nor calls. -/
theorem same_ts_trace_tchmode (E : Env) (s : State) (l : LchanId) (cm : tlv_p_entry) :
    same_ts_trace s (lchan_tchmode_from_cmode E s l cm) := ⟨rfl, rfl⟩

/-- The encryption information changes neither timeslots nor calls. -/
theorem same_ts_trace_encr (E : Env) (s : State) (l : LchanId) (val : tlv_p_entry) (len : Nat) :
    same_ts_trace s (encr_info2lchan E s l val len).1 := by
  unfold encr_info2lchan
  simp only
  split
  · exact same_ts_trace_refl s
  · split
    · exact same_ts_trace_refl s
    · exact ⟨rfl, rfl⟩

/-- The result code of `encr_info2lchan` does not depend on the state. -/
theorem encr_rc_indep (E : Env) (s s2 : State) (l : LchanId) (val : tlv_p_entry) (len : Nat) :
    (encr_info2lchan E s2 l val len).2 = (encr_info2lchan E s l val len).2 := by
  unfold encr_info2lchan
  simp only
  split
  · rfl
  · split <;> rfl

/-- Whether the loop over the SACCH information comes to its end does not
depend on the lchan it writes to. -/
theorem sacch_info_loop_indep (E : Env) (e : tlv_p_entry) (tot_len : Nat) :
    ∀ (n cur : Nat) (lc lc2 : gsm_lchan),
      (sacch_info_loop E e tot_len n cur lc2).2 = (sacch_info_loop E e tot_len n cur lc).2 := by
  intro n
  induction n with
  | zero => intro cur lc lc2; rfl
  | succ n ih =>
    intro cur lc lc2
    unfold sacch_info_loop
    simp only
    split
    · rfl
    · split
      · rfl
      · split
        · rfl
        · exact ih _ _ _

/-- The encryption block changes neither timeslots nor calls. -/
theorem same_ts_trace_chan_activ_encr (E : Env) (s : State) (msg : msgb) :
    same_ts_trace s (chan_activ_encr E s msg).1 := by
  unfold chan_activ_encr
  simp only
  split
  · exact same_ts_trace_encr E s _ _ _
  · exact ⟨rfl, rfl⟩

/-- The handover reference changes neither timeslots nor calls. -/
theorem same_ts_trace_ho_ref (E : Env) (s : State) (msg : msgb) (type : Nat) :
    same_ts_trace s (chan_activ_ho_ref E s msg type) := by
  unfold chan_activ_ho_ref
  simp only
  split
  · exact ⟨rfl, rfl⟩
  · exact same_ts_trace_refl s

/-- The BS power changes neither timeslots nor calls. -/
theorem same_ts_trace_bs_power (s : State) (msg : msgb) :
    same_ts_trace s (chan_activ_bs_power s msg) := by
  unfold chan_activ_bs_power
  simp only
  split
  · exact ⟨rfl, rfl⟩
  · exact same_ts_trace_refl s

/-- The MS power changes neither timeslots nor calls. -/
theorem same_ts_trace_ms_power (s : State) (msg : msgb) :
    same_ts_trace s (chan_activ_ms_power s msg) := by
  unfold chan_activ_ms_power
  simp only
  split
  · exact ⟨rfl, rfl⟩
  · exact same_ts_trace_refl s

/-- The timing advance changes neither timeslots nor calls. -/
theorem same_ts_trace_ta (s : State) (msg : msgb) :
    same_ts_trace s (chan_activ_ta s msg) := by
  unfold chan_activ_ta
  simp only
  split
  · exact ⟨rfl, rfl⟩
  · exact same_ts_trace_refl s

/-- The SACCH information changes neither timeslots nor calls. -/
theorem same_ts_trace_sacch_info (E : Env) (s : State) (msg : msgb) :
    same_ts_trace s (chan_activ_sacch_info E s msg).1 := by
  unfold chan_activ_sacch_info
  simp only
  split
  · exact ⟨rfl, rfl⟩
  · exact ⟨rfl, rfl⟩

/-- The MultiRate configuration changes neither timeslots nor calls. -/
theorem same_ts_trace_mr_config (E : Env) (s : State) (msg : msgb) :
    same_ts_trace s (chan_activ_mr_config E s msg) := by
  unfold chan_activ_mr_config
  split
  · exact ⟨rfl, rfl⟩
  · exact same_ts_trace_refl s

/-- The channel defaults change neither timeslots nor calls. -/
theorem same_ts_trace_defaults (E : Env) (s : State) (msg : msgb) :
    same_ts_trace s (chan_activ_defaults E s msg) := ⟨rfl, rfl⟩

/-- The channel mode block changes neither timeslots nor calls. -/
theorem same_ts_trace_chan_mode (E : Env) (s : State) (msg : msgb) (type : Nat) :
    same_ts_trace s (chan_activ_chan_mode E s msg type) := by
  unfold chan_activ_chan_mode
  split
  · exact same_ts_trace_tchmode E s _ _
  · exact same_ts_trace_refl s

/-- The IE part of `rsl_rx_chan_activ` for accepted IEs: it ends in the PDCH
activation through the PCU or in the activation request to the PHY, reached
with the timeslots and calls it started with.  The IEs are accepted in the
state `s0` in which the handler was entered. -/
theorem chan_activ_ies_accepted_run (E : Env) (s0 s : State) (msg : msgb) (type : Nat)
    (h : chan_activ_ies_accepted E s0 msg) :
    ∃ s2, same_ts_trace s s2 ∧
      chan_activ_ies E s msg type =
        if (s.ts msg.lchan.ts).pchan = .GSM_PCHAN_TCH_F_TCH_H_PDCH ∧
            (s.ts msg.lchan.ts).dyn_pchan_want = .GSM_PCHAN_PDCH then
          chan_activ_pdch E s2 msg
        else chan_activ_l1 E s2 msg := by
  obtain ⟨henc, hsi, hmr⟩ := h
  have h1 := same_ts_trace_chan_activ_encr E s msg
  have hrc : ¬ (chan_activ_encr E s msg).2 < 0 := by
    unfold chan_activ_encr
    simp only
    split
    · next hp =>
      rw [encr_rc_indep E s0 s]
      exact not_lt.mpr (henc hp)
    · simp
  have h2 := same_ts_trace_ho_ref E (chan_activ_encr E s msg).1 msg type
  have h3 := same_ts_trace_bs_power (chan_activ_ho_ref E (chan_activ_encr E s msg).1 msg type) msg
  have h4 := same_ts_trace_ms_power (chan_activ_bs_power
    (chan_activ_ho_ref E (chan_activ_encr E s msg).1 msg type) msg) msg
  have h5 := same_ts_trace_ta (chan_activ_ms_power (chan_activ_bs_power
    (chan_activ_ho_ref E (chan_activ_encr E s msg).1 msg type) msg) msg) msg
  have h6 := same_ts_trace_sacch_info E (chan_activ_ta (chan_activ_ms_power (chan_activ_bs_power
    (chan_activ_ho_ref E (chan_activ_encr E s msg).1 msg type) msg) msg) msg) msg
  have h7 := same_ts_trace_mr_config E (chan_activ_sacch_info E (chan_activ_ta
    (chan_activ_ms_power (chan_activ_bs_power
    (chan_activ_ho_ref E (chan_activ_encr E s msg).1 msg type) msg) msg) msg) msg).1 msg
  have hall := same_ts_trace_trans h1 (same_ts_trace_trans h2 (same_ts_trace_trans h3
    (same_ts_trace_trans h4 (same_ts_trace_trans h5 (same_ts_trace_trans h6 h7)))))
  have hok : ¬ (chan_activ_sacch_info E (chan_activ_ta (chan_activ_ms_power (chan_activ_bs_power
      (chan_activ_ho_ref E (chan_activ_encr E s msg).1 msg type) msg) msg) msg) msg).2 = false := by
    unfold chan_activ_sacch_info
    simp only
    split
    · next hp =>
      simp only [Bool.not_eq_false]
      rw [sacch_info_loop_indep E _ _ _ _ (s0.lchan msg.lchan)]
      exact hsi hp
    · simp
  have hlen : ¬ (TLVP_PRESENT msg.tp .RSL_IE_MR_CONFIG = true ∧
      (TLVP msg.tp .RSL_IE_MR_CONFIG).len > E.MR_BTS_LV_SIZE - 1) := by
    rintro ⟨hp, hgt⟩
    have := hmr hp
    omega
  refine ⟨_, hall, ?_⟩
  unfold chan_activ_ies
  simp only
  rw [if_neg hrc, if_neg hok]
  unfold chan_activ_finish
  simp only
  rw [if_neg hlen, hall.1]

/-- What `chan_activ_dyn_want` leaves of the timeslot of the lchan: type,
current type and calls are kept, and `pchan_want` of a three-way dynamic
timeslot is the type selected by the channel number. -/
theorem dyn_want_facts (E : Env) (s : State) (msg : msgb) :
    ((chan_activ_dyn_want E s msg).ts msg.lchan.ts).pchan = (s.ts msg.lchan.ts).pchan ∧
    ((chan_activ_dyn_want E s msg).ts msg.lchan.ts).dyn_pchan_is =
      (s.ts msg.lchan.ts).dyn_pchan_is ∧
    ((s.ts msg.lchan.ts).pchan = .GSM_PCHAN_TCH_F_TCH_H_PDCH →
      ((chan_activ_dyn_want E s msg).ts msg.lchan.ts).dyn_pchan_want =
        dyn_pchan_from_chan_nr E msg.chan_nr) ∧
    (chan_activ_dyn_want E s msg).trace = s.trace ∧
    (chan_activ_dyn_want E s msg).lchan = s.lchan := by
  unfold chan_activ_dyn_want
  simp only
  split
  · next hp => simp [State.setTs]
  · next hp => exact ⟨rfl, rfl, fun h => absurd h hp, rfl, rfl⟩

/-- A CHANNEL ACTIVATION in lchan state NONE that needs no switchover of a
dynamic timeslot, carries the activation type and, unless that is OSMO_PDCH,
the channel mode, and whose optional IEs are accepted, ends in the PDCH
activation through the PCU (three-way dynamic timeslot, PDCH selected) or in
the activation request to the PHY, reached without any call having been
made. -/
theorem chan_activ_accepted_run (E : Env) (s : State) (msg : msgb)
    (hst : (s.lchan msg.lchan).state = .LCHAN_S_NONE)
    (hnr : ¬ ((s.ts msg.lchan.ts).pchan = .GSM_PCHAN_TCH_F_TCH_H_PDCH ∧
      (s.ts msg.lchan.ts).dyn_pchan_is ≠ dyn_pchan_from_chan_nr E msg.chan_nr))
    (hat : TLVP_PRESENT msg.tp .RSL_IE_ACT_TYPE = true)
    (hcm : (TLVP msg.tp .RSL_IE_ACT_TYPE).byte 0 ≠ E.RSL_ACT_OSMO_PDCH →
      TLVP_PRESENT msg.tp .RSL_IE_CHAN_MODE = true)
    (hacc : chan_activ_ies_accepted E s msg) :
    ∃ s2, s2.ts = (chan_activ_dyn_want E s msg).ts ∧ s2.trace = s.trace ∧
      rsl_rx_chan_activ E s msg =
        if (s.ts msg.lchan.ts).pchan = .GSM_PCHAN_TCH_F_TCH_H_PDCH ∧
            dyn_pchan_from_chan_nr E msg.chan_nr = .GSM_PCHAN_PDCH then
          chan_activ_pdch E s2 msg
        else chan_activ_l1 E s2 msg := by
  obtain ⟨hwp, hwi, hww, hwt, _⟩ := dyn_want_facts E s msg
  have hcond : ¬ (((chan_activ_dyn_want E s msg).ts msg.lchan.ts).pchan =
        .GSM_PCHAN_TCH_F_TCH_H_PDCH ∧
      ((chan_activ_dyn_want E s msg).ts msg.lchan.ts).dyn_pchan_is ≠
        ((chan_activ_dyn_want E s msg).ts msg.lchan.ts).dyn_pchan_want) := by
    rintro ⟨h1, h2⟩
    rw [hwp] at h1
    rw [hwi, hww h1] at h2
    exact hnr ⟨h1, h2⟩
  have hcm2 : ¬ ((TLVP msg.tp .RSL_IE_ACT_TYPE).byte 0 ≠ E.RSL_ACT_OSMO_PDCH ∧
      TLVP_PRESENT msg.tp .RSL_IE_CHAN_MODE = false) := by
    rintro ⟨h1, h2⟩
    rw [hcm h1] at h2
    exact Bool.noConfusion h2
  obtain ⟨s2, hs2, hrun⟩ := chan_activ_ies_accepted_run E s
    (chan_activ_chan_mode E (chan_activ_defaults E (chan_activ_dyn_want E s msg) msg) msg
      ((TLVP msg.tp .RSL_IE_ACT_TYPE).byte 0)) msg ((TLVP msg.tp .RSL_IE_ACT_TYPE).byte 0) hacc
  have hpre := same_ts_trace_trans
    (same_ts_trace_defaults E (chan_activ_dyn_want E s msg) msg)
    (same_ts_trace_chan_mode E (chan_activ_defaults E (chan_activ_dyn_want E s msg) msg) msg
      ((TLVP msg.tp .RSL_IE_ACT_TYPE).byte 0))
  refine ⟨s2, hs2.1.trans hpre.1, (hs2.2.trans hpre.2).trans hwt, ?_⟩
  have hr : rsl_rx_chan_activ E s msg =
      chan_activ_ies E (chan_activ_chan_mode E
        (chan_activ_defaults E (chan_activ_dyn_want E s msg) msg) msg
        ((TLVP msg.tp .RSL_IE_ACT_TYPE).byte 0)) msg ((TLVP msg.tp .RSL_IE_ACT_TYPE).byte 0) := by
    unfold rsl_rx_chan_activ
    simp only [hst, ne_eq, not_true_eq_false, if_false]
    rw [if_neg hcond]
    simp only [hat, Bool.true_eq_false, if_false]
    rw [if_neg hcm2]
  rw [hr, hrun, hpre.1]
  by_cases hp : (s.ts msg.lchan.ts).pchan = .GSM_PCHAN_TCH_F_TCH_H_PDCH
  · rw [hwp, hww hp]
  · have hp2 : ¬ ((chan_activ_dyn_want E s msg).ts msg.lchan.ts).pchan =
        .GSM_PCHAN_TCH_F_TCH_H_PDCH := by rw [hwp]; exact hp
    simp only [hp, hp2, false_and, if_false]

/-! ### C16: failed PHY activation -/

/-- The NACK built for an lchan depends on the state only through the
timeslots. -/
theorem chan_act_nack_msg_ts (E : Env) (s s2 : State) (l : LchanId) (cause : Nat)
    (h : s2.ts = s.ts) : chan_act_nack_msg E s2 l cause = chan_act_nack_msg E s l cause := by
  simp only [chan_act_nack_msg, h]

/-- C16 (amended): a CHANNEL ACTIVATION in lchan state NONE that needs no
switchover of a dynamic timeslot and is not a PDCH activation of one, carries
an activation type and, unless that is OSMO_PDCH, a channel mode, and whose
optional IEs are accepted, for which `l1sap_chan_act` returns an `rc` with -256 < rc < 0
(and a message buffer is available): the calls made are the activation request
to the PHY followed by one CHAN ACT NACK whose CAUSE IE is the single byte
`-rc`; no CHAN ACT ACK is sent. -/
theorem C16_chan_activ_phy_failure (E : Env) (s : State) (msg : msgb)
    (hst : (s.lchan msg.lchan).state = .LCHAN_S_NONE)
    (hnr : ¬ ((s.ts msg.lchan.ts).pchan = .GSM_PCHAN_TCH_F_TCH_H_PDCH ∧
      (s.ts msg.lchan.ts).dyn_pchan_is ≠ dyn_pchan_from_chan_nr E msg.chan_nr))
    (hnp : ¬ ((s.ts msg.lchan.ts).pchan = .GSM_PCHAN_TCH_F_TCH_H_PDCH ∧
      dyn_pchan_from_chan_nr E msg.chan_nr = .GSM_PCHAN_PDCH))
    (hat : TLVP_PRESENT msg.tp .RSL_IE_ACT_TYPE = true)
    (hcm : (TLVP msg.tp .RSL_IE_ACT_TYPE).byte 0 ≠ E.RSL_ACT_OSMO_PDCH →
      TLVP_PRESENT msg.tp .RSL_IE_CHAN_MODE = true)
    (hacc : chan_activ_ies_accepted E s msg)
    (ha : E.msgb_alloc_ok = true)
    (hrc : E.l1sap_chan_act_rc < 0) (hrc2 : -256 < E.l1sap_chan_act_rc) :
    (rsl_rx_chan_activ E s msg).1.trace = s.trace ++
      [.l1sap_chan_act msg.lchan.ts.trx msg.chan_nr,
       .abis_bts_rsl_sendmsg (chan_act_nack_msg E (chan_activ_dyn_want E s msg) msg.lchan
         (-E.l1sap_chan_act_rc).toNat)] ∧
    (chan_act_nack_msg E (chan_activ_dyn_want E s msg) msg.lchan
      (-E.l1sap_chan_act_rc).toNat).msg_type = .RSL_MT_CHAN_ACTIV_NACK ∧
    (chan_act_nack_msg E (chan_activ_dyn_want E s msg) msg.lchan
      (-E.l1sap_chan_act_rc).toNat).ies = [(.RSL_IE_CAUSE, [(-E.l1sap_chan_act_rc).toNat])] ∧
    (∀ m ∈ sent ((rsl_rx_chan_activ E s msg).1.trace.drop s.trace.length),
      m.msg_type ≠ .RSL_MT_CHAN_ACTIV_ACK) ∧
    (rsl_rx_chan_activ E s msg).2 = E.abis_bts_rsl_sendmsg_rc := by
  obtain ⟨s2, hts, htr, hrun⟩ := chan_activ_accepted_run E s msg hst hnr hat hcm hacc
  have hu8 : to_u8 (-E.l1sap_chan_act_rc) = (-E.l1sap_chan_act_rc).toNat := by
    unfold to_u8
    rw [Int.emod_eq_of_lt (by omega) (by omega)]
  have hc : (-E.l1sap_chan_act_rc).toNat ≠ 0 := by omega
  have hl1 : chan_activ_l1 E s2 msg =
      (((s2.setLchan msg.lchan
          { s2.lchan msg.lchan with rel_act_kind := .LCHAN_REL_ACT_RSL }).emit
          (.l1sap_chan_act msg.lchan.ts.trx msg.chan_nr)).emit
          (.abis_bts_rsl_sendmsg (chan_act_nack_msg E (chan_activ_dyn_want E s msg) msg.lchan
            (-E.l1sap_chan_act_rc).toNat)), E.abis_bts_rsl_sendmsg_rc) := by
    unfold chan_activ_l1
    simp only
    rw [if_pos hrc, hu8]
    unfold rsl_tx_chan_act_acknack
    have hk : ¬ (((s2.setLchan msg.lchan
          { s2.lchan msg.lchan with rel_act_kind := .LCHAN_REL_ACT_RSL }).emit
          (.l1sap_chan_act msg.lchan.ts.trx msg.chan_nr)).lchan msg.lchan).rel_act_kind ≠
        .LCHAN_REL_ACT_RSL := by
      simp [State.setLchan, State.emit]
    rw [if_neg hk, if_pos hc]
    unfold rsl_tx_chan_act_nack
    have hne : ¬ E.msgb_alloc_ok = false := by simp [ha]
    rw [if_neg hne, chan_act_nack_msg_ts E (chan_activ_dyn_want E s msg) _ msg.lchan _
      (by simpa [State.setLchan, State.emit] using hts)]
  rw [hrun, if_neg hnp, hl1]
  have htrace : (((s2.setLchan msg.lchan
          { s2.lchan msg.lchan with rel_act_kind := .LCHAN_REL_ACT_RSL }).emit
          (.l1sap_chan_act msg.lchan.ts.trx msg.chan_nr)).emit
          (.abis_bts_rsl_sendmsg (chan_act_nack_msg E (chan_activ_dyn_want E s msg) msg.lchan
            (-E.l1sap_chan_act_rc).toNat))).trace = s.trace ++
      [.l1sap_chan_act msg.lchan.ts.trx msg.chan_nr,
       .abis_bts_rsl_sendmsg (chan_act_nack_msg E (chan_activ_dyn_want E s msg) msg.lchan
         (-E.l1sap_chan_act_rc).toNat)] := by
    simp [State.setLchan, State.emit, htr]
  refine ⟨htrace, rfl, rfl, ?_, rfl⟩
  intro m hm
  rw [htrace, List.drop_left] at hm
  simp only [sent, List.mem_singleton] at hm
  rw [hm]
  simp [chan_act_nack_msg]

/-- C16 (amended) for a speech activation with encryption and MultiRate IEs
when the PHY answers -5: one NACK with cause 5. -/
theorem C16_chan_activ_phy_failure_witness :
    (sent (rsl_rx_chan_activ (refEnv_l1sap (-5))
      (state_with .LCHAN_S_NONE .LCHAN_REL_ACT_PCU .GSM_PCHAN_TCH_F)
      chan_activ_speech_msg).1.trace).map (fun m => (m.msg_type, m.ies)) =
      [(.RSL_MT_CHAN_ACTIV_NACK, [(.RSL_IE_CAUSE, [5])])] := by
  have h := C16_chan_activ_phy_failure (refEnv_l1sap (-5))
    (state_with .LCHAN_S_NONE .LCHAN_REL_ACT_PCU .GSM_PCHAN_TCH_F) chan_activ_speech_msg
    rfl (by decide) (by decide) (by decide) (fun _ => by decide) (by decide) rfl
    (by decide) (by decide)
  rw [h.1]
  decide

/-- C16 as claimed fails when the PHY answers -256: the negated code does not
fit the `uint8_t` cause parameter of `rsl_tx_chan_act_acknack`, the cause
becomes 0, and a CHAN ACT ACK is sent for an activation that failed. -/
theorem C16_counterexample :
    (sent (rsl_rx_chan_activ (refEnv_l1sap (-256))
      (state_with .LCHAN_S_NONE .LCHAN_REL_ACT_RSL .GSM_PCHAN_TCH_F)
      chan_activ_speech_msg).1.trace).map (fun m => m.msg_type) =
      [.RSL_MT_CHAN_ACTIV_ACK] := by
  decide

/-! ### C17: PDCH activation on a three-way dynamic timeslot -/

/-- C17 (amended): a CHANNEL ACTIVATION with activation type OSMO_PDCH in
lchan state NONE on a three-way dynamic timeslot with `pchan_is` PDCH and
cbits that select PDCH, whose optional IEs are accepted (and with a message
buffer available): the first call made is the sending of one CHAN ACT ACK,
whatever `rel_act_kind` is; it is followed by one PCU info indication exactly
when the PCU is connected, and by an ERROR REPORT with cause NORMAL_UNSPEC if
that indication fails.  No other call is made, in particular no activation
request to the PHY, and no channel mode IE is needed. -/
theorem C17_chan_activ_osmo_pdch (E : Env) (s : State) (msg : msgb)
    (hst : (s.lchan msg.lchan).state = .LCHAN_S_NONE)
    (hp : (s.ts msg.lchan.ts).pchan = .GSM_PCHAN_TCH_F_TCH_H_PDCH)
    (his : (s.ts msg.lchan.ts).dyn_pchan_is = .GSM_PCHAN_PDCH)
    (hcb : dyn_pchan_from_chan_nr E msg.chan_nr = .GSM_PCHAN_PDCH)
    (hat : TLVP_PRESENT msg.tp .RSL_IE_ACT_TYPE = true)
    (hty : (TLVP msg.tp .RSL_IE_ACT_TYPE).byte 0 = E.RSL_ACT_OSMO_PDCH)
    (hacc : chan_activ_ies_accepted E s msg)
    (ha : E.msgb_alloc_ok = true) :
    ∃ ack : TxMsg, ack.msg_type = .RSL_MT_CHAN_ACTIV_ACK ∧
      (rsl_rx_chan_activ E s msg).1.trace = s.trace ++
        .abis_bts_rsl_sendmsg ack ::
          (if E.pcu_connected = true then
            .pcu_tx_info_ind ::
              (if E.pcu_tx_info_ind_rc ≠ 0 then
                [.abis_bts_rsl_sendmsg (error_report_msg msg.trx E.RSL_ERR_NORMAL_UNSPEC)]
               else [])
           else []) ∧
      ((sent ((rsl_rx_chan_activ E s msg).1.trace.drop s.trace.length)).filter
        (fun m => decide (m.msg_type = .RSL_MT_CHAN_ACTIV_ACK))).length = 1 ∧
      (∀ t c, Event.l1sap_chan_act t c ∉ (rsl_rx_chan_activ E s msg).1.trace.drop s.trace.length) ∧
      (Event.pcu_tx_info_ind ∈ (rsl_rx_chan_activ E s msg).1.trace.drop s.trace.length ↔
        E.pcu_connected = true) := by
  have hnr : ¬ ((s.ts msg.lchan.ts).pchan = .GSM_PCHAN_TCH_F_TCH_H_PDCH ∧
      (s.ts msg.lchan.ts).dyn_pchan_is ≠ dyn_pchan_from_chan_nr E msg.chan_nr) := by
    rintro ⟨_, h⟩
    exact h (his.trans hcb.symm)
  obtain ⟨s2, hts, htr, hrun⟩ := chan_activ_accepted_run E s msg hst hnr hat
    (fun h => absurd hty h) hacc
  have hne : ¬ E.msgb_alloc_ok = false := by simp [ha]
  rw [hrun, if_pos ⟨hp, hcb⟩]
  refine ⟨{ discr := .ABIS_RSL_MDISC_DED_CHAN, msg_type := .RSL_MT_CHAN_ACTIV_ACK,
            chan_nr := some (E.gsm_lchan2chan_nr msg.lchan (s2.ts msg.lchan.ts)),
            ies := [(.RSL_IE_FRAME_NUMBER,
              [gsm48_gen_starting_time (fun _ => 0) E.get_time 0,
               gsm48_gen_starting_time (fun _ => 0) E.get_time 1])],
            trx := some msg.lchan.ts.trx }, rfl, ?_⟩
  have htrace : (chan_activ_pdch E s2 msg).1.trace = s.trace ++
      .abis_bts_rsl_sendmsg
        { discr := .ABIS_RSL_MDISC_DED_CHAN, msg_type := .RSL_MT_CHAN_ACTIV_ACK,
          chan_nr := some (E.gsm_lchan2chan_nr msg.lchan (s2.ts msg.lchan.ts)),
          ies := [(.RSL_IE_FRAME_NUMBER,
            [gsm48_gen_starting_time (fun _ => 0) E.get_time 0,
             gsm48_gen_starting_time (fun _ => 0) E.get_time 1])],
          trx := some msg.lchan.ts.trx } ::
        (if E.pcu_connected = true then
          .pcu_tx_info_ind ::
            (if E.pcu_tx_info_ind_rc ≠ 0 then
              [.abis_bts_rsl_sendmsg (error_report_msg msg.trx E.RSL_ERR_NORMAL_UNSPEC)]
             else [])
         else []) := by
    unfold chan_activ_pdch rsl_tx_chan_act_ack
    simp only [if_neg hne]
    cases hpc : E.pcu_connected
    · simp [State.emit, State.setLchan, htr]
    · by_cases hrc : E.pcu_tx_info_ind_rc = 0
      · simp [State.emit, State.setLchan, htr, hrc]
      · simp [State.emit, State.setLchan, htr, hrc, rsl_tx_error_report, ha]
  rw [htrace, List.drop_left]
  refine ⟨rfl, ?_, ?_, ?_⟩
  · cases hpc : E.pcu_connected
    · simp [sent]
    · by_cases hrc : E.pcu_tx_info_ind_rc = 0
      · simp [sent, hrc]
      · simp [sent, hrc, error_report_msg]
  · intro t c
    cases hpc : E.pcu_connected
    · simp
    · by_cases hrc : E.pcu_tx_info_ind_rc = 0
      · simp [hrc]
      · simp [hrc]
  · cases hpc : E.pcu_connected
    · simp
    · simp

/-- C17 (amended) for an lchan last activated by the PCU: without the PCU the
ACK is the only call, with the PCU connected it is followed by the info
indication. -/
theorem C17_chan_activ_osmo_pdch_witness :
    (rsl_rx_chan_activ refEnv (state_dyn .LCHAN_REL_ACT_PCU .GSM_PCHAN_PDCH)
      chan_activ_pdch_msg).1.trace.map (fun e => decide (e = .pcu_tx_info_ind)) = [false] ∧
    (rsl_rx_chan_activ refEnv_pcu (state_dyn .LCHAN_REL_ACT_PCU .GSM_PCHAN_PDCH)
      chan_activ_pdch_msg).1.trace.map (fun e => decide (e = .pcu_tx_info_ind)) =
      [false, true] := by
  obtain ⟨a1, _, h1, _⟩ := C17_chan_activ_osmo_pdch refEnv
    (state_dyn .LCHAN_REL_ACT_PCU .GSM_PCHAN_PDCH) chan_activ_pdch_msg rfl rfl rfl (by decide)
    (by decide) (by decide) (by decide) rfl
  obtain ⟨a2, _, h2, _⟩ := C17_chan_activ_osmo_pdch refEnv_pcu
    (state_dyn .LCHAN_REL_ACT_PCU .GSM_PCHAN_PDCH) chan_activ_pdch_msg rfl rfl rfl (by decide)
    (by decide) (by decide) (by decide) rfl
  rw [h1, h2]
  constructor
  · simp [state_dyn, refEnv]
  · simp [state_dyn, refEnv_pcu, refEnv]

/-- C17 as claimed fails for a PDCH activation that carries a MultiRate
configuration of seven bytes: the IE is refused with an ERROR REPORT (cause
IE_CONTENT) and no CHAN ACT ACK is sent. -/
theorem C17_counterexample :
    (rsl_rx_chan_activ refEnv (state_dyn .LCHAN_REL_ACT_RSL .GSM_PCHAN_PDCH)
      chan_activ_pdch_mr_msg).1.trace =
      [.abis_bts_rsl_sendmsg (error_report_msg 0 0x68)] ∧
    (TLVP chan_activ_pdch_mr_msg.tp .RSL_IE_ACT_TYPE).byte 0 = refEnv.RSL_ACT_OSMO_PDCH ∧
    dyn_pchan_from_chan_nr refEnv chan_activ_pdch_mr_msg.chan_nr = .GSM_PCHAN_PDCH := by
  decide

/-! ### C20: the pending flags of the TCH/F+PDCH scheme -/

/-- Two numbers have no common bit exactly when no bit position is set in
both. -/
theorem and_eq_zero_iff_testBit (a b : Nat) :
    a &&& b = 0 ↔ ∀ j, (a.testBit j && b.testBit j) = false := by
  constructor
  · intro h j
    rw [← Nat.testBit_and, h, Nat.zero_testBit]
  · intro h
    apply Nat.eq_of_testBit_eq
    intro j
    rw [Nat.testBit_and, h j, Nat.zero_testBit]

/-- Bits of the 32-bit complement. -/
theorem testBit_not32 (x j : Nat) :
    (not32 x).testBit j = (decide (j < 32) && !x.testBit j) := by
  unfold not32
  rw [Nat.testBit_xor, Nat.testBit_mod_two_pow, Nat.testBit_two_pow_sub_one]
  by_cases h : j < 32 <;> simp [h]

/-- Clearing the bits of `m` clears every flag contained in `m`. -/
theorem and_not32_clears (f m a d : Nat) (hm : m = a ||| d) :
    (f &&& not32 m) &&& a = 0 ∧ (f &&& not32 m) &&& d = 0 := by
  subst hm
  constructor <;>
  · rw [and_eq_zero_iff_testBit]
    intro j
    rw [Nat.testBit_and, testBit_not32, Nat.testBit_or]
    cases f.testBit j <;> cases a.testBit j <;> cases d.testBit j <;> simp

/-- Setting one pending flag when none is pending leaves the other clear. -/
theorem or_pending_other (f m a d : Nat) (hm : m = a ||| d) (had : a &&& d = 0)
    (hf : f &&& m = 0) :
    ((f ||| a) % 2 ^ 32) &&& d = 0 ∧ ((f ||| d) % 2 ^ 32) &&& a = 0 := by
  subst hm
  rw [and_eq_zero_iff_testBit] at had hf
  constructor <;>
  · rw [and_eq_zero_iff_testBit]
    intro j
    have h1 := had j
    have h2 := hf j
    rw [Nat.testBit_or] at h2
    rw [Nat.testBit_mod_two_pow, Nat.testBit_or]
    revert h1 h2
    cases f.testBit j <;> cases a.testBit j <;> cases d.testBit j <;> simp

/-- Setting or clearing a flag outside the pending mask keeps a pending flag
clear. -/
theorem active_keeps_clear (g act m a d : Nat) (hm : m = a ||| d) (hact : act &&& m = 0)
    (x : Nat) (hx : x = a ∨ x = d) (hg : g &&& x = 0) :
    ((g ||| act) % 2 ^ 32) &&& x = 0 ∧ (g &&& not32 act) &&& x = 0 := by
  subst hm
  rw [and_eq_zero_iff_testBit] at hact hg
  constructor <;>
  · rw [and_eq_zero_iff_testBit]
    intro j
    have h1 := hact j
    have h2 := hg j
    rw [Nat.testBit_or] at h1
    rcases hx with hx | hx <;> subst hx
    · first
      | rw [Nat.testBit_mod_two_pow, Nat.testBit_or]
      | rw [Nat.testBit_and, testBit_not32]
      revert h1 h2
      cases g.testBit j <;> cases act.testBit j <;> cases x.testBit j <;>
        cases d.testBit j <;> simp
    · first
      | rw [Nat.testBit_mod_two_pow, Nat.testBit_or]
      | rw [Nat.testBit_and, testBit_not32]
      revert h1 h2
      cases g.testBit j <;> cases act.testBit j <;> cases x.testBit j <;>
        cases a.testBit j <;> simp

/-- A PDCH ACK changes no timeslot. -/
theorem dyn_pdch_ack_ts (E : Env) (s : State) (l : LchanId) (b : Bool) :
    (rsl_tx_dyn_pdch_ack E s l b).1.ts = s.ts := by
  unfold rsl_tx_dyn_pdch_ack
  dsimp only
  split <;> rfl

/-- A PDCH NACK changes no timeslot. -/
theorem dyn_pdch_nack_ts (E : Env) (s : State) (l : LchanId) (b : Bool) (cause : Nat) :
    (rsl_tx_dyn_pdch_nack E s l b cause).1.ts = s.ts := by
  unfold rsl_tx_dyn_pdch_nack
  dsimp only
  split <;> rfl

/-- After `ipacc_dyn_pdch_complete` neither pending flag of the timeslot is
set, and the other timeslots are as before. -/
theorem complete_flags (E : Env) (hwf : ts_flags_wf E) (s : State) (ts : TsId) (rc : Int) :
    (((ipacc_dyn_pdch_complete E s ts rc).ts ts).flags &&& E.TS_F_PDCH_ACT_PENDING = 0 ∧
     ((ipacc_dyn_pdch_complete E s ts rc).ts ts).flags &&& E.TS_F_PDCH_DEACT_PENDING = 0) ∧
    ∀ t, t ≠ ts → (ipacc_dyn_pdch_complete E s ts rc).ts t = s.ts t := by
  obtain ⟨hm, _, hact⟩ := hwf
  have hc := and_not32_clears (s.ts ts).flags _ _ _ hm
  unfold ipacc_dyn_pdch_complete
  dsimp only
  split
  · rw [dyn_pdch_nack_ts]
    refine ⟨?_, ?_⟩
    · simpa [State.setTs] using hc
    · intro t ht
      simp [State.setTs, ht]
  · rw [dyn_pdch_ack_ts]
    refine ⟨?_, ?_⟩
    · have h1 := active_keeps_clear _ _ _ _ _ hm hact _ (Or.inl rfl) hc.1
      have h2 := active_keeps_clear _ _ _ _ _ hm hact _ (Or.inr rfl) hc.2
      simp only [State.setTs, if_true]
      split
      · exact ⟨h1.1, h2.1⟩
      · exact ⟨h1.2, h2.2⟩
    · intro t ht
      simp [State.setTs, ht]

/-- Completing a switch keeps the pending flags of every timeslot exclusive. -/
theorem complete_excl (E : Env) (hwf : ts_flags_wf E) (s : State) (ts : TsId) (rc : Int)
    (t : TsId) (h : pending_excl E (s.ts t).flags) :
    pending_excl E ((ipacc_dyn_pdch_complete E s ts rc).ts t).flags := by
  obtain ⟨h1, h2⟩ := complete_flags E hwf s ts rc
  by_cases ht : t = ts
  · subst ht
    exact Or.inl h1.1
  · rw [h2 t ht]
    exact h

/-- A state change that keeps the flags of every timeslot keeps their pending
flags exclusive. -/
theorem excl_of_same_flags (E : Env) {s s2 : State} (hs : same_flags s s2) (t : TsId)
    (h : pending_excl E (s.ts t).flags) : pending_excl E (s2.ts t).flags := by
  rw [hs t]
  exact h

/-- The first request towards PHY or PCU changes no timeslot. -/
theorem dyn_pdch_request_ts (E : Env) (s : State) (ts : TsId) (b : Bool) :
    (dyn_pdch_request E s ts b).1.ts = s.ts := by
  unfold dyn_pdch_request
  split
  · rfl
  · split <;> rfl

/-- The switch started by an IPAC PDCH ACT or DEACT keeps the pending flags of
every timeslot exclusive. -/
theorem dyn_pdch_switch_excl (E : Env) (hwf : ts_flags_wf E) (s : State) (ts : TsId)
    (a b : Bool) (t : TsId) (h : pending_excl E (s.ts t).flags) :
    pending_excl E ((dyn_pdch_switch E s ts a b).ts t).flags := by
  unfold dyn_pdch_switch
  dsimp only
  split
  · exact complete_excl E hwf _ _ _ t h
  · split
    · exact complete_excl E hwf _ _ _ t h
    · split
      · refine complete_excl E hwf _ _ _ t ?_
        rw [dyn_pdch_request_ts]
        exact h
      · rw [dyn_pdch_request_ts]
        exact h

/-- A received IPAC PDCH ACT or DEACT keeps the pending flags of every
timeslot exclusive. -/
theorem dyn_pdch_excl (E : Env) (hwf : ts_flags_wf E) (s : State) (msg : msgb) (b : Bool)
    (t : TsId) (h : pending_excl E (s.ts t).flags) :
    pending_excl E ((rsl_rx_dyn_pdch E s msg b).ts t).flags := by
  unfold rsl_rx_dyn_pdch
  dsimp only
  split
  · rw [dyn_pdch_nack_ts]
    exact h
  · next hpend =>
    have hpend2 : (s.ts msg.lchan.ts).flags &&& E.TS_F_PDCH_PENDING_MASK = 0 := by
      simpa using hpend
    have hset : pending_excl E
        (((s.setTs msg.lchan.ts { s.ts msg.lchan.ts with
          flags := ((s.ts msg.lchan.ts).flags |||
            (if b = true then E.TS_F_PDCH_ACT_PENDING else E.TS_F_PDCH_DEACT_PENDING)) %
              2 ^ 32 }).ts t).flags) := by
      by_cases ht : t = msg.lchan.ts
      · subst ht
        have ho := or_pending_other _ _ _ _ hwf.1 hwf.2.1 hpend2
        simp only [State.setTs, if_true]
        cases b
        · exact Or.inl (by simpa using ho.2)
        · exact Or.inr (by simpa using ho.1)
      · simpa [State.setTs, ht] using h
    exact dyn_pdch_switch_excl E hwf _ _ _ _ t hset

/-- The reconnect after a disconnect keeps the pending flags exclusive. -/
theorem reconnect_excl (E : Env) (hwf : ts_flags_wf E) (s : State) (ts : TsId)
    (p : gsm_phys_chan_config) (t : TsId) (h : pending_excl E (s.ts t).flags) :
    pending_excl E ((ipacc_dyn_pdch_reconnect E s ts p).ts t).flags := by
  unfold ipacc_dyn_pdch_reconnect
  dsimp only
  split
  · exact complete_excl E hwf _ _ _ t h
  · split
    · exact complete_excl E hwf _ _ _ t h
    · exact h

/-- The callback `cb_ts_disconnected` keeps the pending flags exclusive. -/
theorem disconnected_excl (E : Env) (hwf : ts_flags_wf E) (s : State) (ts : TsId)
    (t : TsId) (h : pending_excl E (s.ts t).flags) :
    pending_excl E ((cb_ts_disconnected E s ts).ts t).flags := by
  unfold cb_ts_disconnected
  split
  · unfold ipacc_dyn_pdch_ts_disconnected
    split
    · exact reconnect_excl E hwf s ts _ t h
    · split
      · exact reconnect_excl E hwf s ts _ t h
      · exact h
  · have hf : same_flags s (osmo_dyn_ts_disconnected s ts) := by
      intro k
      unfold osmo_dyn_ts_disconnected
      dsimp only
      split <;>
      · by_cases hk : k = ts
        · subst hk
          simp [State.setTs, State.emit]
        · simp [State.setTs, State.emit, hk]
    exact excl_of_same_flags E hf t h
  · exact h

/-- Every state has its own flags. -/
theorem same_flags_refl (s : State) : same_flags s s := fun _ => rfl

/-- Keeping the flags is transitive. -/
theorem same_flags_trans {s s1 s2 : State} (h1 : same_flags s s1) (h2 : same_flags s1 s2) :
    same_flags s s2 := fun t => (h2 t).trans (h1 t)

/-- A state with the same timeslots has the same flags. -/
theorem same_flags_of_ts {s s2 : State} (h : s2.ts = s.ts) : same_flags s s2 := by
  intro t
  rw [h]

/-- An ERROR REPORT changes no flags. -/
theorem same_flags_error_report (E : Env) (s : State) (trx cause : Nat) :
    same_flags s (rsl_tx_error_report E s trx cause).1 := by
  unfold rsl_tx_error_report
  split <;> exact same_flags_refl s

/-- A CHAN ACT ACK changes no flags. -/
theorem same_flags_chan_act_ack (E : Env) (s : State) (l : LchanId) :
    same_flags s (rsl_tx_chan_act_ack E s l).1 := by
  unfold rsl_tx_chan_act_ack
  simp only
  split <;> exact same_flags_of_ts rfl

/-- A CHAN ACT ACK or NACK changes no flags. -/
theorem same_flags_acknack (E : Env) (s : State) (l : LchanId) (cause : Nat) :
    same_flags s (rsl_tx_chan_act_acknack E s l cause).1 := by
  unfold rsl_tx_chan_act_acknack
  split
  · exact same_flags_refl s
  · split
    · unfold rsl_tx_chan_act_nack
      split <;> exact same_flags_of_ts rfl
    · exact same_flags_chan_act_ack E s l

/-- The PDCH activation through the PCU changes no flags. -/
theorem same_flags_pdch (E : Env) (s : State) (msg : msgb) :
    same_flags s (chan_activ_pdch E s msg).1 := by
  unfold chan_activ_pdch
  simp only
  have h1 := same_flags_chan_act_ack E s msg.lchan
  split
  · split
    · exact same_flags_trans h1 (same_flags_trans (same_flags_of_ts rfl)
        (same_flags_error_report E _ _ _))
    · exact same_flags_trans h1 (same_flags_of_ts rfl)
  · exact h1

/-- The activation request to the PHY changes no flags. -/
theorem same_flags_l1 (E : Env) (s : State) (msg : msgb) :
    same_flags s (chan_activ_l1 E s msg).1 := by
  unfold chan_activ_l1
  simp only
  split
  · exact same_flags_trans (same_flags_of_ts rfl) (same_flags_acknack E _ _ _)
  · exact same_flags_of_ts rfl

/-- The end of the CHANNEL ACTIVATION handler changes no flags. -/
theorem same_flags_finish (E : Env) (s : State) (msg : msgb) :
    same_flags s (chan_activ_finish E s msg).1 := by
  unfold chan_activ_finish
  simp only
  have h1 := same_flags_of_ts (same_ts_trace_mr_config E s msg).1
  split
  · exact same_flags_error_report E s _ _
  · split
    · exact same_flags_trans h1 (same_flags_pdch E _ msg)
    · exact same_flags_trans h1 (same_flags_l1 E _ msg)

/-- The IE part of the CHANNEL ACTIVATION handler changes no flags. -/
theorem same_flags_ies (E : Env) (s : State) (msg : msgb) (type : Nat) :
    same_flags s (chan_activ_ies E s msg type).1 := by
  unfold chan_activ_ies
  simp only
  have h1 := same_ts_trace_chan_activ_encr E s msg
  split
  · exact same_flags_trans (same_flags_of_ts h1.1) (same_flags_error_report E _ _ _)
  · have h2 := same_ts_trace_ho_ref E (chan_activ_encr E s msg).1 msg type
    have h3 := same_ts_trace_bs_power
      (chan_activ_ho_ref E (chan_activ_encr E s msg).1 msg type) msg
    have h4 := same_ts_trace_ms_power (chan_activ_bs_power
      (chan_activ_ho_ref E (chan_activ_encr E s msg).1 msg type) msg) msg
    have h5 := same_ts_trace_ta (chan_activ_ms_power (chan_activ_bs_power
      (chan_activ_ho_ref E (chan_activ_encr E s msg).1 msg type) msg) msg) msg
    have h6 := same_ts_trace_sacch_info E (chan_activ_ta (chan_activ_ms_power
      (chan_activ_bs_power
      (chan_activ_ho_ref E (chan_activ_encr E s msg).1 msg type) msg) msg) msg) msg
    have hall := same_flags_of_ts (same_ts_trace_trans h1 (same_ts_trace_trans h2
      (same_ts_trace_trans h3 (same_ts_trace_trans h4 (same_ts_trace_trans h5 h6))))).1
    split
    · exact same_flags_trans hall (same_flags_error_report E _ _ _)
    · exact same_flags_trans hall (same_flags_finish E _ msg)

/-- Replacing a timeslot by one with the same flags changes no flags. -/
theorem same_flags_setTs (s : State) (ts : TsId) (v : gsm_bts_trx_ts)
    (h : v.flags = (s.ts ts).flags) : same_flags s (s.setTs ts v) := by
  intro t
  by_cases ht : t = ts
  · subst ht
    simp [State.setTs, h]
  · simp [State.setTs, ht]

/-- Parking a CHANNEL ACTIVATION changes no flags. -/
theorem same_flags_reconnect (E : Env) (s : State) (ts : TsId) (msg : msgb) :
    same_flags s (dyn_ts_l1_reconnect E s ts msg).1 := by
  unfold dyn_ts_l1_reconnect
  split
  · exact same_flags_setTs s ts _ rfl
  · exact same_flags_setTs s ts _ rfl
  · exact same_flags_setTs s ts _ rfl
  · exact same_flags_refl s

/-- Selecting the wanted type of a dynamic timeslot changes no flags. -/
theorem same_flags_dyn_want (E : Env) (s : State) (msg : msgb) :
    same_flags s (chan_activ_dyn_want E s msg) := by
  unfold chan_activ_dyn_want
  simp only
  split
  · exact same_flags_setTs s _ _ rfl
  · exact same_flags_refl s

/-- The CHANNEL ACTIVATION handler changes no flags. -/
theorem same_flags_chan_activ (E : Env) (s : State) (msg : msgb) :
    same_flags s (rsl_rx_chan_activ E s msg).1 := by
  unfold rsl_rx_chan_activ
  simp only
  split
  · exact same_flags_acknack E s _ _
  · have h1 := same_flags_dyn_want E s msg
    split
    · have h2 := same_flags_trans h1 (same_flags_reconnect E _ msg.lchan.ts msg)
      split
      · exact same_flags_trans h2 (same_flags_acknack E _ _ _)
      · exact h2
    · have h3 := same_flags_trans h1
        (same_flags_of_ts (same_ts_trace_defaults E (chan_activ_dyn_want E s msg) msg).1)
      split
      · exact same_flags_trans h3 (same_flags_acknack E _ _ _)
      · split
        · exact same_flags_trans h3 (same_flags_acknack E _ _ _)
        · exact same_flags_trans h3 (same_flags_trans
            (same_flags_of_ts (same_ts_trace_chan_mode E _ msg _).1) (same_flags_ies E _ msg _))

/-- The callback `cb_ts_connected` keeps the pending flags exclusive. -/
theorem connected_excl (E : Env) (hwf : ts_flags_wf E) (s : State) (ts : TsId)
    (t : TsId) (h : pending_excl E (s.ts t).flags) :
    pending_excl E ((cb_ts_connected E s ts).ts t).flags := by
  unfold cb_ts_connected
  split
  · unfold ipacc_dyn_pdch_ts_connected
    split
    · exact complete_excl E hwf _ _ _ t h
    · split
      · split
        · exact complete_excl E hwf _ _ _ t h
        · dsimp only
          split
          · exact complete_excl E hwf _ _ _ t h
          · exact h
      · exact h
  · unfold osmo_dyn_ts_connected
    split
    · exact h
    · next msg _ =>
      dsimp only
      have h1 : same_flags s
          ((s.setTs ts { s.ts ts with dyn_pending_chan_activ := none }).setTs ts
            { (s.setTs ts { s.ts ts with dyn_pending_chan_activ := none }).ts ts with
              dyn_pchan_is :=
                ((s.setTs ts { s.ts ts with dyn_pending_chan_activ := none }).ts ts).dyn_pchan_want }) := by
        intro k
        by_cases hk : k = ts
        · subst hk
          simp [State.setTs]
        · simp [State.setTs, hk]
      have h2 := same_flags_trans h1 (same_flags_chan_activ E _ msg)
      split
      · exact excl_of_same_flags E (same_flags_trans h2 (same_flags_of_ts rfl)) t h
      · exact excl_of_same_flags E h2 t h
  · exact h

/-- One step of the scheme keeps the pending flags of every timeslot
exclusive; the step may have its own collaborator results. -/
theorem pdch_step_excl (E : Env) (hwf : ts_flags_wf E) (s : State) (p : Env × PdchStep)
    (hc : ts_flag_consts p.1 = ts_flag_consts E) (t : TsId)
    (h : pending_excl E (s.ts t).flags) : pending_excl E ((pdch_step s p).ts t).flags := by
  simp only [ts_flag_consts, Prod.mk.injEq] at hc
  obtain ⟨e1, e2, e3, e4⟩ := hc
  have hwf2 : ts_flags_wf p.1 := by
    unfold ts_flags_wf
    rw [e1, e2, e3, e4]
    exact hwf
  have hpe : ∀ f, pending_excl p.1 f ↔ pending_excl E f := by
    intro f
    unfold pending_excl
    rw [e2, e3]
  have h2 := (hpe _).mpr h
  rw [← hpe]
  unfold pdch_step
  split
  · exact dyn_pdch_excl p.1 hwf2 s _ true t h2
  · exact dyn_pdch_excl p.1 hwf2 s _ false t h2
  · exact disconnected_excl p.1 hwf2 s _ t h2
  · exact connected_excl p.1 hwf2 s _ t h2
  · exact complete_excl p.1 hwf2 s _ _ t h2

/-- A run of the scheme keeps the pending flags of every timeslot
exclusive. -/
theorem pdch_run_excl (E : Env) (hwf : ts_flags_wf E) (steps : List (Env × PdchStep)) :
    ∀ (s : State), (∀ p ∈ steps, ts_flag_consts p.1 = ts_flag_consts E) →
      ∀ t, pending_excl E (s.ts t).flags → pending_excl E ((pdch_run s steps).ts t).flags := by
  induction steps with
  | nil => intro s _ t h; exact h
  | cons p ps ih =>
    intro s hE t h
    unfold pdch_run
    rw [List.foldl_cons]
    exact ih (pdch_step s p) (fun q hq => hE q (List.mem_cons_of_mem _ hq)) t
      (pdch_step_excl E hwf s p (hE p (List.mem_cons_self _ _)) t h)

/-- C20: take flag constants such that the pending mask is the union of
PDCH_ACT_PENDING and PDCH_DEACT_PENDING, the two have no bit in common and
PDCH_ACTIVE lies outside the mask.  Start from a state in which a timeslot has
neither pending flag set, and run any sequence of IPAC PDCH ACT, IPAC PDCH
DEACT, `cb_ts_disconnected`, `cb_ts_connected` and `ipacc_dyn_pdch_complete`
steps, on any timeslots and with any results of the collaborators in each
step.  Then after every number of steps the timeslot does not have both
pending flags set. -/
theorem C20_pdch_pending_exclusive (E : Env) (hwf : ts_flags_wf E) (s : State)
    (steps : List (Env × PdchStep))
    (hE : ∀ p ∈ steps, ts_flag_consts p.1 = ts_flag_consts E) (t : TsId)
    (h0 : (s.ts t).flags &&& E.TS_F_PDCH_ACT_PENDING = 0 ∧
          (s.ts t).flags &&& E.TS_F_PDCH_DEACT_PENDING = 0) :
    ∀ n, ¬ (((pdch_run s (steps.take n)).ts t).flags &&& E.TS_F_PDCH_ACT_PENDING ≠ 0 ∧
            ((pdch_run s (steps.take n)).ts t).flags &&& E.TS_F_PDCH_DEACT_PENDING ≠ 0) := by
  intro n
  have h := pdch_run_excl E hwf (steps.take n) s
    (fun p hp => hE p (List.mem_of_mem_take hp)) t (Or.inl h0.1)
  rintro ⟨ha, hd⟩
  rcases h with h | h
  · exact ha h
  · exact hd h

/-- C20 on a run on timeslot 2 of TRX 0: after the first step PDCH_ACT_PENDING
(0x2000) is set, and after each of the seven steps at most one of 0x2000 and
0x4000 is set. -/
theorem C20_pdch_pending_exclusive_witness :
    ((pdch_run state_tchf_pdch (pdch_steps.take 1)).ts ⟨0, 2⟩).flags = 0x2000 ∧
    ∀ n, ¬ (((pdch_run state_tchf_pdch (pdch_steps.take n)).ts ⟨0, 2⟩).flags &&& 0x2000 ≠ 0 ∧
            ((pdch_run state_tchf_pdch (pdch_steps.take n)).ts ⟨0, 2⟩).flags &&& 0x4000 ≠ 0) :=
  ⟨by decide,
   C20_pdch_pending_exclusive refEnv ⟨by decide, by decide, by decide⟩ state_tchf_pdch pdch_steps (by decide) ⟨0, 2⟩
     (by decide)⟩

/-! ### C30: the RTP statistics IE -/

/-- C30: on a little-endian host, with the RTP library reporting
`packets_sent = 0x01020304` and `arrival_jitter = 0x0a0b0c0d` (all other
counters 0), the IE value built by `rsl_add_rtp_stats` has 28 bytes, begins
with `packets_sent` most significant byte first, and ends with four zero bytes
for `avg_tx_delay`, but its bytes 20 to 23 are `0d 0c 0b 0a`: `arrival_jitter`
is stored least significant byte first, where big-endian is `0a 0b 0c 0d`.
The function passes five of the six counters through `htonl`, not this one. -/
theorem C30_rtp_stats_jitter_host_order :
    refEnv.host_little_endian = true ∧
    (rsl_add_rtp_stats refEnv {}).length = 28 ∧
    (rsl_add_rtp_stats refEnv {}).take 4 = be32 0x01020304 ∧
    ((rsl_add_rtp_stats refEnv {}).drop 20).take 4 = [0x0d, 0x0c, 0x0b, 0x0a] ∧
    be32 0x0a0b0c0d = [0x0a, 0x0b, 0x0c, 0x0d] ∧
    (rsl_add_rtp_stats refEnv {}).drop 24 = [0, 0, 0, 0] := by
  decide

/-! ### C25: who releases a received message -/

/-- C25: two received messages whose buffer is not disposed of exactly once.
A MODE MODIFY without channel mode IE: `rsl_rx_mode_modif` releases the
message, sends its NACK and returns 0, whereupon `rsl_rx_dchan` releases the
message a second time.  A CHANNEL ACTIVATION on a three-way dynamic timeslot
whose PHY disconnect fails: the message has been stored as `pending_chan_activ`
of the timeslot, the handler sends its NACK and returns 0, `rsl_rx_dchan`
releases the message, and the timeslot still refers to it. -/
theorem C25_buffer_released_twice_or_kept :
    (down_rsl refEnv {} 0 (dchan_msg 0x29 [])).1.trace =
      [.msgb_free,
       .abis_bts_rsl_sendmsg (mode_modif_nack_msg refEnv {} lchan02 0x64),
       .msgb_free] ∧
    (down_rsl refEnv {} 0 (dchan_msg 0x29 [])).2 = 0 ∧
    (down_rsl refEnv_disconnect_fails (state_dyn .LCHAN_REL_ACT_RSL .GSM_PCHAN_NONE) 0
      (dchan_msg 0x21 [])).1.trace =
      [.bts_model_ts_disconnect ⟨0, 2⟩,
       .abis_bts_rsl_sendmsg
         (chan_act_nack_msg refEnv (state_dyn .LCHAN_REL_ACT_RSL .GSM_PCHAN_NONE) lchan02 0x0f),
       .msgb_free] ∧
    (down_rsl refEnv_disconnect_fails (state_dyn .LCHAN_REL_ACT_RSL .GSM_PCHAN_NONE) 0
      (dchan_msg 0x21 [])).2 = 0 ∧
    ((down_rsl refEnv_disconnect_fails (state_dyn .LCHAN_REL_ACT_RSL .GSM_PCHAN_NONE) 0
      (dchan_msg 0x21 [])).1.ts ⟨0, 2⟩).dyn_pending_chan_activ =
      some { dchan_msg 0x21 [] with lchan := lchan02 } := by
  decide

/-! ### C21, C22: IPAC PDCH ACT / DEACT while pending, and completion -/

/-- A value has no bit in common with a union exactly when it has none in
common with either part. -/
theorem and_or_eq_zero_iff (f a d : Nat) :
    f &&& (a ||| d) = 0 ↔ f &&& a = 0 ∧ f &&& d = 0 := by
  simp only [and_eq_zero_iff_testBit, Nat.testBit_or]
  constructor
  · intro h
    constructor <;>
    · intro j
      have := h j
      revert this
      cases f.testBit j <;> cases a.testBit j <;> cases d.testBit j <;> simp
  · rintro ⟨h1, h2⟩ j
    have g1 := h1 j
    have g2 := h2 j
    revert g1 g2
    cases f.testBit j <;> cases a.testBit j <;> cases d.testBit j <;> simp

/-- Bits of a 32-bit flag `x` after flags `a` have been set in an `unsigned
int`. -/
theorem and_or_mod32 (f a x : Nat) (hx : x < 2 ^ 32) :
    ((f ||| a) % 2 ^ 32) &&& x = (f &&& x) ||| (a &&& x) := by
  apply Nat.eq_of_testBit_eq
  intro j
  rw [Nat.testBit_and, Nat.testBit_mod_two_pow, Nat.testBit_or, Nat.testBit_or,
    Nat.testBit_and, Nat.testBit_and]
  by_cases hj : j < 32
  · simp [hj, Bool.and_or_distrib_right]
  · have hxj : x.testBit j = false := testBit_of_lt_of_le hx (by omega)
    simp [hxj]

/-- Bits of a 32-bit flag `x` that lies outside `m` after the bits of `m` have
been cleared. -/
theorem and_not32_other (f m x : Nat) (hx : x < 2 ^ 32) (hmx : m &&& x = 0) :
    (f &&& not32 m) &&& x = f &&& x := by
  rw [and_eq_zero_iff_testBit] at hmx
  apply Nat.eq_of_testBit_eq
  intro j
  rw [Nat.testBit_and, Nat.testBit_and, testBit_not32, Nat.testBit_and]
  have h1 := hmx j
  by_cases hj : j < 32
  · revert h1
    cases f.testBit j <;> cases m.testBit j <;> cases x.testBit j <;> simp [hj]
  · have hxj : x.testBit j = false := testBit_of_lt_of_le hx (by omega)
    simp [hxj]

/-- C21: a received IPAC PDCH ACT (`pdch_act = true`) or DEACT on a timeslot
that has PDCH_ACT_PENDING or PDCH_DEACT_PENDING set (the pending mask being
the union of the two, and a message buffer being available) sends exactly one
message, the PDCH ACT NACK for an ACT and the PDCH DEACT NACK for a DEACT, with
the single IE cause NORMAL_UNSPEC.  It makes no other call, so no request goes
to PHY or PCU, and it changes no timeslot (the flags stay as they are), no
lchan and nothing of the BTS. -/
theorem C21_dyn_pdch_while_pending (E : Env) (s : State) (msg : msgb) (pdch_act : Bool)
    (hm : E.TS_F_PDCH_PENDING_MASK = E.TS_F_PDCH_ACT_PENDING ||| E.TS_F_PDCH_DEACT_PENDING)
    (hp : (s.ts msg.lchan.ts).flags &&& E.TS_F_PDCH_ACT_PENDING ≠ 0 ∨
          (s.ts msg.lchan.ts).flags &&& E.TS_F_PDCH_DEACT_PENDING ≠ 0)
    (ha : E.msgb_alloc_ok = true) :
    (rsl_rx_dyn_pdch E s msg pdch_act).trace = s.trace ++
      [.abis_bts_rsl_sendmsg
        { discr := .ABIS_RSL_MDISC_DED_CHAN,
          msg_type := if pdch_act = true then .RSL_MT_IPAC_PDCH_ACT_NACK
                      else .RSL_MT_IPAC_PDCH_DEACT_NACK,
          chan_nr := some (E.gsm_lchan2chan_nr msg.lchan (s.ts msg.lchan.ts)),
          ies := [(.RSL_IE_CAUSE, [E.RSL_ERR_NORMAL_UNSPEC])],
          trx := some msg.lchan.ts.trx }] ∧
    (rsl_rx_dyn_pdch E s msg pdch_act).ts = s.ts ∧
    (rsl_rx_dyn_pdch E s msg pdch_act).lchan = s.lchan ∧
    (rsl_rx_dyn_pdch E s msg pdch_act).bts = s.bts := by
  have hpend : (s.ts msg.lchan.ts).flags &&& E.TS_F_PDCH_PENDING_MASK ≠ 0 := by
    intro h
    rw [hm, and_or_eq_zero_iff] at h
    rcases hp with hp | hp
    · exact hp h.1
    · exact hp h.2
  unfold rsl_rx_dyn_pdch
  dsimp only
  rw [if_pos hpend]
  unfold rsl_tx_dyn_pdch_nack
  simp [ha, State.emit]

/-- C21 on a timeslot with PDCH_ACT_PENDING (0x2000) set: a PDCH DEACT is
answered with one PDCH DEACT NACK of cause 0x0f and the flags stay 0x2000. -/
theorem C21_dyn_pdch_while_pending_witness :
    (sent (rsl_rx_dyn_pdch refEnv (state_flags 0x2000) (rx_msg []) false).trace).map
        (fun m => (m.msg_type, m.ies)) =
      [(.RSL_MT_IPAC_PDCH_DEACT_NACK, [(.RSL_IE_CAUSE, [0x0f])])] ∧
    ((rsl_rx_dyn_pdch refEnv (state_flags 0x2000) (rx_msg []) false).ts ⟨0, 2⟩).flags =
      0x2000 := by
  have h := C21_dyn_pdch_while_pending refEnv (state_flags 0x2000) (rx_msg []) false
    (by decide) (Or.inl (by decide)) rfl
  rw [h.1, h.2.1]
  decide

/-- Bits outside a cleared mask are kept by the clearing, below bit 32. -/
theorem testBit_and_not32_keep (f m j : Nat) (hj : j < 32) (hm : m.testBit j = false) :
    (f &&& not32 m).testBit j = f.testBit j := by
  rw [Nat.testBit_and, testBit_not32, hm]
  simp [hj]

/-- Bits outside a set flag are kept by the setting, below bit 32. -/
theorem testBit_or_mod32_keep (f a j : Nat) (hj : j < 32) (ha : a.testBit j = false) :
    ((f ||| a) % 2 ^ 32).testBit j = f.testBit j := by
  rw [Nat.testBit_mod_two_pow, Nat.testBit_or, ha]
  simp [hj]

/-- The state after `ipacc_dyn_pdch_complete` with an error code, when a
message buffer is available: both pending flags cleared, one NACK sent. -/
theorem complete_error_eq (E : Env) (s : State) (ts : TsId) (rc : Int) (hrc : rc ≠ 0)
    (ha : E.msgb_alloc_ok = true) :
    ipacc_dyn_pdch_complete E s ts rc =
      (s.setTs ts { s.ts ts with
        flags := (s.ts ts).flags &&& not32 E.TS_F_PDCH_PENDING_MASK }).emit
        (.abis_bts_rsl_sendmsg
          { discr := .ABIS_RSL_MDISC_DED_CHAN,
            msg_type := if (s.ts ts).flags &&& E.TS_F_PDCH_ACT_PENDING ≠ 0
                        then .RSL_MT_IPAC_PDCH_ACT_NACK else .RSL_MT_IPAC_PDCH_DEACT_NACK,
            chan_nr := some (E.gsm_lchan2chan_nr ⟨ts, 0⟩
              { s.ts ts with flags := (s.ts ts).flags &&& not32 E.TS_F_PDCH_PENDING_MASK }),
            ies := [(.RSL_IE_CAUSE, [E.RSL_ERR_NORMAL_UNSPEC])],
            trx := some ts.trx }) := by
  unfold ipacc_dyn_pdch_complete
  dsimp only
  rw [if_pos hrc]
  unfold rsl_tx_dyn_pdch_nack
  by_cases hp : (s.ts ts).flags &&& E.TS_F_PDCH_ACT_PENDING = 0 <;>
    simp [ha, State.emit, State.setTs, hp]

/-- The state after `ipacc_dyn_pdch_complete` with result 0, when a message
buffer is available: both pending flags cleared, PDCH_ACTIVE set or cleared,
one ACK sent. -/
theorem complete_ok_eq (E : Env) (s : State) (ts : TsId) (ha : E.msgb_alloc_ok = true) :
    ipacc_dyn_pdch_complete E s ts 0 =
      (s.setTs ts { s.ts ts with
        flags := if (s.ts ts).flags &&& E.TS_F_PDCH_ACT_PENDING ≠ 0
          then (((s.ts ts).flags &&& not32 E.TS_F_PDCH_PENDING_MASK) |||
                  E.TS_F_PDCH_ACTIVE) % 2 ^ 32
          else ((s.ts ts).flags &&& not32 E.TS_F_PDCH_PENDING_MASK) &&&
                  not32 E.TS_F_PDCH_ACTIVE }).emit
        (.abis_bts_rsl_sendmsg
          { discr := .ABIS_RSL_MDISC_DED_CHAN,
            msg_type := if (s.ts ts).flags &&& E.TS_F_PDCH_ACT_PENDING ≠ 0
                        then .RSL_MT_IPAC_PDCH_ACT_ACK else .RSL_MT_IPAC_PDCH_DEACT_ACK,
            chan_nr := some (E.gsm_lchan2chan_nr ⟨ts, 0⟩
              { s.ts ts with
                flags := if (s.ts ts).flags &&& E.TS_F_PDCH_ACT_PENDING ≠ 0
                  then (((s.ts ts).flags &&& not32 E.TS_F_PDCH_PENDING_MASK) |||
                          E.TS_F_PDCH_ACTIVE) % 2 ^ 32
                  else ((s.ts ts).flags &&& not32 E.TS_F_PDCH_PENDING_MASK) &&&
                          not32 E.TS_F_PDCH_ACTIVE }),
            ies := [],
            trx := some ts.trx }) := by
  unfold ipacc_dyn_pdch_complete
  dsimp only
  rw [if_neg (by simp)]
  unfold rsl_tx_dyn_pdch_ack
  by_cases hp : (s.ts ts).flags &&& E.TS_F_PDCH_ACT_PENDING = 0
  · simp only [ha, State.emit, State.setTs, hp]
    simp
    funext k
    by_cases hk : k = ts <;> simp [hk]
  · simp only [ha, State.emit, State.setTs, hp]
    simp
    funext k
    by_cases hk : k = ts <;> simp [hk]

/-- C22: on a timeslot with exactly one of PDCH_ACT_PENDING and
PDCH_DEACT_PENDING set, `ipacc_dyn_pdch_complete(ts, rc)` leaves both pending
flags clear.  With `rc = 0` it sends exactly one ACK, the PDCH ACT ACK if ACT
was pending and the PDCH DEACT ACK if DEACT was, and PDCH_ACTIVE is set in the
first case and clear in the second.  With `rc ≠ 0` it sends exactly one NACK
of the pending kind with cause NORMAL_UNSPEC and PDCH_ACTIVE is as before.  No
bit of the 32-bit `flags` outside the pending mask and PDCH_ACTIVE changes, and
no other timeslot, no lchan and nothing of the BTS changes.  The flag
constants are as in `ts_flags_wf` with a 32-bit PDCH_ACTIVE, and a message
buffer is available. -/
theorem C22_dyn_pdch_complete (E : Env) (s : State) (ts : TsId) (rc : Int)
    (hwf : ts_flags_wf E) (hact : E.TS_F_PDCH_ACTIVE < 2 ^ 32)
    (hone : ((s.ts ts).flags &&& E.TS_F_PDCH_ACT_PENDING ≠ 0 ∧
             (s.ts ts).flags &&& E.TS_F_PDCH_DEACT_PENDING = 0) ∨
            ((s.ts ts).flags &&& E.TS_F_PDCH_ACT_PENDING = 0 ∧
             (s.ts ts).flags &&& E.TS_F_PDCH_DEACT_PENDING ≠ 0))
    (ha : E.msgb_alloc_ok = true) :
    ((ipacc_dyn_pdch_complete E s ts rc).ts ts).flags &&& E.TS_F_PDCH_ACT_PENDING = 0 ∧
    ((ipacc_dyn_pdch_complete E s ts rc).ts ts).flags &&& E.TS_F_PDCH_DEACT_PENDING = 0 ∧
    (rc = 0 →
      (∃ m : TxMsg, (ipacc_dyn_pdch_complete E s ts rc).trace =
          s.trace ++ [.abis_bts_rsl_sendmsg m] ∧ m.ies = [] ∧
        m.msg_type = if (s.ts ts).flags &&& E.TS_F_PDCH_ACT_PENDING ≠ 0
                     then .RSL_MT_IPAC_PDCH_ACT_ACK else .RSL_MT_IPAC_PDCH_DEACT_ACK) ∧
      ((s.ts ts).flags &&& E.TS_F_PDCH_ACT_PENDING ≠ 0 →
        ((ipacc_dyn_pdch_complete E s ts rc).ts ts).flags &&& E.TS_F_PDCH_ACTIVE =
          E.TS_F_PDCH_ACTIVE) ∧
      ((s.ts ts).flags &&& E.TS_F_PDCH_DEACT_PENDING ≠ 0 →
        ((ipacc_dyn_pdch_complete E s ts rc).ts ts).flags &&& E.TS_F_PDCH_ACTIVE = 0)) ∧
    (rc ≠ 0 →
      (∃ m : TxMsg, (ipacc_dyn_pdch_complete E s ts rc).trace =
          s.trace ++ [.abis_bts_rsl_sendmsg m] ∧
        m.ies = [(.RSL_IE_CAUSE, [E.RSL_ERR_NORMAL_UNSPEC])] ∧
        m.msg_type = if (s.ts ts).flags &&& E.TS_F_PDCH_ACT_PENDING ≠ 0
                     then .RSL_MT_IPAC_PDCH_ACT_NACK else .RSL_MT_IPAC_PDCH_DEACT_NACK) ∧
      ((ipacc_dyn_pdch_complete E s ts rc).ts ts).flags &&& E.TS_F_PDCH_ACTIVE =
        (s.ts ts).flags &&& E.TS_F_PDCH_ACTIVE) ∧
    (∀ j, j < 32 → E.TS_F_PDCH_PENDING_MASK.testBit j = false →
      E.TS_F_PDCH_ACTIVE.testBit j = false →
      ((ipacc_dyn_pdch_complete E s ts rc).ts ts).flags.testBit j =
        (s.ts ts).flags.testBit j) ∧
    (∀ t, t ≠ ts → (ipacc_dyn_pdch_complete E s ts rc).ts t = s.ts t) ∧
    (ipacc_dyn_pdch_complete E s ts rc).lchan = s.lchan ∧
    (ipacc_dyn_pdch_complete E s ts rc).bts = s.bts := by
  obtain ⟨hcl, hother⟩ := complete_flags E hwf s ts rc
  obtain ⟨hm, had, ham⟩ := hwf
  have hma : E.TS_F_PDCH_PENDING_MASK &&& E.TS_F_PDCH_ACTIVE = 0 := by
    rw [Nat.land_comm]; exact ham
  refine ⟨hcl.1, hcl.2, ?_, ?_, ?_, hother, ?_, ?_⟩
  · intro h0
    subst h0
    rw [complete_ok_eq E s ts ha]
    refine ⟨⟨_, rfl, rfl, rfl⟩, ?_, ?_⟩
    · intro hp
      simp only [State.emit, State.setTs, if_true, if_pos hp]
      rw [and_or_mod32 _ _ _ hact, and_not32_other _ _ _ hact hma, Nat.and_self]
      apply Nat.eq_of_testBit_eq
      intro j
      rw [Nat.testBit_or, Nat.testBit_and]
      cases (s.ts ts).flags.testBit j <;> cases E.TS_F_PDCH_ACTIVE.testBit j <;> rfl
    · intro hp
      have hpa : ¬ (s.ts ts).flags &&& E.TS_F_PDCH_ACT_PENDING ≠ 0 := by
        rcases hone with h | h
        · exact absurd h.2 hp
        · simp [h.1]
      simp only [State.emit, State.setTs, if_true, if_neg hpa]
      exact (and_not32_clears _ E.TS_F_PDCH_ACTIVE E.TS_F_PDCH_ACTIVE E.TS_F_PDCH_ACTIVE
        (Nat.or_self _).symm).1
  · intro hrc
    rw [complete_error_eq E s ts rc hrc ha]
    refine ⟨⟨_, rfl, rfl, rfl⟩, ?_⟩
    simp only [State.emit, State.setTs, if_true]
    exact and_not32_other _ _ _ hact hma
  · intro j hj hmj haj
    by_cases hrc : rc = 0
    · subst hrc
      rw [complete_ok_eq E s ts ha]
      simp only [State.emit, State.setTs, if_true]
      split
      · rw [testBit_or_mod32_keep _ _ _ hj haj, testBit_and_not32_keep _ _ _ hj hmj]
      · rw [testBit_and_not32_keep _ _ _ hj haj, testBit_and_not32_keep _ _ _ hj hmj]
    · rw [complete_error_eq E s ts rc hrc ha]
      simp only [State.emit, State.setTs, if_true]
      exact testBit_and_not32_keep _ _ _ hj hmj
  · by_cases hrc : rc = 0
    · subst hrc
      rw [complete_ok_eq E s ts ha]
      rfl
    · rw [complete_error_eq E s ts rc hrc ha]
      rfl
  · by_cases hrc : rc = 0
    · subst hrc
      rw [complete_ok_eq E s ts ha]
      rfl
    · rw [complete_error_eq E s ts rc hrc ha]
      rfl

/-- C22 on flags 0x2001 (ACT pending, one unrelated bit): success gives
0x1001 and one PDCH ACT ACK, failure gives 0x0001 and one PDCH ACT NACK. -/
theorem C22_dyn_pdch_complete_witness :
    ((ipacc_dyn_pdch_complete refEnv (state_flags 0x2001) ⟨0, 2⟩ 0).ts ⟨0, 2⟩).flags = 0x1001 ∧
    (sent (ipacc_dyn_pdch_complete refEnv (state_flags 0x2001) ⟨0, 2⟩ 0).trace).map
      (fun m => m.msg_type) = [.RSL_MT_IPAC_PDCH_ACT_ACK] ∧
    ((ipacc_dyn_pdch_complete refEnv (state_flags 0x2001) ⟨0, 2⟩ (-5)).ts ⟨0, 2⟩).flags = 0x0001 ∧
    ((ipacc_dyn_pdch_complete refEnv (state_flags 0x2001) ⟨0, 2⟩ (-5)).ts ⟨0, 2⟩).flags
      &&& 0x2000 = 0 :=
  ⟨by decide, by decide, by decide,
   (C22_dyn_pdch_complete refEnv (state_flags 0x2001) ⟨0, 2⟩ (-5)
      ⟨by decide, by decide, by decide⟩ (by decide) (Or.inl ⟨by decide, by decide⟩) rfl).1⟩

/-! ### C23, C24: an IPAC PDCH ACT and DEACT driven to completion -/

/-- An IPAC PDCH ACT on an idle TCH/F+PDCH timeslot in TCH/F mode sets
PDCH_ACT_PENDING and asks the PHY to disconnect. -/
theorem act_facts (E : Env) (hwf : ts_flags_wf E) (hb : ts_flags_bits E) (s : State)
    (msg : msgb) (hp : (s.ts msg.lchan.ts).pchan = .GSM_PCHAN_TCH_F_PDCH)
    (hA : (s.ts msg.lchan.ts).flags &&& E.TS_F_PDCH_ACT_PENDING = 0)
    (hD : (s.ts msg.lchan.ts).flags &&& E.TS_F_PDCH_DEACT_PENDING = 0)
    (hV : (s.ts msg.lchan.ts).flags &&& E.TS_F_PDCH_ACTIVE = 0)
    (hrc : E.bts_model_ts_disconnect_rc = 0) :
    ((rsl_rx_dyn_pdch E s msg true).ts msg.lchan.ts).pchan = .GSM_PCHAN_TCH_F_PDCH ∧
    ((rsl_rx_dyn_pdch E s msg true).ts msg.lchan.ts).flags &&& E.TS_F_PDCH_ACT_PENDING =
      E.TS_F_PDCH_ACT_PENDING ∧
    ((rsl_rx_dyn_pdch E s msg true).ts msg.lchan.ts).flags &&& E.TS_F_PDCH_DEACT_PENDING = 0 ∧
    ((rsl_rx_dyn_pdch E s msg true).ts msg.lchan.ts).flags &&& E.TS_F_PDCH_ACTIVE = 0 ∧
    (rsl_rx_dyn_pdch E s msg true).trace =
      s.trace ++ [.bts_model_ts_disconnect msg.lchan.ts] := by
  obtain ⟨hm, had, ham⟩ := hwf
  obtain ⟨_, _, _, hA32, hD32, hV32⟩ := hb
  have hM : ¬ (s.ts msg.lchan.ts).flags &&& E.TS_F_PDCH_PENDING_MASK ≠ 0 := by
    rw [hm, not_not, and_or_eq_zero_iff]
    exact ⟨hA, hD⟩
  have hAV : E.TS_F_PDCH_ACT_PENDING &&& E.TS_F_PDCH_ACTIVE = 0 := by
    rw [hm, and_or_eq_zero_iff] at ham
    rw [Nat.land_comm]; exact ham.1
  have hr : rsl_rx_dyn_pdch E s msg true =
      (s.setTs msg.lchan.ts { s.ts msg.lchan.ts with
        flags := ((s.ts msg.lchan.ts).flags ||| E.TS_F_PDCH_ACT_PENDING) % 2 ^ 32 }).emit
        (.bts_model_ts_disconnect msg.lchan.ts) := by
    unfold rsl_rx_dyn_pdch
    dsimp only
    rw [if_neg hM]
    unfold dyn_pdch_switch dyn_pdch_request
    simp [State.setTs, State.emit, hp, hV, hrc]
  rw [hr]
  simp only [State.emit, State.setTs, if_true]
  refine ⟨hp, ?_, ?_, ?_, trivial⟩
  · rw [and_or_mod32 _ _ _ hA32, hA, Nat.and_self, Nat.zero_or]
  · rw [and_or_mod32 _ _ _ hD32, hD, had]; rfl
  · rw [and_or_mod32 _ _ _ hV32, hV, hAV]; rfl

/-- An IPAC PDCH DEACT on an idle TCH/F+PDCH timeslot in PDCH mode sets
PDCH_DEACT_PENDING and informs the PCU, or asks the PHY to disconnect if the
PCU is not connected. -/
theorem deact_facts (E : Env) (hwf : ts_flags_wf E) (hb : ts_flags_bits E) (s : State)
    (msg : msgb) (hp : (s.ts msg.lchan.ts).pchan = .GSM_PCHAN_TCH_F_PDCH)
    (hA : (s.ts msg.lchan.ts).flags &&& E.TS_F_PDCH_ACT_PENDING = 0)
    (hD : (s.ts msg.lchan.ts).flags &&& E.TS_F_PDCH_DEACT_PENDING = 0)
    (hV : (s.ts msg.lchan.ts).flags &&& E.TS_F_PDCH_ACTIVE = E.TS_F_PDCH_ACTIVE)
    (hrc : E.bts_model_ts_disconnect_rc = 0) (hrc2 : E.pcu_tx_info_ind_rc = 0) :
    ((rsl_rx_dyn_pdch E s msg false).ts msg.lchan.ts).pchan = .GSM_PCHAN_TCH_F_PDCH ∧
    ((rsl_rx_dyn_pdch E s msg false).ts msg.lchan.ts).flags &&& E.TS_F_PDCH_ACT_PENDING = 0 ∧
    ((rsl_rx_dyn_pdch E s msg false).ts msg.lchan.ts).flags &&& E.TS_F_PDCH_DEACT_PENDING =
      E.TS_F_PDCH_DEACT_PENDING ∧
    ((rsl_rx_dyn_pdch E s msg false).ts msg.lchan.ts).flags &&& E.TS_F_PDCH_ACTIVE =
      E.TS_F_PDCH_ACTIVE ∧
    (rsl_rx_dyn_pdch E s msg false).trace = s.trace ++
      [if E.pcu_connected = true then .pcu_tx_info_ind
       else .bts_model_ts_disconnect msg.lchan.ts] := by
  obtain ⟨hm, had, ham⟩ := hwf
  obtain ⟨_, _, hV0, hA32, hD32, hV32⟩ := hb
  have hM : ¬ (s.ts msg.lchan.ts).flags &&& E.TS_F_PDCH_PENDING_MASK ≠ 0 := by
    rw [hm, not_not, and_or_eq_zero_iff]
    exact ⟨hA, hD⟩
  have hDV : E.TS_F_PDCH_DEACT_PENDING &&& E.TS_F_PDCH_ACTIVE = 0 := by
    rw [hm, and_or_eq_zero_iff] at ham
    rw [Nat.land_comm]; exact ham.2
  have hDA : E.TS_F_PDCH_DEACT_PENDING &&& E.TS_F_PDCH_ACT_PENDING = 0 := by
    rw [Nat.land_comm]; exact had
  have hVne : (s.ts msg.lchan.ts).flags &&& E.TS_F_PDCH_ACTIVE ≠ 0 := by
    rw [hV]; exact hV0
  have hr : rsl_rx_dyn_pdch E s msg false =
      (s.setTs msg.lchan.ts { s.ts msg.lchan.ts with
        flags := ((s.ts msg.lchan.ts).flags ||| E.TS_F_PDCH_DEACT_PENDING) % 2 ^ 32 }).emit
        (if E.pcu_connected = true then .pcu_tx_info_ind
         else .bts_model_ts_disconnect msg.lchan.ts) := by
    unfold rsl_rx_dyn_pdch
    dsimp only
    rw [if_neg hM]
    unfold dyn_pdch_switch dyn_pdch_request
    cases hpc : E.pcu_connected <;>
      simp [State.setTs, State.emit, hp, hVne, hrc, hrc2]
  rw [hr]
  simp only [State.emit, State.setTs, if_true]
  refine ⟨hp, ?_, ?_, ?_, trivial⟩
  · rw [and_or_mod32 _ _ _ hA32, hA, hDA]; rfl
  · rw [and_or_mod32 _ _ _ hD32, hD, Nat.and_self, Nat.zero_or]
  · rw [and_or_mod32 _ _ _ hV32, hV, hDV, Nat.or_zero]

/-- The callback `cb_ts_disconnected` on a TCH/F+PDCH timeslot with a pending
flag reconfigures the lchans and asks the PHY to connect: as TCH/F if DEACT is
pending, else as PDCH.  The timeslot itself is not changed. -/
theorem disc_facts (E : Env) (s : State) (ts : TsId)
    (hp : (s.ts ts).pchan = .GSM_PCHAN_TCH_F_PDCH)
    (hpend : (s.ts ts).flags &&& E.TS_F_PDCH_DEACT_PENDING ≠ 0 ∨
             (s.ts ts).flags &&& E.TS_F_PDCH_ACT_PENDING ≠ 0)
    (hrc : E.conf_lchans_as_pchan_rc = 0) (hrc2 : E.bts_model_ts_connect_rc = 0) :
    (cb_ts_disconnected E s ts).ts = s.ts ∧
    (cb_ts_disconnected E s ts).trace = s.trace ++
      [.conf_lchans_as_pchan ts
         (if (s.ts ts).flags &&& E.TS_F_PDCH_DEACT_PENDING ≠ 0 then .GSM_PCHAN_TCH_F
          else .GSM_PCHAN_PDCH),
       .bts_model_ts_connect ts
         (if (s.ts ts).flags &&& E.TS_F_PDCH_DEACT_PENDING ≠ 0 then .GSM_PCHAN_TCH_F
          else .GSM_PCHAN_PDCH)] := by
  have hr : ∀ p, ipacc_dyn_pdch_reconnect E s ts p =
      (s.emit (.conf_lchans_as_pchan ts p)).emit (.bts_model_ts_connect ts p) := by
    intro p
    unfold ipacc_dyn_pdch_reconnect
    simp [hrc, hrc2]
  unfold cb_ts_disconnected
  rw [hp]
  dsimp only
  unfold ipacc_dyn_pdch_ts_disconnected
  by_cases hd : (s.ts ts).flags &&& E.TS_F_PDCH_DEACT_PENDING ≠ 0
  · rw [if_pos hd, if_pos hd, hr]
    exact ⟨rfl, by simp [State.emit]⟩
  · have ha : (s.ts ts).flags &&& E.TS_F_PDCH_ACT_PENDING ≠ 0 := by
      rcases hpend with h | h
      · exact absurd h hd
      · exact h
    rw [if_neg hd, if_pos ha, if_neg hd, hr]
    exact ⟨rfl, by simp [State.emit]⟩

/-- The callback `cb_ts_connected` on a TCH/F+PDCH timeslot completes the
switch with success when DEACT is pending, or when ACT is pending and the PCU
is not connected. -/
theorem conn_complete (E : Env) (s : State) (ts : TsId)
    (hp : (s.ts ts).pchan = .GSM_PCHAN_TCH_F_PDCH)
    (h : (s.ts ts).flags &&& E.TS_F_PDCH_DEACT_PENDING ≠ 0 ∨
         ((s.ts ts).flags &&& E.TS_F_PDCH_ACT_PENDING ≠ 0 ∧ E.pcu_connected = false)) :
    cb_ts_connected E s ts = ipacc_dyn_pdch_complete E s ts 0 := by
  unfold cb_ts_connected
  rw [hp]
  dsimp only
  unfold ipacc_dyn_pdch_ts_connected
  by_cases hd : (s.ts ts).flags &&& E.TS_F_PDCH_DEACT_PENDING ≠ 0
  · rw [if_pos hd]
  · rcases h with h | ⟨h1, h2⟩
    · exact absurd h hd
    · rw [if_neg hd, if_pos h1, if_pos h2]

/-- The callback `cb_ts_connected` on a TCH/F+PDCH timeslot with ACT pending
and the PCU connected informs the PCU and waits for it. -/
theorem conn_pcu (E : Env) (s : State) (ts : TsId)
    (hp : (s.ts ts).pchan = .GSM_PCHAN_TCH_F_PDCH)
    (hd : (s.ts ts).flags &&& E.TS_F_PDCH_DEACT_PENDING = 0)
    (ha : (s.ts ts).flags &&& E.TS_F_PDCH_ACT_PENDING ≠ 0)
    (hpc : E.pcu_connected = true) (hrc : E.pcu_tx_info_ind_rc = 0) :
    cb_ts_connected E s ts = s.emit .pcu_tx_info_ind := by
  unfold cb_ts_connected
  rw [hp]
  dsimp only
  unfold ipacc_dyn_pdch_ts_connected
  simp [hd, ha, hpc, hrc]

/-- A successful completion on a TCH/F+PDCH timeslot: the flags afterwards and
the ACK sent, by what was pending. -/
theorem complete_ok_facts (E : Env) (hwf : ts_flags_wf E) (hb : ts_flags_bits E) (s : State)
    (ts : TsId) (ha : E.msgb_alloc_ok = true) :
    ((ipacc_dyn_pdch_complete E s ts 0).ts ts).pchan = (s.ts ts).pchan ∧
    ((ipacc_dyn_pdch_complete E s ts 0).ts ts).flags &&& E.TS_F_PDCH_ACT_PENDING = 0 ∧
    ((ipacc_dyn_pdch_complete E s ts 0).ts ts).flags &&& E.TS_F_PDCH_DEACT_PENDING = 0 ∧
    ((ipacc_dyn_pdch_complete E s ts 0).ts ts).flags &&& E.TS_F_PDCH_ACTIVE =
      (if (s.ts ts).flags &&& E.TS_F_PDCH_ACT_PENDING ≠ 0 then E.TS_F_PDCH_ACTIVE else 0) ∧
    ∃ m : TxMsg, (ipacc_dyn_pdch_complete E s ts 0).trace =
        s.trace ++ [.abis_bts_rsl_sendmsg m] ∧
      m.msg_type = (if (s.ts ts).flags &&& E.TS_F_PDCH_ACT_PENDING ≠ 0
                    then .RSL_MT_IPAC_PDCH_ACT_ACK else .RSL_MT_IPAC_PDCH_DEACT_ACK) := by
  obtain ⟨hcl, _⟩ := complete_flags E hwf s ts 0
  obtain ⟨hm, had, ham⟩ := hwf
  obtain ⟨_, _, _, _, _, hV32⟩ := hb
  have hma : E.TS_F_PDCH_PENDING_MASK &&& E.TS_F_PDCH_ACTIVE = 0 := by
    rw [Nat.land_comm]; exact ham
  refine ⟨?_, hcl.1, hcl.2, ?_, ?_⟩
  · rw [complete_ok_eq E s ts ha]
    simp [State.emit, State.setTs]
  · rw [complete_ok_eq E s ts ha]
    simp only [State.emit, State.setTs, if_true]
    split
    · rw [and_or_mod32 _ _ _ hV32, and_not32_other _ _ _ hV32 hma, Nat.and_self]
      apply Nat.eq_of_testBit_eq
      intro j
      rw [Nat.testBit_or, Nat.testBit_and]
      cases (s.ts ts).flags.testBit j <;> cases E.TS_F_PDCH_ACTIVE.testBit j <;> rfl
    · exact (and_not32_clears _ E.TS_F_PDCH_ACTIVE E.TS_F_PDCH_ACTIVE E.TS_F_PDCH_ACTIVE
        (Nat.or_self _).symm).1
  · rw [complete_ok_eq E s ts ha]
    exact ⟨_, rfl, rfl⟩

/-- Running two sequences of steps one after the other. -/
theorem pdch_run_append (s : State) (a b : List (Env × PdchStep)) :
    pdch_run s (a ++ b) = pdch_run (pdch_run s a) b := by
  unfold pdch_run
  rw [List.foldl_append]

/-- An IPAC PDCH ACT driven to completion on an idle TCH/F+PDCH timeslot in
TCH/F mode, all requests succeeding: PHY disconnect, reconfiguration and PHY
connect as PDCH, the PCU informed if it is connected, then one PDCH ACT ACK;
afterwards PDCH_ACTIVE is set and nothing is pending. -/
theorem act_phase (E : Env) (hwf : ts_flags_wf E) (hb : ts_flags_bits E) (s : State)
    (msg : msgb) (hp : (s.ts msg.lchan.ts).pchan = .GSM_PCHAN_TCH_F_PDCH)
    (hA : (s.ts msg.lchan.ts).flags &&& E.TS_F_PDCH_ACT_PENDING = 0)
    (hD : (s.ts msg.lchan.ts).flags &&& E.TS_F_PDCH_DEACT_PENDING = 0)
    (hV : (s.ts msg.lchan.ts).flags &&& E.TS_F_PDCH_ACTIVE = 0)
    (hok : pdch_requests_succeed E) (ha : E.msgb_alloc_ok = true) :
    ((pdch_run s (pdch_act_steps E msg ++
      (if E.pcu_connected = true then [(E, PdchStep.complete msg.lchan.ts 0)]
       else []))).ts msg.lchan.ts).pchan = .GSM_PCHAN_TCH_F_PDCH ∧
    ((pdch_run s (pdch_act_steps E msg ++
      (if E.pcu_connected = true then [(E, PdchStep.complete msg.lchan.ts 0)]
       else []))).ts msg.lchan.ts).flags &&& E.TS_F_PDCH_ACT_PENDING = 0 ∧
    ((pdch_run s (pdch_act_steps E msg ++
      (if E.pcu_connected = true then [(E, PdchStep.complete msg.lchan.ts 0)]
       else []))).ts msg.lchan.ts).flags &&& E.TS_F_PDCH_DEACT_PENDING = 0 ∧
    ((pdch_run s (pdch_act_steps E msg ++
      (if E.pcu_connected = true then [(E, PdchStep.complete msg.lchan.ts 0)]
       else []))).ts msg.lchan.ts).flags &&& E.TS_F_PDCH_ACTIVE = E.TS_F_PDCH_ACTIVE ∧
    ∃ m : TxMsg, m.msg_type = .RSL_MT_IPAC_PDCH_ACT_ACK ∧
      (pdch_run s (pdch_act_steps E msg ++
        (if E.pcu_connected = true then [(E, PdchStep.complete msg.lchan.ts 0)]
         else []))).trace = s.trace ++
        [.bts_model_ts_disconnect msg.lchan.ts,
         .conf_lchans_as_pchan msg.lchan.ts .GSM_PCHAN_PDCH,
         .bts_model_ts_connect msg.lchan.ts .GSM_PCHAN_PDCH] ++
        (if E.pcu_connected = true then [.pcu_tx_info_ind] else []) ++
        [.abis_bts_rsl_sendmsg m] := by
  obtain ⟨hr1, hr2, hr3, hr4⟩ := hok
  obtain ⟨h1p, h1A, h1D, h1V, h1t⟩ := act_facts E hwf hb s msg hp hA hD hV hr1
  have h1Ane : ((rsl_rx_dyn_pdch E s msg true).ts msg.lchan.ts).flags &&&
      E.TS_F_PDCH_ACT_PENDING ≠ 0 := by
    rw [h1A]; exact hb.1
  have h1Dn : ¬ ((rsl_rx_dyn_pdch E s msg true).ts msg.lchan.ts).flags &&&
      E.TS_F_PDCH_DEACT_PENDING ≠ 0 := by
    rw [h1D]; simp
  obtain ⟨h2ts, h2t⟩ := disc_facts E (rsl_rx_dyn_pdch E s msg true) msg.lchan.ts h1p
    (Or.inr h1Ane) hr2 hr3
  rw [if_neg h1Dn] at h2t
  have h2p : ((cb_ts_disconnected E (rsl_rx_dyn_pdch E s msg true) msg.lchan.ts).ts
      msg.lchan.ts).pchan = .GSM_PCHAN_TCH_F_PDCH := by rw [h2ts]; exact h1p
  have h2A : ((cb_ts_disconnected E (rsl_rx_dyn_pdch E s msg true) msg.lchan.ts).ts
      msg.lchan.ts).flags &&& E.TS_F_PDCH_ACT_PENDING ≠ 0 := by rw [h2ts]; exact h1Ane
  have h2D : ((cb_ts_disconnected E (rsl_rx_dyn_pdch E s msg true) msg.lchan.ts).ts
      msg.lchan.ts).flags &&& E.TS_F_PDCH_DEACT_PENDING = 0 := by rw [h2ts]; exact h1D
  cases hpc : E.pcu_connected
  · have hrun : pdch_run s (pdch_act_steps E msg ++
        (if false = true then [(E, PdchStep.complete msg.lchan.ts 0)] else [])) =
        ipacc_dyn_pdch_complete E
          (cb_ts_disconnected E (rsl_rx_dyn_pdch E s msg true) msg.lchan.ts) msg.lchan.ts 0 := by
      rw [← conn_complete E _ msg.lchan.ts h2p (Or.inr ⟨h2A, hpc⟩)]
      rfl
    rw [hrun]
    obtain ⟨g1, g2, g3, g4, m, g5, g6⟩ := complete_ok_facts E hwf hb
      (cb_ts_disconnected E (rsl_rx_dyn_pdch E s msg true) msg.lchan.ts) msg.lchan.ts ha
    rw [if_pos h2A] at g4 g6
    refine ⟨g1.trans h2p, g2, g3, g4, m, g6, ?_⟩
    rw [g5, h2t, h1t]
    simp
  · have hconn := conn_pcu E (cb_ts_disconnected E (rsl_rx_dyn_pdch E s msg true) msg.lchan.ts)
      msg.lchan.ts h2p h2D h2A hpc hr4
    have hrun : pdch_run s (pdch_act_steps E msg ++
        (if true = true then [(E, PdchStep.complete msg.lchan.ts 0)] else [])) =
        ipacc_dyn_pdch_complete E
          ((cb_ts_disconnected E (rsl_rx_dyn_pdch E s msg true) msg.lchan.ts).emit
            .pcu_tx_info_ind) msg.lchan.ts 0 := by
      rw [← hconn]
      rfl
    rw [hrun]
    obtain ⟨g1, g2, g3, g4, m, g5, g6⟩ := complete_ok_facts E hwf hb
      ((cb_ts_disconnected E (rsl_rx_dyn_pdch E s msg true) msg.lchan.ts).emit
        .pcu_tx_info_ind) msg.lchan.ts ha
    have h3A : (((cb_ts_disconnected E (rsl_rx_dyn_pdch E s msg true) msg.lchan.ts).emit
        .pcu_tx_info_ind).ts msg.lchan.ts).flags &&& E.TS_F_PDCH_ACT_PENDING ≠ 0 := h2A
    rw [if_pos h3A] at g4 g6
    refine ⟨g1.trans h2p, g2, g3, g4, m, g6, ?_⟩
    rw [g5]
    show (cb_ts_disconnected E (rsl_rx_dyn_pdch E s msg true) msg.lchan.ts).trace ++
      [Event.pcu_tx_info_ind] ++ [Event.abis_bts_rsl_sendmsg m] = _
    rw [h2t, h1t]
    simp

/-- An IPAC PDCH DEACT driven to completion on an idle TCH/F+PDCH timeslot in
PDCH mode, all requests succeeding: the PCU informed (or the PHY asked to
disconnect if the PCU is not connected), reconfiguration and PHY connect as
TCH/F, then one PDCH DEACT ACK; afterwards PDCH_ACTIVE is clear and nothing is
pending. -/
theorem deact_phase (E : Env) (hwf : ts_flags_wf E) (hb : ts_flags_bits E) (s : State)
    (msg : msgb) (hp : (s.ts msg.lchan.ts).pchan = .GSM_PCHAN_TCH_F_PDCH)
    (hA : (s.ts msg.lchan.ts).flags &&& E.TS_F_PDCH_ACT_PENDING = 0)
    (hD : (s.ts msg.lchan.ts).flags &&& E.TS_F_PDCH_DEACT_PENDING = 0)
    (hV : (s.ts msg.lchan.ts).flags &&& E.TS_F_PDCH_ACTIVE = E.TS_F_PDCH_ACTIVE)
    (hok : pdch_requests_succeed E) (ha : E.msgb_alloc_ok = true) :
    ((pdch_run s [(E, .pdch_deact msg), (E, .ts_disconnected msg.lchan.ts),
      (E, .ts_connected msg.lchan.ts)]).ts msg.lchan.ts).flags &&&
        E.TS_F_PDCH_ACT_PENDING = 0 ∧
    ((pdch_run s [(E, .pdch_deact msg), (E, .ts_disconnected msg.lchan.ts),
      (E, .ts_connected msg.lchan.ts)]).ts msg.lchan.ts).flags &&&
        E.TS_F_PDCH_DEACT_PENDING = 0 ∧
    ((pdch_run s [(E, .pdch_deact msg), (E, .ts_disconnected msg.lchan.ts),
      (E, .ts_connected msg.lchan.ts)]).ts msg.lchan.ts).flags &&& E.TS_F_PDCH_ACTIVE = 0 ∧
    ∃ m : TxMsg, m.msg_type = .RSL_MT_IPAC_PDCH_DEACT_ACK ∧
      (pdch_run s [(E, .pdch_deact msg), (E, .ts_disconnected msg.lchan.ts),
        (E, .ts_connected msg.lchan.ts)]).trace = s.trace ++
        [if E.pcu_connected = true then .pcu_tx_info_ind
         else .bts_model_ts_disconnect msg.lchan.ts,
         .conf_lchans_as_pchan msg.lchan.ts .GSM_PCHAN_TCH_F,
         .bts_model_ts_connect msg.lchan.ts .GSM_PCHAN_TCH_F,
         .abis_bts_rsl_sendmsg m] := by
  obtain ⟨hr1, hr2, hr3, hr4⟩ := hok
  obtain ⟨h1p, h1A, h1D, h1V, h1t⟩ := deact_facts E hwf hb s msg hp hA hD hV hr1 hr4
  have h1Dne : ((rsl_rx_dyn_pdch E s msg false).ts msg.lchan.ts).flags &&&
      E.TS_F_PDCH_DEACT_PENDING ≠ 0 := by
    rw [h1D]; exact hb.2.1
  obtain ⟨h2ts, h2t⟩ := disc_facts E (rsl_rx_dyn_pdch E s msg false) msg.lchan.ts h1p
    (Or.inl h1Dne) hr2 hr3
  rw [if_pos h1Dne] at h2t
  have h2p : ((cb_ts_disconnected E (rsl_rx_dyn_pdch E s msg false) msg.lchan.ts).ts
      msg.lchan.ts).pchan = .GSM_PCHAN_TCH_F_PDCH := by rw [h2ts]; exact h1p
  have h2D : ((cb_ts_disconnected E (rsl_rx_dyn_pdch E s msg false) msg.lchan.ts).ts
      msg.lchan.ts).flags &&& E.TS_F_PDCH_DEACT_PENDING ≠ 0 := by rw [h2ts]; exact h1Dne
  have h2A : ¬ ((cb_ts_disconnected E (rsl_rx_dyn_pdch E s msg false) msg.lchan.ts).ts
      msg.lchan.ts).flags &&& E.TS_F_PDCH_ACT_PENDING ≠ 0 := by
    rw [h2ts, h1A]; simp
  have hrun : pdch_run s [(E, .pdch_deact msg), (E, .ts_disconnected msg.lchan.ts),
      (E, .ts_connected msg.lchan.ts)] =
      ipacc_dyn_pdch_complete E
        (cb_ts_disconnected E (rsl_rx_dyn_pdch E s msg false) msg.lchan.ts) msg.lchan.ts 0 := by
    rw [← conn_complete E _ msg.lchan.ts h2p (Or.inl h2D)]
    rfl
  rw [hrun]
  obtain ⟨g1, g2, g3, g4, m, g5, g6⟩ := complete_ok_facts E hwf hb
    (cb_ts_disconnected E (rsl_rx_dyn_pdch E s msg false) msg.lchan.ts) msg.lchan.ts ha
  rw [if_neg h2A] at g4 g6
  refine ⟨g2, g3, g4, m, g6, ?_⟩
  rw [g5, h2t, h1t]
  simp

/-- C23: scenario S4 from every starting state.  On a TCH/F+PDCH timeslot with
PDCH_ACTIVE clear and no pending flag, with the PCU not connected, every
request to the PHY succeeding and a message buffer available, the steps IPAC
PDCH ACT, `cb_ts_disconnected`, `cb_ts_connected` make exactly these calls, in
this order: PHY disconnect, reconfiguration of the lchans as PDCH, PHY connect
as PDCH, and the sending of one PDCH ACT ACK (so no NACK).  Afterwards
PDCH_ACTIVE is set and both pending flags are clear. -/
theorem C23_pdch_act_scenario (E : Env) (hwf : ts_flags_wf E) (hb : ts_flags_bits E)
    (s : State) (msg : msgb)
    (hp : (s.ts msg.lchan.ts).pchan = .GSM_PCHAN_TCH_F_PDCH)
    (hA : (s.ts msg.lchan.ts).flags &&& E.TS_F_PDCH_ACT_PENDING = 0)
    (hD : (s.ts msg.lchan.ts).flags &&& E.TS_F_PDCH_DEACT_PENDING = 0)
    (hV : (s.ts msg.lchan.ts).flags &&& E.TS_F_PDCH_ACTIVE = 0)
    (hpc : E.pcu_connected = false)
    (hok : pdch_requests_succeed E) (ha : E.msgb_alloc_ok = true) :
    (∃ m : TxMsg, m.msg_type = .RSL_MT_IPAC_PDCH_ACT_ACK ∧
      (pdch_run s (pdch_act_steps E msg)).trace = s.trace ++
        [.bts_model_ts_disconnect msg.lchan.ts,
         .conf_lchans_as_pchan msg.lchan.ts .GSM_PCHAN_PDCH,
         .bts_model_ts_connect msg.lchan.ts .GSM_PCHAN_PDCH,
         .abis_bts_rsl_sendmsg m]) ∧
    ((pdch_run s (pdch_act_steps E msg)).ts msg.lchan.ts).flags &&& E.TS_F_PDCH_ACTIVE ≠ 0 ∧
    ((pdch_run s (pdch_act_steps E msg)).ts msg.lchan.ts).flags &&&
      E.TS_F_PDCH_ACT_PENDING = 0 ∧
    ((pdch_run s (pdch_act_steps E msg)).ts msg.lchan.ts).flags &&&
      E.TS_F_PDCH_DEACT_PENDING = 0 := by
  have h := act_phase E hwf hb s msg hp hA hD hV hok ha
  have hn : ¬ E.pcu_connected = true := by simp [hpc]
  simp only [if_neg hn, List.append_nil] at h
  obtain ⟨_, h2, h3, h4, m, h5, h6⟩ := h
  refine ⟨⟨m, h5, ?_⟩, ?_, h2, h3⟩
  · rw [h6]
    simp
  · rw [h4]
    exact hb.2.2.1

/-- C23 on timeslot 2 of TRX 0, starting with no flag set: the four calls, and
flags 0x1000 (PDCH_ACTIVE) at the end. -/
theorem C23_pdch_act_scenario_witness :
    ((pdch_run state_tchf_pdch (pdch_act_steps refEnv (rx_msg []))).ts ⟨0, 2⟩).flags = 0x1000 ∧
    (pdch_run state_tchf_pdch (pdch_act_steps refEnv (rx_msg []))).trace.length = 4 ∧
    ((pdch_run state_tchf_pdch (pdch_act_steps refEnv (rx_msg []))).ts ⟨0, 2⟩).flags
      &&& 0x2000 = 0 := by
  have h := C23_pdch_act_scenario refEnv ⟨by decide, by decide, by decide⟩
    ⟨by decide, by decide, by decide, by decide, by decide, by decide⟩
    state_tchf_pdch (rx_msg []) rfl (by decide) (by decide) (by decide) rfl
    ⟨rfl, rfl, rfl, rfl⟩ rfl
  obtain ⟨⟨m, _, ht⟩, _, h3, _⟩ := h
  refine ⟨by decide, ?_, h3⟩
  rw [ht]
  rfl

/-- C24: on a TCH/F+PDCH timeslot with PDCH_ACTIVE clear and no pending flag,
with every request to PHY and PCU succeeding and a message buffer available,
whether or not the PCU is connected: an IPAC PDCH ACT driven to completion
followed by an IPAC PDCH DEACT driven to completion (the steps of
`pdch_act_deact_steps`) sends exactly two messages, a PDCH ACT ACK and then a
PDCH DEACT ACK, and ends with PDCH_ACTIVE and both pending flags clear. -/
theorem C24_pdch_act_then_deact (E : Env) (hwf : ts_flags_wf E) (hb : ts_flags_bits E)
    (s : State) (msg : msgb)
    (hp : (s.ts msg.lchan.ts).pchan = .GSM_PCHAN_TCH_F_PDCH)
    (hA : (s.ts msg.lchan.ts).flags &&& E.TS_F_PDCH_ACT_PENDING = 0)
    (hD : (s.ts msg.lchan.ts).flags &&& E.TS_F_PDCH_DEACT_PENDING = 0)
    (hV : (s.ts msg.lchan.ts).flags &&& E.TS_F_PDCH_ACTIVE = 0)
    (hok : pdch_requests_succeed E) (ha : E.msgb_alloc_ok = true) :
    ((pdch_run s (pdch_act_deact_steps E msg)).ts msg.lchan.ts).flags &&&
      E.TS_F_PDCH_ACTIVE = 0 ∧
    ((pdch_run s (pdch_act_deact_steps E msg)).ts msg.lchan.ts).flags &&&
      E.TS_F_PDCH_ACT_PENDING = 0 ∧
    ((pdch_run s (pdch_act_deact_steps E msg)).ts msg.lchan.ts).flags &&&
      E.TS_F_PDCH_DEACT_PENDING = 0 ∧
    (sent ((pdch_run s (pdch_act_deact_steps E msg)).trace.drop s.trace.length)).map
      (fun m => m.msg_type) = [.RSL_MT_IPAC_PDCH_ACT_ACK, .RSL_MT_IPAC_PDCH_DEACT_ACK] := by
  obtain ⟨p1, a1, d1, v1, m1, t1, tr1⟩ := act_phase E hwf hb s msg hp hA hD hV hok ha
  obtain ⟨a2, d2, v2, m2, t2, tr2⟩ := deact_phase E hwf hb _ msg p1 a1 d1 v1 hok ha
  unfold pdch_act_deact_steps
  rw [pdch_run_append]
  refine ⟨v2, a2, d2, ?_⟩
  rw [tr2, tr1]
  simp only [List.append_assoc, List.drop_left]
  cases hpc : E.pcu_connected <;> simp [sent, t1, t2]

/-- C24 on timeslot 2 of TRX 0 without and with the PCU: the flags are 0 at
the end and the two ACKs have been sent in order. -/
theorem C24_pdch_act_then_deact_witness :
    ((pdch_run state_tchf_pdch (pdch_act_deact_steps refEnv (rx_msg []))).ts ⟨0, 2⟩).flags = 0 ∧
    ((pdch_run state_tchf_pdch (pdch_act_deact_steps refEnv_pcu (rx_msg []))).ts
      ⟨0, 2⟩).flags = 0 ∧
    (sent ((pdch_run state_tchf_pdch (pdch_act_deact_steps refEnv_pcu (rx_msg []))).trace.drop
      state_tchf_pdch.trace.length)).map (fun m => m.msg_type) =
      [.RSL_MT_IPAC_PDCH_ACT_ACK, .RSL_MT_IPAC_PDCH_DEACT_ACK] :=
  ⟨by decide, by decide,
   (C24_pdch_act_then_deact refEnv_pcu ⟨by decide, by decide, by decide⟩
      ⟨by decide, by decide, by decide, by decide, by decide, by decide⟩
      state_tchf_pdch (rx_msg []) rfl (by decide) (by decide) (by decide)
      ⟨rfl, rfl, rfl, rfl⟩ rfl).2.2.2⟩

/-! ### C26: messages that are too short or have an unknown discriminator -/

/-- The lowest bit of the discriminator does not survive the mask 0xfe. -/
theorem xor_one_and_fe (d : Nat) : (d ^^^ 1) &&& 0xfe = d &&& 0xfe := by
  apply Nat.eq_of_testBit_eq
  intro j
  rw [Nat.testBit_and, Nat.testBit_and, Nat.testBit_xor]
  by_cases hj : j = 0
  · subst hj
    have h0 : (0xfe : Nat).testBit 0 = false := by decide
    rw [h0, Bool.and_false, Bool.and_false]
  · have h1 : (1 : Nat).testBit j = false := by
      have := @Nat.testBit_two_pow 0 j
      simp only [pow_zero] at this
      rw [this]
      simp [Ne.symm hj]
    rw [h1, Bool.xor_false]

/-- C26: for every message given to `down_rsl`, the discriminator constants
being distinct.  A message shorter than the common header, or
shorter than the header of the sub-handler that its discriminator selects
(RLL, common channel, dedicated channel, ip.access; the TRX sub-handler uses
the common header), is released and the result is `-EIO`; a message whose
discriminator with the lowest bit masked off is none of the five is released
and the result is `-EINVAL`.  In both cases nothing else is called and BTS,
timeslots and lchans are as before.  A message and the same message with the
lowest bit of the discriminator flipped go to the same sub-handler, or are
both dropped for an unknown discriminator. -/
theorem C26_down_rsl_short_or_unknown (E : Env) (s : State) (trx : Nat) (msg : msgb)
    (h12 : E.ABIS_RSL_MDISC_RLL ≠ E.ABIS_RSL_MDISC_COM_CHAN)
    (h13 : E.ABIS_RSL_MDISC_RLL ≠ E.ABIS_RSL_MDISC_DED_CHAN)
    (h15 : E.ABIS_RSL_MDISC_RLL ≠ E.ABIS_RSL_MDISC_IPACCESS)
    (h23 : E.ABIS_RSL_MDISC_COM_CHAN ≠ E.ABIS_RSL_MDISC_DED_CHAN)
    (h25 : E.ABIS_RSL_MDISC_COM_CHAN ≠ E.ABIS_RSL_MDISC_IPACCESS)
    (h35 : E.ABIS_RSL_MDISC_DED_CHAN ≠ E.ABIS_RSL_MDISC_IPACCESS)
    (h45 : E.ABIS_RSL_MDISC_TRX ≠ E.ABIS_RSL_MDISC_IPACCESS) :
    (msg.l2len < E.sizeof_abis_rsl_common_hdr →
      down_rsl E s trx msg = (s.emit .msgb_free, -(E.EIO : Int))) ∧
    (msg.msg_discr &&& 0xfe = E.ABIS_RSL_MDISC_RLL → msg.l2len < E.sizeof_abis_rsl_rll_hdr →
      down_rsl E s trx msg = (s.emit .msgb_free, -(E.EIO : Int))) ∧
    (msg.msg_discr &&& 0xfe = E.ABIS_RSL_MDISC_COM_CHAN →
      msg.l2len < E.sizeof_abis_rsl_cchan_hdr →
      down_rsl E s trx msg = (s.emit .msgb_free, -(E.EIO : Int))) ∧
    ((msg.msg_discr &&& 0xfe = E.ABIS_RSL_MDISC_DED_CHAN ∨
      msg.msg_discr &&& 0xfe = E.ABIS_RSL_MDISC_IPACCESS) →
      msg.l2len < E.sizeof_abis_rsl_dchan_hdr →
      down_rsl E s trx msg = (s.emit .msgb_free, -(E.EIO : Int))) ∧
    (E.sizeof_abis_rsl_common_hdr ≤ msg.l2len →
      msg.msg_discr &&& 0xfe ≠ E.ABIS_RSL_MDISC_RLL →
      msg.msg_discr &&& 0xfe ≠ E.ABIS_RSL_MDISC_COM_CHAN →
      msg.msg_discr &&& 0xfe ≠ E.ABIS_RSL_MDISC_DED_CHAN →
      msg.msg_discr &&& 0xfe ≠ E.ABIS_RSL_MDISC_TRX →
      msg.msg_discr &&& 0xfe ≠ E.ABIS_RSL_MDISC_IPACCESS →
      down_rsl E s trx msg = (s.emit .msgb_free, -(E.EINVAL : Int))) ∧
    (E.sizeof_abis_rsl_common_hdr ≤ msg.l2len →
      (down_rsl E s trx msg = rsl_rx_rll E s trx msg ∧
        down_rsl E s trx { msg with msg_discr := msg.msg_discr ^^^ 1 } =
          rsl_rx_rll E s trx { msg with msg_discr := msg.msg_discr ^^^ 1 }) ∨
      (down_rsl E s trx msg = rsl_rx_cchan E s trx msg ∧
        down_rsl E s trx { msg with msg_discr := msg.msg_discr ^^^ 1 } =
          rsl_rx_cchan E s trx { msg with msg_discr := msg.msg_discr ^^^ 1 }) ∨
      (down_rsl E s trx msg = rsl_rx_dchan E s trx msg ∧
        down_rsl E s trx { msg with msg_discr := msg.msg_discr ^^^ 1 } =
          rsl_rx_dchan E s trx { msg with msg_discr := msg.msg_discr ^^^ 1 }) ∨
      (down_rsl E s trx msg = rsl_rx_trx E s trx msg ∧
        down_rsl E s trx { msg with msg_discr := msg.msg_discr ^^^ 1 } =
          rsl_rx_trx E s trx { msg with msg_discr := msg.msg_discr ^^^ 1 }) ∨
      (down_rsl E s trx msg = rsl_rx_ipaccess E s trx msg ∧
        down_rsl E s trx { msg with msg_discr := msg.msg_discr ^^^ 1 } =
          rsl_rx_ipaccess E s trx { msg with msg_discr := msg.msg_discr ^^^ 1 }) ∨
      (down_rsl E s trx msg = (s.emit .msgb_free, -(E.EINVAL : Int)) ∧
        down_rsl E s trx { msg with msg_discr := msg.msg_discr ^^^ 1 } =
          (s.emit .msgb_free, -(E.EINVAL : Int)))) := by
  refine ⟨?_, ?_, ?_, ?_, ?_, ?_⟩
  · intro h
    unfold down_rsl
    rw [if_pos h]
  · intro hd hl
    unfold down_rsl
    by_cases h : msg.l2len < E.sizeof_abis_rsl_common_hdr
    · rw [if_pos h]
    · rw [if_neg h, if_pos hd]
      unfold rsl_rx_rll
      rw [if_pos hl]
  · intro hd hl
    unfold down_rsl
    by_cases h : msg.l2len < E.sizeof_abis_rsl_common_hdr
    · rw [if_pos h]
    · rw [if_neg h, if_neg (by rw [hd]; exact fun e => h12 e.symm), if_pos hd]
      unfold rsl_rx_cchan
      rw [if_pos hl]
  · intro hd hl
    unfold down_rsl
    by_cases h : msg.l2len < E.sizeof_abis_rsl_common_hdr
    · rw [if_pos h]
    · rcases hd with hd | hd
      · rw [if_neg h, if_neg (by rw [hd]; exact fun e => h13 e.symm),
          if_neg (by rw [hd]; exact fun e => h23 e.symm), if_pos hd]
        unfold rsl_rx_dchan
        rw [if_pos hl]
      · rw [if_neg h, if_neg (by rw [hd]; exact fun e => h15 e.symm),
          if_neg (by rw [hd]; exact fun e => h25 e.symm),
          if_neg (by rw [hd]; exact fun e => h35 e.symm),
          if_neg (by rw [hd]; exact fun e => h45 e.symm), if_pos hd]
        unfold rsl_rx_ipaccess
        rw [if_pos hl]
  · intro hl n1 n2 n3 n4 n5
    unfold down_rsl
    rw [if_neg (not_lt.mpr hl), if_neg n1, if_neg n2, if_neg n3, if_neg n4, if_neg n5]
  · intro hl
    have hl2 : ¬ ({ msg with msg_discr := msg.msg_discr ^^^ 1 } : msgb).l2len <
        E.sizeof_abis_rsl_common_hdr := not_lt.mpr hl
    have hx : ({ msg with msg_discr := msg.msg_discr ^^^ 1 } : msgb).msg_discr &&& 0xfe =
        msg.msg_discr &&& 0xfe := xor_one_and_fe msg.msg_discr
    unfold down_rsl
    rw [if_neg (not_lt.mpr hl), if_neg hl2, hx]
    by_cases c1 : msg.msg_discr &&& 0xfe = E.ABIS_RSL_MDISC_RLL
    · simp only [if_pos c1]
      exact Or.inl ⟨trivial, trivial⟩
    · simp only [if_neg c1]
      by_cases c2 : msg.msg_discr &&& 0xfe = E.ABIS_RSL_MDISC_COM_CHAN
      · simp only [if_pos c2]
        exact Or.inr (Or.inl ⟨trivial, trivial⟩)
      · simp only [if_neg c2]
        by_cases c3 : msg.msg_discr &&& 0xfe = E.ABIS_RSL_MDISC_DED_CHAN
        · simp only [if_pos c3]
          exact Or.inr (Or.inr (Or.inl ⟨trivial, trivial⟩))
        · simp only [if_neg c3]
          by_cases c4 : msg.msg_discr &&& 0xfe = E.ABIS_RSL_MDISC_TRX
          · simp only [if_pos c4]
            exact Or.inr (Or.inr (Or.inr (Or.inl ⟨trivial, trivial⟩)))
          · simp only [if_neg c4]
            by_cases c5 : msg.msg_discr &&& 0xfe = E.ABIS_RSL_MDISC_IPACCESS
            · simp only [if_pos c5]
              exact Or.inr (Or.inr (Or.inr (Or.inr (Or.inl ⟨trivial, trivial⟩))))
            · simp only [if_neg c5]
              exact Or.inr (Or.inr (Or.inr (Or.inr (Or.inr ⟨trivial, trivial⟩))))

/-- C26 on three messages for TRX 0: one byte long, a dedicated-channel
message of three bytes, and a message with discriminator 0x40. -/
theorem C26_down_rsl_short_or_unknown_witness :
    down_rsl refEnv {} 0 { dchan_msg 0x21 [] with l2len := 1 } =
      (({} : State).emit .msgb_free, -5) ∧
    down_rsl refEnv {} 0 { dchan_msg 0x21 [] with l2len := 3 } =
      (({} : State).emit .msgb_free, -5) ∧
    down_rsl refEnv {} 0 { dchan_msg 0x21 [] with msg_discr := 0x40 } =
      (({} : State).emit .msgb_free, -22) :=
  ⟨(C26_down_rsl_short_or_unknown refEnv {} 0 { dchan_msg 0x21 [] with l2len := 1 }
      (by decide) (by decide) (by decide) (by decide) (by decide) (by decide)
      (by decide)).1 (by decide),
   (C26_down_rsl_short_or_unknown refEnv {} 0 { dchan_msg 0x21 [] with l2len := 3 }
      (by decide) (by decide) (by decide) (by decide) (by decide) (by decide)
      (by decide)).2.2.2.1 (Or.inl (by decide)) (by decide),
   (C26_down_rsl_short_or_unknown refEnv {} 0 { dchan_msg 0x21 [] with msg_discr := 0x40 }
      (by decide) (by decide) (by decide) (by decide) (by decide) (by decide)
      (by decide)).2.2.2.2.1 (by decide) (by decide) (by decide)
      (by decide) (by decide) (by decide)⟩

/-! ### C27, C28: CRCX and MDCX that are refused -/

/-- C27: take a CRCX or MDCX for a TCH/F or TCH/H lchan whose TLV part parses
and that carries at most one of RTP_PAYLOAD and RTP_PAYLOAD2, with a message
buffer available.  If it is a CRCX and the lchan has an RTP socket, or if it
is not a CRCX (an MDCX) and the lchan has none, the handler's only call is the
sending of one message whose type is the request type plus 2 (CRCX NACK, MDCX
NACK) and whose last IE is the cause RES_UNAVAIL (for MDCX the only IE); no
socket is created and no lchan, timeslot or BTS field changes, so the socket
and the stored endpoint of the lchan are as before. -/
theorem C27_ipac_XXcx_socket_state (E : Env) (s : State) (msg : msgb)
    (hty : (s.lchan msg.lchan).type = .GSM_LCHAN_TCH_F ∨
           (s.lchan msg.lchan).type = .GSM_LCHAN_TCH_H)
    (htlv : 0 ≤ msg.tlv_rc)
    (hpt : ¬ (TLVP_PRESENT msg.tp .RSL_IE_IPAC_RTP_PAYLOAD = true ∧
              TLVP_PRESENT msg.tp .RSL_IE_IPAC_RTP_PAYLOAD2 = true))
    (ha : E.msgb_alloc_ok = true) :
    (msg.msg_type = E.RSL_MT_IPAC_CRCX → (s.lchan msg.lchan).abis_ip_rtp_socket.isSome = true →
      ∃ m : TxMsg, rsl_rx_ipac_XXcx E s msg =
          (s.emit (.abis_bts_rsl_sendmsg m), E.abis_bts_rsl_sendmsg_rc) ∧
        m.msg_type = .raw ((E.RSL_MT_IPAC_CRCX + 2) % 2 ^ 8) ∧
        m.ies.getLast? = some (.RSL_IE_CAUSE, [E.RSL_ERR_RES_UNAVAIL])) ∧
    (msg.msg_type ≠ E.RSL_MT_IPAC_CRCX → (s.lchan msg.lchan).abis_ip_rtp_socket = none →
      ∃ m : TxMsg, rsl_rx_ipac_XXcx E s msg =
          (s.emit (.abis_bts_rsl_sendmsg m), E.abis_bts_rsl_sendmsg_rc) ∧
        m.msg_type = .raw ((msg.msg_type + 2) % 2 ^ 8) ∧
        m.ies = [(.RSL_IE_CAUSE, [E.RSL_ERR_RES_UNAVAIL])]) := by
  have hty2 : ¬ ((s.lchan msg.lchan).type ≠ .GSM_LCHAN_TCH_F ∧
      (s.lchan msg.lchan).type ≠ .GSM_LCHAN_TCH_H) := by
    rintro ⟨h1, h2⟩
    rcases hty with h | h
    · exact h1 h
    · exact h2 h
  have htlv2 : ¬ msg.tlv_rc < 0 := not_lt.mpr htlv
  have hne : ¬ E.msgb_alloc_ok = false := by simp [ha]
  constructor
  · intro hc hs
    refine ⟨ipac_XXcx_nack_msg E s msg.lchan E.RSL_ERR_RES_UNAVAIL
      (decide (msg.msg_type = E.RSL_MT_IPAC_CRCX ∧
        (if TLVP_PRESENT msg.tp .RSL_IE_IPAC_REMOTE_IP = true then
          tlvp_val32_unal E msg.tp .RSL_IE_IPAC_REMOTE_IP else 0) ≠ 0 ∧
        (if TLVP_PRESENT msg.tp .RSL_IE_IPAC_REMOTE_PORT = true then
          tlvp_val16_unal E msg.tp .RSL_IE_IPAC_REMOTE_PORT else 0) ≠ 0)) msg.msg_type,
      ?_, ?_, ?_⟩
    · unfold rsl_rx_ipac_XXcx
      dsimp only
      rw [if_neg hty2, if_neg htlv2, if_neg hpt, if_pos hc]
      unfold ipac_crcx_socket
      dsimp only
      rw [if_pos hs]
      unfold tx_ipac_XXcx_nack
      rw [if_neg hne]
    · simp only [ipac_XXcx_nack_msg, hc]
    · simp [ipac_XXcx_nack_msg]
  · intro hc hs
    have hs2 : (s.lchan msg.lchan).abis_ip_rtp_socket.isSome = false := by rw [hs]; rfl
    refine ⟨ipac_XXcx_nack_msg E s msg.lchan E.RSL_ERR_RES_UNAVAIL false msg.msg_type,
      ?_, rfl, rfl⟩
    unfold rsl_rx_ipac_XXcx
    dsimp only
    rw [if_neg hty2, if_neg htlv2, if_neg hpt, if_neg hc]
    unfold ipac_mdcx_socket
    dsimp only
    rw [if_pos hs2]
    unfold tx_ipac_XXcx_nack
    rw [if_neg hne]
    simp [hc]

/-- C27 on a TCH/F with socket 7 (CRCX, code point 0x70, answered with 0x72)
and on a TCH/F without socket (MDCX, 0x73, answered with 0x75): one NACK of
cause 0x2f each, the socket and the remote address of the first lchan
unchanged. -/
theorem C27_ipac_XXcx_socket_state_witness :
    (sent (rsl_rx_ipac_XXcx refEnv state_tch_socket (ipac_msg 0x70 ipac_remote_ies)).1.trace).map
      (fun m => (m.msg_type, m.ies.getLast?)) =
      [(.raw 0x72, some (.RSL_IE_CAUSE, [0x2f]))] ∧
    ((rsl_rx_ipac_XXcx refEnv state_tch_socket (ipac_msg 0x70 ipac_remote_ies)).1.lchan
      lchan02).abis_ip_rtp_socket = some 7 ∧
    ((rsl_rx_ipac_XXcx refEnv state_tch_socket (ipac_msg 0x70 ipac_remote_ies)).1.lchan
      lchan02).abis_ip_connect_ip = 0x0a000001 ∧
    (sent (rsl_rx_ipac_XXcx refEnv state_tch_no_socket
      (ipac_msg 0x73 ipac_remote_ies)).1.trace).map (fun m => (m.msg_type, m.ies)) =
      [(.raw 0x75, [(.RSL_IE_CAUSE, [0x2f])])] := by
  obtain ⟨m1, h1, t1, c1⟩ := (C27_ipac_XXcx_socket_state refEnv state_tch_socket
    (ipac_msg 0x70 ipac_remote_ies) (Or.inl rfl) (by decide) (by decide) rfl).1 rfl rfl
  obtain ⟨m2, h2, t2, c2⟩ := (C27_ipac_XXcx_socket_state refEnv state_tch_no_socket
    (ipac_msg 0x73 ipac_remote_ies) (Or.inl rfl) (by decide) (by decide) rfl).2
    (by decide) rfl
  rw [h1, h2]
  refine ⟨?_, rfl, rfl, ?_⟩
  · simp only [State.emit, sent_append, sent, List.map_append, List.map_cons, List.map_nil, t1, c1]
    rfl
  · simp only [State.emit, sent_append, sent, List.map_append, List.map_cons, List.map_nil, t2, c2]
    rfl

/-- Closing the RTP socket of an lchan that has one: the socket is released
and every queued downlink frame is released once; the lchan has no socket
afterwards, its downlink queue still lists the released frames, and the
timeslots are untouched. -/
theorem socket_close_facts (s : State) (l : LchanId) (sock : Nat)
    (h : (s.lchan l).abis_ip_rtp_socket = some sock) :
    ((ipac_socket_close s l).lchan l).abis_ip_rtp_socket = none ∧
    ((ipac_socket_close s l).lchan l).dl_tch_queue = (s.lchan l).dl_tch_queue ∧
    (ipac_socket_close s l).trace = s.trace ++
      .osmo_rtp_socket_free sock :: (s.lchan l).dl_tch_queue.map (fun _ => Event.msgb_free) ∧
    (ipac_socket_close s l).ts = s.ts := by
  unfold ipac_socket_close
  simp only [h, msgb_queue_flush, State.emit, State.setLchan, if_true]
  simp

/-- The state and result of `tx_ipac_XXcx_nack` when a message buffer is
available. -/
theorem XXcx_nack_eq (E : Env) (s : State) (l : LchanId) (cause : Nat) (inc : Bool) (mt : Nat)
    (ha : E.msgb_alloc_ok = true) :
    tx_ipac_XXcx_nack E s l cause inc mt =
      (s.emit (.abis_bts_rsl_sendmsg (ipac_XXcx_nack_msg E s l cause inc mt)),
       E.abis_bts_rsl_sendmsg_rc) := by
  unfold tx_ipac_XXcx_nack
  simp [ha]

/-- The type and the last IE of the message built by `tx_ipac_XXcx_nack`. -/
theorem XXcx_nack_msg_facts (E : Env) (s : State) (l : LchanId) (cause : Nat) (inc : Bool)
    (mt : Nat) :
    (ipac_XXcx_nack_msg E s l cause inc mt).msg_type = .raw ((mt + 2) % 2 ^ 8) ∧
    (ipac_XXcx_nack_msg E s l cause inc mt).ies.getLast? = some (.RSL_IE_CAUSE, [cause]) := by
  simp [ipac_XXcx_nack_msg]

/-- What a CRCX does that fails after the socket was created.  For an IPAC
CRCX on a TCH/F or TCH/H lchan without RTP socket whose TLV part parses and
that carries at most one of RTP_PAYLOAD and RTP_PAYLOAD2, for which
`osmo_rtp_socket_create` returns a socket but `osmo_rtp_socket_bind` or, after
a successful bind, `osmo_rtp_socket_connect` fails (a message buffer being
available): the created socket is released, exactly one message is sent, of
type CRCX plus 2 (the CRCX NACK, not the CRCX ACK, which is CRCX plus 1) with
the cause RES_UNAVAIL as its last IE, and afterwards the lchan has no socket.
Its downlink TCH queue lists the same frames as before. -/
theorem crcx_fails_after_create_effect (E : Env) (s : State) (msg : msgb) (sock : Nat)
    (hc : msg.msg_type = E.RSL_MT_IPAC_CRCX)
    (hty : (s.lchan msg.lchan).type = .GSM_LCHAN_TCH_F ∨
           (s.lchan msg.lchan).type = .GSM_LCHAN_TCH_H)
    (htlv : 0 ≤ msg.tlv_rc)
    (hpt : ¬ (TLVP_PRESENT msg.tp .RSL_IE_IPAC_RTP_PAYLOAD = true ∧
              TLVP_PRESENT msg.tp .RSL_IE_IPAC_RTP_PAYLOAD2 = true))
    (hs : (s.lchan msg.lchan).abis_ip_rtp_socket = none)
    (hcr : E.osmo_rtp_socket_create = some sock)
    (hf : E.osmo_rtp_socket_bind_rc < 0 ∨ E.osmo_rtp_socket_connect_rc < 0)
    (ha : E.msgb_alloc_ok = true) :
    ((rsl_rx_ipac_XXcx E s msg).1.lchan msg.lchan).abis_ip_rtp_socket = none ∧
    ((rsl_rx_ipac_XXcx E s msg).1.lchan msg.lchan).dl_tch_queue =
      (s.lchan msg.lchan).dl_tch_queue ∧
    Event.osmo_rtp_socket_free sock ∈ (rsl_rx_ipac_XXcx E s msg).1.trace.drop s.trace.length ∧
    ∃ m : TxMsg, sent ((rsl_rx_ipac_XXcx E s msg).1.trace.drop s.trace.length) = [m] ∧
      m.msg_type = .raw ((E.RSL_MT_IPAC_CRCX + 2) % 2 ^ 8) ∧
      m.msg_type ≠ .raw ((E.RSL_MT_IPAC_CRCX + 1) % 2 ^ 8) ∧
      m.ies.getLast? = some (.RSL_IE_CAUSE, [E.RSL_ERR_RES_UNAVAIL]) := by
  have hty2 : ¬ ((s.lchan msg.lchan).type ≠ .GSM_LCHAN_TCH_F ∧
      (s.lchan msg.lchan).type ≠ .GSM_LCHAN_TCH_H) := by
    rintro ⟨h1, h2⟩
    rcases hty with h | h
    · exact h1 h
    · exact h2 h
  have htlv2 : ¬ msg.tlv_rc < 0 := not_lt.mpr htlv
  have hs2 : ¬ (s.lchan msg.lchan).abis_ip_rtp_socket.isSome = true := by rw [hs]; simp
  have hmt : ∀ x : Nat, (RslMt.raw ((x + 2) % 2 ^ 8) : RslMt) ≠ .raw ((x + 1) % 2 ^ 8) := by
    intro x h
    injection h with h
    omega
  -- the state in which the socket has been created, configured and bound
  obtain ⟨sb, hsb⟩ : ∃ sb : State, sb =
      (((((s.setLchan msg.lchan
          { s.lchan msg.lchan with tch_last_fn := E.LCHAN_FN_DUMMY }).emit
          (.osmo_rtp_socket_create msg.lchan.ts.trx)).setLchan msg.lchan
          { (s.lchan msg.lchan) with
            tch_last_fn := E.LCHAN_FN_DUMMY, abis_ip_rtp_socket := some sock }).emit
          (.osmo_rtp_socket_set_param sock)).emit
          (.osmo_rtp_socket_bind sock
            (decide ((if TLVP_PRESENT msg.tp .RSL_IE_IPAC_REMOTE_IP = true then
                tlvp_val32_unal E msg.tp .RSL_IE_IPAC_REMOTE_IP else 0) ≠ 0 ∧
              (if TLVP_PRESENT msg.tp .RSL_IE_IPAC_REMOTE_PORT = true then
                tlvp_val16_unal E msg.tp .RSL_IE_IPAC_REMOTE_PORT else 0) ≠ 0) ||
              E.get_rsl_local_ip_ok))) := ⟨_, rfl⟩
  have hsb_sock : (sb.lchan msg.lchan).abis_ip_rtp_socket = some sock := by
    rw [hsb]; simp [State.setLchan, State.emit]
  have hsb_q : (sb.lchan msg.lchan).dl_tch_queue = (s.lchan msg.lchan).dl_tch_queue := by
    rw [hsb]; simp [State.setLchan, State.emit]
  have hsb_tr : ∃ pre, sb.trace = s.trace ++ pre ∧ sent pre = [] := by
    rw [hsb]
    refine ⟨[.osmo_rtp_socket_create msg.lchan.ts.trx, .osmo_rtp_socket_set_param sock,
      .osmo_rtp_socket_bind sock
        (decide ((if TLVP_PRESENT msg.tp .RSL_IE_IPAC_REMOTE_IP = true then
            tlvp_val32_unal E msg.tp .RSL_IE_IPAC_REMOTE_IP else 0) ≠ 0 ∧
          (if TLVP_PRESENT msg.tp .RSL_IE_IPAC_REMOTE_PORT = true then
            tlvp_val16_unal E msg.tp .RSL_IE_IPAC_REMOTE_PORT else 0) ≠ 0) ||
          E.get_rsl_local_ip_ok)], ?_, rfl⟩
    simp [State.setLchan, State.emit]
  -- both failures end in: close the socket of a state that extends `sb`, NACK
  have hend : ∃ sx : State, ∃ inc : Bool,
      rsl_rx_ipac_XXcx E s msg =
        tx_ipac_XXcx_nack E (ipac_socket_close sx msg.lchan) msg.lchan E.RSL_ERR_RES_UNAVAIL inc
          msg.msg_type ∧
      (sx.lchan msg.lchan).abis_ip_rtp_socket = some sock ∧
      (sx.lchan msg.lchan).dl_tch_queue = (s.lchan msg.lchan).dl_tch_queue ∧
      ∃ pre, sx.trace = s.trace ++ pre ∧ sent pre = [] := by
    obtain ⟨pre, hpre, hsent⟩ := hsb_tr
    by_cases hb : E.osmo_rtp_socket_bind_rc < 0
    · refine ⟨sb, (decide (msg.msg_type = E.RSL_MT_IPAC_CRCX ∧
          (if TLVP_PRESENT msg.tp .RSL_IE_IPAC_REMOTE_IP = true then
            tlvp_val32_unal E msg.tp .RSL_IE_IPAC_REMOTE_IP else 0) ≠ 0 ∧
          (if TLVP_PRESENT msg.tp .RSL_IE_IPAC_REMOTE_PORT = true then
            tlvp_val16_unal E msg.tp .RSL_IE_IPAC_REMOTE_PORT else 0) ≠ 0)), ?_, hsb_sock, hsb_q,
        pre, hpre, hsent⟩
      unfold rsl_rx_ipac_XXcx
      dsimp only
      rw [if_neg hty2, if_neg htlv2, if_neg hpt, if_pos hc]
      unfold ipac_crcx_socket
      dsimp only
      rw [if_neg hs2]
      simp only [hcr, if_pos hb]
      rw [hsb]
      simp [State.setLchan, State.emit]
    · have hcn : E.osmo_rtp_socket_connect_rc < 0 := by
        rcases hf with h | h
        · exact absurd h hb
        · exact h
      refine ⟨sb.emit (.osmo_rtp_socket_connect (sb.lchan msg.lchan).abis_ip_rtp_socket
          (if (if TLVP_PRESENT msg.tp .RSL_IE_IPAC_REMOTE_IP = true then
              tlvp_val32_unal E msg.tp .RSL_IE_IPAC_REMOTE_IP else 0) = 0
            then htonl E E.get_signlink_remote_ip
            else (if TLVP_PRESENT msg.tp .RSL_IE_IPAC_REMOTE_IP = true then
              tlvp_val32_unal E msg.tp .RSL_IE_IPAC_REMOTE_IP else 0))
          (ntohs E (if TLVP_PRESENT msg.tp .RSL_IE_IPAC_REMOTE_PORT = true then
              tlvp_val16_unal E msg.tp .RSL_IE_IPAC_REMOTE_PORT else 0))),
        (decide (msg.msg_type = E.RSL_MT_IPAC_CRCX ∧
          (if TLVP_PRESENT msg.tp .RSL_IE_IPAC_REMOTE_IP = true then
            tlvp_val32_unal E msg.tp .RSL_IE_IPAC_REMOTE_IP else 0) ≠ 0 ∧
          (if TLVP_PRESENT msg.tp .RSL_IE_IPAC_REMOTE_PORT = true then
            tlvp_val16_unal E msg.tp .RSL_IE_IPAC_REMOTE_PORT else 0) ≠ 0)), ?_, hsb_sock, hsb_q,
        pre ++ [(.osmo_rtp_socket_connect (sb.lchan msg.lchan).abis_ip_rtp_socket
          (if (if TLVP_PRESENT msg.tp .RSL_IE_IPAC_REMOTE_IP = true then
              tlvp_val32_unal E msg.tp .RSL_IE_IPAC_REMOTE_IP else 0) = 0
            then htonl E E.get_signlink_remote_ip
            else (if TLVP_PRESENT msg.tp .RSL_IE_IPAC_REMOTE_IP = true then
              tlvp_val32_unal E msg.tp .RSL_IE_IPAC_REMOTE_IP else 0))
          (ntohs E (if TLVP_PRESENT msg.tp .RSL_IE_IPAC_REMOTE_PORT = true then
              tlvp_val16_unal E msg.tp .RSL_IE_IPAC_REMOTE_PORT else 0)))], ?_, ?_⟩
      · unfold rsl_rx_ipac_XXcx
        dsimp only
        rw [if_neg hty2, if_neg htlv2, if_neg hpt, if_pos hc]
        unfold ipac_crcx_socket
        dsimp only
        rw [if_neg hs2]
        simp only [hcr, if_neg hb]
        unfold ipac_XXcx_connect
        dsimp only
        rw [if_pos hcn, hsb]
        simp [State.setLchan, State.emit]
      · simp [State.emit, hpre]
      · rw [sent_append, hsent]
        rfl
  obtain ⟨sx, inc, hr, hsx, hsxq, pre, hpre, hsent⟩ := hend
  obtain ⟨c1, c2, c3, _⟩ := socket_close_facts sx msg.lchan sock hsx
  obtain ⟨m1, m2⟩ := XXcx_nack_msg_facts E (ipac_socket_close sx msg.lchan) msg.lchan
    E.RSL_ERR_RES_UNAVAIL inc msg.msg_type
  rw [hr, XXcx_nack_eq E _ _ _ _ _ ha]
  have htr : ((ipac_socket_close sx msg.lchan).emit
      (.abis_bts_rsl_sendmsg (ipac_XXcx_nack_msg E (ipac_socket_close sx msg.lchan) msg.lchan
        E.RSL_ERR_RES_UNAVAIL inc msg.msg_type))).trace.drop s.trace.length =
      pre ++ .osmo_rtp_socket_free sock ::
        (sx.lchan msg.lchan).dl_tch_queue.map (fun _ => Event.msgb_free) ++
      [.abis_bts_rsl_sendmsg (ipac_XXcx_nack_msg E (ipac_socket_close sx msg.lchan) msg.lchan
        E.RSL_ERR_RES_UNAVAIL inc msg.msg_type)] := by
    show ((ipac_socket_close sx msg.lchan).trace ++ _).drop _ = _
    rw [c3, hpre, List.append_assoc, List.append_assoc, List.drop_left]
    simp
  refine ⟨c1, c2.trans hsxq, ?_, _, ?_, ?_, ?_, m2⟩
  · rw [htr]
    simp
  · rw [htr, sent_append, sent_append, hsent]
    show [] ++ sent (_ :: _) ++ _ = _
    rw [show ∀ (e : List Event), sent (Event.osmo_rtp_socket_free sock :: e) = sent e from
      fun _ => rfl, sent_msgb_free]
    rfl
  · rw [m1, hc]
  · rw [m1, hc]
    exact hmt _

/-- C28: a CRCX that fails after the socket was created does not leave the
downlink TCH queue empty.  On a TCH/F lchan without socket that holds one
queued frame, a CRCX whose bind fails, and one whose connect fails, is
answered with the CRCX NACK (type 0x72, cause RES_UNAVAIL 0x2f as last IE) and
nothing else, the created socket 9 is released and the lchan has no socket, as
claimed; the queued frame is released once, but the queue still lists it.
Such an lchan arises from one with socket 7 and a queued frame by an IPAC
DLCX, which also leaves the released frame queued; the failing CRCX that
follows releases that frame again. -/
theorem C28_released_frame_stays_queued :
    (state_tch_no_socket.lchan lchan02).abis_ip_rtp_socket = none ∧
    (state_tch_no_socket.lchan lchan02).dl_tch_queue = [[0xd0, 0x01]] ∧
    (rsl_rx_ipac_XXcx refEnv_bind_fails state_tch_no_socket
      (ipac_msg 0x70 ipac_remote_ies)).1.trace.filter
        (fun e => decide (e = .osmo_rtp_socket_free 9 ∨ e = .msgb_free)) =
      [.osmo_rtp_socket_free 9, .msgb_free] ∧
    (sent (rsl_rx_ipac_XXcx refEnv_bind_fails state_tch_no_socket
      (ipac_msg 0x70 ipac_remote_ies)).1.trace).map (fun m => (m.msg_type, m.ies.getLast?)) =
      [(.raw 0x72, some (.RSL_IE_CAUSE, [0x2f]))] ∧
    ((rsl_rx_ipac_XXcx refEnv_bind_fails state_tch_no_socket
      (ipac_msg 0x70 ipac_remote_ies)).1.lchan lchan02).abis_ip_rtp_socket = none ∧
    ((rsl_rx_ipac_XXcx refEnv_bind_fails state_tch_no_socket
      (ipac_msg 0x70 ipac_remote_ies)).1.lchan lchan02).dl_tch_queue = [[0xd0, 0x01]] ∧
    (sent (rsl_rx_ipac_XXcx refEnv_connect_fails state_tch_no_socket
      (ipac_msg 0x70 ipac_remote_ies)).1.trace).map (fun m => (m.msg_type, m.ies.getLast?)) =
      [(.raw 0x72, some (.RSL_IE_CAUSE, [0x2f]))] ∧
    (rsl_rx_ipac_XXcx refEnv_connect_fails state_tch_no_socket
      (ipac_msg 0x70 ipac_remote_ies)).1.trace.filter
        (fun e => decide (e = .osmo_rtp_socket_free 9 ∨ e = .msgb_free)) =
      [.osmo_rtp_socket_free 9, .msgb_free] ∧
    ((rsl_rx_ipac_XXcx refEnv_connect_fails state_tch_no_socket
      (ipac_msg 0x70 ipac_remote_ies)).1.lchan lchan02).abis_ip_rtp_socket = none ∧
    ((rsl_rx_ipac_XXcx refEnv_connect_fails state_tch_no_socket
      (ipac_msg 0x70 ipac_remote_ies)).1.lchan lchan02).dl_tch_queue = [[0xd0, 0x01]] ∧
    ((rsl_rx_ipac_dlcx refEnv state_tch_socket (ipac_msg 0x77 [])).1.lchan
      lchan02).abis_ip_rtp_socket = none ∧
    ((rsl_rx_ipac_dlcx refEnv state_tch_socket (ipac_msg 0x77 [])).1.lchan
      lchan02).dl_tch_queue = [[0xd0, 0x01]] ∧
    (rsl_rx_ipac_XXcx refEnv_bind_fails
      (rsl_rx_ipac_dlcx refEnv state_tch_socket (ipac_msg 0x77 [])).1
      (ipac_msg 0x70 ipac_remote_ies)).1.trace.filter (fun e => decide (e = .msgb_free)) =
      [.msgb_free, .msgb_free] := by
  decide

/-! ### C29: the lifetime of the RTP socket -/

/-- Every state has the sockets it has. -/
theorem same_sock_refl (s : State) : same_sock s s := fun _ => rfl

/-- Having the same sockets is transitive. -/
theorem same_sock_trans {s s1 s2 : State} (h1 : same_sock s s1) (h2 : same_sock s1 s2) :
    same_sock s s2 := fun l => (h2 l).trans (h1 l)

/-- States with the same lchans have the same sockets. -/
theorem same_sock_of_lchan {s s2 : State} (h : s2.lchan = s.lchan) : same_sock s s2 := by
  intro l
  rw [h]

/-- Recording a call does not touch a socket. -/
theorem same_sock_emit (s : State) (e : Event) : same_sock s (s.emit e) := same_sock_refl s

/-- Replacing a timeslot does not touch a socket. -/
theorem same_sock_setTs (s : State) (t : TsId) (v : gsm_bts_trx_ts) :
    same_sock s (s.setTs t v) := same_sock_refl s

/-- Replacing an lchan by one with the same socket does not touch a socket. -/
theorem same_sock_setLchan (s : State) (l : LchanId) (v : gsm_lchan)
    (h : v.abis_ip_rtp_socket = (s.lchan l).abis_ip_rtp_socket) :
    same_sock s (s.setLchan l v) := by
  intro k
  by_cases hk : k = l
  · subst hk
    simp [State.setLchan, h]
  · simp [State.setLchan, hk]

/-- An ERROR REPORT does not touch a socket. -/
theorem same_sock_error_report (E : Env) (s : State) (trx cause : Nat) :
    same_sock s (rsl_tx_error_report E s trx cause).1 := by
  unfold rsl_tx_error_report
  split
  · exact same_sock_refl s
  · exact same_sock_emit s _

/-- A CHAN ACT ACK does not touch a socket. -/
theorem same_sock_chan_act_ack (E : Env) (s : State) (l : LchanId) :
    same_sock s (rsl_tx_chan_act_ack E s l).1 := by
  unfold rsl_tx_chan_act_ack
  simp only
  split
  · exact same_sock_refl s
  · exact same_sock_trans (same_sock_setLchan s l { s.lchan l with meas_res_nr := 0 } rfl)
      (same_sock_emit _ _)

/-- A CHAN ACT ACK or NACK does not touch a socket. -/
theorem same_sock_acknack (E : Env) (s : State) (l : LchanId) (cause : Nat) :
    same_sock s (rsl_tx_chan_act_acknack E s l cause).1 := by
  unfold rsl_tx_chan_act_acknack
  split
  · exact same_sock_refl s
  · split
    · unfold rsl_tx_chan_act_nack
      split
      · exact same_sock_refl s
      · exact same_sock_emit s _
    · exact same_sock_chan_act_ack E s l

/-- The channel mode does not touch a socket. -/
theorem same_sock_tchmode (E : Env) (s : State) (l : LchanId) (cm : tlv_p_entry) :
    same_sock s (lchan_tchmode_from_cmode E s l cm) := by
  unfold lchan_tchmode_from_cmode
  simp only
  intro k
  by_cases hk : k = l
  · subst hk
    simp only [State.setLchan, if_true]
    split_ifs <;> rfl
  · simp [State.setLchan, hk]

/-- The encryption information does not touch a socket. -/
theorem same_sock_encr (E : Env) (s : State) (l : LchanId) (val : tlv_p_entry) (len : Nat) :
    same_sock s (encr_info2lchan E s l val len).1 := by
  unfold encr_info2lchan
  simp only
  split
  · exact same_sock_refl s
  · split
    · exact same_sock_refl s
    · exact same_sock_setLchan s l _ rfl

/-- The MultiRate configuration does not touch a socket. -/
theorem same_sock_mr_config (E : Env) (s : State) (msg : msgb) :
    same_sock s (chan_activ_mr_config E s msg) := by
  unfold chan_activ_mr_config
  split
  · exact same_sock_setLchan s _ _ rfl
  · exact same_sock_refl s

/-- The PDCH activation through the PCU does not touch a socket. -/
theorem same_sock_pdch (E : Env) (s : State) (msg : msgb) :
    same_sock s (chan_activ_pdch E s msg).1 := by
  unfold chan_activ_pdch
  simp only
  have h1 := same_sock_chan_act_ack E s msg.lchan
  split
  · split
    · exact same_sock_trans (same_sock_trans h1 (same_sock_emit _ _))
        (same_sock_error_report E _ _ _)
    · exact same_sock_trans h1 (same_sock_emit _ _)
  · exact h1

/-- The activation request to the PHY does not touch a socket. -/
theorem same_sock_l1 (E : Env) (s : State) (msg : msgb) :
    same_sock s (chan_activ_l1 E s msg).1 := by
  unfold chan_activ_l1
  simp only
  have h1 : same_sock s (s.setLchan msg.lchan
      { s.lchan msg.lchan with rel_act_kind := .LCHAN_REL_ACT_RSL }) :=
    same_sock_setLchan s _ _ rfl
  split
  · exact same_sock_trans (same_sock_trans h1 (same_sock_emit _ _)) (same_sock_acknack E _ _ _)
  · exact same_sock_trans h1 (same_sock_emit _ _)

/-- The end of `rsl_rx_chan_activ` does not touch a socket. -/
theorem same_sock_finish (E : Env) (s : State) (msg : msgb) :
    same_sock s (chan_activ_finish E s msg).1 := by
  unfold chan_activ_finish
  simp only
  split
  · exact same_sock_error_report E s _ _
  · split
    · exact same_sock_trans (same_sock_mr_config E s msg) (same_sock_pdch E _ msg)
    · exact same_sock_trans (same_sock_mr_config E s msg) (same_sock_l1 E _ msg)

/-- The encryption block does not touch a socket. -/
theorem same_sock_chan_activ_encr (E : Env) (s : State) (msg : msgb) :
    same_sock s (chan_activ_encr E s msg).1 := by
  unfold chan_activ_encr
  simp only
  split
  · exact same_sock_encr E s _ _ _
  · exact same_sock_setLchan s _ _ rfl

/-- The handover reference does not touch a socket. -/
theorem same_sock_ho_ref (E : Env) (s : State) (msg : msgb) (type : Nat) :
    same_sock s (chan_activ_ho_ref E s msg type) := by
  unfold chan_activ_ho_ref
  simp only
  split
  · exact same_sock_setLchan s _ _ rfl
  · exact same_sock_refl s

/-- The BS power does not touch a socket. -/
theorem same_sock_bs_power (s : State) (msg : msgb) :
    same_sock s (chan_activ_bs_power s msg) := by
  unfold chan_activ_bs_power
  simp only
  split
  · exact same_sock_setLchan s _ _ rfl
  · exact same_sock_refl s

/-- The MS power does not touch a socket. -/
theorem same_sock_ms_power (s : State) (msg : msgb) :
    same_sock s (chan_activ_ms_power s msg) := by
  unfold chan_activ_ms_power
  simp only
  split
  · exact same_sock_setLchan s _ _ rfl
  · exact same_sock_refl s

/-- The timing advance does not touch a socket. -/
theorem same_sock_ta (s : State) (msg : msgb) : same_sock s (chan_activ_ta s msg) := by
  unfold chan_activ_ta
  simp only
  split
  · exact same_sock_setLchan s _ _ rfl
  · exact same_sock_refl s

/-- The loop over the SACCH INFO IE does not touch the socket of the lchan. -/
theorem sock_sacch_info_loop (E : Env) (e : tlv_p_entry) (tot_len : Nat) :
    ∀ (n cur : Nat) (lc : gsm_lchan),
      (sacch_info_loop E e tot_len n cur lc).1.abis_ip_rtp_socket = lc.abis_ip_rtp_socket := by
  intro n
  induction n with
  | zero => intro cur lc; simp [sacch_info_loop]
  | succ n ih =>
    intro cur lc
    unfold sacch_info_loop
    simp only
    split
    · rfl
    · split
      · rfl
      · split
        · rfl
        · rw [ih]

/-- One round of the copy of the SACCH filling does not touch the socket of
the lchan. -/
theorem sock_copy_step (E : Env) (bts : gsm_bts) (lc : gsm_lchan) (t : Nat) :
    (copy_sacch_si_step E bts lc t).abis_ip_rtp_socket = lc.abis_ip_rtp_socket := by
  unfold copy_sacch_si_step
  simp only
  split_ifs <;> rfl

/-- The copy of the SACCH filling does not touch the socket of the lchan. -/
theorem sock_copy_fold (E : Env) (bts : gsm_bts) :
    ∀ (ts : List Nat) (lc : gsm_lchan),
      (ts.foldl (copy_sacch_si_step E bts) lc).abis_ip_rtp_socket = lc.abis_ip_rtp_socket := by
  intro ts
  induction ts with
  | nil => intro lc; rfl
  | cons x ts ih =>
    intro lc
    simp only [List.foldl_cons]
    rw [ih, sock_copy_step]

/-- The SACCH information block does not touch a socket. -/
theorem same_sock_sacch_info (E : Env) (s : State) (msg : msgb) :
    same_sock s (chan_activ_sacch_info E s msg).1 := by
  unfold chan_activ_sacch_info
  simp only
  split
  · exact same_sock_setLchan s _ _ (sock_sacch_info_loop E _ _ _ _ _)
  · unfold copy_sacch_si_to_lchan
    exact same_sock_setLchan s _ _ (sock_copy_fold E s.bts _ _)

/-- The IE part of `rsl_rx_chan_activ` does not touch a socket. -/
theorem same_sock_ies (E : Env) (s : State) (msg : msgb) (type : Nat) :
    same_sock s (chan_activ_ies E s msg type).1 := by
  unfold chan_activ_ies
  simp only
  have h1 := same_sock_chan_activ_encr E s msg
  split
  · exact same_sock_trans h1 (same_sock_error_report E _ _ _)
  · have h2 := same_sock_trans h1 (same_sock_ho_ref E _ msg type)
    have h3 := same_sock_trans h2 (same_sock_bs_power _ msg)
    have h4 := same_sock_trans h3 (same_sock_ms_power _ msg)
    have h5 := same_sock_trans h4 (same_sock_ta _ msg)
    have h6 := same_sock_trans h5 (same_sock_sacch_info E _ msg)
    split
    · exact same_sock_trans h6 (same_sock_error_report E _ _ _)
    · exact same_sock_trans h6 (same_sock_finish E _ msg)

/-- Parking a CHAN ACTIV on a dynamic timeslot does not touch a socket. -/
theorem same_sock_reconnect (E : Env) (s : State) (ts : TsId) (msg : msgb) :
    same_sock s (dyn_ts_l1_reconnect E s ts msg).1 := by
  unfold dyn_ts_l1_reconnect
  split <;> exact same_sock_refl s

/-- Deriving `pchan_want` does not touch a socket. -/
theorem same_sock_dyn_want (E : Env) (s : State) (msg : msgb) :
    same_sock s (chan_activ_dyn_want E s msg) := by
  unfold chan_activ_dyn_want
  simp only
  split
  · exact same_sock_setTs s _ _
  · exact same_sock_refl s

/-- The channel defaults do not touch a socket. -/
theorem same_sock_defaults (E : Env) (s : State) (msg : msgb) :
    same_sock s (chan_activ_defaults E s msg) :=
  same_sock_setLchan s _ _ rfl

/-- The channel mode block does not touch a socket. -/
theorem same_sock_chan_mode (E : Env) (s : State) (msg : msgb) (type : Nat) :
    same_sock s (chan_activ_chan_mode E s msg type) := by
  unfold chan_activ_chan_mode
  split
  · exact same_sock_tchmode E s _ _
  · exact same_sock_refl s

/-- CHANNEL ACTIVATION does not touch a socket. -/
theorem same_sock_chan_activ (E : Env) (s : State) (msg : msgb) :
    same_sock s (rsl_rx_chan_activ E s msg).1 := by
  unfold rsl_rx_chan_activ
  simp only
  split
  · exact same_sock_acknack E s _ _
  · have h1 := same_sock_dyn_want E s msg
    split
    · have h2 := same_sock_trans h1 (same_sock_reconnect E _ msg.lchan.ts msg)
      split
      · exact same_sock_trans h2 (same_sock_acknack E _ _ _)
      · exact h2
    · have h3 := same_sock_trans h1 (same_sock_defaults E _ msg)
      split
      · exact same_sock_trans h3 (same_sock_acknack E _ _ _)
      · split
        · exact same_sock_trans h3 (same_sock_acknack E _ _ _)
        · exact same_sock_trans h3 (same_sock_trans (same_sock_chan_mode E _ msg _)
            (same_sock_ies E _ msg _))

/-- ENCRYPTION COMMAND does not touch a socket. -/
theorem same_sock_encr_cmd (E : Env) (s : State) (msg : msgb) :
    same_sock s (rsl_rx_encr_cmd E s msg).1 := by
  unfold rsl_rx_encr_cmd
  simp only
  split
  · exact same_sock_error_report E s _ _
  · split
    · exact same_sock_error_report E s _ _
    · have h1 : same_sock s (if TLVP_PRESENT msg.tp .RSL_IE_ENCR_INFO = true then
          encr_info2lchan E s msg.lchan (TLVP msg.tp .RSL_IE_ENCR_INFO)
            (TLVP_LEN msg.tp .RSL_IE_ENCR_INFO % 2 ^ 8)
          else (s, 0)).1 := by
        split
        · exact same_sock_encr E s _ _ _
        · exact same_sock_refl s
      revert h1
      generalize (if TLVP_PRESENT msg.tp .RSL_IE_ENCR_INFO = true then
          encr_info2lchan E s msg.lchan (TLVP msg.tp .RSL_IE_ENCR_INFO)
            (TLVP_LEN msg.tp .RSL_IE_ENCR_INFO % 2 ^ 8)
          else (s, 0)) = r
      intro h1
      split
      · exact same_sock_trans h1 (same_sock_error_report E _ _ _)
      · exact same_sock_trans h1 (same_sock_emit _ _)

/-- A MODE MODIFY NACK does not touch a socket. -/
theorem same_sock_mode_modif_nack (E : Env) (s : State) (l : LchanId) (cause : Nat) :
    same_sock s (rsl_tx_mode_modif_nack E s l cause).1 := by
  unfold rsl_tx_mode_modif_nack
  split
  · exact same_sock_refl s
  · exact same_sock_emit s _

/-- A MODE MODIFY ACK does not touch a socket. -/
theorem same_sock_mode_modif_ack (E : Env) (s : State) (l : LchanId) :
    same_sock s (rsl_tx_mode_modif_ack E s l).1 := by
  unfold rsl_tx_mode_modif_ack
  simp only
  split
  · exact same_sock_refl s
  · exact same_sock_emit s _

/-- MODE MODIFY does not touch a socket. -/
theorem same_sock_mode_modif (E : Env) (s : State) (msg : msgb) :
    same_sock s (rsl_rx_mode_modif E s msg).1 := by
  unfold rsl_rx_mode_modif
  simp only
  split
  · exact same_sock_trans (same_sock_emit s _) (same_sock_mode_modif_nack E _ _ _)
  · have h0 := same_sock_tchmode E s msg.lchan (TLVP msg.tp .RSL_IE_CHAN_MODE)
    have h1 : same_sock s (if TLVP_PRESENT msg.tp .RSL_IE_ENCR_INFO = true then
        encr_info2lchan E (lchan_tchmode_from_cmode E s msg.lchan (TLVP msg.tp .RSL_IE_CHAN_MODE))
          msg.lchan (TLVP msg.tp .RSL_IE_ENCR_INFO) (TLVP_LEN msg.tp .RSL_IE_ENCR_INFO % 2 ^ 8)
        else (lchan_tchmode_from_cmode E s msg.lchan (TLVP msg.tp .RSL_IE_CHAN_MODE), 0)).1 := by
      split
      · exact same_sock_trans h0 (same_sock_encr E _ _ _ _)
      · exact h0
    revert h1
    generalize (if TLVP_PRESENT msg.tp .RSL_IE_ENCR_INFO = true then
        encr_info2lchan E (lchan_tchmode_from_cmode E s msg.lchan (TLVP msg.tp .RSL_IE_CHAN_MODE))
          msg.lchan (TLVP msg.tp .RSL_IE_ENCR_INFO) (TLVP_LEN msg.tp .RSL_IE_ENCR_INFO % 2 ^ 8)
        else (lchan_tchmode_from_cmode E s msg.lchan (TLVP msg.tp .RSL_IE_CHAN_MODE), 0)) = r
    intro h1
    split
    · exact same_sock_trans h1 (same_sock_error_report E _ _ _)
    · split
      · exact same_sock_trans h1 (same_sock_error_report E _ _ _)
      · refine same_sock_trans (same_sock_trans (same_sock_trans h1 ?_) (same_sock_emit _ _))
          (same_sock_mode_modif_ack E _ _)
        split
        · exact same_sock_setLchan _ _ _ rfl
        · exact same_sock_refl _

/-- SACCH INFO MODIFY does not touch a socket. -/
theorem same_sock_sacch_inf_mod (E : Env) (s : State) (msg : msgb) :
    same_sock s (rsl_rx_sacch_inf_mod E s msg).1 := by
  unfold rsl_rx_sacch_inf_mod
  simp only
  split
  · exact same_sock_error_report E s _ _
  · split
    · exact same_sock_error_report E s _ _
    · split
      · exact same_sock_error_report E s _ _
      · split
        · exact same_sock_error_report E s _ _
        · split
          · exact same_sock_setLchan s _ _ rfl
          · exact same_sock_setLchan s _ _ rfl

/-- MS POWER CONTROL does not touch a socket. -/
theorem same_sock_ms_pwr_ctrl (s : State) (msg : msgb) :
    same_sock s (rsl_rx_ms_pwr_ctrl s msg).1 := by
  unfold rsl_rx_ms_pwr_ctrl
  simp only
  split
  · refine same_sock_trans ?_ (same_sock_emit _ _)
    exact same_sock_setLchan s _ _ rfl
  · exact same_sock_refl s

/-- A PDCH ACT/DEACT NACK does not touch a socket. -/
theorem same_sock_dyn_pdch_nack (E : Env) (s : State) (l : LchanId) (pdch_act : Bool)
    (cause : Nat) : same_sock s (rsl_tx_dyn_pdch_nack E s l pdch_act cause).1 := by
  unfold rsl_tx_dyn_pdch_nack
  simp only
  split
  · exact same_sock_refl s
  · exact same_sock_emit s _

/-- A PDCH ACT/DEACT ACK does not touch a socket. -/
theorem same_sock_dyn_pdch_ack (E : Env) (s : State) (l : LchanId) (pdch_act : Bool) :
    same_sock s (rsl_tx_dyn_pdch_ack E s l pdch_act).1 := by
  unfold rsl_tx_dyn_pdch_ack
  simp only
  split
  · exact same_sock_refl s
  · exact same_sock_emit s _

/-- Completing a PDCH switch does not touch a socket. -/
theorem same_sock_complete (E : Env) (s : State) (ts : TsId) (rc : Int) :
    same_sock s (ipacc_dyn_pdch_complete E s ts rc) := by
  unfold ipacc_dyn_pdch_complete
  simp only
  split
  · refine same_sock_trans ?_ (same_sock_dyn_pdch_nack E _ _ _ _)
    exact same_sock_setTs s _ _
  · refine same_sock_trans ?_ (same_sock_dyn_pdch_ack E _ _ _)
    refine same_sock_trans ?_ (same_sock_setTs _ _ _)
    exact same_sock_setTs s _ _

/-- The first request of a PDCH switch does not touch a socket. -/
theorem same_sock_dyn_pdch_request (E : Env) (s : State) (ts : TsId) (pdch_act : Bool) :
    same_sock s (dyn_pdch_request E s ts pdch_act).1 := by
  unfold dyn_pdch_request
  split
  · exact same_sock_emit s _
  · split
    · exact same_sock_emit s _
    · exact same_sock_emit s _

/-- Starting a PDCH switch does not touch a socket. -/
theorem same_sock_dyn_pdch_switch (E : Env) (s : State) (ts : TsId) (a b : Bool) :
    same_sock s (dyn_pdch_switch E s ts a b) := by
  unfold dyn_pdch_switch
  simp only
  split
  · exact same_sock_complete E s _ _
  · split
    · exact same_sock_complete E s _ _
    · split
      · exact same_sock_trans (same_sock_dyn_pdch_request E s ts b) (same_sock_complete E _ _ _)
      · exact same_sock_dyn_pdch_request E s ts b

/-- IPAC PDCH ACT and IPAC PDCH DEACT do not touch a socket. -/
theorem same_sock_dyn_pdch (E : Env) (s : State) (msg : msgb) (pdch_act : Bool) :
    same_sock s (rsl_rx_dyn_pdch E s msg pdch_act) := by
  unfold rsl_rx_dyn_pdch
  simp only
  split
  · exact same_sock_dyn_pdch_nack E s _ _ _
  · refine same_sock_trans ?_ (same_sock_dyn_pdch_switch E _ _ _ _)
    exact same_sock_setTs s _ _

/-- The function `lchan_deactivate` does not touch a socket. -/
theorem same_sock_lchan_deactivate (E : Env) (s : State) (l : LchanId) :
    same_sock s (lchan_deactivate E s l).1 := by
  unfold lchan_deactivate
  simp only
  refine same_sock_trans ?_ (same_sock_emit _ _)
  exact same_sock_setLchan s _ _ rfl

/-- The SI3 block of BCCH INFORMATION does not touch a socket. -/
theorem same_sock_bcch_si3 (E : Env) (s : State) (trx osmo_si : Nat) :
    same_sock s (bcch_info_si3 E s trx osmo_si) := by
  unfold bcch_info_si3
  split
  · simp only
    refine same_sock_trans (same_sock_lchan_deactivate E s (ccch_lchan E)) ?_
    exact same_sock_setLchan _ _ _ rfl
  · exact same_sock_refl s

/-- BCCH INFORMATION does not touch a socket. -/
theorem same_sock_bcch_info (E : Env) (s : State) (trx : Nat) (msg : msgb) :
    same_sock s (rsl_rx_bcch_info E s trx msg).1 := by
  unfold rsl_rx_bcch_info
  simp only
  split
  · exact same_sock_error_report E s _ _
  · split
    · exact same_sock_error_report E s _ _
    · split
      · exact same_sock_error_report E s _ _
      · split
        · split
          · refine same_sock_trans ?_ (same_sock_error_report E _ _ _)
            refine same_sock_trans ?_ (same_sock_bcch_si3 E _ _ _)
            exact same_sock_of_lchan rfl
          · refine same_sock_trans ?_ (same_sock_emit _ _)
            refine same_sock_trans ?_ (same_sock_bcch_si3 E _ _ _)
            exact same_sock_of_lchan rfl
        · split
          · exact same_sock_of_lchan rfl
          · exact same_sock_of_lchan rfl

/-- PAGING COMMAND does not touch a socket. -/
theorem same_sock_paging_cmd (E : Env) (s : State) (trx : Nat) (msg : msgb) :
    same_sock s (rsl_rx_paging_cmd E s trx msg).1 := by
  unfold rsl_rx_paging_cmd
  simp only
  split
  · exact same_sock_error_report E s _ _
  · exact same_sock_of_lchan rfl

/-- SMS BROADCAST COMMAND does not touch a socket. -/
theorem same_sock_sms_bcast_cmd (E : Env) (s : State) (trx : Nat) (msg : msgb) :
    same_sock s (rsl_rx_sms_bcast_cmd E s trx msg).1 := by
  unfold rsl_rx_sms_bcast_cmd
  simp only
  split
  · exact same_sock_error_report E s _ _
  · exact same_sock_of_lchan rfl

/-- SACCH FILLING does not touch a socket. -/
theorem same_sock_sacch_fill (E : Env) (s : State) (trx : Nat) (msg : msgb) :
    same_sock s (rsl_rx_sacch_fill E s trx msg).1 := by
  unfold rsl_rx_sacch_fill
  simp only
  split
  · exact same_sock_error_report E s _ _
  · split
    · exact same_sock_error_report E s _ _
    · split
      · exact same_sock_error_report E s _ _
      · split
        · exact same_sock_of_lchan rfl
        · exact same_sock_of_lchan rfl

/-- IMMEDIATE ASSIGN COMMAND does not touch a socket. -/
theorem same_sock_imm_ass (E : Env) (s : State) (trx : Nat) (msg : msgb) :
    same_sock s (rsl_rx_imm_ass E s trx msg).1 := by
  unfold rsl_rx_imm_ass
  simp only
  split
  · exact same_sock_error_report E s _ _
  · split
    · exact same_sock_of_lchan rfl
    · exact same_sock_of_lchan rfl

/-- Closing the socket of an lchan leaves the other lchans as they are. -/
theorem socket_close_other (s : State) (l k : LchanId) (hk : k ≠ l) :
    (ipac_socket_close s l).lchan k = s.lchan k := by
  unfold ipac_socket_close
  cases h : (s.lchan l).abis_ip_rtp_socket <;>
    simp [State.setLchan, State.emit, msgb_queue_flush, hk]

/-- A CRCX or MDCX NACK does not touch a socket. -/
theorem same_sock_XXcx_nack (E : Env) (s : State) (l : LchanId) (cause : Nat) (inc : Bool)
    (mt : Nat) : same_sock s (tx_ipac_XXcx_nack E s l cause inc mt).1 := by
  unfold tx_ipac_XXcx_nack
  split
  · exact same_sock_refl s
  · exact same_sock_emit s _

/-- A CRCX or MDCX ACK does not touch a socket. -/
theorem same_sock_XXcx_ack (E : Env) (s : State) (l : LchanId) (inc : Bool) (mt : Nat) :
    same_sock s (rsl_tx_ipac_XXcx_ack E s l inc mt).1 := by
  unfold rsl_tx_ipac_XXcx_ack
  simp only
  split
  · exact same_sock_refl s
  · exact same_sock_emit s _

/-- Telling the socket of an lchan its payload type does not touch a socket. -/
theorem same_sock_set_pt (s : State) (l : LchanId) (pt : Nat) :
    same_sock s (match (s.lchan l).abis_ip_rtp_socket with
      | some sock => s.emit (.osmo_rtp_socket_set_pt sock pt)
      | none => s) := by
  split
  · exact same_sock_emit s _
  · exact same_sock_refl s

/-- One payload-type block of `ipac_XXcx_store` does not touch a socket. -/
theorem same_sock_pt_block (msg : msgb) (t : State) (ie : RslIe) (v : gsm_lchan)
    (hv : v.abis_ip_rtp_socket = (t.lchan msg.lchan).abis_ip_rtp_socket) :
    same_sock t (if TLVP_PRESENT msg.tp ie = true then
      match ((t.setLchan msg.lchan v).lchan msg.lchan).abis_ip_rtp_socket with
      | some sock => (t.setLchan msg.lchan v).emit
          (.osmo_rtp_socket_set_pt sock ((TLVP msg.tp ie).byte 0))
      | none => t.setLchan msg.lchan v
      else t) := by
  split
  · exact same_sock_trans (same_sock_setLchan t _ v hv) (same_sock_set_pt _ _ _)
  · exact same_sock_refl t

/-- Storing the endpoints after a successful connect, and the ACK, do not
touch a socket. -/
theorem same_sock_XXcx_store (E : Env) (s : State) (msg : msgb) (ia connect_port : Nat) :
    same_sock s (ipac_XXcx_store E s msg ia connect_port).1 := by
  obtain ⟨s1, hs1⟩ : ∃ s1 : State, s1 = s.setLchan msg.lchan { s.lchan msg.lchan with
      abis_ip_connect_ip := ntohl E ia,
      abis_ip_connect_port := ntohs E connect_port,
      abis_ip_bound_ip := E.osmo_rtp_bound_ip (s.lchan msg.lchan).abis_ip_bound_ip,
      abis_ip_bound_port := (E.osmo_rtp_bound_port % 2 ^ 16).toNat } := ⟨_, rfl⟩
  obtain ⟨s2, hs2⟩ : ∃ s2 : State, s2 =
      (if TLVP_PRESENT msg.tp .RSL_IE_IPAC_RTP_PAYLOAD = true then
        match ((s1.setLchan msg.lchan { s1.lchan msg.lchan with
            abis_ip_rtp_payload := (TLVP msg.tp .RSL_IE_IPAC_RTP_PAYLOAD).byte 0 }).lchan
            msg.lchan).abis_ip_rtp_socket with
        | some sock => (s1.setLchan msg.lchan { s1.lchan msg.lchan with
            abis_ip_rtp_payload := (TLVP msg.tp .RSL_IE_IPAC_RTP_PAYLOAD).byte 0 }).emit
            (.osmo_rtp_socket_set_pt sock ((TLVP msg.tp .RSL_IE_IPAC_RTP_PAYLOAD).byte 0))
        | none => s1.setLchan msg.lchan { s1.lchan msg.lchan with
            abis_ip_rtp_payload := (TLVP msg.tp .RSL_IE_IPAC_RTP_PAYLOAD).byte 0 }
        else s1) := ⟨_, rfl⟩
  obtain ⟨s3, hs3⟩ : ∃ s3 : State, s3 =
      (if TLVP_PRESENT msg.tp .RSL_IE_IPAC_RTP_PAYLOAD2 = true then
        match ((s2.setLchan msg.lchan { s2.lchan msg.lchan with
            abis_ip_rtp_payload2 := (TLVP msg.tp .RSL_IE_IPAC_RTP_PAYLOAD2).byte 0 }).lchan
            msg.lchan).abis_ip_rtp_socket with
        | some sock => (s2.setLchan msg.lchan { s2.lchan msg.lchan with
            abis_ip_rtp_payload2 := (TLVP msg.tp .RSL_IE_IPAC_RTP_PAYLOAD2).byte 0 }).emit
            (.osmo_rtp_socket_set_pt sock ((TLVP msg.tp .RSL_IE_IPAC_RTP_PAYLOAD2).byte 0))
        | none => s2.setLchan msg.lchan { s2.lchan msg.lchan with
            abis_ip_rtp_payload2 := (TLVP msg.tp .RSL_IE_IPAC_RTP_PAYLOAD2).byte 0 }
        else s2) := ⟨_, rfl⟩
  obtain ⟨s4, hs4⟩ : ∃ s4 : State, s4 =
      (if TLVP_PRESENT msg.tp .RSL_IE_IPAC_SPEECH_MODE = true then
        s3.setLchan msg.lchan { s3.lchan msg.lchan with
          abis_ip_speech_mode := (TLVP msg.tp .RSL_IE_IPAC_SPEECH_MODE).byte 0 }
        else s3) := ⟨_, rfl⟩
  have heq : ipac_XXcx_store E s msg ia connect_port =
      rsl_tx_ipac_XXcx_ack E s4 msg.lchan (TLVP_PRESENT msg.tp .RSL_IE_IPAC_RTP_PAYLOAD2)
        msg.msg_type := by
    rw [hs4, hs3, hs2, hs1]
    rfl
  have h1 : same_sock s s1 := by
    rw [hs1]
    exact same_sock_setLchan s _ _ rfl
  have h2 : same_sock s1 s2 := by
    rw [hs2]
    exact same_sock_pt_block msg s1 _ _ rfl
  have h3 : same_sock s2 s3 := by
    rw [hs3]
    exact same_sock_pt_block msg s2 _ _ rfl
  have h4 : same_sock s3 s4 := by
    rw [hs4]
    split
    · exact same_sock_setLchan s3 _ _ rfl
    · exact same_sock_refl s3
  rw [heq]
  exact same_sock_trans (same_sock_trans (same_sock_trans (same_sock_trans h1 h2) h3) h4)
    (same_sock_XXcx_ack E _ _ _ _)

/-- The CRCX branch keeps the socket of an lchan that has one, and passes on
to the connect only for another lchan. -/
theorem crcx_socket_keeps (E : Env) (s : State) (msg : msgb) (cip cport : Nat) (inc : Bool)
    (k : LchanId) (sock : Nat) (hs : (s.lchan k).abis_ip_rtp_socket = some sock) :
    ((ipac_crcx_socket E s msg cip cport inc).1.lchan k).abis_ip_rtp_socket = some sock ∧
    ((ipac_crcx_socket E s msg cip cport inc).2 = none → k ≠ msg.lchan) := by
  unfold ipac_crcx_socket
  dsimp only
  by_cases h : (s.lchan msg.lchan).abis_ip_rtp_socket.isSome = true
  · rw [if_pos h]
    exact ⟨(same_sock_XXcx_nack E s _ _ _ _ k).trans hs, fun hn => by simp at hn⟩
  · rw [if_neg h]
    have hk : k ≠ msg.lchan := by
      rintro rfl
      rw [hs] at h
      simp at h
    refine ⟨?_, fun _ => hk⟩
    cases hc : E.osmo_rtp_socket_create with
    | none =>
      dsimp only
      rw [same_sock_XXcx_nack E _ _ _ _ _ k]
      simpa [State.setLchan, State.emit, hk] using hs
    | some sk =>
      dsimp only
      by_cases hb : E.osmo_rtp_socket_bind_rc < 0
      · rw [if_pos hb]
        dsimp only
        rw [same_sock_XXcx_nack E _ _ _ _ _ k, socket_close_other _ _ _ hk]
        simpa [State.setLchan, State.emit, hk] using hs
      · rw [if_neg hb]
        simpa [State.setLchan, State.emit, hk] using hs

/-- The MDCX branch does not touch a socket. -/
theorem same_sock_mdcx_socket (E : Env) (s : State) (msg : msgb) (inc : Bool) :
    same_sock s (ipac_mdcx_socket E s msg inc).1 := by
  unfold ipac_mdcx_socket
  dsimp only
  split
  · exact same_sock_XXcx_nack E s _ _ _ _
  · exact same_sock_refl s

/-- The connect keeps the socket of an lchan that has one, unless it fails
for that very lchan. -/
theorem XXcx_connect_keeps (E : Env) (s : State) (msg : msgb) (cip cport : Nat) (inc : Bool)
    (k : LchanId) (sock : Nat) (hs : (s.lchan k).abis_ip_rtp_socket = some sock)
    (hk : k ≠ msg.lchan ∨ ¬ E.osmo_rtp_socket_connect_rc < 0) :
    ((ipac_XXcx_connect E s msg cip cport inc).1.lchan k).abis_ip_rtp_socket = some sock := by
  unfold ipac_XXcx_connect
  dsimp only
  by_cases hc : E.osmo_rtp_socket_connect_rc < 0
  · rw [if_pos hc]
    have hk2 : k ≠ msg.lchan := hk.resolve_right (not_not.mpr hc)
    rw [same_sock_XXcx_nack E _ _ _ _ _ k, socket_close_other _ _ _ hk2]
    exact hs
  · rw [if_neg hc, same_sock_XXcx_store E _ msg _ _ k]
    exact hs

/-- CRCX and MDCX keep the socket of an lchan that has one, unless the message
is not a CRCX and the connect fails. -/
theorem XXcx_keeps_socket (E : Env) (s : State) (msg : msgb) (k : LchanId) (sock : Nat)
    (hs : (s.lchan k).abis_ip_rtp_socket = some sock)
    (h : msg.msg_type ≠ E.RSL_MT_IPAC_CRCX → ¬ E.osmo_rtp_socket_connect_rc < 0) :
    ((rsl_rx_ipac_XXcx E s msg).1.lchan k).abis_ip_rtp_socket = some sock := by
  unfold rsl_rx_ipac_XXcx
  dsimp only
  split
  · exact (same_sock_XXcx_nack E s _ _ _ _ k).trans hs
  · split
    · exact (same_sock_XXcx_nack E s _ _ _ _ k).trans hs
    · split
      · exact (same_sock_XXcx_nack E s _ _ _ _ k).trans hs
      · by_cases hc : msg.msg_type = E.RSL_MT_IPAC_CRCX
        · simp only [if_pos hc]
          obtain ⟨c1, c2⟩ := crcx_socket_keeps E s msg
            (if TLVP_PRESENT msg.tp .RSL_IE_IPAC_REMOTE_IP = true then
              tlvp_val32_unal E msg.tp .RSL_IE_IPAC_REMOTE_IP else 0)
            (if TLVP_PRESENT msg.tp .RSL_IE_IPAC_REMOTE_PORT = true then
              tlvp_val16_unal E msg.tp .RSL_IE_IPAC_REMOTE_PORT else 0)
            (decide (msg.msg_type = E.RSL_MT_IPAC_CRCX ∧
              (if TLVP_PRESENT msg.tp .RSL_IE_IPAC_REMOTE_IP = true then
                tlvp_val32_unal E msg.tp .RSL_IE_IPAC_REMOTE_IP else 0) ≠ 0 ∧
              (if TLVP_PRESENT msg.tp .RSL_IE_IPAC_REMOTE_PORT = true then
                tlvp_val16_unal E msg.tp .RSL_IE_IPAC_REMOTE_PORT else 0) ≠ 0)) k sock hs
          revert c1 c2
          generalize ipac_crcx_socket E s msg
            (if TLVP_PRESENT msg.tp .RSL_IE_IPAC_REMOTE_IP = true then
              tlvp_val32_unal E msg.tp .RSL_IE_IPAC_REMOTE_IP else 0)
            (if TLVP_PRESENT msg.tp .RSL_IE_IPAC_REMOTE_PORT = true then
              tlvp_val16_unal E msg.tp .RSL_IE_IPAC_REMOTE_PORT else 0)
            (decide (msg.msg_type = E.RSL_MT_IPAC_CRCX ∧
              (if TLVP_PRESENT msg.tp .RSL_IE_IPAC_REMOTE_IP = true then
                tlvp_val32_unal E msg.tp .RSL_IE_IPAC_REMOTE_IP else 0) ≠ 0 ∧
              (if TLVP_PRESENT msg.tp .RSL_IE_IPAC_REMOTE_PORT = true then
                tlvp_val16_unal E msg.tp .RSL_IE_IPAC_REMOTE_PORT else 0) ≠ 0)) = r
          intro c1 c2
          obtain ⟨r1, r2⟩ := r
          cases r2 with
          | none => exact XXcx_connect_keeps E r1 msg _ _ _ k sock c1 (Or.inl (c2 rfl))
          | some rc => exact c1
        · simp only [if_neg hc]
          have c1 := (same_sock_mdcx_socket E s msg
            (decide (msg.msg_type = E.RSL_MT_IPAC_CRCX ∧
              (if TLVP_PRESENT msg.tp .RSL_IE_IPAC_REMOTE_IP = true then
                tlvp_val32_unal E msg.tp .RSL_IE_IPAC_REMOTE_IP else 0) ≠ 0 ∧
              (if TLVP_PRESENT msg.tp .RSL_IE_IPAC_REMOTE_PORT = true then
                tlvp_val16_unal E msg.tp .RSL_IE_IPAC_REMOTE_PORT else 0) ≠ 0)) k).trans hs
          revert c1
          generalize ipac_mdcx_socket E s msg
            (decide (msg.msg_type = E.RSL_MT_IPAC_CRCX ∧
              (if TLVP_PRESENT msg.tp .RSL_IE_IPAC_REMOTE_IP = true then
                tlvp_val32_unal E msg.tp .RSL_IE_IPAC_REMOTE_IP else 0) ≠ 0 ∧
              (if TLVP_PRESENT msg.tp .RSL_IE_IPAC_REMOTE_PORT = true then
                tlvp_val16_unal E msg.tp .RSL_IE_IPAC_REMOTE_PORT else 0) ≠ 0)) = r
          intro c1
          obtain ⟨r1, r2⟩ := r
          cases r2 with
          | none => exact XXcx_connect_keeps E r1 msg _ _ _ k sock c1 (Or.inr (h hc))
          | some rc => exact c1

/-- Releasing the message after a handler does not touch an lchan. -/
theorem free_unless_one_lchan (r : State × Int) :
    (if r.2 ≠ 1 then (r.1.emit .msgb_free, r.2) else r).1.lchan = r.1.lchan := by
  split <;> rfl

/-- The function `report_error` does not touch a socket. -/
theorem same_sock_report_error (E : Env) (s : State) (trx : Nat) :
    same_sock s (report_error E s trx).1 := by
  unfold report_error
  exact same_sock_error_report E s _ _

/-- A radio link layer message does not touch a socket. -/
theorem same_sock_rll (E : Env) (s : State) (trx : Nat) (msg : msgb) :
    same_sock s (rsl_rx_rll E s trx msg).1 := by
  unfold rsl_rx_rll
  split
  · exact same_sock_emit s _
  · split
    · exact same_sock_trans (same_sock_emit s _) (same_sock_report_error E _ _)
    · exact same_sock_emit s _

/-- The handlers of the common channel messages do not touch a socket. -/
theorem same_sock_cchan_switch (E : Env) (s : State) (trx : Nat) (msg : msgb) :
    same_sock s (cchan_switch E s trx msg).1 := by
  unfold cchan_switch
  split
  · exact same_sock_bcch_info E s trx msg
  · split
    · exact same_sock_imm_ass E s trx msg
    · split
      · exact same_sock_paging_cmd E s trx msg
      · split
        · exact same_sock_sms_bcast_cmd E s trx msg
        · split
          · exact same_sock_refl s
          · exact same_sock_refl s

/-- A common channel message does not touch a socket. -/
theorem same_sock_cchan (E : Env) (s : State) (trx : Nat) (msg : msgb) :
    same_sock s (rsl_rx_cchan E s trx msg).1 := by
  unfold rsl_rx_cchan
  split
  · exact same_sock_emit s _
  · split
    · exact same_sock_trans (same_sock_emit s _) (same_sock_report_error E _ _)
    · dsimp only
      intro k
      rw [free_unless_one_lchan]
      exact same_sock_cchan_switch E s trx _ k

/-- A TRX message does not touch a socket. -/
theorem same_sock_trx (E : Env) (s : State) (trx : Nat) (msg : msgb) :
    same_sock s (rsl_rx_trx E s trx msg).1 := by
  unfold rsl_rx_trx
  split
  · exact same_sock_emit s _
  · dsimp only
    intro k
    rw [free_unless_one_lchan]
    split
    · exact same_sock_sacch_fill E s trx msg k
    · rfl

/-- The handlers of the dedicated channel messages other than RF CHANNEL
RELEASE do not touch a socket. -/
theorem same_sock_dchan_switch (E : Env) (s : State) (trx : Nat) (msg : msgb)
    (h : msg.msg_type ≠ E.RSL_MT_RF_CHAN_REL) :
    same_sock s (dchan_switch E s trx msg).1 := by
  unfold dchan_switch
  split
  · exact same_sock_chan_activ E s msg
  · split
    · exact same_sock_sacch_inf_mod E s msg
    · split
      · exact same_sock_emit s _
      · split
        · exact same_sock_encr_cmd E s msg
        · split
          · exact same_sock_mode_modif E s msg
          · split
            · exact same_sock_ms_pwr_ctrl s msg
            · split
              · exact same_sock_dyn_pdch E s msg _
              · split
                · exact same_sock_refl s
                · exact same_sock_refl s

/-- A dedicated channel message other than RF CHANNEL RELEASE does not touch a
socket. -/
theorem same_sock_dchan (E : Env) (s : State) (trx : Nat) (msg : msgb)
    (h : msg.msg_type ≠ E.RSL_MT_RF_CHAN_REL) :
    same_sock s (rsl_rx_dchan E s trx msg).1 := by
  unfold rsl_rx_dchan
  split
  · exact same_sock_emit s _
  · split
    · exact same_sock_trans (same_sock_emit s _) (same_sock_report_error E _ _)
    · rename_i l hl
      dsimp only
      intro k
      rw [free_unless_one_lchan]
      exact same_sock_dchan_switch E s trx { msg with lchan := l } h k

/-- An ip.access message other than DLCX and other than an MDCX whose connect
fails keeps the socket of an lchan that has one. -/
theorem ipaccess_keeps_socket (E : Env) (s : State) (trx : Nat) (msg : msgb) (k : LchanId)
    (sock : Nat) (hs : (s.lchan k).abis_ip_rtp_socket = some sock)
    (hd : msg.msg_type ≠ E.RSL_MT_IPAC_DLCX)
    (hm : msg.msg_type = E.RSL_MT_IPAC_MDCX → ¬ E.osmo_rtp_socket_connect_rc < 0) :
    ((rsl_rx_ipaccess E s trx msg).1.lchan k).abis_ip_rtp_socket = some sock := by
  unfold rsl_rx_ipaccess
  split
  · exact hs
  · split
    · exact (same_sock_trans (same_sock_emit s _) (same_sock_report_error E _ _) k).trans hs
    · dsimp only
      rw [free_unless_one_lchan]
      unfold ipaccess_switch
      split
      · rename_i hx
        refine XXcx_keeps_socket E s _ k sock hs ?_
        intro hne
        exact hm (hx.resolve_left hne)
      · exact hs

/-- C29 (amended): an lchan that holds an RTP socket still holds the same
socket after `down_rsl` has handled any inbound message, except an IPAC DLCX,
an RF CHANNEL RELEASE, and an IPAC MDCX for which `osmo_rtp_socket_connect`
fails. -/
theorem C29_socket_lifetime (E : Env) (s : State) (trx : Nat) (msg : msgb) (k : LchanId)
    (sock : Nat) (hs : (s.lchan k).abis_ip_rtp_socket = some sock)
    (hdlcx : ¬ (msg.msg_discr &&& 0xfe = E.ABIS_RSL_MDISC_IPACCESS ∧
      msg.msg_type = E.RSL_MT_IPAC_DLCX))
    (hrel : ¬ (msg.msg_discr &&& 0xfe = E.ABIS_RSL_MDISC_DED_CHAN ∧
      msg.msg_type = E.RSL_MT_RF_CHAN_REL))
    (hmdcx : msg.msg_discr &&& 0xfe = E.ABIS_RSL_MDISC_IPACCESS →
      msg.msg_type = E.RSL_MT_IPAC_MDCX → 0 ≤ E.osmo_rtp_socket_connect_rc) :
    ((down_rsl E s trx msg).1.lchan k).abis_ip_rtp_socket = some sock := by
  unfold down_rsl
  split
  · exact hs
  · split
    · exact (same_sock_rll E s trx msg k).trans hs
    · split
      · exact (same_sock_cchan E s trx msg k).trans hs
      · split
        · rename_i hd
          exact (same_sock_dchan E s trx msg (fun h => hrel ⟨hd, h⟩) k).trans hs
        · split
          · exact (same_sock_trx E s trx msg k).trans hs
          · split
            · rename_i hi
              exact ipaccess_keeps_socket E s trx msg k sock hs (fun h => hdlcx ⟨hi, h⟩)
                (fun h => not_lt.mpr (hmdcx hi h))
            · exact hs

/-- C29 at an IPAC MDCX with a successful connect for an lchan with socket 7:
the lchan still holds socket 7. -/
theorem C29_socket_lifetime_witness :
    ((down_rsl refEnv state_tch_socket 0 (ipac_msg 0x73 ipac_remote_ies)).1.lchan
      lchan02).abis_ip_rtp_socket = some 7 :=
  C29_socket_lifetime refEnv state_tch_socket 0 (ipac_msg 0x73 ipac_remote_ies) lchan02 7 rfl
    (by decide) (by decide) (fun _ _ => by decide)

/-- C29 as stated fails: an IPAC MDCX for an lchan that holds socket 7, whose
connect to the new remote fails, is answered by an MDCX NACK and leaves the
lchan without socket. -/
theorem C29_counterexample :
    (state_tch_socket.lchan lchan02).abis_ip_rtp_socket = some 7 ∧
    (ipac_msg 0x73 ipac_remote_ies).msg_type = refEnv_connect_fails.RSL_MT_IPAC_MDCX ∧
    ((down_rsl refEnv_connect_fails state_tch_socket 0
      (ipac_msg 0x73 ipac_remote_ies)).1.lchan lchan02).abis_ip_rtp_socket = none ∧
    (sent (down_rsl refEnv_connect_fails state_tch_socket 0
      (ipac_msg 0x73 ipac_remote_ies)).1.trace).map (fun m => m.msg_type) = [.raw 0x75] := by
  decide

/-! ### C31: encryption information -/

/-- What `encr_info2lchan` does for a supported algorithm and an IE of at
least one byte, when the key array holds 8 bytes: it returns 0 and stores the
algorithm, the key length min(len - 1, 8) and that many key bytes. -/
theorem encr_info2lchan_supported (E : Env) (s : State) (l : LchanId) (val : tlv_p_entry)
    (len : Nat) (hs : E.bts_supports_cipher (val.byte 0) = 1) (h1 : 1 ≤ len)
    (h8 : len < 2 ^ 8) (hk : E.ENCR_KEY_SIZE = 8) :
    (encr_info2lchan E s l val len).2 = 0 ∧
    ((encr_info2lchan E s l val len).1.lchan l).encr_alg_id = val.byte 0 ∧
    ((encr_info2lchan E s l val len).1.lchan l).encr_key_len = min (len - 1) 8 ∧
    (∀ i, i < min (len - 1) 8 →
      ((encr_info2lchan E s l val len).1.lchan l).encr_key i = val.byte (1 + i)) ∧
    (∀ i, min (len - 1) 8 ≤ i →
      ((encr_info2lchan E s l val len).1.lchan l).encr_key i = (s.lchan l).encr_key i) := by
  have hlen : ¬ len < 1 := by omega
  have hmod : (len - 1) % 2 ^ 8 = len - 1 := Nat.mod_eq_of_lt (by omega)
  have hkl : (if (len - 1) % 2 ^ 8 > E.ENCR_KEY_SIZE then E.ENCR_KEY_SIZE % 2 ^ 8
      else (len - 1) % 2 ^ 8) = min (len - 1) 8 := by
    rw [hmod, hk]
    split
    · rw [Nat.min_eq_right (by omega)]
      rfl
    · rw [Nat.min_eq_left (by omega)]
  unfold encr_info2lchan
  simp only [hs, ne_eq, not_true_eq_false, if_false, if_neg hlen, hkl, State.setLchan, if_true]
  refine ⟨trivial, trivial, trivial, ?_, ?_⟩
  · intro i hi
    simp [memcpy, hi]
  · intro i hi
    have : ¬ i < min (len - 1) 8 := by omega
    simp [memcpy, this]

/-- C31: with a BTS for which `bts_supports_cipher` returns 0 (algorithm not
supported), `encr_info2lchan` returns 0, which none of its three callers takes
for a failure (they test for a negative value): a CHANNEL ACTIVATION, an
ENCRYPTION COMMAND and a MODE MODIFY that name the algorithm are carried out,
with the PHY activation, the hand-off to LAPDm and the PHY modification plus
MODE MODIFY ACK, and without any error reply; the cipher state of the lchan is
the old one.  With `bts_supports_cipher` returning a negative value the same
CHANNEL ACTIVATION is answered with an ERROR REPORT and nothing else. -/
theorem C31_unsupported_cipher_not_rejected :
    (encr_info2lchan refEnv_no_cipher state_encr lchan02 ⟨3, [0x01, 0xaa, 0xbb]⟩ 3).2 = 0 ∧
    (rsl_rx_chan_activ refEnv_no_cipher state_encr chan_activ_speech_msg).2 = 0 ∧
    (rsl_rx_chan_activ refEnv_no_cipher state_encr chan_activ_speech_msg).1.trace =
      [.l1sap_chan_act 0 0x0a] ∧
    ((rsl_rx_chan_activ refEnv_no_cipher state_encr chan_activ_speech_msg).1.lchan
      lchan02).encr_alg_id = 2 ∧
    (rsl_rx_encr_cmd refEnv_no_cipher state_encr encr_cmd_msg).2 = 1 ∧
    (rsl_rx_encr_cmd refEnv_no_cipher state_encr encr_cmd_msg).1.trace =
      [.lapdm_rslms_recvmsg lchan02 0x0a 0 ⟨2, [0x06, 0x35]⟩] ∧
    (sent (rsl_rx_mode_modif refEnv_no_cipher state_encr mode_modif_encr_msg).1.trace).map
      (fun m => m.msg_type) = [.RSL_MT_MODE_MODIFY_ACK] ∧
    Event.l1sap_chan_modify 0 0x0a ∈
      (rsl_rx_mode_modif refEnv_no_cipher state_encr mode_modif_encr_msg).1.trace ∧
    (rsl_rx_chan_activ refEnv_cipher_error state_encr chan_activ_speech_msg).1.trace =
      [.abis_bts_rsl_sendmsg (error_report_msg 0 0x68)] := by
  decide

/-! ### C32: the SACCH INFO IE of a CHANNEL ACTIVATION -/

/-- C32: a CHANNEL ACTIVATION whose SACCH INFO IE is one message of SI type 5
with two value bytes, filling the IE exactly, is answered with an ERROR REPORT
of cause IE_CONTENT and does not reach the activation request to the PHY,
although the message has been stored (valid bit 5 set, buffer 03 03 aa bb 2b
...): after the last message the read position equals the end of the IE, and
the loop leaves with an error when the position is at or behind the end.  The
same IE followed by one more byte is accepted, and a message of SI type 1 is
refused with IE_CONTENT as claimed. -/
theorem C32_sacch_info_exact_fill_rejected :
    (rsl_rx_chan_activ refEnv state_encr chan_activ_sacch_exact_msg).1.trace =
      [.abis_bts_rsl_sendmsg (error_report_msg 0 0x68)] ∧
    ((rsl_rx_chan_activ refEnv state_encr chan_activ_sacch_exact_msg).1.lchan lchan02).si_valid
      = 0x20 ∧
    (List.range 6).map (((rsl_rx_chan_activ refEnv state_encr
      chan_activ_sacch_exact_msg).1.lchan lchan02).si_buf 5) = [0x03, 0x03, 0xaa, 0xbb, 0x2b, 0x2b] ∧
    (rsl_rx_chan_activ refEnv state_encr chan_activ_sacch_slack_msg).1.trace =
      [.l1sap_chan_act 0 0x0a] ∧
    (rsl_rx_chan_activ refEnv state_encr chan_activ_sacch_slack_msg).2 = 0 ∧
    (List.range 6).map (((rsl_rx_chan_activ refEnv state_encr
      chan_activ_sacch_slack_msg).1.lchan lchan02).si_buf 5) = [0x03, 0x03, 0xaa, 0xbb, 0x2b, 0x2b] ∧
    (rsl_rx_chan_activ refEnv state_encr chan_activ_sacch_si1_msg).1.trace =
      [.abis_bts_rsl_sendmsg (error_report_msg 0 0x68)] := by
  decide

/-! ### C33: the copy of the SACCH filling of the BTS -/

/-- C33: a CHANNEL ACTIVATION without SACCH INFO IE, accepted and passed on to
the PHY, on a BTS whose SACCH filling is valid for SI 5 (sysinfo index 5) and
SI 5bis (index 20) and for an lchan that has only SI 5ter (index 21) valid:
afterwards the lchan has the bits 5 and 21 valid, not bit 20.  SI 5 has been
copied with its buffer; SI 5bis, valid in the BTS, has not been copied, and
SI 5ter, not valid in the BTS, has not been cleared.  The mask
`osmo_si_shifted` is held in a `uint8_t`, so for every index from 8 on it
is 0. -/
theorem C33_sacch_copy_misses_high_types :
    (rsl_rx_chan_activ refEnv state_sacch_filling chan_activ_plain_msg).1.trace =
      [.l1sap_chan_act 0 0x0a] ∧
    state_sacch_filling.bts.si_valid = 0x100020 ∧
    refEnv.osmo_rsl2sitype refEnv.RSL_SYSTEM_INFO_5bis = 20 ∧
    refEnv.osmo_rsl2sitype refEnv.RSL_SYSTEM_INFO_5ter = 21 ∧
    ((rsl_rx_chan_activ refEnv state_sacch_filling chan_activ_plain_msg).1.lchan lchan02).si_valid
      = 0x200020 ∧
    ((rsl_rx_chan_activ refEnv state_sacch_filling chan_activ_plain_msg).1.lchan lchan02).si_buf
      5 0 = 0x55 ∧
    ((rsl_rx_chan_activ refEnv state_sacch_filling chan_activ_plain_msg).1.lchan lchan02).si_buf
      20 0 = 0 ∧
    copy_sacch_si_step refEnv state_sacch_filling.bts {} 0x0d = {} := by
  refine ⟨by decide, by decide, by decide, by decide, by decide, by decide, by decide, rfl⟩

/-! ### C34: a second CHANNEL ACTIVATION while one is parked -/

/-- C34: on a three-way dynamic timeslot that holds a parked CHANNEL
ACTIVATION for TCH/F and has not been connected again, a second CHANNEL
ACTIVATION (for TCH/H) is not refused: `rsl_rx_chan_activ` returns 1, sends
nothing, asks the PHY to disconnect once more, and the timeslot now holds the
second message in place of the first, which is referred to nowhere any
more. -/
theorem C34_second_activation_replaces_parked :
    (state_dyn_parked.ts ⟨0, 2⟩).dyn_pending_chan_activ = some chan_activ_bm_msg ∧
    (state_dyn_parked.lchan lchan02).state = .LCHAN_S_NONE ∧
    (rsl_rx_chan_activ refEnv state_dyn_parked chan_activ_lm_msg).2 = 1 ∧
    (rsl_rx_chan_activ refEnv state_dyn_parked chan_activ_lm_msg).1.trace =
      [.bts_model_ts_disconnect ⟨0, 2⟩] ∧
    ((rsl_rx_chan_activ refEnv state_dyn_parked chan_activ_lm_msg).1.ts
      ⟨0, 2⟩).dyn_pending_chan_activ = some chan_activ_lm_msg ∧
    chan_activ_lm_msg ≠ chan_activ_bm_msg ∧
    ((rsl_rx_chan_activ refEnv state_dyn_parked chan_activ_lm_msg).1.ts
      ⟨0, 2⟩).dyn_pchan_want = .GSM_PCHAN_TCH_H := by
  decide

/-! ### C38: CHAN ACT ACK or NACK -/

/-- C38: `rsl_tx_chan_act_acknack(lchan, cause)` returns 0 and leaves the
state, the messages sent so far included, as it was when `rel_act_kind` of the
lchan is not RSL.  When it is RSL and a message buffer is available, the
function hands exactly one message to `abis_bts_rsl_sendmsg` and returns what
that call returns: for cause 0 a CHAN ACT ACK whose only IE is FRAME_NUMBER
with the two bytes `gsm48_gen_starting_time` writes for the current time of
the BTS, `meas.res_nr` of the lchan being set to 0 and nothing else changed;
for any other cause a CHAN ACT NACK whose only IE is CAUSE with the cause
byte as given, nothing else changed. -/
theorem C38_chan_act_acknack (E : Env) (s : State) (l : LchanId) (cause : Nat) :
    ((s.lchan l).rel_act_kind ≠ .LCHAN_REL_ACT_RSL →
      rsl_tx_chan_act_acknack E s l cause = (s, 0)) ∧
    ((s.lchan l).rel_act_kind = .LCHAN_REL_ACT_RSL → E.msgb_alloc_ok = true → cause = 0 →
      (rsl_tx_chan_act_acknack E s l cause).2 = E.abis_bts_rsl_sendmsg_rc ∧
      (rsl_tx_chan_act_acknack E s l cause).1.trace = s.trace ++
        [.abis_bts_rsl_sendmsg
          { discr := .ABIS_RSL_MDISC_DED_CHAN, msg_type := .RSL_MT_CHAN_ACTIV_ACK,
            chan_nr := some (E.gsm_lchan2chan_nr l (s.ts l.ts)),
            ies := [(.RSL_IE_FRAME_NUMBER,
              [gsm48_gen_starting_time (fun _ => 0) E.get_time 0,
               gsm48_gen_starting_time (fun _ => 0) E.get_time 1])],
            trx := some l.ts.trx }] ∧
      (rsl_tx_chan_act_acknack E s l cause).1.lchan l = { s.lchan l with meas_res_nr := 0 } ∧
      (∀ k, k ≠ l → (rsl_tx_chan_act_acknack E s l cause).1.lchan k = s.lchan k) ∧
      (rsl_tx_chan_act_acknack E s l cause).1.ts = s.ts ∧
      (rsl_tx_chan_act_acknack E s l cause).1.bts = s.bts) ∧
    ((s.lchan l).rel_act_kind = .LCHAN_REL_ACT_RSL → E.msgb_alloc_ok = true → cause ≠ 0 →
      (rsl_tx_chan_act_acknack E s l cause).2 = E.abis_bts_rsl_sendmsg_rc ∧
      (rsl_tx_chan_act_acknack E s l cause).1.trace = s.trace ++
        [.abis_bts_rsl_sendmsg
          { discr := .ABIS_RSL_MDISC_DED_CHAN, msg_type := .RSL_MT_CHAN_ACTIV_NACK,
            chan_nr := some (E.gsm_lchan2chan_nr l (s.ts l.ts)),
            ies := [(.RSL_IE_CAUSE, [cause])], trx := some l.ts.trx }] ∧
      (rsl_tx_chan_act_acknack E s l cause).1.lchan = s.lchan ∧
      (rsl_tx_chan_act_acknack E s l cause).1.ts = s.ts ∧
      (rsl_tx_chan_act_acknack E s l cause).1.bts = s.bts) := by
  refine ⟨?_, ?_, ?_⟩
  · intro hk
    unfold rsl_tx_chan_act_acknack
    rw [if_pos hk]
  · intro hk ha hc
    have hk2 : ¬ (s.lchan l).rel_act_kind ≠ .LCHAN_REL_ACT_RSL := not_not.mpr hk
    have hc2 : ¬ cause ≠ 0 := not_not.mpr hc
    have ha2 : ¬ E.msgb_alloc_ok = false := by rw [ha]; simp
    unfold rsl_tx_chan_act_acknack
    rw [if_neg hk2, if_neg hc2]
    unfold rsl_tx_chan_act_ack
    dsimp only
    rw [if_neg ha2]
    refine ⟨rfl, rfl, ?_, ?_, rfl, rfl⟩
    · simp [State.emit, State.setLchan]
    · intro k hkl
      simp [State.emit, State.setLchan, hkl]
  · intro hk ha hc
    have hk2 : ¬ (s.lchan l).rel_act_kind ≠ .LCHAN_REL_ACT_RSL := not_not.mpr hk
    have ha2 : ¬ E.msgb_alloc_ok = false := by rw [ha]; simp
    unfold rsl_tx_chan_act_acknack
    rw [if_neg hk2, if_pos hc]
    unfold rsl_tx_chan_act_nack
    rw [if_neg ha2]
    exact ⟨rfl, rfl, rfl, rfl, rfl⟩

/-- C38 on `refEnv` (time T1 = 1234, T2 = 5, T3 = 17): silence for an lchan
released by the PCU, an ACK with starting time 0x92 0x25 for cause 0, and a
NACK with cause 0x64. -/
theorem C38_chan_act_acknack_witness :
    rsl_tx_chan_act_acknack refEnv (state_with .LCHAN_S_NONE .LCHAN_REL_ACT_PCU .GSM_PCHAN_TCH_F)
      lchan02 0x64 = ((state_with .LCHAN_S_NONE .LCHAN_REL_ACT_PCU .GSM_PCHAN_TCH_F), 0) ∧
    (sent (rsl_tx_chan_act_acknack refEnv {} lchan02 0).1.trace).map
      (fun m => (m.msg_type, m.ies)) =
      [(.RSL_MT_CHAN_ACTIV_ACK, [(.RSL_IE_FRAME_NUMBER, [0x92, 0x25])])] ∧
    (sent (rsl_tx_chan_act_acknack refEnv {} lchan02 0x64).1.trace).map
      (fun m => (m.msg_type, m.ies)) =
      [(.RSL_MT_CHAN_ACTIV_NACK, [(.RSL_IE_CAUSE, [0x64])])] := by
  have h := C38_chan_act_acknack refEnv {} lchan02 0
  have h1 := C38_chan_act_acknack refEnv
    (state_with .LCHAN_S_NONE .LCHAN_REL_ACT_PCU .GSM_PCHAN_TCH_F) lchan02 0x64
  have h2 := C38_chan_act_acknack refEnv {} lchan02 0x64
  refine ⟨h1.1 (by decide), ?_, ?_⟩
  · rw [(h.2.1 rfl rfl rfl).2.1]
    decide
  · rw [(h2.2.2 rfl rfl (by decide)).2.1]
    decide

/-! ### C36, C37: BCCH INFO for SI2quater, and rejected BCCH INFO -/

/-- The handler `rsl_rx_bcch_info` for a supported SI type outside the SACCH
list with a FULL_BCCH_INFO payload: store, SI3 block, then either the ERROR
REPORT for an unsupported SI2quater or the new-sysinfo signal. -/
theorem bcch_info_full_eq (E : Env) (s : State) (trx : Nat) (msg : msgb)
    (hp : TLVP_PRESENT msg.tp .RSL_IE_SYSINFO_TYPE = true)
    (hns : osmo_in_array ((TLVP msg.tp .RSL_IE_SYSINFO_TYPE).byte 0) (rsl_sacch_sitypes E) = false)
    (hsup : E.osmo_rsl2sitype ((TLVP msg.tp .RSL_IE_SYSINFO_TYPE).byte 0) ≠ E.SYSINFO_TYPE_NONE)
    (hf : TLVP_PRESENT msg.tp .RSL_IE_FULL_BCCH_INFO = true)
    (s1 : State)
    (hs1 : s1 = bcch_info_si3 E
      { s with bts := (bcch_store E s.bts
          (E.osmo_rsl2sitype ((TLVP msg.tp .RSL_IE_SYSINFO_TYPE).byte 0))
          (TLVP msg.tp .RSL_IE_FULL_BCCH_INFO)
          (clamp_len 8 (TLVP msg.tp .RSL_IE_FULL_BCCH_INFO).len E.SYSINFO_BUF)) } trx
      (E.osmo_rsl2sitype ((TLVP msg.tp .RSL_IE_SYSINFO_TYPE).byte 0))) :
    rsl_rx_bcch_info E s trx msg =
      if E.SYSINFO_TYPE_2quater = E.osmo_rsl2sitype ((TLVP msg.tp .RSL_IE_SYSINFO_TYPE).byte 0) ∧
          si2q_unsupported E s1.bts = true then
        rsl_tx_error_report E s1 trx E.RSL_ERR_IE_CONTENT
      else (s1.emit .osmo_signal_dispatch_new_sysinfo, 0) := by
  have hp2 : ¬ TLVP_PRESENT msg.tp .RSL_IE_SYSINFO_TYPE = false := by rw [hp]; simp
  have hns2 : ¬ osmo_in_array ((TLVP msg.tp .RSL_IE_SYSINFO_TYPE).byte 0)
      (rsl_sacch_sitypes E) = true := by rw [hns]; simp
  unfold rsl_rx_bcch_info
  dsimp only
  rw [if_neg hp2, if_neg hns2, if_neg hsup, if_pos hf, hs1]

/-- The SI3 block sends nothing to the BSC. -/
theorem sent_bcch_info_si3 (E : Env) (s : State) (trx k : Nat) :
    sent (bcch_info_si3 E s trx k).trace = sent s.trace := by
  rw [(bcch_info_si3_spec E s trx k).2.1, sent_append]
  split <;> simp [sent]

/-- An ERROR REPORT leaves the BTS as it is and adds no new-sysinfo signal to
the trace. -/
theorem error_report_atomic (E : Env) (s : State) (trx cause : Nat) :
    (rsl_tx_error_report E s trx cause).1.bts = s.bts ∧
    ∃ d, (rsl_tx_error_report E s trx cause).1.trace = s.trace ++ d ∧
      Event.osmo_signal_dispatch_new_sysinfo ∉ d := by
  unfold rsl_tx_error_report
  split
  · exact ⟨rfl, [], by simp, by simp⟩
  · exact ⟨rfl, [_], rfl, by simp⟩

/-- The new-sysinfo signal is not a message to the BSC. -/
theorem sent_emit_signal (s : State) :
    sent (s.emit .osmo_signal_dispatch_new_sysinfo).trace = sent s.trace := by
  show sent (s.trace ++ _) = _
  rw [sent_append]
  simp [sent]

/-- C37 (amended): a BCCH INFO that is answered with an ERROR REPORT dispatches
no new-sysinfo signal and writes no SI buffer other than that of SI2quater.
Unless it is an SI2quater with FULL_BCCH_INFO (refused for its index or count
after it has been stored), it leaves the data of the BTS, `si_valid` and every
SI buffer included, as it was; so does every message refused for a missing
SYSINFO_TYPE or for a SACCH-only or unsupported SI type.  A refused BCCH INFO
of the (supported, not SACCH-only) type SI2quater that carries FULL_BCCH_INFO
has been stored: index or count of the stored message is not 0, `si_valid` is
the old value with the bit of SI2quater set (the other bits as before), and
the SI2quater buffer holds the payload, cut to the buffer size, followed by
0x2B up to the end of the buffer. -/
theorem C37_bcch_info_rejected (E : Env) (s : State) (trx : Nat) (msg : msgb)
    (hrej : sent (rsl_rx_bcch_info E s trx msg).1.trace ≠ sent s.trace) :
    Event.osmo_signal_dispatch_new_sysinfo ∉
      (rsl_rx_bcch_info E s trx msg).1.trace.drop s.trace.length ∧
    (∀ k, k ≠ E.SYSINFO_TYPE_2quater →
      (rsl_rx_bcch_info E s trx msg).1.bts.si_buf k = s.bts.si_buf k) ∧
    (¬ (TLVP_PRESENT msg.tp .RSL_IE_FULL_BCCH_INFO = true ∧
        E.osmo_rsl2sitype ((TLVP msg.tp .RSL_IE_SYSINFO_TYPE).byte 0) =
          E.SYSINFO_TYPE_2quater) →
      (rsl_rx_bcch_info E s trx msg).1.bts = s.bts) ∧
    ((TLVP_PRESENT msg.tp .RSL_IE_SYSINFO_TYPE = false ∨
      osmo_in_array ((TLVP msg.tp .RSL_IE_SYSINFO_TYPE).byte 0) (rsl_sacch_sitypes E) = true ∨
      E.osmo_rsl2sitype ((TLVP msg.tp .RSL_IE_SYSINFO_TYPE).byte 0) = E.SYSINFO_TYPE_NONE) →
      (rsl_rx_bcch_info E s trx msg).1.bts = s.bts) ∧
    (TLVP_PRESENT msg.tp .RSL_IE_SYSINFO_TYPE = true →
      osmo_in_array ((TLVP msg.tp .RSL_IE_SYSINFO_TYPE).byte 0) (rsl_sacch_sitypes E) = false →
      E.osmo_rsl2sitype ((TLVP msg.tp .RSL_IE_SYSINFO_TYPE).byte 0) ≠ E.SYSINFO_TYPE_NONE →
      TLVP_PRESENT msg.tp .RSL_IE_FULL_BCCH_INFO = true →
      E.osmo_rsl2sitype ((TLVP msg.tp .RSL_IE_SYSINFO_TYPE).byte 0) = E.SYSINFO_TYPE_2quater →
      si2q_unsupported E (rsl_rx_bcch_info E s trx msg).1.bts = true ∧
      (rsl_rx_bcch_info E s trx msg).1.bts.si_valid =
        (s.bts.si_valid ||| (1 <<< E.SYSINFO_TYPE_2quater)) % 2 ^ 32 ∧
      (E.SYSINFO_TYPE_2quater < 32 → s.bts.si_valid < 2 ^ 32 →
        (rsl_rx_bcch_info E s trx msg).1.bts.si_valid.testBit E.SYSINFO_TYPE_2quater = true ∧
        ∀ j, j ≠ E.SYSINFO_TYPE_2quater →
          (rsl_rx_bcch_info E s trx msg).1.bts.si_valid.testBit j = s.bts.si_valid.testBit j) ∧
      ∀ i, (rsl_rx_bcch_info E s trx msg).1.bts.si_buf E.SYSINFO_TYPE_2quater i =
        if i < clamp_len 8 (TLVP msg.tp .RSL_IE_FULL_BCCH_INFO).len E.SYSINFO_BUF
          then (TLVP msg.tp .RSL_IE_FULL_BCCH_INFO).byte i
        else if i < E.SYSINFO_BUF then 0x2b
        else s.bts.si_buf E.SYSINFO_TYPE_2quater i) := by
  have early : ∀ cause, rsl_rx_bcch_info E s trx msg = rsl_tx_error_report E s trx cause →
      Event.osmo_signal_dispatch_new_sysinfo ∉
        (rsl_rx_bcch_info E s trx msg).1.trace.drop s.trace.length ∧
      (∀ k, k ≠ E.SYSINFO_TYPE_2quater →
        (rsl_rx_bcch_info E s trx msg).1.bts.si_buf k = s.bts.si_buf k) ∧
      (rsl_rx_bcch_info E s trx msg).1.bts = s.bts := by
    intro cause h
    obtain ⟨hb, d, hd, hn⟩ := error_report_atomic E s trx cause
    rw [h, hd, List.drop_left, hb]
    exact ⟨hn, fun _ _ => rfl, rfl⟩
  by_cases hp : TLVP_PRESENT msg.tp .RSL_IE_SYSINFO_TYPE = false
  · obtain ⟨h1, h2, h3⟩ := early E.RSL_ERR_MAND_IE_ERROR (by
      unfold rsl_rx_bcch_info
      dsimp only
      rw [if_pos hp])
    refine ⟨h1, h2, fun _ => h3, fun _ => h3, fun h => ?_⟩
    rw [hp] at h
    exact absurd h (by simp)
  by_cases hin : osmo_in_array ((TLVP msg.tp .RSL_IE_SYSINFO_TYPE).byte 0)
      (rsl_sacch_sitypes E) = true
  · obtain ⟨h1, h2, h3⟩ := early E.RSL_ERR_IE_CONTENT (by
      unfold rsl_rx_bcch_info
      dsimp only
      rw [if_neg hp, if_pos hin])
    refine ⟨h1, h2, fun _ => h3, fun _ => h3, fun _ h => ?_⟩
    rw [hin] at h
    exact absurd h (by simp)
  by_cases hnone : E.osmo_rsl2sitype ((TLVP msg.tp .RSL_IE_SYSINFO_TYPE).byte 0) =
      E.SYSINFO_TYPE_NONE
  · obtain ⟨h1, h2, h3⟩ := early E.RSL_ERR_IE_CONTENT (by
      unfold rsl_rx_bcch_info
      dsimp only
      rw [if_neg hp, if_neg hin, if_pos hnone])
    exact ⟨h1, h2, fun _ => h3, fun _ => h3, fun _ _ h => absurd hnone h⟩
  by_cases hf : TLVP_PRESENT msg.tp .RSL_IE_FULL_BCCH_INFO = true
  · obtain ⟨s1, hs1⟩ : ∃ s1 : State, s1 = bcch_info_si3 E
        { s with bts := (bcch_store E s.bts
            (E.osmo_rsl2sitype ((TLVP msg.tp .RSL_IE_SYSINFO_TYPE).byte 0))
            (TLVP msg.tp .RSL_IE_FULL_BCCH_INFO)
            (clamp_len 8 (TLVP msg.tp .RSL_IE_FULL_BCCH_INFO).len E.SYSINFO_BUF)) } trx
        (E.osmo_rsl2sitype ((TLVP msg.tp .RSL_IE_SYSINFO_TYPE).byte 0)) := ⟨_, rfl⟩
    have heq := bcch_info_full_eq E s trx msg (by simpa using hp) (by simpa using hin) hnone hf
      s1 hs1
    have hsent : sent s1.trace = sent s.trace := by rw [hs1, sent_bcch_info_si3]
    by_cases hc : E.SYSINFO_TYPE_2quater =
        E.osmo_rsl2sitype ((TLVP msg.tp .RSL_IE_SYSINFO_TYPE).byte 0) ∧
        si2q_unsupported E s1.bts = true
    · rw [if_pos hc] at heq
      obtain ⟨hb, d, hd, hn⟩ := error_report_atomic E s1 trx E.RSL_ERR_IE_CONTENT
      have htr : s1.trace = s.trace ++
          (if E.SYSINFO_TYPE_3 = E.osmo_rsl2sitype ((TLVP msg.tp .RSL_IE_SYSINFO_TYPE).byte 0) ∧
            trx = 0 ∧ E.num_agch ≠ 1
          then [Event.bts_model_lchan_deactivate (ccch_lchan E)] else []) := by
        rw [hs1, (bcch_info_si3_spec E _ trx _).2.1]
      have hbts : (rsl_rx_bcch_info E s trx msg).1.bts =
          bcch_store E s.bts E.SYSINFO_TYPE_2quater (TLVP msg.tp .RSL_IE_FULL_BCCH_INFO)
            (clamp_len 8 (TLVP msg.tp .RSL_IE_FULL_BCCH_INFO).len E.SYSINFO_BUF) := by
        rw [heq, hb, hs1, (bcch_info_si3_spec E _ trx _).1, ← hc.1]
      refine ⟨?_, ?_, fun h => absurd ⟨hf, hc.1.symm⟩ h, ?_, fun _ _ _ _ _ => ⟨?_, ?_, ?_, ?_⟩⟩
      · rw [heq, hd, htr, List.append_assoc, List.drop_left]
        intro hm
        rcases List.mem_append.1 hm with h | h
        · split at h <;> simp at h
        · exact hn h
      · intro k hk
        rw [hbts]
        simp [bcch_store, setBuf, hk]
      · rintro (h | h | h)
        · exact absurd h hp
        · exact absurd h hin
        · exact absurd h hnone
      · rw [heq, hb]
        exact hc.2
      · rw [hbts]
        rfl
      · intro hk hv
        rw [hbts]
        exact ⟨(bcch_store_spec E s.bts _ _ _ hk hv).1, (bcch_store_spec E s.bts _ _ _ hk hv).2.1⟩
      · intro i
        rw [hbts]
        simp only [bcch_store, setBuf, if_true]
        exact memcpy_memset_apply _ _ _ _ _ _
    · rw [if_neg hc] at heq
      exfalso
      apply hrej
      rw [heq, sent_emit_signal, hsent]
  · exfalso
    apply hrej
    unfold rsl_rx_bcch_info
    dsimp only
    rw [if_neg hp, if_neg hin, if_neg hnone, if_neg hf]
    split
    · exact sent_emit_signal _
    · exact sent_emit_signal _

/-- C37 at two refused messages.  A BCCH INFO for SI type 5, a SACCH type,
leaves the SI storage of the BTS as it was.  An SI2quater with count 9 on a
BTS that holds nothing leaves bit 19 of `si_valid` set and the SI2quater
buffer holding the first byte 0x05 of the message and, behind its 6 bytes, the
padding 0x2B, while the buffer of SI type 3 is as before. -/
theorem C37_bcch_info_rejected_witness :
    (rsl_rx_bcch_info refEnv { bts := { si_valid := 0x60 } } 0 sacch_fill_si5_msg).1.bts =
      { si_valid := 0x60 } ∧
    (rsl_rx_bcch_info refEnv {} 0 bcch_info_si2q_multi_msg).1.bts.si_valid.testBit 19 = true ∧
    (rsl_rx_bcch_info refEnv {} 0 bcch_info_si2q_multi_msg).1.bts.si_buf 19 0 = 0x05 ∧
    (rsl_rx_bcch_info refEnv {} 0 bcch_info_si2q_multi_msg).1.bts.si_buf 19 22 = 0x2b ∧
    (rsl_rx_bcch_info refEnv {} 0 bcch_info_si2q_multi_msg).1.bts.si_buf 3 =
      ({} : State).bts.si_buf 3 :=
  ⟨(C37_bcch_info_rejected refEnv { bts := { si_valid := 0x60 } } 0 sacch_fill_si5_msg
      (by decide)).2.2.1 (by decide),
   (((C37_bcch_info_rejected refEnv {} 0 bcch_info_si2q_multi_msg (by decide)).2.2.2.2
      (by decide) (by decide) (by decide) (by decide) (by decide)).2.2.1
      (by decide) (by decide)).1,
   ((C37_bcch_info_rejected refEnv {} 0 bcch_info_si2q_multi_msg (by decide)).2.2.2.2
      (by decide) (by decide) (by decide) (by decide) (by decide)).2.2.2 0,
   ((C37_bcch_info_rejected refEnv {} 0 bcch_info_si2q_multi_msg (by decide)).2.2.2.2
      (by decide) (by decide) (by decide) (by decide) (by decide)).2.2.2 22,
   (C37_bcch_info_rejected refEnv {} 0 bcch_info_si2q_multi_msg (by decide)).2.1 3 (by decide)⟩

/-- C37 as stated fails: an SI2quater with count 9 is answered with an ERROR
REPORT, and yet bit 19 of `si_valid`, clear before, is set and the SI2quater
buffer, empty before, holds the message. -/
theorem C37_counterexample :
    sent (rsl_rx_bcch_info refEnv {} 0 bcch_info_si2q_multi_msg).1.trace =
      [error_report_msg 0 0x68] ∧
    ({} : State).bts.si_valid = 0 ∧
    (rsl_rx_bcch_info refEnv {} 0 bcch_info_si2q_multi_msg).1.bts.si_valid = 0x80000 ∧
    ({} : State).bts.si_buf 19 0 = 0 ∧
    (rsl_rx_bcch_info refEnv {} 0 bcch_info_si2q_multi_msg).1.bts.si_buf 19 0 = 0x05 := by
  decide

/-! ### C35: the callback of the PHY for a connected dynamic timeslot -/

/-- Every state is reached from itself without a call. -/
theorem same_ts_quiet_refl (s : State) : same_ts_quiet s s :=
  ⟨rfl, [], by simp, by simp⟩

/-- Quiet runs compose. -/
theorem same_ts_quiet_trans {s s1 s2 : State} (h1 : same_ts_quiet s s1)
    (h2 : same_ts_quiet s1 s2) : same_ts_quiet s s2 := by
  obtain ⟨a1, d1, b1, c1⟩ := h1
  obtain ⟨a2, d2, b2, c2⟩ := h2
  refine ⟨a2.trans a1, d1 ++ d2, ?_, ?_⟩
  · rw [b2, b1, List.append_assoc]
  · intro e he
    rcases List.mem_append.1 he with h | h
    · exact c1 e h
    · exact c2 e h

/-- A step that changes neither timeslots nor trace is quiet. -/
theorem same_ts_quiet_of {s s2 : State} (h : same_ts_trace s s2) : same_ts_quiet s s2 :=
  ⟨h.1, [], by simp [h.2], by simp⟩

/-- Recording a quiet call is quiet. -/
theorem same_ts_quiet_emit (s : State) (e : Event) (h : quiet_event e) :
    same_ts_quiet s (s.emit e) :=
  ⟨rfl, [e], rfl, by simpa using h⟩

/-- Sending a message is a quiet call. -/
theorem quiet_sendmsg (m : TxMsg) : quiet_event (.abis_bts_rsl_sendmsg m) :=
  ⟨by simp, by simp⟩

/-- A quiet prefix does not change what a result is. -/
theorem direct_result_of {s s1 : State} {r : State × Int} (h : same_ts_quiet s s1)
    (hr : direct_result s1 r) : direct_result s r :=
  ⟨same_ts_quiet_trans h hr.1, hr.2⟩

/-- An ERROR REPORT is a direct result. -/
theorem direct_error_report (E : Env) (h1 : E.abis_bts_rsl_sendmsg_rc ≠ 1) (s : State)
    (trx cause : Nat) : direct_result s (rsl_tx_error_report E s trx cause) := by
  unfold rsl_tx_error_report
  split
  · exact ⟨same_ts_quiet_refl s, by simp only; omega⟩
  · exact ⟨same_ts_quiet_emit s _ (quiet_sendmsg _), h1⟩

/-- A CHAN ACT ACK is a direct result. -/
theorem direct_chan_act_ack (E : Env) (h1 : E.abis_bts_rsl_sendmsg_rc ≠ 1) (s : State)
    (l : LchanId) : direct_result s (rsl_tx_chan_act_ack E s l) := by
  unfold rsl_tx_chan_act_ack
  simp only
  split
  · exact ⟨same_ts_quiet_refl s, by simp only; omega⟩
  · refine ⟨?_, h1⟩
    refine same_ts_quiet_trans ?_ (same_ts_quiet_emit _ _ (quiet_sendmsg _))
    exact same_ts_quiet_of (same_ts_trace_setLchan s l _)

/-- A CHAN ACT ACK or NACK is a direct result. -/
theorem direct_acknack (E : Env) (h1 : E.abis_bts_rsl_sendmsg_rc ≠ 1) (s : State)
    (l : LchanId) (cause : Nat) : direct_result s (rsl_tx_chan_act_acknack E s l cause) := by
  unfold rsl_tx_chan_act_acknack
  split
  · exact ⟨same_ts_quiet_refl s, by simp⟩
  · split
    · unfold rsl_tx_chan_act_nack
      split
      · exact ⟨same_ts_quiet_refl s, by simp only; omega⟩
      · exact ⟨same_ts_quiet_emit s _ (quiet_sendmsg _), h1⟩
    · exact direct_chan_act_ack E h1 s l

/-- The PDCH activation through the PCU is a direct result. -/
theorem direct_pdch (E : Env) (h1 : E.abis_bts_rsl_sendmsg_rc ≠ 1) (s : State) (msg : msgb) :
    direct_result s (chan_activ_pdch E s msg) := by
  unfold chan_activ_pdch
  simp only
  have ha := (direct_chan_act_ack E h1 s msg.lchan).1
  split
  · split
    · refine direct_result_of (same_ts_quiet_trans ha ?_) (direct_error_report E h1 _ _ _)
      exact same_ts_quiet_emit _ _ ⟨by simp, by simp⟩
    · refine ⟨same_ts_quiet_trans ha ?_, by simp⟩
      exact same_ts_quiet_emit _ _ ⟨by simp, by simp⟩
  · exact ⟨ha, by simp⟩

/-- The activation request to the PHY is a direct result. -/
theorem direct_l1 (E : Env) (h1 : E.abis_bts_rsl_sendmsg_rc ≠ 1) (s : State) (msg : msgb) :
    direct_result s (chan_activ_l1 E s msg) := by
  unfold chan_activ_l1
  simp only
  have ha : same_ts_quiet s ((s.setLchan msg.lchan
      { s.lchan msg.lchan with rel_act_kind := .LCHAN_REL_ACT_RSL }).emit
      (.l1sap_chan_act msg.lchan.ts.trx msg.chan_nr)) := by
    refine same_ts_quiet_trans ?_ (same_ts_quiet_emit _ _ ⟨by simp, by simp⟩)
    exact same_ts_quiet_of (same_ts_trace_setLchan s _ _)
  split
  · exact direct_result_of ha (direct_acknack E h1 _ _ _)
  · exact ⟨ha, by simp⟩

/-- The end of `rsl_rx_chan_activ` is a direct result. -/
theorem direct_finish (E : Env) (h1 : E.abis_bts_rsl_sendmsg_rc ≠ 1) (s : State) (msg : msgb) :
    direct_result s (chan_activ_finish E s msg) := by
  unfold chan_activ_finish
  simp only
  have hm := same_ts_quiet_of (same_ts_trace_mr_config E s msg)
  split
  · exact direct_error_report E h1 s _ _
  · split
    · exact direct_result_of hm (direct_pdch E h1 _ msg)
    · exact direct_result_of hm (direct_l1 E h1 _ msg)

/-- The IE part of `rsl_rx_chan_activ` is a direct result. -/
theorem direct_ies (E : Env) (h1 : E.abis_bts_rsl_sendmsg_rc ≠ 1) (s : State) (msg : msgb)
    (type : Nat) : direct_result s (chan_activ_ies E s msg type) := by
  unfold chan_activ_ies
  simp only
  have g1 := same_ts_trace_chan_activ_encr E s msg
  split
  · exact direct_result_of (same_ts_quiet_of g1) (direct_error_report E h1 _ _ _)
  · have g2 := same_ts_trace_ho_ref E (chan_activ_encr E s msg).1 msg type
    have g3 := same_ts_trace_bs_power
      (chan_activ_ho_ref E (chan_activ_encr E s msg).1 msg type) msg
    have g4 := same_ts_trace_ms_power (chan_activ_bs_power
      (chan_activ_ho_ref E (chan_activ_encr E s msg).1 msg type) msg) msg
    have g5 := same_ts_trace_ta (chan_activ_ms_power (chan_activ_bs_power
      (chan_activ_ho_ref E (chan_activ_encr E s msg).1 msg type) msg) msg) msg
    have g6 := same_ts_trace_sacch_info E (chan_activ_ta (chan_activ_ms_power
      (chan_activ_bs_power
      (chan_activ_ho_ref E (chan_activ_encr E s msg).1 msg type) msg) msg) msg) msg
    have hall := same_ts_quiet_of (same_ts_trace_trans g1 (same_ts_trace_trans g2
      (same_ts_trace_trans g3 (same_ts_trace_trans g4 (same_ts_trace_trans g5 g6)))))
    split
    · exact direct_result_of hall (direct_error_report E h1 _ _ _)
    · exact direct_result_of hall (direct_finish E h1 _ msg)

/-- Selecting the wanted type of a timeslot that already wants it changes
nothing. -/
theorem dyn_want_id (E : Env) (s : State) (msg : msgb)
    (hw : (s.ts msg.lchan.ts).pchan = .GSM_PCHAN_TCH_F_TCH_H_PDCH →
      (s.ts msg.lchan.ts).dyn_pchan_want = dyn_pchan_from_chan_nr E msg.chan_nr) :
    chan_activ_dyn_want E s msg = s := by
  unfold chan_activ_dyn_want
  simp only
  split
  · next hp =>
    have hts : (fun k => if k = msg.lchan.ts then
        { s.ts msg.lchan.ts with dyn_pchan_want := dyn_pchan_from_chan_nr E msg.chan_nr }
        else s.ts k) = s.ts := by
      funext k
      by_cases hk : k = msg.lchan.ts
      · subst hk
        rw [if_pos rfl, ← hw hp]
      · rw [if_neg hk]
    unfold State.setTs
    rw [hts]
  · rfl

/-- A CHANNEL ACTIVATION whose timeslot, if it is a three-way dynamic one, is
already in the mode selected by the channel number is a direct result: it is
not parked. -/
theorem direct_chan_activ (E : Env) (h1 : E.abis_bts_rsl_sendmsg_rc ≠ 1) (s : State)
    (msg : msgb)
    (hw : (s.ts msg.lchan.ts).pchan = .GSM_PCHAN_TCH_F_TCH_H_PDCH →
      (s.ts msg.lchan.ts).dyn_pchan_want = dyn_pchan_from_chan_nr E msg.chan_nr ∧
      (s.ts msg.lchan.ts).dyn_pchan_is = dyn_pchan_from_chan_nr E msg.chan_nr) :
    direct_result s (rsl_rx_chan_activ E s msg) := by
  have hid := dyn_want_id E s msg (fun h => (hw h).1)
  have hcond : ¬ ((s.ts msg.lchan.ts).pchan = .GSM_PCHAN_TCH_F_TCH_H_PDCH ∧
      (s.ts msg.lchan.ts).dyn_pchan_is ≠ (s.ts msg.lchan.ts).dyn_pchan_want) := by
    rintro ⟨a, b⟩
    exact b ((hw a).2.trans (hw a).1.symm)
  unfold rsl_rx_chan_activ
  simp only
  split
  · exact direct_acknack E h1 s _ _
  · rw [hid, if_neg hcond]
    have hd := same_ts_quiet_of (same_ts_trace_defaults E s msg)
    split
    · exact direct_result_of hd (direct_acknack E h1 _ _ _)
    · split
      · exact direct_result_of hd (direct_acknack E h1 _ _ _)
      · refine direct_result_of hd (direct_result_of ?_ (direct_ies E h1 _ msg _))
        exact same_ts_quiet_of (same_ts_trace_chan_mode E _ msg _)

/-- A CHANNEL ACTIVATION for an lchan in state NONE whose timeslot, if it is a
three-way dynamic one, is already in the mode selected by the channel number
goes on to its IEs at once. -/
theorem chan_activ_no_switch (E : Env) (s : State) (msg : msgb)
    (hst : (s.lchan msg.lchan).state = .LCHAN_S_NONE)
    (hw : (s.ts msg.lchan.ts).pchan = .GSM_PCHAN_TCH_F_TCH_H_PDCH →
      (s.ts msg.lchan.ts).dyn_pchan_want = dyn_pchan_from_chan_nr E msg.chan_nr ∧
      (s.ts msg.lchan.ts).dyn_pchan_is = dyn_pchan_from_chan_nr E msg.chan_nr) :
    rsl_rx_chan_activ E s msg =
      if TLVP_PRESENT msg.tp .RSL_IE_ACT_TYPE = false then
        rsl_tx_chan_act_acknack E (chan_activ_defaults E s msg) msg.lchan E.RSL_ERR_MAND_IE_ERROR
      else if (TLVP msg.tp .RSL_IE_ACT_TYPE).byte 0 ≠ E.RSL_ACT_OSMO_PDCH ∧
          TLVP_PRESENT msg.tp .RSL_IE_CHAN_MODE = false then
        rsl_tx_chan_act_acknack E (chan_activ_defaults E s msg) msg.lchan E.RSL_ERR_MAND_IE_ERROR
      else
        chan_activ_ies E (chan_activ_chan_mode E (chan_activ_defaults E s msg) msg
          ((TLVP msg.tp .RSL_IE_ACT_TYPE).byte 0)) msg ((TLVP msg.tp .RSL_IE_ACT_TYPE).byte 0) := by
  have hid := dyn_want_id E s msg (fun h => (hw h).1)
  have hcond : ¬ ((s.ts msg.lchan.ts).pchan = .GSM_PCHAN_TCH_F_TCH_H_PDCH ∧
      (s.ts msg.lchan.ts).dyn_pchan_is ≠ (s.ts msg.lchan.ts).dyn_pchan_want) := by
    rintro ⟨a, b⟩
    exact b ((hw a).2.trans (hw a).1.symm)
  have hst2 : ¬ (s.lchan msg.lchan).state ≠ .LCHAN_S_NONE := not_not.mpr hst
  unfold rsl_rx_chan_activ
  simp only
  rw [if_neg hst2, hid, if_neg hcond]

/-- C35: on a three-way dynamic timeslot without parked message,
`cb_ts_connected` changes nothing.  With a parked CHANNEL ACTIVATION `m` for an
lchan of the timeslot, `pchan_want` being the type selected by the channel
number of `m` (and `abis_bts_rsl_sendmsg` not returning 1), the callback is:
clear `pending_chan_activ`, set `pchan_is` to `pchan_want`, run
`rsl_rx_chan_activ(m)` once in that state `s1`, release `m`.  The re-entered
activation does not return 1, so `m` is not parked again; it leaves the
timeslots as they are in `s1` and makes no call that releases a message or
asks the PHY to disconnect, so that afterwards `pending_chan_activ` is empty,
`pchan_is` is `pchan_want`, and `m` has been released exactly once, at the
end.  If the lchan is still in state NONE the re-entered activation goes on to
its IEs at once, as on any timeslot already in the wanted mode. -/
theorem C35_ts_connected_resumes (E : Env) (s : State) (ts : TsId)
    (hp : (s.ts ts).pchan = .GSM_PCHAN_TCH_F_TCH_H_PDCH) :
    ((s.ts ts).dyn_pending_chan_activ = none → cb_ts_connected E s ts = s) ∧
    (∀ (m : msgb) (s1 : State),
      (s.ts ts).dyn_pending_chan_activ = some m → m.lchan.ts = ts →
      (s.ts ts).dyn_pchan_want = dyn_pchan_from_chan_nr E m.chan_nr →
      E.abis_bts_rsl_sendmsg_rc ≠ 1 →
      s1 = s.setTs ts { s.ts ts with
        dyn_pending_chan_activ := none, dyn_pchan_is := (s.ts ts).dyn_pchan_want } →
      cb_ts_connected E s ts = (rsl_rx_chan_activ E s1 m).1.emit .msgb_free ∧
      (rsl_rx_chan_activ E s1 m).2 ≠ 1 ∧
      (rsl_rx_chan_activ E s1 m).1.ts = s1.ts ∧
      ((cb_ts_connected E s ts).ts ts).dyn_pending_chan_activ = none ∧
      ((cb_ts_connected E s ts).ts ts).dyn_pchan_is = (s.ts ts).dyn_pchan_want ∧
      (∃ d, (cb_ts_connected E s ts).trace = s.trace ++ d ++ [.msgb_free] ∧
        ∀ e ∈ d, e ≠ Event.msgb_free ∧ ∀ t, e ≠ Event.bts_model_ts_disconnect t) ∧
      ((s.lchan m.lchan).state = .LCHAN_S_NONE →
        rsl_rx_chan_activ E s1 m =
          if TLVP_PRESENT m.tp .RSL_IE_ACT_TYPE = false then
            rsl_tx_chan_act_acknack E (chan_activ_defaults E s1 m) m.lchan
              E.RSL_ERR_MAND_IE_ERROR
          else if (TLVP m.tp .RSL_IE_ACT_TYPE).byte 0 ≠ E.RSL_ACT_OSMO_PDCH ∧
              TLVP_PRESENT m.tp .RSL_IE_CHAN_MODE = false then
            rsl_tx_chan_act_acknack E (chan_activ_defaults E s1 m) m.lchan
              E.RSL_ERR_MAND_IE_ERROR
          else
            chan_activ_ies E (chan_activ_chan_mode E (chan_activ_defaults E s1 m) m
              ((TLVP m.tp .RSL_IE_ACT_TYPE).byte 0)) m ((TLVP m.tp .RSL_IE_ACT_TYPE).byte 0))) := by
  refine ⟨?_, ?_⟩
  · intro hn
    simp only [cb_ts_connected, hp, osmo_dyn_ts_connected, hn]
  · intro m s1 hpend hm hw h1 hs1
    have hts1 : s1.ts ts = { s.ts ts with
        dyn_pending_chan_activ := none, dyn_pchan_is := (s.ts ts).dyn_pchan_want } := by
      rw [hs1]
      simp [State.setTs]
    have hw1 : (s1.ts m.lchan.ts).pchan = .GSM_PCHAN_TCH_F_TCH_H_PDCH →
        (s1.ts m.lchan.ts).dyn_pchan_want = dyn_pchan_from_chan_nr E m.chan_nr ∧
        (s1.ts m.lchan.ts).dyn_pchan_is = dyn_pchan_from_chan_nr E m.chan_nr := by
      intro _
      rw [hm, hts1]
      exact ⟨hw, hw⟩
    obtain ⟨⟨hts, d, hd, hq⟩, hrc⟩ := direct_chan_activ E h1 s1 m hw1
    have hstep : (s.setTs ts { s.ts ts with dyn_pending_chan_activ := none }).setTs ts
        { (s.setTs ts { s.ts ts with dyn_pending_chan_activ := none }).ts ts with
          dyn_pchan_is :=
            ((s.setTs ts { s.ts ts with dyn_pending_chan_activ := none }).ts ts).dyn_pchan_want }
        = s1 := by
      rw [hs1]
      unfold State.setTs
      simp only [if_true, State.mk.injEq, true_and, and_true]
      funext k
      by_cases hk : k = ts
      · simp [hk]
      · simp [hk]
    have hcb : cb_ts_connected E s ts = (rsl_rx_chan_activ E s1 m).1.emit .msgb_free := by
      unfold cb_ts_connected
      rw [hp]
      dsimp only
      unfold osmo_dyn_ts_connected
      rw [hpend]
      dsimp only
      rw [hstep, if_pos hrc]
    refine ⟨hcb, hrc, hts, ?_, ?_, ⟨d, ?_, hq⟩, ?_⟩
    · rw [hcb]
      show (((rsl_rx_chan_activ E s1 m).1.ts) ts).dyn_pending_chan_activ = none
      rw [hts, hts1]
    · rw [hcb]
      show (((rsl_rx_chan_activ E s1 m).1.ts) ts).dyn_pchan_is = _
      rw [hts, hts1]
    · rw [hcb]
      show (rsl_rx_chan_activ E s1 m).1.trace ++ [Event.msgb_free] = _
      rw [hd, hs1]
      rfl
    · intro hst
      have hl : (s1.lchan m.lchan).state = .LCHAN_S_NONE := by
        rw [hs1]
        exact hst
      exact chan_activ_no_switch E s1 m hl hw1

/-- C35 on a timeslot on which a CHANNEL ACTIVATION for TCH/F is parked: the
callback has the PHY activate the channel and releases the message; afterwards
nothing is parked and the timeslot is in TCH/F mode. -/
theorem C35_ts_connected_resumes_witness :
    ((cb_ts_connected refEnv state_dyn_parked ⟨0, 2⟩).ts ⟨0, 2⟩).dyn_pending_chan_activ = none ∧
    ((cb_ts_connected refEnv state_dyn_parked ⟨0, 2⟩).ts ⟨0, 2⟩).dyn_pchan_is =
      .GSM_PCHAN_TCH_F ∧
    (cb_ts_connected refEnv state_dyn_parked ⟨0, 2⟩).trace =
      [.l1sap_chan_act 0 0x0a, .msgb_free] ∧
    cb_ts_connected refEnv (state_dyn .LCHAN_REL_ACT_RSL .GSM_PCHAN_NONE) ⟨0, 2⟩ =
      state_dyn .LCHAN_REL_ACT_RSL .GSM_PCHAN_NONE := by
  have h := (C35_ts_connected_resumes refEnv state_dyn_parked ⟨0, 2⟩ rfl).2 chan_activ_bm_msg _
    rfl rfl (by decide) (by decide) rfl
  have h0 := (C35_ts_connected_resumes refEnv (state_dyn .LCHAN_REL_ACT_RSL .GSM_PCHAN_NONE)
    ⟨0, 2⟩ rfl).1 rfl
  exact ⟨h.2.2.2.1, h.2.2.2.2.1, by decide, h0⟩

/-! ### C39: messages from LAPDm towards the BSC -/

/-- The forwarded messages of a trace in two parts. -/
theorem forwarded_append (a b : List Event) : forwarded (a ++ b) = forwarded a ++ forwarded b := by
  induction a with
  | nil => rfl
  | cons e a ih => cases e <;> simp [forwarded, ih]

/-- What `rslms_is_meas_rep` tests: an RLL message (the lowest bit of the
discriminator disregarded) of type UNIT DATA IND on a SACCH link whose layer 3
begins with the RR protocol discriminator and the message type MEASUREMENT
REPORT or EXTENDED MEASUREMENT REPORT. -/
theorem rslms_is_meas_rep_iff (E : Env) (msg : msgb) :
    rslms_is_meas_rep E msg ≠ 0 ↔
      (msg.msg_discr &&& 0xfe = E.ABIS_RSL_MDISC_RLL ∧ msg.msg_type = E.RSL_MT_UNIT_DATA_IND ∧
       (msg.link_id % 2 ^ 8) >>> 6 = 1 ∧ msg.l3.getD 0 0 = E.GSM48_PDISC_RR ∧
       (msg.l3.getD 1 0 = E.GSM48_MT_RR_MEAS_REP ∨
        msg.l3.getD 1 0 = E.GSM48_MT_RR_EXT_MEAS_REP)) := by
  unfold rslms_is_meas_rep rsl_link_id_is_sacch
  by_cases h1 : msg.msg_discr &&& 0xfe = E.ABIS_RSL_MDISC_RLL
  · rw [if_neg (not_not.mpr h1)]
    by_cases h2 : msg.msg_type = E.RSL_MT_UNIT_DATA_IND
    · rw [if_neg (not_not.mpr h2)]
      by_cases h3 : (msg.link_id % 2 ^ 8) >>> 6 = 1
      · have c3 : ¬ ((if (msg.link_id % 2 ^ 8) >>> 6 = 1 then (1 : Int) else 0) = 0) := by
          rw [if_pos h3]
          decide
        rw [if_neg c3]
        by_cases h4 : msg.l3.getD 0 0 = E.GSM48_PDISC_RR
        · rw [if_neg (not_not.mpr h4)]
          by_cases h5 : msg.l3.getD 1 0 = E.GSM48_MT_RR_MEAS_REP ∨
              msg.l3.getD 1 0 = E.GSM48_MT_RR_EXT_MEAS_REP
          · rw [if_pos h5]
            exact ⟨fun _ => ⟨h1, h2, h3, h4, h5⟩, fun _ => by decide⟩
          · rw [if_neg h5]
            exact ⟨fun h => absurd rfl h, fun h => absurd h.2.2.2.2 h5⟩
        · rw [if_pos h4]
          exact ⟨fun h => absurd rfl h, fun h => absurd h.2.2.2.1 h4⟩
      · have c3 : (if (msg.link_id % 2 ^ 8) >>> 6 = 1 then (1 : Int) else 0) = 0 := by
          rw [if_neg h3]
        rw [if_pos c3]
        exact ⟨fun h => absurd rfl h, fun h => absurd h.2.2.1 h3⟩
    · rw [if_pos h2]
      exact ⟨fun h => absurd rfl h, fun h => absurd h.2.1 h2⟩
  · rw [if_pos h1]
    exact ⟨fun h => absurd rfl h, fun h => absurd h.1 h1⟩

/-- A MEAS RES is not a forwarded message. -/
theorem forwarded_meas_res (E : Env) (s : State) (l : LchanId) (l3 : List Nat) :
    forwarded (rsl_tx_meas_res E s l l3).1.trace = forwarded s.trace := by
  unfold rsl_tx_meas_res
  dsimp only
  split
  · rfl
  · split
    · rfl
    · show forwarded (s.trace ++ [_]) = _
      rw [forwarded_append]
      simp [forwarded]

/-- C39: for an lchan whose state is not ACTIVE, `lapdm_rll_tx_cb` releases the
message and returns 0; it hands no message to the BSC, neither the message of
LAPDm nor a MEAS RES, and changes no lchan.  For an ACTIVE lchan, a message
that is an RLL UNIT DATA IND on a SACCH link (`link_id >> 6 = 1`) whose layer 3
starts with the RR protocol discriminator and the type MEASUREMENT REPORT or
EXTENDED MEASUREMENT REPORT goes to `rsl_tx_meas_res` with its layer-3 part, is
released and is not forwarded, the result of `rsl_tx_meas_res` being returned;
every other message is handed to `abis_bts_rsl_sendmsg` as it is, with
`msg->trx` set to the TRX of the lchan, and nothing else happens. -/
theorem C39_lapdm_rll_tx_cb (E : Env) (s : State) (msg : msgb) (l : LchanId) :
    ((s.lchan l).state ≠ .LCHAN_S_ACTIVE →
      lapdm_rll_tx_cb E s msg l = (s.emit .msgb_free, 0) ∧
      sent (lapdm_rll_tx_cb E s msg l).1.trace = sent s.trace ∧
      forwarded (lapdm_rll_tx_cb E s msg l).1.trace = forwarded s.trace ∧
      (lapdm_rll_tx_cb E s msg l).1.lchan = s.lchan) ∧
    ((s.lchan l).state = .LCHAN_S_ACTIVE →
      (msg.msg_discr &&& 0xfe = E.ABIS_RSL_MDISC_RLL ∧ msg.msg_type = E.RSL_MT_UNIT_DATA_IND ∧
       (msg.link_id % 2 ^ 8) >>> 6 = 1 ∧ msg.l3.getD 0 0 = E.GSM48_PDISC_RR ∧
       (msg.l3.getD 1 0 = E.GSM48_MT_RR_MEAS_REP ∨
        msg.l3.getD 1 0 = E.GSM48_MT_RR_EXT_MEAS_REP) →
        lapdm_rll_tx_cb E s msg l =
          ((rsl_tx_meas_res E s l msg.l3).1.emit .msgb_free, (rsl_tx_meas_res E s l msg.l3).2) ∧
        forwarded (lapdm_rll_tx_cb E s msg l).1.trace = forwarded s.trace) ∧
      (¬ (msg.msg_discr &&& 0xfe = E.ABIS_RSL_MDISC_RLL ∧
          msg.msg_type = E.RSL_MT_UNIT_DATA_IND ∧
          (msg.link_id % 2 ^ 8) >>> 6 = 1 ∧ msg.l3.getD 0 0 = E.GSM48_PDISC_RR ∧
          (msg.l3.getD 1 0 = E.GSM48_MT_RR_MEAS_REP ∨
           msg.l3.getD 1 0 = E.GSM48_MT_RR_EXT_MEAS_REP)) →
        lapdm_rll_tx_cb E s msg l =
          (s.emit (.abis_bts_rsl_sendmsg_fwd { msg with trx := l.ts.trx }),
           E.abis_bts_rsl_sendmsg_rc) ∧
        forwarded (lapdm_rll_tx_cb E s msg l).1.trace =
          forwarded s.trace ++ [{ msg with trx := l.ts.trx }] ∧
        sent (lapdm_rll_tx_cb E s msg l).1.trace = sent s.trace)) := by
  refine ⟨?_, ?_⟩
  · intro hst
    have h : lapdm_rll_tx_cb E s msg l = (s.emit .msgb_free, 0) := by
      unfold lapdm_rll_tx_cb
      rw [if_pos hst]
    rw [h]
    refine ⟨rfl, ?_, ?_, rfl⟩
    · show sent (s.trace ++ _) = _
      rw [sent_append]
      simp [sent]
    · show forwarded (s.trace ++ _) = _
      rw [forwarded_append]
      simp [forwarded]
  · intro hst
    have hst2 : ¬ (s.lchan l).state ≠ .LCHAN_S_ACTIVE := not_not.mpr hst
    have hiff := rslms_is_meas_rep_iff E { msg with trx := l.ts.trx }
    refine ⟨?_, ?_⟩
    · intro hc
      have h : lapdm_rll_tx_cb E s msg l =
          ((rsl_tx_meas_res E s l msg.l3).1.emit .msgb_free,
           (rsl_tx_meas_res E s l msg.l3).2) := by
        unfold lapdm_rll_tx_cb
        rw [if_neg hst2]
        dsimp only
        rw [if_pos (hiff.2 hc)]
      refine ⟨h, ?_⟩
      rw [h]
      show forwarded ((rsl_tx_meas_res E s l msg.l3).1.trace ++ _) = _
      rw [forwarded_append, forwarded_meas_res]
      simp [forwarded]
    · intro hc
      have h : lapdm_rll_tx_cb E s msg l =
          (s.emit (.abis_bts_rsl_sendmsg_fwd { msg with trx := l.ts.trx }),
           E.abis_bts_rsl_sendmsg_rc) := by
        unfold lapdm_rll_tx_cb
        rw [if_neg hst2]
        dsimp only
        rw [if_neg (fun hn => hc (hiff.1 hn))]
      rw [h]
      refine ⟨rfl, ?_, ?_⟩
      · show forwarded (s.trace ++ _) = _
        rw [forwarded_append]
        rfl
      · show sent (s.trace ++ _) = _
        rw [sent_append]
        simp [sent]

/-- C39 on concrete messages: a measurement report for an inactive lchan is
only released; for an active lchan it becomes a MEAS RES with number 7 and is
not forwarded; the same message on the main signalling link is forwarded. -/
theorem C39_lapdm_rll_tx_cb_witness :
    lapdm_rll_tx_cb refEnv {} meas_rep_msg lchan02 = (State.emit {} .msgb_free, 0) ∧
    forwarded (lapdm_rll_tx_cb refEnv state_meas meas_rep_msg lchan02).1.trace = [] ∧
    (sent (lapdm_rll_tx_cb refEnv state_meas meas_rep_msg lchan02).1.trace).map
      (fun m => (m.msg_type, m.ies.take 1)) =
      [(.RSL_MT_MEAS_RES, [(.RSL_IE_MEAS_RES_NR, [7])])] ∧
    forwarded (lapdm_rll_tx_cb refEnv state_meas unit_data_dcch_msg lchan02).1.trace =
      [unit_data_dcch_msg] := by
  have h0 := (C39_lapdm_rll_tx_cb refEnv {} meas_rep_msg lchan02).1 (by decide)
  have h1 := ((C39_lapdm_rll_tx_cb refEnv state_meas meas_rep_msg lchan02).2 rfl).1 (by decide)
  have h2 := ((C39_lapdm_rll_tx_cb refEnv state_meas unit_data_dcch_msg lchan02).2 rfl).2
    (by decide)
  exact ⟨h0.1, h1.2, by decide, h2.2.1⟩

/-! ### The SACCH INFO loop and the SACCH copy in general -/

/-- The loop over a SACCH INFO IE never comes to its end when the messages it
is to read reach the end of the IE: with at least one message, and the last
message ending at or behind the last byte of the IE, the loop leaves with an
error. -/
theorem sacch_info_loop_full (E : Env) (e : tlv_p_entry) (tot_len : Nat) :
    ∀ (n cur : Nat) (lc : gsm_lchan), tot_len ≤ sacch_info_end e (n + 1) cur →
      (sacch_info_loop E e tot_len (n + 1) cur lc).2 = false := by
  intro n
  induction n with
  | zero =>
    intro cur lc h
    unfold sacch_info_loop
    simp only
    split
    · rfl
    · split
      · rfl
      · have h2 : cur + 2 + e.byte (cur + 1) ≥ tot_len := h
        rw [if_pos h2]
  | succ n ih =>
    intro cur lc h
    unfold sacch_info_loop
    simp only
    split
    · rfl
    · split
      · rfl
      · split
        · rfl
        · exact ih _ _ h

/-- One round of `copy_sacch_si_to_lchan` for a SACCH SI type whose sysinfo
index is 8 or more leaves the lchan as it is, whatever the BTS holds for that
type: the mask `osmo_si_shifted` is 0. -/
theorem copy_sacch_si_step_high (E : Env) (bts : gsm_bts) (lc : gsm_lchan) (t : Nat)
    (h8 : 8 ≤ E.osmo_rsl2sitype (t % 2 ^ 8) % 2 ^ 8) (hv : lc.si_valid < 2 ^ 32) :
    (copy_sacch_si_step E bts lc t).si_valid = lc.si_valid ∧
    (copy_sacch_si_step E bts lc t).si_buf = lc.si_buf := by
  have hz : (1 <<< (E.osmo_rsl2sitype (t % 2 ^ 8) % 2 ^ 8)) % 2 ^ 8 = 0 := by
    rw [Nat.shiftLeft_eq, Nat.one_mul]
    exact Nat.mod_eq_zero_of_dvd (Nat.pow_dvd_pow 2 h8)
  have hn : lc.si_valid &&& not32 0 = lc.si_valid := by
    have h1 : not32 0 = 2 ^ 32 - 1 := by decide
    rw [h1, Nat.and_pow_two_sub_one_eq_mod, Nat.mod_eq_of_lt hv]
  unfold copy_sacch_si_step
  simp only [hz, Nat.and_zero, if_true]
  split
  · exact ⟨rfl, rfl⟩
  · exact ⟨hn, rfl⟩

end OsmoBts
